import Mathlib

/-! sendgrid-go v4: mail data model, builder operations and JSON wire format.

A shallow embedding of `v4/apiv3/mail.go`.

* Go structs become Lean structures with the same field names
  (`Type` is written `Type_`, since `Type` is reserved).
* A Go pointer `*T` is `Option T` (`none` is the nil pointer).
* A Go slice `[]T` is `GoSlice T = Option (List T)`: `none` is the nil slice,
  `some []` an allocated empty one; `goAppend` is the built-in `append`.
* A Go map `map[string]T` is `GoMap T = Option (GoMapData T)`: `none` is the nil
  map, on which a write panics; `GoMapData` is a finite map with distinct keys.
* A pointer-receiver method that mutates its receiver and returns it becomes a
  function from the receiver's old value to its new value; a method that can
  panic returns `Except Panic`.  Where the identity of the returned object
  matters, objects live in a `Store` under their addresses and the method runs
  on a pointer (`heap.MailV3.SetFrom` and the like).
* `encoding/json` is modelled at the level of JSON values: every struct field
  is emitted under the name of its `json:"..."` tag (or under the Go field name
  when there is no tag), in declaration order, and a field tagged `omitempty`
  is left out when it holds false, 0, a nil pointer, or an empty string, slice
  or map.  Escaping is below this level.
* Strings come in two models.  In the text model a Go string is the text it
  encodes, a Lean `String`: these are the Go strings that are valid UTF-8.
  In the byte model (`GoString`, namespace `raw`) a Go string is the sequence
  of its bytes, and the encoder writes it coerced to valid UTF-8
  (`GoString.jsonText`); `jsonText_ofText` says that a text is written
  unchanged.  JSON numbers are integers: a number with a fraction has no value
  here.
* `net/mail.ParseAddress` is a parameter of `ParseEmail`; `mail.ParseAddress`
  models it from the specification.
-/

namespace apiv3

/-! ## JSON values -/

/-- JSON value as produced by the encoder: objects keep their members in emission order.
Numbers are integers; strings are texts. -/
inductive JSON where
  | null : JSON
  | bool : Bool → JSON
  | num : Int → JSON
  | str : String → JSON
  | arr : List JSON → JSON
  | obj : List (String × JSON) → JSON

/-- Member names of a JSON object, in emission order (empty for a non-object). -/
def JSON.keys : JSON → List String
  | .obj fs => fs.map Prod.fst
  | _ => []

/-- Member lookup `j[k]` of a JSON object. -/
def JSON.get? : JSON → String → Option JSON
  | .obj fs, k => fs.lookup k
  | _, _ => none

/-- Element lookup `j[i]` of a JSON array. -/
def JSON.index? : JSON → Nat → Option JSON
  | .arr xs, i => xs.get? i
  | _, _ => none

/-! ## Go slices and maps -/

/-- Go slice: `none` is the nil slice, `some l` an allocated slice with elements `l`. -/
abbrev GoSlice (α : Type) := Option (List α)

/-- Elements of a slice; the nil slice has none. -/
def sliceElems {α : Type} (s : GoSlice α) : List α := s.getD []

/-- Go `len(s)` for a slice. -/
def sliceLen {α : Type} (s : GoSlice α) : Nat := (sliceElems s).length

/-- Go `append(s, xs...)`: appending nothing to the nil slice leaves it nil. -/
def goAppend {α : Type} (s : GoSlice α) (xs : List α) : GoSlice α :=
  match s, xs with
  | none, [] => none
  | none, x :: t => some (x :: t)
  | some l, ys => some (l ++ ys)

/-- Replace the binding of `k` in place, or add it at the end when `k` is unbound. -/
def upsertEntries {β : Type} (k : String) (v : β) : List (String × β) → List (String × β)
  | [] => [(k, v)]
  | (k', v') :: rest =>
    if k' = k then (k, v) :: rest else (k', v') :: upsertEntries k v rest

theorem upsertEntries_keys {β : Type} (k : String) (v : β) (l : List (String × β)) :
    (upsertEntries k v l).map Prod.fst =
      if k ∈ l.map Prod.fst then l.map Prod.fst else l.map Prod.fst ++ [k] := by
  induction l with
  | nil => simp [upsertEntries]
  | cons hd tl ih =>
    obtain ⟨k', v'⟩ := hd
    by_cases h : k' = k
    · subst h; simp [upsertEntries]
    · have h' : ¬ k = k' := fun e => h e.symm
      simp only [upsertEntries, if_neg h, List.map_cons, ih, List.mem_cons, h', false_or]
      split <;> simp

theorem upsertEntries_nodup {β : Type} (k : String) (v : β) (l : List (String × β))
    (h : (l.map Prod.fst).Nodup) : ((upsertEntries k v l).map Prod.fst).Nodup := by
  rw [upsertEntries_keys]
  split
  · exact h
  · rename_i hk
    refine List.Nodup.append h (List.nodup_singleton k) ?_
    intro a ha hb
    rw [List.mem_singleton] at hb
    exact hk (hb ▸ ha)

/-- Allocated Go map with string keys: bindings with pairwise distinct keys. -/
structure GoMapData (β : Type) where
  entries : List (String × β)
  nodup : (entries.map Prod.fst).Nodup

theorem GoMapData.ext_entries {β : Type} {a b : GoMapData β} (h : a.entries = b.entries) :
    a = b := by
  cases a; cases b; cases h; rfl

instance {β : Type} [DecidableEq β] : DecidableEq (GoMapData β) := fun a b =>
  decidable_of_iff (a.entries = b.entries) ⟨GoMapData.ext_entries, fun h => h ▸ rfl⟩

/-- Go `make(map[string]T)`: an allocated map with no binding. -/
def GoMapData.empty {β : Type} : GoMapData β := ⟨[], List.nodup_nil⟩

/-- Go `m[k] = v` on an allocated map. -/
def GoMapData.set {β : Type} (m : GoMapData β) (k : String) (v : β) : GoMapData β :=
  ⟨upsertEntries k v m.entries, upsertEntries_nodup k v m.entries m.nodup⟩

/-- Go `v, ok := m[k]` on an allocated map. -/
def GoMapData.lookup {β : Type} (m : GoMapData β) (k : String) : Option β :=
  m.entries.lookup k

/-- Go map: `none` is the nil map, `some d` an allocated one. -/
abbrev GoMap (β : Type) := Option (GoMapData β)

/-- Go `len(m)` for a map; the nil map has length 0. -/
def mapLen {β : Type} (m : GoMap β) : Nat :=
  match m with
  | none => 0
  | some d => d.entries.length

/-- Go `v, ok := m[k]`; reading the nil map finds nothing. -/
def mapLookup {β : Type} (m : GoMap β) (k : String) : Option β :=
  match m with
  | none => none
  | some d => d.lookup k

/-- A run-time panic of the Go program. -/
inductive Panic where
  | nilMapWrite : Panic
  | nilPointer : Panic
  deriving DecidableEq, Repr

/-- Go `m[k] = v`: panics with "assignment to entry in nil map" on the nil map. -/
def mapAssign {β : Type} (m : GoMap β) (k : String) (v : β) : Except Panic (GoMap β) :=
  match m with
  | none => .error .nilMapWrite
  | some d => .ok (some (d.set k v))

/-! ## encoding/json: struct fields and `omitempty` -/

/-- Order on object keys used when a map is encoded: byte-wise, i.e. by code point. -/
def keyLE (a b : String) : Bool := decide (¬ b.data < a.data)

/-- Encoding of a `*T`: a nil pointer is `null`, otherwise the pointee. -/
def encPtr {α : Type} (enc : α → JSON) : Option α → JSON
  | none => .null
  | some x => enc x

/-- Encoding of an allocated map: an object with members sorted by key. The keys are texts
and are written as they are; `raw.encMapData` is the encoding for arbitrary Go strings as
keys. -/
def encMapData {β : Type} (enc : β → JSON) (d : GoMapData β) : JSON :=
  .obj ((d.entries.insertionSort (fun a b => keyLE a.1 b.1)).map (fun e => (e.1, enc e.2)))

/-- Field without `omitempty`: always emitted. -/
def fieldAlways (key : String) (v : JSON) : List (String × JSON) := [(key, v)]

/-- String field tagged `omitempty`: left out when empty. The string is a text, that is a
valid UTF-8 Go string, and is written as it is; `raw.omitemptyString` is the same field for
an arbitrary Go string. -/
def omitemptyString (key : String) (s : String) : List (String × JSON) :=
  if s = "" then [] else [(key, .str s)]

/-- Integer field tagged `omitempty`: left out when 0. -/
def omitemptyInt (key : String) (n : Int) : List (String × JSON) :=
  if n = 0 then [] else [(key, .num n)]

/-- Pointer field tagged `omitempty`: left out when nil. -/
def omitemptyPtr {α : Type} (key : String) (enc : α → JSON) (p : Option α) :
    List (String × JSON) :=
  match p with
  | none => []
  | some x => [(key, enc x)]

/-- Encoding of a slice: the nil slice is `null`, otherwise an array in element order. -/
def encSlice {α : Type} (enc : α → JSON) : GoSlice α → JSON
  | none => .null
  | some l => .arr (l.map enc)

/-- Encoding of a map: the nil map is `null`, otherwise an object sorted by key. -/
def encMap {β : Type} (enc : β → JSON) : GoMap β → JSON
  | none => .null
  | some d => encMapData enc d

/-- Slice field tagged `omitempty`: left out when its length is 0. -/
def omitemptySlice {α : Type} (key : String) (enc : α → JSON) (s : GoSlice α) :
    List (String × JSON) :=
  if sliceLen s = 0 then [] else [(key, encSlice enc s)]

/-- Map field tagged `omitempty`: left out when its length is 0. -/
def omitemptyMap {β : Type} (key : String) (enc : β → JSON) (m : GoMap β) :
    List (String × JSON) :=
  if mapLen m = 0 then [] else [(key, encMap enc m)]

/-! ## Address, content, attachment and unsubscribe-group models -/

/-- Email holds email name and address info. -/
structure Email where
  Name : String
  Address : String
  deriving DecidableEq, Repr

/-- NewEmail. -/
def NewEmail (name address : String) : Email :=
  { Name := name, Address := address }

/-- Wire form of `Email`: `name,omitempty`, `email,omitempty`. -/
def Email.toJSON (e : Email) : JSON :=
  .obj (omitemptyString "name" e.Name ++ omitemptyString "email" e.Address)

/-- Content defines content of the mail body. -/
structure Content where
  Type_ : String
  Value : String
  deriving DecidableEq, Repr

/-- NewContent. -/
def NewContent (contentType value : String) : Content :=
  { Type_ := contentType, Value := value }

/-- Wire form of `Content`: `type,omitempty`, `value,omitempty`. -/
def Content.toJSON (c : Content) : JSON :=
  .obj (omitemptyString "type" c.Type_ ++ omitemptyString "value" c.Value)

/-- Attachment holds attachment information. -/
structure Attachment where
  Content : String
  Type_ : String
  Name : String
  Filename : String
  Disposition : String
  ContentID : String
  deriving DecidableEq, Repr

/-- NewAttachment: the zero value. -/
def NewAttachment : Attachment :=
  { Content := "", Type_ := "", Name := "", Filename := "", Disposition := "", ContentID := "" }

def Attachment.SetContent (a : Attachment) (content : String) : Attachment :=
  { a with Content := content }

def Attachment.SetType (a : Attachment) (contentType : String) : Attachment :=
  { a with Type_ := contentType }

def Attachment.SetFilename (a : Attachment) (filename : String) : Attachment :=
  { a with Filename := filename }

def Attachment.SetDisposition (a : Attachment) (disposition : String) : Attachment :=
  { a with Disposition := disposition }

def Attachment.SetContentID (a : Attachment) (contentID : String) : Attachment :=
  { a with ContentID := contentID }

/-- Wire form of `Attachment`; every field is `omitempty`. -/
def Attachment.toJSON (a : Attachment) : JSON :=
  .obj (omitemptyString "content" a.Content ++ omitemptyString "type" a.Type_ ++
    omitemptyString "name" a.Name ++ omitemptyString "filename" a.Filename ++
    omitemptyString "disposition" a.Disposition ++ omitemptyString "content_id" a.ContentID)

/-- ASM contains the group id and the list of group ids to display. -/
structure ASM where
  GroupID : Int
  GroupsToDisplay : GoSlice Int
  deriving DecidableEq, Repr

/-- NewASM: the zero value. -/
def NewASM : ASM := { GroupID := 0, GroupsToDisplay := none }

def ASM.SetGroupID (a : ASM) (groupID : Int) : ASM :=
  { a with GroupID := groupID }

def ASM.AddGroupsToDisplay (a : ASM) (groupsToDisplay : List Int) : ASM :=
  { a with GroupsToDisplay := goAppend a.GroupsToDisplay groupsToDisplay }

/-- Wire form of `ASM`: `group_id,omitempty`, `groups_to_display,omitempty`. -/
def ASM.toJSON (a : ASM) : JSON :=
  .obj (omitemptyInt "group_id" a.GroupID ++
    omitemptySlice "groups_to_display" JSON.num a.GroupsToDisplay)

/-! ## Settings carrying a tri-state `Enable` flag -/

/-- Setting enables the mail settings. -/
structure Setting where
  Enable : Option Bool
  deriving DecidableEq, Repr

/-- NewSetting: `Enable` points at a fresh copy of the argument. -/
def NewSetting (enable : Bool) : Setting := { Enable := some enable }

/-- Wire form of `Setting`: `enable,omitempty`. -/
def Setting.toJSON (s : Setting) : JSON :=
  .obj (omitemptyPtr "enable" JSON.bool s.Enable)

/-- BCCSetting holds email bcc settings. The `Email` field carries no json tag. -/
structure BCCSetting where
  Enable : Option Bool
  Email : String
  deriving DecidableEq, Repr

/-- NewBCCSetting. -/
def NewBCCSetting (enable : Bool) (email : String) : BCCSetting :=
  { Enable := some enable, Email := email }

/-- Wire form of `BCCSetting`: `enable,omitempty`, then the untagged field `Email`,
emitted under its Go name and never left out. -/
def BCCSetting.toJSON (s : BCCSetting) : JSON :=
  .obj (omitemptyPtr "enable" JSON.bool s.Enable ++ fieldAlways "Email" (.str s.Email))

/-- FooterSetting holds the enable flag and the footer in text and HTML form. -/
structure FooterSetting where
  Enable : Option Bool
  Text : String
  HTML : String
  deriving DecidableEq, Repr

/-- NewFooterSetting. -/
def NewFooterSetting (enable : Bool) (text html : String) : FooterSetting :=
  { Enable := some enable, Text := text, HTML := html }

/-- Wire form of `FooterSetting`. -/
def FooterSetting.toJSON (s : FooterSetting) : JSON :=
  .obj (omitemptyPtr "enable" JSON.bool s.Enable ++ omitemptyString "text" s.Text ++
    omitemptyString "html" s.HTML)

/-- ClickTrackingSetting. -/
structure ClickTrackingSetting where
  Enable : Option Bool
  EnableText : Option Bool
  deriving DecidableEq, Repr

/-- NewClickTrackingSetting. -/
def NewClickTrackingSetting (enable enableText : Bool) : ClickTrackingSetting :=
  { Enable := some enable, EnableText := some enableText }

/-- Wire form of `ClickTrackingSetting`. -/
def ClickTrackingSetting.toJSON (s : ClickTrackingSetting) : JSON :=
  .obj (omitemptyPtr "enable" JSON.bool s.Enable ++
    omitemptyPtr "enable_text" JSON.bool s.EnableText)

/-- OpenTrackingSetting. -/
structure OpenTrackingSetting where
  Enable : Option Bool
  SubstitutionTag : String
  deriving DecidableEq, Repr

/-- NewOpenTrackingSetting. -/
def NewOpenTrackingSetting (enable : Bool) (subTag : String) : OpenTrackingSetting :=
  { Enable := some enable, SubstitutionTag := subTag }

/-- Wire form of `OpenTrackingSetting`. -/
def OpenTrackingSetting.toJSON (s : OpenTrackingSetting) : JSON :=
  .obj (omitemptyPtr "enable" JSON.bool s.Enable ++
    omitemptyString "substitution_tag" s.SubstitutionTag)

/-- SubscriptionTrackingSetting. -/
structure SubscriptionTrackingSetting where
  Enable : Option Bool
  Text : String
  HTML : String
  SubstitutionTag : String
  deriving DecidableEq, Repr

/-- NewSubscriptionTrackingSetting. -/
def NewSubscriptionTrackingSetting (enable : Bool) (text html subTag : String) :
    SubscriptionTrackingSetting :=
  { Enable := some enable, Text := text, HTML := html, SubstitutionTag := subTag }

/-- Wire form of `SubscriptionTrackingSetting`. -/
def SubscriptionTrackingSetting.toJSON (s : SubscriptionTrackingSetting) : JSON :=
  .obj (omitemptyPtr "enable" JSON.bool s.Enable ++ omitemptyString "text" s.Text ++
    omitemptyString "html" s.HTML ++ omitemptyString "substitution_tag" s.SubstitutionTag)

/-- SpamCheckSetting holds the enable flag, the spam threshold and the callback URL. -/
structure SpamCheckSetting where
  Enable : Option Bool
  SpamThreshold : Int
  PostToURL : String
  deriving DecidableEq, Repr

/-- NewSpamCheckSetting. -/
def NewSpamCheckSetting (enable : Bool) (spamThreshold : Int) (postToURL : String) :
    SpamCheckSetting :=
  { Enable := some enable, SpamThreshold := spamThreshold, PostToURL := postToURL }

/-- Wire form of `SpamCheckSetting`. -/
def SpamCheckSetting.toJSON (s : SpamCheckSetting) : JSON :=
  .obj (omitemptyPtr "enable" JSON.bool s.Enable ++ omitemptyInt "threshold" s.SpamThreshold ++
    omitemptyString "post_to_url" s.PostToURL)

/-- SandboxModeSetting. -/
structure SandboxModeSetting where
  Enable : Option Bool
  ForwardSpam : Option Bool
  SpamCheck : Option SpamCheckSetting
  deriving DecidableEq, Repr

/-- NewSandboxModeSetting. -/
def NewSandboxModeSetting (enable forwardSpam : Bool) (spamCheck : Option SpamCheckSetting) :
    SandboxModeSetting :=
  { Enable := some enable, ForwardSpam := some forwardSpam, SpamCheck := spamCheck }

/-- Wire form of `SandboxModeSetting`. -/
def SandboxModeSetting.toJSON (s : SandboxModeSetting) : JSON :=
  .obj (omitemptyPtr "enable" JSON.bool s.Enable ++
    omitemptyPtr "forward_spam" JSON.bool s.ForwardSpam ++
    omitemptyPtr "spam_check" SpamCheckSetting.toJSON s.SpamCheck)

/-- GASetting represents the google analytics settings. -/
structure GASetting where
  Enable : Option Bool
  CampaignSource : String
  CampaignTerm : String
  CampaignContent : String
  CampaignName : String
  CampaignMedium : String
  deriving DecidableEq, Repr

/-- NewGASetting: only `Enable` is set. -/
def NewGASetting (enable : Bool) : GASetting :=
  { Enable := some enable, CampaignSource := "", CampaignTerm := "", CampaignContent := "",
    CampaignName := "", CampaignMedium := "" }

def GASetting.SetCampaignSource (g : GASetting) (campaignSource : String) : GASetting :=
  { g with CampaignSource := campaignSource }

def GASetting.SetCampaignContent (g : GASetting) (campaignContent : String) : GASetting :=
  { g with CampaignContent := campaignContent }

def GASetting.SetCampaignTerm (g : GASetting) (campaignTerm : String) : GASetting :=
  { g with CampaignTerm := campaignTerm }

def GASetting.SetCampaignName (g : GASetting) (campaignName : String) : GASetting :=
  { g with CampaignName := campaignName }

def GASetting.SetCampaignMedium (g : GASetting) (campaignMedium : String) : GASetting :=
  { g with CampaignMedium := campaignMedium }

/-- Wire form of `GASetting`. -/
def GASetting.toJSON (g : GASetting) : JSON :=
  .obj (omitemptyPtr "enable" JSON.bool g.Enable ++
    omitemptyString "utm_source" g.CampaignSource ++ omitemptyString "utm_term" g.CampaignTerm ++
    omitemptyString "utm_content" g.CampaignContent ++
    omitemptyString "utm_campaign" g.CampaignName ++
    omitemptyString "utm_medium" g.CampaignMedium)

/-! ## Settings aggregates -/

/-- MailSettings defines mail and spamCheck settings. -/
structure MailSettings where
  BCC : Option BCCSetting
  BypassListManagement : Option Setting
  Footer : Option FooterSetting
  SandboxMode : Option Setting
  SpamCheckSetting : Option SpamCheckSetting
  deriving DecidableEq, Repr

/-- NewMailSettings: the zero value, every sub-setting nil. -/
def NewMailSettings : MailSettings :=
  { BCC := none, BypassListManagement := none, Footer := none, SandboxMode := none,
    SpamCheckSetting := none }

def MailSettings.SetBCC (m : MailSettings) (bcc : Option BCCSetting) : MailSettings :=
  { m with BCC := bcc }

def MailSettings.SetBypassListManagement (m : MailSettings)
    (bypassListManagement : Option Setting) : MailSettings :=
  { m with BypassListManagement := bypassListManagement }

def MailSettings.SetFooter (m : MailSettings) (footerSetting : Option FooterSetting) :
    MailSettings :=
  { m with Footer := footerSetting }

def MailSettings.SetSandboxMode (m : MailSettings) (sandboxMode : Option Setting) :
    MailSettings :=
  { m with SandboxMode := sandboxMode }

def MailSettings.SetSpamCheckSettings (m : MailSettings)
    (spamCheckSetting : Option apiv3.SpamCheckSetting) : MailSettings :=
  { m with SpamCheckSetting := spamCheckSetting }

/-- Wire form of `MailSettings`; every field is an `omitempty` pointer. -/
def MailSettings.toJSON (m : MailSettings) : JSON :=
  .obj (omitemptyPtr "bcc" BCCSetting.toJSON m.BCC ++
    omitemptyPtr "bypass_list_management" Setting.toJSON m.BypassListManagement ++
    omitemptyPtr "footer" FooterSetting.toJSON m.Footer ++
    omitemptyPtr "sandbox_mode" Setting.toJSON m.SandboxMode ++
    omitemptyPtr "spam_check" apiv3.SpamCheckSetting.toJSON m.SpamCheckSetting)

/-- TrackingSettings holds tracking settings and mail settings. -/
structure TrackingSettings where
  ClickTracking : Option ClickTrackingSetting
  OpenTracking : Option OpenTrackingSetting
  SubscriptionTracking : Option SubscriptionTrackingSetting
  GoogleAnalytics : Option GASetting
  BCC : Option BCCSetting
  BypassListManagement : Option Setting
  Footer : Option FooterSetting
  SandboxMode : Option SandboxModeSetting
  deriving DecidableEq, Repr

/-- NewTrackingSettings: the zero value, every sub-setting nil. -/
def NewTrackingSettings : TrackingSettings :=
  { ClickTracking := none, OpenTracking := none, SubscriptionTracking := none,
    GoogleAnalytics := none, BCC := none, BypassListManagement := none, Footer := none,
    SandboxMode := none }

def TrackingSettings.SetClickTracking (t : TrackingSettings)
    (clickTracking : Option ClickTrackingSetting) : TrackingSettings :=
  { t with ClickTracking := clickTracking }

def TrackingSettings.SetOpenTracking (t : TrackingSettings)
    (openTracking : Option OpenTrackingSetting) : TrackingSettings :=
  { t with OpenTracking := openTracking }

def TrackingSettings.SetSubscriptionTracking (t : TrackingSettings)
    (subscriptionTracking : Option SubscriptionTrackingSetting) : TrackingSettings :=
  { t with SubscriptionTracking := subscriptionTracking }

def TrackingSettings.SetGoogleAnalytics (t : TrackingSettings)
    (googleAnalytics : Option GASetting) : TrackingSettings :=
  { t with GoogleAnalytics := googleAnalytics }

/-- Wire form of `TrackingSettings`; every field is an `omitempty` pointer. -/
def TrackingSettings.toJSON (t : TrackingSettings) : JSON :=
  .obj (omitemptyPtr "click_tracking" ClickTrackingSetting.toJSON t.ClickTracking ++
    omitemptyPtr "open_tracking" OpenTrackingSetting.toJSON t.OpenTracking ++
    omitemptyPtr "subscription_tracking" SubscriptionTrackingSetting.toJSON
      t.SubscriptionTracking ++
    omitemptyPtr "ganalytics" GASetting.toJSON t.GoogleAnalytics ++
    omitemptyPtr "bcc" BCCSetting.toJSON t.BCC ++
    omitemptyPtr "bypass_list_management" Setting.toJSON t.BypassListManagement ++
    omitemptyPtr "footer" FooterSetting.toJSON t.Footer ++
    omitemptyPtr "sandbox_mode" SandboxModeSetting.toJSON t.SandboxMode)

/-! ## Personalization -/

/-- Personalization holds mail body struct. A value of Go type `interface{}` in
`DynamicTemplateData` is represented by the JSON value it encodes to. -/
structure Personalization where
  To : GoSlice (Option Email)
  CC : GoSlice (Option Email)
  BCC : GoSlice (Option Email)
  Subject : String
  Headers : GoMap String
  Substitutions : GoMap String
  CustomArgs : GoMap String
  SendAt : Int
  DynamicTemplateData : GoMap JSON
  Categories : GoSlice String

/-- NewPersonalization creates new personalization: every slice and map is allocated empty. -/
def NewPersonalization : Personalization :=
  { To := some [], CC := some [], BCC := some [], Subject := "",
    Headers := some GoMapData.empty, Substitutions := some GoMapData.empty,
    CustomArgs := some GoMapData.empty, SendAt := 0,
    DynamicTemplateData := some GoMapData.empty, Categories := some [] }

/-- AddTos adds 'to' addresses to the personalization. -/
def Personalization.AddTos (p : Personalization) (tos : List (Option Email)) : Personalization :=
  { p with To := goAppend p.To tos }

/-- AddCCs adds 'cc' addresses to the personalization. -/
def Personalization.AddCCs (p : Personalization) (cc : List (Option Email)) : Personalization :=
  { p with CC := goAppend p.CC cc }

/-- AddBCCs adds 'bcc' addresses to the personalization. -/
def Personalization.AddBCCs (p : Personalization) (bcc : List (Option Email)) :
    Personalization :=
  { p with BCC := goAppend p.BCC bcc }

/-- SetHeader sets headers to the personalization: `p.Headers[key] = value`. -/
def Personalization.SetHeader (p : Personalization) (key value : String) :
    Except Panic Personalization :=
  match mapAssign p.Headers key value with
  | .error e => .error e
  | .ok h => .ok { p with Headers := h }

/-- SetSubstitution sets substitutions to the personalization. -/
def Personalization.SetSubstitution (p : Personalization) (key value : String) :
    Except Panic Personalization :=
  match mapAssign p.Substitutions key value with
  | .error e => .error e
  | .ok h => .ok { p with Substitutions := h }

/-- SetCustomArg sets custom args to the personalization. -/
def Personalization.SetCustomArg (p : Personalization) (key value : String) :
    Except Panic Personalization :=
  match mapAssign p.CustomArgs key value with
  | .error e => .error e
  | .ok h => .ok { p with CustomArgs := h }

/-- SetDynamicTemplateData sets dynamic template data to the personalization. -/
def Personalization.SetDynamicTemplateData (p : Personalization) (key : String) (value : JSON) :
    Except Panic Personalization :=
  match mapAssign p.DynamicTemplateData key value with
  | .error e => .error e
  | .ok h => .ok { p with DynamicTemplateData := h }

/-- SetSendAt sets SendAt to the personalization for schedule send. -/
def Personalization.SetSendAt (p : Personalization) (sendAt : Int) : Personalization :=
  { p with SendAt := sendAt }

/-- Wire form of `Personalization`; every field is `omitempty`. -/
def Personalization.toJSON (p : Personalization) : JSON :=
  .obj (omitemptySlice "to" (encPtr Email.toJSON) p.To ++
    omitemptySlice "cc" (encPtr Email.toJSON) p.CC ++
    omitemptySlice "bcc" (encPtr Email.toJSON) p.BCC ++
    omitemptyString "subject" p.Subject ++
    omitemptyMap "headers" JSON.str p.Headers ++
    omitemptyMap "substitutions" JSON.str p.Substitutions ++
    omitemptyMap "custom_args" JSON.str p.CustomArgs ++
    omitemptyInt "send_at" p.SendAt ++
    omitemptyMap "dynamic_template_data" id p.DynamicTemplateData ++
    omitemptySlice "categories" JSON.str p.Categories)

/-! ## Message document -/

/-- MailV3 represents the mail structure for v3 API. -/
structure MailV3 where
  Personalizations : GoSlice (Option Personalization)
  From : Option Email
  Subject : String
  Content : GoSlice (Option Content)
  ReplyTo : Option Email
  Attachments : GoSlice (Option Attachment)
  TemplateID : String
  Sections : GoMap String
  Headers : GoMap String
  Categories : GoSlice String
  CustomArgs : GoMap String
  SendAt : Int
  BatchID : String
  ASM : Option ASM
  IPPoolName : String
  MailSettings : Option MailSettings
  TrackingSettings : Option TrackingSettings

/-- NewMailV3: the four required fields are taken from the arguments, the rest is zero. -/
def NewMailV3 (from_ : Option Email) (subject : String) (content : GoSlice (Option Content))
    (personalizations : GoSlice (Option Personalization)) : MailV3 :=
  { Personalizations := personalizations, From := from_, Subject := subject, Content := content,
    ReplyTo := none, Attachments := none, TemplateID := "", Sections := none, Headers := none,
    Categories := none, CustomArgs := none, SendAt := 0, BatchID := "", ASM := none,
    IPPoolName := "", MailSettings := none, TrackingSettings := none }

/-- AddPersonalizations adds personalizations to the current MailV3 object. -/
def MailV3.AddPersonalizations (m : MailV3) (p : List (Option Personalization)) : MailV3 :=
  { m with Personalizations := goAppend m.Personalizations p }

def MailV3.SetFrom (m : MailV3) (e : Option Email) : MailV3 :=
  { m with From := e }

def MailV3.AddContent (m : MailV3) (c : List (Option apiv3.Content)) : MailV3 :=
  { m with Content := goAppend m.Content c }

/-- SetTextContent sets text content of the message: one `AddContent` call. -/
def MailV3.SetTextContent (m : MailV3) (text : String) : MailV3 :=
  m.AddContent [some { Type_ := "text/plain", Value := text }]

/-- SetHTMLContent sets HTML content of the message: one `AddContent` call. -/
def MailV3.SetHTMLContent (m : MailV3) (html : String) : MailV3 :=
  m.AddContent [some { Type_ := "text/html", Value := html }]

def MailV3.SetReplyTo (m : MailV3) (e : Option Email) : MailV3 :=
  { m with ReplyTo := e }

def MailV3.AddAttachment (m : MailV3) (a : List (Option Attachment)) : MailV3 :=
  { m with Attachments := goAppend m.Attachments a }

def MailV3.SetTemplateID (m : MailV3) (templateID : String) : MailV3 :=
  { m with TemplateID := templateID }

/-- AddSection: allocate `Sections` when it is nil, then `m.Sections[key] = value`. -/
def MailV3.AddSection (m : MailV3) (key value : String) : Except Panic MailV3 :=
  let m1 : MailV3 := if m.Sections.isNone then { m with Sections := some GoMapData.empty } else m
  match mapAssign m1.Sections key value with
  | .error e => .error e
  | .ok h => .ok { m1 with Sections := h }

/-- SetHeader: allocate `Headers` when it is nil, then `m.Headers[key] = value`. -/
def MailV3.SetHeader (m : MailV3) (key value : String) : Except Panic MailV3 :=
  let m1 : MailV3 := if m.Headers.isNone then { m with Headers := some GoMapData.empty } else m
  match mapAssign m1.Headers key value with
  | .error e => .error e
  | .ok h => .ok { m1 with Headers := h }

def MailV3.AddCategories (m : MailV3) (category : List String) : MailV3 :=
  { m with Categories := goAppend m.Categories category }

/-- SetCustomArg: allocate `CustomArgs` when it is nil, then `m.CustomArgs[key] = value`. -/
def MailV3.SetCustomArg (m : MailV3) (key value : String) : Except Panic MailV3 :=
  let m1 : MailV3 :=
    if m.CustomArgs.isNone then { m with CustomArgs := some GoMapData.empty } else m
  match mapAssign m1.CustomArgs key value with
  | .error e => .error e
  | .ok h => .ok { m1 with CustomArgs := h }

def MailV3.SetSendAt (m : MailV3) (sendAt : Int) : MailV3 :=
  { m with SendAt := sendAt }

def MailV3.SetBatchID (m : MailV3) (batchID : String) : MailV3 :=
  { m with BatchID := batchID }

def MailV3.SetASM (m : MailV3) (asm : Option apiv3.ASM) : MailV3 :=
  { m with ASM := asm }

def MailV3.SetIPPoolName (m : MailV3) (IPPoolName : String) : MailV3 :=
  { m with IPPoolName := IPPoolName }

def MailV3.SetMailSettings (m : MailV3) (mailSettings : Option apiv3.MailSettings) : MailV3 :=
  { m with MailSettings := mailSettings }

def MailV3.SetTrackingSettings (m : MailV3) (trackingSettings : Option apiv3.TrackingSettings) :
    MailV3 :=
  { m with TrackingSettings := trackingSettings }

/-- Wire form of `MailV3`: the seventeen tagged fields in declaration order, all `omitempty`. -/
def MailV3.toJSON (m : MailV3) : JSON :=
  .obj (omitemptySlice "personalizations" (encPtr Personalization.toJSON) m.Personalizations ++
    omitemptyPtr "from" Email.toJSON m.From ++
    omitemptyString "subject" m.Subject ++
    omitemptySlice "content" (encPtr apiv3.Content.toJSON) m.Content ++
    omitemptyPtr "reply_to" Email.toJSON m.ReplyTo ++
    omitemptySlice "attachments" (encPtr Attachment.toJSON) m.Attachments ++
    omitemptyString "template_id" m.TemplateID ++
    omitemptyMap "sections" JSON.str m.Sections ++
    omitemptyMap "headers" JSON.str m.Headers ++
    omitemptySlice "categories" JSON.str m.Categories ++
    omitemptyMap "custom_args" JSON.str m.CustomArgs ++
    omitemptyInt "send_at" m.SendAt ++
    omitemptyString "batch_id" m.BatchID ++
    omitemptyPtr "asm" apiv3.ASM.toJSON m.ASM ++
    omitemptyString "ip_pool_name" m.IPPoolName ++
    omitemptyPtr "mail_settings" apiv3.MailSettings.toJSON m.MailSettings ++
    omitemptyPtr "tracking_settings" apiv3.TrackingSettings.toJSON m.TrackingSettings)

/-! ## Call sequences on a document -/

/-- One call of a `MailV3` builder method, with its arguments. -/
inductive MailV3.Op where
  | AddPersonalizations (p : List (Option Personalization))
  | SetFrom (e : Option Email)
  | AddContent (c : List (Option apiv3.Content))
  | SetTextContent (text : String)
  | SetHTMLContent (html : String)
  | SetReplyTo (e : Option Email)
  | AddAttachment (a : List (Option Attachment))
  | SetTemplateID (templateID : String)
  | AddSection (key value : String)
  | SetHeader (key value : String)
  | AddCategories (category : List String)
  | SetCustomArg (key value : String)
  | SetSendAt (sendAt : Int)
  | SetBatchID (batchID : String)
  | SetASM (asm : Option apiv3.ASM)
  | SetIPPoolName (IPPoolName : String)
  | SetMailSettings (mailSettings : Option apiv3.MailSettings)
  | SetTrackingSettings (trackingSettings : Option apiv3.TrackingSettings)

/-- Perform one builder call on a document. -/
def MailV3.Op.apply (m : MailV3) : MailV3.Op → Except Panic MailV3
  | .AddPersonalizations p => .ok (m.AddPersonalizations p)
  | .SetFrom e => .ok (m.SetFrom e)
  | .AddContent c => .ok (m.AddContent c)
  | .SetTextContent text => .ok (m.SetTextContent text)
  | .SetHTMLContent html => .ok (m.SetHTMLContent html)
  | .SetReplyTo e => .ok (m.SetReplyTo e)
  | .AddAttachment a => .ok (m.AddAttachment a)
  | .SetTemplateID templateID => .ok (m.SetTemplateID templateID)
  | .AddSection key value => m.AddSection key value
  | .SetHeader key value => m.SetHeader key value
  | .AddCategories category => .ok (m.AddCategories category)
  | .SetCustomArg key value => m.SetCustomArg key value
  | .SetSendAt sendAt => .ok (m.SetSendAt sendAt)
  | .SetBatchID batchID => .ok (m.SetBatchID batchID)
  | .SetASM asm => .ok (m.SetASM asm)
  | .SetIPPoolName IPPoolName => .ok (m.SetIPPoolName IPPoolName)
  | .SetMailSettings mailSettings => .ok (m.SetMailSettings mailSettings)
  | .SetTrackingSettings trackingSettings => .ok (m.SetTrackingSettings trackingSettings)

/-- Perform a sequence of builder calls, first call first; a panic stops the sequence. -/
def MailV3.applyAll (m : MailV3) : List MailV3.Op → Except Panic MailV3
  | [] => .ok m
  | op :: rest =>
    match MailV3.Op.apply m op with
    | .error e => .error e
    | .ok m1 => MailV3.applyAll m1 rest

/-- Whether the call is `SetMailSettings`. -/
def MailV3.Op.isSetMailSettings : MailV3.Op → Bool
  | .SetMailSettings _ => true
  | _ => false

/-- Whether the call is `SetTrackingSettings`. -/
def MailV3.Op.isSetTrackingSettings : MailV3.Op → Bool
  | .SetTrackingSettings _ => true
  | _ => false

/-- Whether the call is `AddAttachment` with at least one attachment. -/
def MailV3.Op.addsAttachment : MailV3.Op → Bool
  | .AddAttachment (_ :: _) => true
  | _ => false

/-- One call of a `MailSettings` setter. -/
inductive MailSettings.Op where
  | SetBCC (bcc : Option BCCSetting)
  | SetBypassListManagement (bypassListManagement : Option Setting)
  | SetFooter (footerSetting : Option FooterSetting)
  | SetSandboxMode (sandboxMode : Option Setting)
  | SetSpamCheckSettings (spamCheckSetting : Option apiv3.SpamCheckSetting)

/-- Perform one setter call on a `MailSettings`. -/
def MailSettings.Op.apply (m : MailSettings) : MailSettings.Op → MailSettings
  | .SetBCC bcc => m.SetBCC bcc
  | .SetBypassListManagement b => m.SetBypassListManagement b
  | .SetFooter f => m.SetFooter f
  | .SetSandboxMode sb => m.SetSandboxMode sb
  | .SetSpamCheckSettings sc => m.SetSpamCheckSettings sc

/-- Wire key of the sub-setting a `MailSettings` setter writes. -/
def MailSettings.Op.key : MailSettings.Op → String
  | .SetBCC _ => "bcc"
  | .SetBypassListManagement _ => "bypass_list_management"
  | .SetFooter _ => "footer"
  | .SetSandboxMode _ => "sandbox_mode"
  | .SetSpamCheckSettings _ => "spam_check"

/-- One call of a `TrackingSettings` setter. -/
inductive TrackingSettings.Op where
  | SetClickTracking (clickTracking : Option ClickTrackingSetting)
  | SetOpenTracking (openTracking : Option OpenTrackingSetting)
  | SetSubscriptionTracking (subscriptionTracking : Option SubscriptionTrackingSetting)
  | SetGoogleAnalytics (googleAnalytics : Option GASetting)

/-- Perform one setter call on a `TrackingSettings`. -/
def TrackingSettings.Op.apply (t : TrackingSettings) : TrackingSettings.Op → TrackingSettings
  | .SetClickTracking c => t.SetClickTracking c
  | .SetOpenTracking o => t.SetOpenTracking o
  | .SetSubscriptionTracking sb => t.SetSubscriptionTracking sb
  | .SetGoogleAnalytics g => t.SetGoogleAnalytics g

/-- Wire key of the sub-setting a `TrackingSettings` setter writes. -/
def TrackingSettings.Op.key : TrackingSettings.Op → String
  | .SetClickTracking _ => "click_tracking"
  | .SetOpenTracking _ => "open_tracking"
  | .SetSubscriptionTracking _ => "subscription_tracking"
  | .SetGoogleAnalytics _ => "ganalytics"

/-! ## The name table of the wire format -/

/-- The top-level name table of the wire format as the specification lists it: each name
paired with whether the document field it names is non-empty (string not "", integer not 0,
list or map of length > 0, optional reference present). -/
def MailV3.specKeyTable (m : MailV3) : List (String × Bool) :=
  [("personalizations", decide (0 < sliceLen m.Personalizations)),
   ("from", m.From.isSome),
   ("subject", decide (m.Subject ≠ "")),
   ("content", decide (0 < sliceLen m.Content)),
   ("reply_to", m.ReplyTo.isSome),
   ("attachments", decide (0 < sliceLen m.Attachments)),
   ("template_id", decide (m.TemplateID ≠ "")),
   ("sections", decide (0 < mapLen m.Sections)),
   ("headers", decide (0 < mapLen m.Headers)),
   ("categories", decide (0 < sliceLen m.Categories)),
   ("custom_args", decide (0 < mapLen m.CustomArgs)),
   ("send_at", decide (m.SendAt ≠ 0)),
   ("batch_id", decide (m.BatchID ≠ "")),
   ("asm", m.ASM.isSome),
   ("ip_pool_name", decide (m.IPPoolName ≠ "")),
   ("mail_settings", m.MailSettings.isSome),
   ("tracking_settings", m.TrackingSettings.isSome)]

/-! ## Call sequences on a personalization -/

/-- One call of a `Personalization` builder method, with its arguments. -/
inductive Personalization.Op where
  | AddTos (tos : List (Option Email))
  | AddCCs (cc : List (Option Email))
  | AddBCCs (bcc : List (Option Email))
  | SetHeader (key value : String)
  | SetSubstitution (key value : String)
  | SetCustomArg (key value : String)
  | SetDynamicTemplateData (key : String) (value : JSON)
  | SetSendAt (sendAt : Int)

/-- Perform one builder call on a personalization. -/
def Personalization.Op.apply (p : Personalization) :
    Personalization.Op → Except Panic Personalization
  | .AddTos tos => .ok (p.AddTos tos)
  | .AddCCs cc => .ok (p.AddCCs cc)
  | .AddBCCs bcc => .ok (p.AddBCCs bcc)
  | .SetHeader key value => p.SetHeader key value
  | .SetSubstitution key value => p.SetSubstitution key value
  | .SetCustomArg key value => p.SetCustomArg key value
  | .SetDynamicTemplateData key value => p.SetDynamicTemplateData key value
  | .SetSendAt sendAt => .ok (p.SetSendAt sendAt)

/-- Perform a sequence of builder calls, first call first; a panic stops the sequence. -/
def Personalization.applyAll (p : Personalization) :
    List Personalization.Op → Except Panic Personalization
  | [] => .ok p
  | op :: rest =>
    match Personalization.Op.apply p op with
    | .error e => .error e
    | .ok p1 => Personalization.applyAll p1 rest

/-- Whether the map field a call writes is allocated in the receiver; calls that write no
map need nothing. -/
def Personalization.Op.mapAllocated (p : Personalization) : Personalization.Op → Bool
  | .SetHeader _ _ => p.Headers.isSome
  | .SetSubstitution _ _ => p.Substitutions.isSome
  | .SetCustomArg _ _ => p.CustomArgs.isSome
  | .SetDynamicTemplateData _ _ => p.DynamicTemplateData.isSome
  | _ => true

/-! ## Address parsing -/

/-- Result type of `net/mail.ParseAddress`: the standard library's `mail.Address`. -/
structure MailAddress where
  Name : String
  Address : String
  deriving DecidableEq, Repr

/-- ParseEmail parses a string that contains an rfc822 formatted email address and returns
an `Email`. The standard library's `mail.ParseAddress` is the parameter `parseAddress`; a Go
`error` is its message. -/
def ParseEmail (parseAddress : String → Except String MailAddress) (emailInfo : String) :
    Except String Email :=
  match parseAddress emailInfo with
  | .error err => .error err
  | .ok e => .ok { Name := e.Name, Address := e.Address }

/-! ## HTTP headers and the API client -/

/-- Go `http.Header` and `url.Values`: `map[string][]string`. -/
abbrev Header := GoMap (GoSlice String)

/-- Token characters of a header field name (`validHeaderFieldByte` of net/textproto). -/
def validHeaderFieldChar (c : Char) : Bool :=
  c.isAlphanum || "!#$%&'*+-.^_`|~".data.contains c

/-- Letter case of a canonical header key: upper case at the start and after a hyphen, lower
case elsewhere. -/
def canonicalCase (upper : Bool) : List Char → List Char
  | [] => []
  | c :: cs =>
    let c1 := if upper && c.isLower then c.toUpper
      else if !upper && c.isUpper then c.toLower else c
    c1 :: canonicalCase (c1 == '-') cs

/-- Go `textproto.CanonicalMIMEHeaderKey`: a key made of token characters is put in canonical
case, any other key is returned unchanged. -/
def canonicalMIMEHeaderKey (s : String) : String :=
  if s.data.all validHeaderFieldChar then String.mk (canonicalCase true s.data) else s

/-- Go `http.Header.Add`: `h[key] = append(h[key], value)` on the canonical key; the write
panics when `h` is the nil map. -/
def Header.Add (h : Header) (key value : String) : Except Panic Header :=
  mapAssign h (canonicalMIMEHeaderKey key)
    (goAppend ((mapLookup h (canonicalMIMEHeaderKey key)).getD none) [value])

/-- Go `http.Client`, of which only `Timeout` (in nanoseconds) is set by this library. -/
structure HTTPClient where
  Timeout : Int
  deriving DecidableEq, Repr

/-- Client is a client for SendGrid v3 APIs. -/
structure Client where
  HTTPClient : Option HTTPClient
  Header : Header

end apiv3

namespace sendgrid

open apiv3

/-- Version of the API Library. -/
def Version : String := "4.0.0"

/-- SGAPIV3: versions of SendGrid APIs supported. -/
def SGAPIV3 : Int := 3

/-- Go `time.Second`, in nanoseconds. -/
def Second : Int := 1000000000

/-- NewV3Client returns a new Client for SendGrid V3 APIs: the client literal sets only
`HTTPClient`, so `Header` is the nil map when the three `Header.Add` calls run. -/
def NewV3Client (key : String) : Except Panic Client :=
  let c : Client := { HTTPClient := some { Timeout := 30 * Second }, Header := none }
  match Header.Add c.Header "Authorization" ("Bearer " ++ key) with
  | .error e => .error e
  | .ok h1 =>
    let c1 : Client := { c with Header := h1 }
    match Header.Add c1.Header "User-Agent" ("sendgrid-go/v" ++ Version) with
    | .error e => .error e
    | .ok h2 =>
      let c2 : Client := { c1 with Header := h2 }
      match Header.Add c2.Header "Accept" "application/json" with
      | .error e => .error e
      | .ok h3 => .ok { c2 with Header := h3 }

end sendgrid

namespace apiv3

/-! ## Transport: the response and its decoding -/

/-- One byte of a Go `[]byte`. -/
abbrev Byte := Fin 256

/-- APIv3BaseURL is the base URL for SendGrid v3 APIs. -/
def APIv3BaseURL : String := "https://api.sendgrid.com/v3"

/-- ErrorDetails corresponds to individual error item in API v3 error response. -/
structure ErrorDetails where
  Field : String
  Message : String
  deriving DecidableEq, Repr

/-- Response represents a client response for SendGrid v3 API client. Only `Errors` carries a
json tag (`errors`); `RawBody`, `StatusCode` and `Header` are exported fields without a tag,
which the decoder therefore fills from members of those names. -/
structure Response where
  RawBody : GoSlice Byte
  StatusCode : Int
  Header : Header
  Errors : GoSlice ErrorDetails

/-- Go `http.Request`, as far as this library sets it. -/
structure Request where
  Method : String
  URL : String
  Header : Header
  Body : Option (List Byte)

/-- Go `http.Response` as this library reads it: the status code, the header, and the outcome
of `ioutil.ReadAll` on the body (the bytes, or the message of the read error). -/
structure HTTPResponse where
  StatusCode : Int
  Header : Header
  Body : Except String (List Byte)

/-- Failure of `json.Unmarshal`: malformed JSON text, a value of the wrong kind for its
target, or a string that is not base64 where bytes are expected. -/
inductive JSONError where
  | invalidText (text : String)
  | typeMismatch (value : String) (target : String)
  | corruptBase64 (text : String)
  deriving DecidableEq, Repr

/-- What lies outside the repository: the Go standard library routines and the network that
`Get` and `Post` call. A Go `error` returned by them is its message. -/
structure Env where
  /-- Go `url.Values.Encode`. -/
  encodeValues : Header → String
  /-- Go `http.NewRequest(method, url, body)`. -/
  newRequest : String → String → Option (List Byte) → Except String Request
  /-- Go `(*http.Client).Do`: the network round trip. -/
  send : HTTPClient → Request → Except String HTTPResponse
  /-- Reading of JSON text into a JSON value, the first phase of `json.Unmarshal`. -/
  parseJSON : List Byte → Except String JSON
  /-- Go `base64.StdEncoding` decoding. -/
  base64Decode : String → Except String (List Byte)
  /-- The empty input is not JSON text ("unexpected end of JSON input"). -/
  parseJSON_empty : ∃ text, parseJSON [] = .error text

/-- Name of the kind of a JSON value, as decoding errors report it. -/
def JSON.kind : JSON → String
  | .null => "null"
  | .bool _ => "bool"
  | .num _ => "number"
  | .str _ => "string"
  | .arr _ => "array"
  | .obj _ => "object"

/-- Case folding of one character of an object key: ASCII letters to lower case, and the two
non-ASCII characters that fold to ASCII letters (Kelvin sign, long s). -/
def foldChar (c : Char) : Char :=
  if c = Char.ofNat 0x212A then 'k' else if c = Char.ofNat 0x17F then 's' else c.toLower

/-- Folded form of an object key or field name. -/
def foldName (s : String) : List Char := s.data.map foldChar

/-- Index of the struct field an object key denotes, given the wire names of the fields in
declaration order: an exact match is preferred, otherwise the first case-insensitive match;
a key that matches no field is skipped by the decoder. -/
def findField (names : List String) (key : String) : Option Nat :=
  match names.indexOf? key with
  | some i => some i
  | none => (names.map foldName).indexOf? (foldName key)

/-- Decoding into an `int` field holding `cur`: `null` leaves it, an integer in the 64-bit
range replaces it, anything else is a type mismatch. -/
def decodeInt (target : String) (cur : Int) : JSON → Except JSONError Int
  | .null => .ok cur
  | .num n =>
    if -9223372036854775808 ≤ n ∧ n ≤ 9223372036854775807 then .ok n
    else .error (.typeMismatch "number" target)
  | j => .error (.typeMismatch j.kind target)

/-- Decoding into a `string` field holding `cur`. -/
def decodeString (target : String) (cur : String) : JSON → Except JSONError String
  | .null => .ok cur
  | .str s => .ok s
  | j => .error (.typeMismatch j.kind target)

/-- Decoding of one array element into a byte holding `cur`. -/
def decodeByte (target : String) (cur : Byte) : JSON → Except JSONError Byte
  | .null => .ok cur
  | .num n =>
    if 0 ≤ n ∧ n ≤ 255 then .ok (Fin.ofNat n.toNat) else .error (.typeMismatch "number" target)
  | j => .error (.typeMismatch j.kind target)

/-- Decoding of a JSON array into a `[]byte` whose current elements are `cur`: element `i` is
decoded into the byte at index `i`, a zero byte beyond the current length. -/
def decodeByteArray (target : String) : List Byte → List JSON → Except JSONError (List Byte)
  | _, [] => .ok []
  | cur, x :: xs =>
    match decodeByte target (cur.headD 0) x with
    | .error e => .error e
    | .ok b =>
      match decodeByteArray target cur.tail xs with
      | .error e => .error e
      | .ok rest => .ok (b :: rest)

/-- Decoding into a `[]byte` field: `null` gives nil, a string is base64, an array is decoded
element by element. -/
def decodeBytes (env : Env) (target : String) (cur : GoSlice Byte) :
    JSON → Except JSONError (GoSlice Byte)
  | .null => .ok none
  | .str s =>
    match env.base64Decode s with
    | .error text => .error (.corruptBase64 text)
    | .ok b => .ok (some b)
  | .arr xs =>
    match decodeByteArray target (sliceElems cur) xs with
    | .error e => .error e
    | .ok bs => .ok (some bs)
  | j => .error (.typeMismatch j.kind target)

/-- Decoding of the elements of a JSON array into a fresh `[]string`. -/
def decodeStringArray (target : String) : List JSON → Except JSONError (List String)
  | [] => .ok []
  | x :: xs =>
    match decodeString target "" x with
    | .error e => .error e
    | .ok s =>
      match decodeStringArray target xs with
      | .error e => .error e
      | .ok rest => .ok (s :: rest)

/-- Decoding into a fresh `[]string` map element. -/
def decodeStringSlice (target : String) : JSON → Except JSONError (GoSlice String)
  | .null => .ok none
  | .arr xs =>
    match decodeStringArray target xs with
    | .error e => .error e
    | .ok ss => .ok (some ss)
  | j => .error (.typeMismatch j.kind target)

/-- Decoding of the members of a JSON object into an allocated `map[string][]string`, member
by member; existing bindings of other keys are kept. -/
def decodeHeaderMembers (target : String) (h : GoMapData (GoSlice String)) :
    List (String × JSON) → Except JSONError (GoMapData (GoSlice String))
  | [] => .ok h
  | (k, v) :: rest =>
    match decodeStringSlice target v with
    | .error e => .error e
    | .ok s => decodeHeaderMembers target (h.set k s) rest

/-- Decoding into a `map[string][]string` field holding `cur`: `null` gives the nil map, an
object is decoded into the current map, allocated first when nil. -/
def decodeHeader (target : String) (cur : Header) : JSON → Except JSONError Header
  | .null => .ok none
  | .obj ms =>
    match decodeHeaderMembers target (cur.getD GoMapData.empty) ms with
    | .error e => .error e
    | .ok h => .ok (some h)
  | j => .error (.typeMismatch j.kind target)

/-- Decoding of the members of a JSON object into an `ErrorDetails` (`field`, `message`). -/
def ErrorDetails.unmarshalMembers (e : ErrorDetails) :
    List (String × JSON) → Except JSONError ErrorDetails
  | [] => .ok e
  | (k, v) :: rest =>
    match findField ["field", "message"] k with
    | some 0 =>
      match decodeString "ErrorDetails.field" e.Field v with
      | .error err => .error err
      | .ok s => ErrorDetails.unmarshalMembers { e with Field := s } rest
    | some 1 =>
      match decodeString "ErrorDetails.message" e.Message v with
      | .error err => .error err
      | .ok s => ErrorDetails.unmarshalMembers { e with Message := s } rest
    | _ => ErrorDetails.unmarshalMembers e rest

/-- Decoding of a JSON value into an `ErrorDetails` holding `e`. -/
def ErrorDetails.unmarshalValue (e : ErrorDetails) : JSON → Except JSONError ErrorDetails
  | .null => .ok e
  | .obj ms => ErrorDetails.unmarshalMembers e ms
  | j => .error (.typeMismatch j.kind "ErrorDetails")

/-- Decoding of the elements of a JSON array into a `[]ErrorDetails` whose current elements
are `cur`: element `i` is decoded into the struct at index `i`, a zero struct beyond the
current length. -/
def decodeErrorArray : List ErrorDetails → List JSON → Except JSONError (List ErrorDetails)
  | _, [] => .ok []
  | cur, x :: xs =>
    match ErrorDetails.unmarshalValue (cur.headD { Field := "", Message := "" }) x with
    | .error e => .error e
    | .ok d =>
      match decodeErrorArray cur.tail xs with
      | .error e => .error e
      | .ok rest => .ok (d :: rest)

/-- Decoding into the `Errors` field holding `cur`. -/
def decodeErrors (cur : GoSlice ErrorDetails) : JSON → Except JSONError (GoSlice ErrorDetails)
  | .null => .ok none
  | .arr xs =>
    match decodeErrorArray (sliceElems cur) xs with
    | .error e => .error e
    | .ok ds => .ok (some ds)
  | j => .error (.typeMismatch j.kind "Response.errors")

/-- Decoding of the members of a JSON object into a `Response`, member by member: the wire
names of its fields are `RawBody`, `StatusCode`, `Header` (Go field names, no tag) and
`errors`. -/
def Response.unmarshalMembers (env : Env) (resp : Response) :
    List (String × JSON) → Except JSONError Response
  | [] => .ok resp
  | (k, v) :: rest =>
    match findField ["RawBody", "StatusCode", "Header", "errors"] k with
    | some 0 =>
      match decodeBytes env "Response.RawBody" resp.RawBody v with
      | .error e => .error e
      | .ok b => Response.unmarshalMembers env { resp with RawBody := b } rest
    | some 1 =>
      match decodeInt "Response.StatusCode" resp.StatusCode v with
      | .error e => .error e
      | .ok n => Response.unmarshalMembers env { resp with StatusCode := n } rest
    | some 2 =>
      match decodeHeader "Response.Header" resp.Header v with
      | .error e => .error e
      | .ok h => Response.unmarshalMembers env { resp with Header := h } rest
    | some 3 =>
      match decodeErrors resp.Errors v with
      | .error e => .error e
      | .ok ds => Response.unmarshalMembers env { resp with Errors := ds } rest
    | _ => Response.unmarshalMembers env resp rest

/-- Decoding of a JSON value into a `Response` holding `resp`: `null` leaves it, an object is
decoded member by member, any other value is a type mismatch. -/
def Response.unmarshalValue (env : Env) (resp : Response) : JSON → Except JSONError Response
  | .null => .ok resp
  | .obj ms => Response.unmarshalMembers env resp ms
  | j => .error (.typeMismatch j.kind "Response")

/-- Go `json.Unmarshal(body, resp)`. -/
def Response.unmarshal (env : Env) (body : List Byte) (resp : Response) :
    Except JSONError Response :=
  match env.parseJSON body with
  | .error text => .error (.invalidText text)
  | .ok j => Response.unmarshalValue env resp j

/-! ## Transport: Get and Post -/

/-- The errors `Get` and `Post` return, one constructor per `fmt.Errorf` call: the HTTP
method of the call and the cause. -/
inductive APIError where
  | creatingRequest (method : String) (cause : String)
  | makingRequest (method : String) (cause : String)
  | readingBody (cause : String)
  | unmarshaling (cause : JSONError)
  deriving DecidableEq, Repr

/-- How a call of `Get` or `Post` can fail: by a panic, or by returning an error. -/
inductive Failure where
  | panic (p : Panic)
  | err (e : APIError)
  deriving DecidableEq, Repr

/-- Get makes an API v3 GET call for the endpoint and returns the response. -/
def Client.Get (env : Env) (c : Client) (endpoint : String) (params : apiv3.Header) :
    Except Failure Response :=
  let url := APIv3BaseURL ++ "/" ++ endpoint ++ "?" ++ env.encodeValues params
  let resp : Response := { RawBody := none, StatusCode := 0, Header := none, Errors := none }
  match env.newRequest "GET" url none with
  | .error err => .error (.err (.creatingRequest "GET" err))
  | .ok req =>
    let req1 : Request := { req with Header := c.Header }
    match c.HTTPClient with
    | none => .error (.panic .nilPointer)
    | some h =>
      match env.send h req1 with
      | .error err => .error (.err (.makingRequest "GET" err))
      | .ok r =>
        let resp1 : Response := { resp with StatusCode := r.StatusCode, Header := r.Header }
        match r.Body with
        | .error err => .error (.err (.readingBody err))
        | .ok body =>
          let resp2 : Response := { resp1 with RawBody := some body }
          match Response.unmarshal env body resp2 with
          | .error err => .error (.err (.unmarshaling err))
          | .ok resp3 => .ok resp3

/-- Post makes an API v3 POST call for the endpoint and returns the response; the response
body is stored and not decoded. -/
def Client.Post (env : Env) (c : Client) (endpoint : String) (body : List Byte) :
    Except Failure Response :=
  let url := APIv3BaseURL ++ "/" ++ endpoint
  let resp : Response := { RawBody := none, StatusCode := 0, Header := none, Errors := none }
  match env.newRequest "POST" url (some body) with
  | .error err => .error (.err (.creatingRequest "POST" err))
  | .ok req =>
    let req1 : Request := { req with Header := c.Header }
    match c.HTTPClient with
    | none => .error (.panic .nilPointer)
    | some h =>
      match env.send h req1 with
      | .error err => .error (.err (.makingRequest "POST" err))
      | .ok r =>
        let resp1 : Response := { resp with StatusCode := r.StatusCode, Header := r.Header }
        match r.Body with
        | .error err => .error (.err (.readingBody err))
        | .ok rawBody => .ok { resp1 with RawBody := some rawBody }

/-- The HTTP exchange of a call completed: the request was constructed, the round trip
succeeded with response `r`, and reading its body gave the bytes `b`. -/
def Client.exchangeCompleted (env : Env) (c : Client) (method url : String)
    (reqBody : Option (List Byte)) (r : HTTPResponse) (b : List Byte) : Prop :=
  ∃ h req, c.HTTPClient = some h ∧ env.newRequest method url reqBody = .ok req ∧
    env.send h { req with Header := c.Header } = .ok r ∧ r.Body = .ok b

/-- A test environment: every request can be constructed, the server answers every request
with status `status`, header `header` and body `body`, the JSON reader reads `body` as
`parsed` (when `body` is not empty) and rejects every other text, and the base64 decoder
knows the one string "aGk=" (the bytes of "hi"). -/
def Env.fixed (status : Int) (header : Header) (body : List Byte) (parsed : JSON) : Env :=
  { encodeValues := fun _ => ""
    newRequest := fun method url reqBody =>
      .ok { Method := method, URL := url, Header := some GoMapData.empty, Body := reqBody }
    send := fun _ _ => .ok { StatusCode := status, Header := header, Body := .ok body }
    parseJSON := fun b =>
      if b = [] then .error "unexpected end of JSON input"
      else if b = body then .ok parsed
      else .error "invalid character"
    base64Decode := fun s =>
      if s = "aGk=" then .ok [104, 105] else .error "illegal base64 data"
    parseJSON_empty := ⟨"unexpected end of JSON input", rfl⟩ }

/-- Bytes of an ASCII text. -/
def asciiBytes (s : String) : List Byte := s.data.map (fun c => Fin.ofNat c.toNat)

/-! ## Decoding: generic parts of json.Unmarshal -/

/-- Decoding into a `bool` holding `cur`. -/
def decodeBool (target : String) (cur : Bool) : JSON → Except JSONError Bool
  | .null => .ok cur
  | .bool b => .ok b
  | j => .error (.typeMismatch j.kind target)

/-- Decoding into a pointer `*T` holding `cur`: `null` gives the nil pointer; any other value
is decoded into the pointee, which is allocated as the zero value when the pointer is nil. -/
def decodePtr {α : Type} (dec : α → JSON → Except JSONError α) (zero : α) (cur : Option α) :
    JSON → Except JSONError (Option α)
  | .null => .ok none
  | j =>
    match dec (cur.getD zero) j with
    | .error e => .error e
    | .ok x => .ok (some x)

/-- Decoding of the elements of a JSON array into a slice whose current elements are `cur`:
element `i` is decoded into the element at index `i`, a zero element beyond the current
length. -/
def decodeArray {α : Type} (dec : α → JSON → Except JSONError α) (zero : α) :
    List α → List JSON → Except JSONError (List α)
  | _, [] => .ok []
  | cur, x :: xs =>
    match dec (cur.headD zero) x with
    | .error e => .error e
    | .ok y =>
      match decodeArray dec zero cur.tail xs with
      | .error e => .error e
      | .ok rest => .ok (y :: rest)

/-- Decoding into a slice field holding `cur`: `null` gives nil, an array is decoded element
by element into an allocated slice. -/
def decodeSlice {α : Type} (target : String) (dec : α → JSON → Except JSONError α) (zero : α)
    (cur : GoSlice α) : JSON → Except JSONError (GoSlice α)
  | .null => .ok none
  | .arr xs =>
    match decodeArray dec zero (sliceElems cur) xs with
    | .error e => .error e
    | .ok ys => .ok (some ys)
  | j => .error (.typeMismatch j.kind target)

/-- Decoding of the members of a JSON object into an allocated map, member by member: each
value is decoded into a fresh element and stored under the member's key. -/
def decodeMapMembers {β : Type} (dec : JSON → Except JSONError β) (d : GoMapData β) :
    List (String × JSON) → Except JSONError (GoMapData β)
  | [] => .ok d
  | (k, v) :: rest =>
    match dec v with
    | .error e => .error e
    | .ok y => decodeMapMembers dec (d.set k y) rest

/-- Decoding into a map field holding `cur`: `null` gives the nil map, an object is decoded
into the current map, allocated first when nil. -/
def decodeMap {β : Type} (target : String) (dec : JSON → Except JSONError β) (cur : GoMap β) :
    JSON → Except JSONError (GoMap β)
  | .null => .ok none
  | .obj ms =>
    match decodeMapMembers dec (cur.getD GoMapData.empty) ms with
    | .error e => .error e
    | .ok d => .ok (some d)
  | j => .error (.typeMismatch j.kind target)

/-- Decoding of the members of a JSON object into a struct holding `x`, member by member:
`names` are the wire names of the fields in declaration order and `step i` decodes a value
into field `i`; members that match no field are skipped. -/
def unmarshalFields {α : Type} (names : List String)
    (step : Nat → α → JSON → Except JSONError α) (x : α) :
    List (String × JSON) → Except JSONError α
  | [] => .ok x
  | (k, v) :: rest =>
    match findField names k with
    | none => unmarshalFields names step x rest
    | some i =>
      match step i x v with
      | .error e => .error e
      | .ok y => unmarshalFields names step y rest

/-- Decoding of a JSON value into a struct holding `x`: `null` leaves it, an object is decoded
member by member, any other value is a type mismatch. -/
def unmarshalStruct {α : Type} (target : String) (names : List String)
    (step : Nat → α → JSON → Except JSONError α) (x : α) : JSON → Except JSONError α
  | .null => .ok x
  | .obj ms => unmarshalFields names step x ms
  | j => .error (.typeMismatch j.kind target)

/-! ## Decoding into `interface{}`: numbers become float64 -/

/-- Number of low bits a natural number loses when it is held in the 53-bit significand of a
float64: the least `e` with `n / 2^e < 2^53` (searched up to `fuel`). -/
def float64Shift : Nat → Nat → Nat
  | 0, _ => 0
  | fuel + 1, n => if n < 9007199254740992 then 0 else 1 + float64Shift fuel (n / 2)

/-- The float64 nearest to the natural number `n`, ties to the even significand, as the
natural number it denotes. -/
def float64Round (n : Nat) : Nat :=
  let e := float64Shift 1100 n
  let q := n / 2 ^ e
  let r := n % 2 ^ e
  if 2 * r > 2 ^ e ∨ (2 * r = 2 ^ e ∧ q % 2 = 1) then (q + 1) * 2 ^ e else q * 2 ^ e

/-- Number of decimal digits of a natural number (searched up to `fuel`). -/
def digitCount : Nat → Nat → Nat
  | 0, _ => 0
  | fuel + 1, n => if n < 10 then 1 else 1 + digitCount fuel (n / 10)

/-- The candidate with the most low digits dropped, at most `k`, that still reads back as the
float64 `f`: the multiple of `10^k` just below `f` or the one just above, the nearer one when
both read back as `f`; with fewer dropped digits when neither does. -/
def shortestDecimalFrom (f : Nat) : Nat → Nat
  | 0 => f
  | k + 1 =>
    let p := 10 ^ (k + 1)
    let down := f / p * p
    let up := down + p
    if float64Round down = f ∧ float64Round up = f then
      (if f - down ≤ up - f then down else up)
    else if float64Round down = f then down
    else if float64Round up = f then up
    else shortestDecimalFrom f k

/-- The number written by the shortest decimal digit string that reads back as the float64
`f` (Go `strconv.FormatFloat(f, 'g', -1, 64)`), for an integer-valued `f`. -/
def shortestDecimal (f : Nat) : Nat := shortestDecimalFrom f (digitCount 400 f)

/-- Least magnitude that no longer rounds to a finite float64: `2^1024 - 2^970`. -/
def float64Overflow : Nat :=
  179769313486231580793728971405303415079934132710037826936173778980444968292764750946649017977587207096330286416692887910946555547851940402630657488671505820681908902000708383676273854845817711531764475730270069855571366959622842914819860834936475292719074168444365510704342711559699508093042880177904174497792

/-- Decoding of a JSON number into `interface{}` and encoding it again: the number is read
as a float64 (an error beyond its range) and written back in shortest form. -/
def float64Reencode (n : Int) : Except JSONError Int :=
  if n.natAbs < float64Overflow then
    .ok (if n < 0 then -(shortestDecimal (float64Round n.natAbs) : Int)
      else (shortestDecimal (float64Round n.natAbs) : Int))
  else .error (.typeMismatch "number" "float64")

mutual
/-- Decoding of a JSON value into `interface{}`, given as the JSON value the decoded Go value
encodes to: `null`, booleans and strings as they are, numbers through float64, arrays
element by element, objects as `map[string]interface{}`, which encodes with its keys sorted
and the last of equal keys kept. -/
def decodeAny : JSON → Except JSONError JSON
  | .null => .ok .null
  | .bool b => .ok (.bool b)
  | .num n =>
    match float64Reencode n with
    | .error e => .error e
    | .ok n1 => .ok (.num n1)
  | .str s => .ok (.str s)
  | .arr xs =>
    match decodeAnyList xs with
    | .error e => .error e
    | .ok ys => .ok (.arr ys)
  | .obj ms =>
    match decodeAnyMembers GoMapData.empty ms with
    | .error e => .error e
    | .ok d => .ok (encMapData id d)
/-- Decoding of array elements into `[]interface{}`. -/
def decodeAnyList : List JSON → Except JSONError (List JSON)
  | [] => .ok []
  | x :: xs =>
    match decodeAny x with
    | .error e => .error e
    | .ok y =>
      match decodeAnyList xs with
      | .error e => .error e
      | .ok ys => .ok (y :: ys)
/-- Decoding of object members into a `map[string]interface{}`. -/
def decodeAnyMembers (d : GoMapData JSON) : List (String × JSON) →
    Except JSONError (GoMapData JSON)
  | [] => .ok d
  | (k, v) :: rest =>
    match decodeAny v with
    | .error e => .error e
    | .ok y => decodeAnyMembers (d.set k y) rest
end

/-! ## JSON values up to key ordering -/

mutual
/-- Canonical form of a JSON value: the members of every object sorted by key. Two values
are equal up to key ordering when their canonical forms are equal. -/
def JSON.canon : JSON → JSON
  | .arr xs => .arr (JSON.canonList xs)
  | .obj ms => .obj ((JSON.canonMembers ms).insertionSort (fun a b => keyLE a.1 b.1))
  | j => j
/-- Canonical form of the elements of an array. -/
def JSON.canonList : List JSON → List JSON
  | [] => []
  | x :: xs => JSON.canon x :: JSON.canonList xs
/-- Canonical form of the values of the members of an object. -/
def JSON.canonMembers : List (String × JSON) → List (String × JSON)
  | [] => []
  | (k, v) :: ms => (k, JSON.canon v) :: JSON.canonMembers ms
end
/-! ## Decoding of the mail document, driven by the same field tags -/

/-- Zero value of `Email`. -/
def Email.zero : Email :=
  { Name := "", Address := "" }

/-- Wire names of the fields of `Email`, in declaration order. -/
def Email.wireNames : List String :=
  ["name", "email"]

/-- Decoding of a value into field `i` of a `Email` holding `x`. -/
def Email.decodeField : Nat → Email → JSON → Except JSONError Email
  | 0, x, v =>
    match decodeString "Email.name" x.Name v with
    | .error e => .error e
    | .ok y => .ok { x with Name := y }
  | 1, x, v =>
    match decodeString "Email.email" x.Address v with
    | .error e => .error e
    | .ok y => .ok { x with Address := y }
  | _, x, _ => .ok x

/-- Go `json.Unmarshal` of a JSON value into a `Email` holding `x`. -/
def Email.unmarshalValue (x : Email) (j : JSON) : Except JSONError Email :=
  unmarshalStruct "Email" apiv3.Email.wireNames apiv3.Email.decodeField x j

/-- Zero value of `Content`. -/
def Content.zero : Content :=
  { Type_ := "", Value := "" }

/-- Wire names of the fields of `Content`, in declaration order. -/
def Content.wireNames : List String :=
  ["type", "value"]

/-- Decoding of a value into field `i` of a `Content` holding `x`. -/
def Content.decodeField : Nat → Content → JSON → Except JSONError Content
  | 0, x, v =>
    match decodeString "Content.type" x.Type_ v with
    | .error e => .error e
    | .ok y => .ok { x with Type_ := y }
  | 1, x, v =>
    match decodeString "Content.value" x.Value v with
    | .error e => .error e
    | .ok y => .ok { x with Value := y }
  | _, x, _ => .ok x

/-- Go `json.Unmarshal` of a JSON value into a `Content` holding `x`. -/
def Content.unmarshalValue (x : Content) (j : JSON) : Except JSONError Content :=
  unmarshalStruct "Content" apiv3.Content.wireNames apiv3.Content.decodeField x j

/-- Zero value of `Attachment`. -/
def Attachment.zero : Attachment :=
  { Content := "", Type_ := "", Name := "", Filename := "", Disposition := "", ContentID := "" }

/-- Wire names of the fields of `Attachment`, in declaration order. -/
def Attachment.wireNames : List String :=
  ["content", "type", "name", "filename", "disposition", "content_id"]

/-- Decoding of a value into field `i` of a `Attachment` holding `x`. -/
def Attachment.decodeField : Nat → Attachment → JSON → Except JSONError Attachment
  | 0, x, v =>
    match decodeString "Attachment.content" x.Content v with
    | .error e => .error e
    | .ok y => .ok { x with Content := y }
  | 1, x, v =>
    match decodeString "Attachment.type" x.Type_ v with
    | .error e => .error e
    | .ok y => .ok { x with Type_ := y }
  | 2, x, v =>
    match decodeString "Attachment.name" x.Name v with
    | .error e => .error e
    | .ok y => .ok { x with Name := y }
  | 3, x, v =>
    match decodeString "Attachment.filename" x.Filename v with
    | .error e => .error e
    | .ok y => .ok { x with Filename := y }
  | 4, x, v =>
    match decodeString "Attachment.disposition" x.Disposition v with
    | .error e => .error e
    | .ok y => .ok { x with Disposition := y }
  | 5, x, v =>
    match decodeString "Attachment.content_id" x.ContentID v with
    | .error e => .error e
    | .ok y => .ok { x with ContentID := y }
  | _, x, _ => .ok x

/-- Go `json.Unmarshal` of a JSON value into a `Attachment` holding `x`. -/
def Attachment.unmarshalValue (x : Attachment) (j : JSON) : Except JSONError Attachment :=
  unmarshalStruct "Attachment" apiv3.Attachment.wireNames apiv3.Attachment.decodeField x j

/-- Zero value of `ASM`. -/
def ASM.zero : ASM :=
  { GroupID := 0, GroupsToDisplay := none }

/-- Wire names of the fields of `ASM`, in declaration order. -/
def ASM.wireNames : List String :=
  ["group_id", "groups_to_display"]

/-- Decoding of a value into field `i` of a `ASM` holding `x`. -/
def ASM.decodeField : Nat → ASM → JSON → Except JSONError ASM
  | 0, x, v =>
    match decodeInt "ASM.group_id" x.GroupID v with
    | .error e => .error e
    | .ok y => .ok { x with GroupID := y }
  | 1, x, v =>
    match decodeSlice "ASM.groups_to_display" (decodeInt "ASM.groups_to_display") 0 x.GroupsToDisplay v with
    | .error e => .error e
    | .ok y => .ok { x with GroupsToDisplay := y }
  | _, x, _ => .ok x

/-- Go `json.Unmarshal` of a JSON value into a `ASM` holding `x`. -/
def ASM.unmarshalValue (x : ASM) (j : JSON) : Except JSONError ASM :=
  unmarshalStruct "ASM" apiv3.ASM.wireNames apiv3.ASM.decodeField x j

/-- Zero value of `Setting`. -/
def Setting.zero : Setting :=
  { Enable := none }

/-- Wire names of the fields of `Setting`, in declaration order. -/
def Setting.wireNames : List String :=
  ["enable"]

/-- Decoding of a value into field `i` of a `Setting` holding `x`. -/
def Setting.decodeField : Nat → Setting → JSON → Except JSONError Setting
  | 0, x, v =>
    match decodePtr (decodeBool "Setting.enable") false x.Enable v with
    | .error e => .error e
    | .ok y => .ok { x with Enable := y }
  | _, x, _ => .ok x

/-- Go `json.Unmarshal` of a JSON value into a `Setting` holding `x`. -/
def Setting.unmarshalValue (x : Setting) (j : JSON) : Except JSONError Setting :=
  unmarshalStruct "Setting" apiv3.Setting.wireNames apiv3.Setting.decodeField x j

/-- Zero value of `BCCSetting`. -/
def BCCSetting.zero : BCCSetting :=
  { Enable := none, Email := "" }

/-- Wire names of the fields of `BCCSetting`, in declaration order. -/
def BCCSetting.wireNames : List String :=
  ["enable", "Email"]

/-- Decoding of a value into field `i` of a `BCCSetting` holding `x`. -/
def BCCSetting.decodeField : Nat → BCCSetting → JSON → Except JSONError BCCSetting
  | 0, x, v =>
    match decodePtr (decodeBool "BCCSetting.enable") false x.Enable v with
    | .error e => .error e
    | .ok y => .ok { x with Enable := y }
  | 1, x, v =>
    match decodeString "BCCSetting.Email" x.Email v with
    | .error e => .error e
    | .ok y => .ok { x with Email := y }
  | _, x, _ => .ok x

/-- Go `json.Unmarshal` of a JSON value into a `BCCSetting` holding `x`. -/
def BCCSetting.unmarshalValue (x : BCCSetting) (j : JSON) : Except JSONError BCCSetting :=
  unmarshalStruct "BCCSetting" apiv3.BCCSetting.wireNames apiv3.BCCSetting.decodeField x j

/-- Zero value of `FooterSetting`. -/
def FooterSetting.zero : FooterSetting :=
  { Enable := none, Text := "", HTML := "" }

/-- Wire names of the fields of `FooterSetting`, in declaration order. -/
def FooterSetting.wireNames : List String :=
  ["enable", "text", "html"]

/-- Decoding of a value into field `i` of a `FooterSetting` holding `x`. -/
def FooterSetting.decodeField : Nat → FooterSetting → JSON → Except JSONError FooterSetting
  | 0, x, v =>
    match decodePtr (decodeBool "FooterSetting.enable") false x.Enable v with
    | .error e => .error e
    | .ok y => .ok { x with Enable := y }
  | 1, x, v =>
    match decodeString "FooterSetting.text" x.Text v with
    | .error e => .error e
    | .ok y => .ok { x with Text := y }
  | 2, x, v =>
    match decodeString "FooterSetting.html" x.HTML v with
    | .error e => .error e
    | .ok y => .ok { x with HTML := y }
  | _, x, _ => .ok x

/-- Go `json.Unmarshal` of a JSON value into a `FooterSetting` holding `x`. -/
def FooterSetting.unmarshalValue (x : FooterSetting) (j : JSON) : Except JSONError FooterSetting :=
  unmarshalStruct "FooterSetting" apiv3.FooterSetting.wireNames apiv3.FooterSetting.decodeField x j

/-- Zero value of `ClickTrackingSetting`. -/
def ClickTrackingSetting.zero : ClickTrackingSetting :=
  { Enable := none, EnableText := none }

/-- Wire names of the fields of `ClickTrackingSetting`, in declaration order. -/
def ClickTrackingSetting.wireNames : List String :=
  ["enable", "enable_text"]

/-- Decoding of a value into field `i` of a `ClickTrackingSetting` holding `x`. -/
def ClickTrackingSetting.decodeField : Nat → ClickTrackingSetting → JSON → Except JSONError ClickTrackingSetting
  | 0, x, v =>
    match decodePtr (decodeBool "ClickTrackingSetting.enable") false x.Enable v with
    | .error e => .error e
    | .ok y => .ok { x with Enable := y }
  | 1, x, v =>
    match decodePtr (decodeBool "ClickTrackingSetting.enable_text") false x.EnableText v with
    | .error e => .error e
    | .ok y => .ok { x with EnableText := y }
  | _, x, _ => .ok x

/-- Go `json.Unmarshal` of a JSON value into a `ClickTrackingSetting` holding `x`. -/
def ClickTrackingSetting.unmarshalValue (x : ClickTrackingSetting) (j : JSON) : Except JSONError ClickTrackingSetting :=
  unmarshalStruct "ClickTrackingSetting" apiv3.ClickTrackingSetting.wireNames apiv3.ClickTrackingSetting.decodeField x j

/-- Zero value of `OpenTrackingSetting`. -/
def OpenTrackingSetting.zero : OpenTrackingSetting :=
  { Enable := none, SubstitutionTag := "" }

/-- Wire names of the fields of `OpenTrackingSetting`, in declaration order. -/
def OpenTrackingSetting.wireNames : List String :=
  ["enable", "substitution_tag"]

/-- Decoding of a value into field `i` of a `OpenTrackingSetting` holding `x`. -/
def OpenTrackingSetting.decodeField : Nat → OpenTrackingSetting → JSON → Except JSONError OpenTrackingSetting
  | 0, x, v =>
    match decodePtr (decodeBool "OpenTrackingSetting.enable") false x.Enable v with
    | .error e => .error e
    | .ok y => .ok { x with Enable := y }
  | 1, x, v =>
    match decodeString "OpenTrackingSetting.substitution_tag" x.SubstitutionTag v with
    | .error e => .error e
    | .ok y => .ok { x with SubstitutionTag := y }
  | _, x, _ => .ok x

/-- Go `json.Unmarshal` of a JSON value into a `OpenTrackingSetting` holding `x`. -/
def OpenTrackingSetting.unmarshalValue (x : OpenTrackingSetting) (j : JSON) : Except JSONError OpenTrackingSetting :=
  unmarshalStruct "OpenTrackingSetting" apiv3.OpenTrackingSetting.wireNames apiv3.OpenTrackingSetting.decodeField x j

/-- Zero value of `SubscriptionTrackingSetting`. -/
def SubscriptionTrackingSetting.zero : SubscriptionTrackingSetting :=
  { Enable := none, Text := "", HTML := "", SubstitutionTag := "" }

/-- Wire names of the fields of `SubscriptionTrackingSetting`, in declaration order. -/
def SubscriptionTrackingSetting.wireNames : List String :=
  ["enable", "text", "html", "substitution_tag"]

/-- Decoding of a value into field `i` of a `SubscriptionTrackingSetting` holding `x`. -/
def SubscriptionTrackingSetting.decodeField : Nat → SubscriptionTrackingSetting → JSON → Except JSONError SubscriptionTrackingSetting
  | 0, x, v =>
    match decodePtr (decodeBool "SubscriptionTrackingSetting.enable") false x.Enable v with
    | .error e => .error e
    | .ok y => .ok { x with Enable := y }
  | 1, x, v =>
    match decodeString "SubscriptionTrackingSetting.text" x.Text v with
    | .error e => .error e
    | .ok y => .ok { x with Text := y }
  | 2, x, v =>
    match decodeString "SubscriptionTrackingSetting.html" x.HTML v with
    | .error e => .error e
    | .ok y => .ok { x with HTML := y }
  | 3, x, v =>
    match decodeString "SubscriptionTrackingSetting.substitution_tag" x.SubstitutionTag v with
    | .error e => .error e
    | .ok y => .ok { x with SubstitutionTag := y }
  | _, x, _ => .ok x

/-- Go `json.Unmarshal` of a JSON value into a `SubscriptionTrackingSetting` holding `x`. -/
def SubscriptionTrackingSetting.unmarshalValue (x : SubscriptionTrackingSetting) (j : JSON) : Except JSONError SubscriptionTrackingSetting :=
  unmarshalStruct "SubscriptionTrackingSetting" apiv3.SubscriptionTrackingSetting.wireNames apiv3.SubscriptionTrackingSetting.decodeField x j

/-- Zero value of `SpamCheckSetting`. -/
def SpamCheckSetting.zero : SpamCheckSetting :=
  { Enable := none, SpamThreshold := 0, PostToURL := "" }

/-- Wire names of the fields of `SpamCheckSetting`, in declaration order. -/
def SpamCheckSetting.wireNames : List String :=
  ["enable", "threshold", "post_to_url"]

/-- Decoding of a value into field `i` of a `SpamCheckSetting` holding `x`. -/
def SpamCheckSetting.decodeField : Nat → SpamCheckSetting → JSON → Except JSONError SpamCheckSetting
  | 0, x, v =>
    match decodePtr (decodeBool "SpamCheckSetting.enable") false x.Enable v with
    | .error e => .error e
    | .ok y => .ok { x with Enable := y }
  | 1, x, v =>
    match decodeInt "SpamCheckSetting.threshold" x.SpamThreshold v with
    | .error e => .error e
    | .ok y => .ok { x with SpamThreshold := y }
  | 2, x, v =>
    match decodeString "SpamCheckSetting.post_to_url" x.PostToURL v with
    | .error e => .error e
    | .ok y => .ok { x with PostToURL := y }
  | _, x, _ => .ok x

/-- Go `json.Unmarshal` of a JSON value into a `SpamCheckSetting` holding `x`. -/
def SpamCheckSetting.unmarshalValue (x : SpamCheckSetting) (j : JSON) : Except JSONError SpamCheckSetting :=
  unmarshalStruct "SpamCheckSetting" apiv3.SpamCheckSetting.wireNames apiv3.SpamCheckSetting.decodeField x j

/-- Zero value of `SandboxModeSetting`. -/
def SandboxModeSetting.zero : SandboxModeSetting :=
  { Enable := none, ForwardSpam := none, SpamCheck := none }

/-- Wire names of the fields of `SandboxModeSetting`, in declaration order. -/
def SandboxModeSetting.wireNames : List String :=
  ["enable", "forward_spam", "spam_check"]

/-- Decoding of a value into field `i` of a `SandboxModeSetting` holding `x`. -/
def SandboxModeSetting.decodeField : Nat → SandboxModeSetting → JSON → Except JSONError SandboxModeSetting
  | 0, x, v =>
    match decodePtr (decodeBool "SandboxModeSetting.enable") false x.Enable v with
    | .error e => .error e
    | .ok y => .ok { x with Enable := y }
  | 1, x, v =>
    match decodePtr (decodeBool "SandboxModeSetting.forward_spam") false x.ForwardSpam v with
    | .error e => .error e
    | .ok y => .ok { x with ForwardSpam := y }
  | 2, x, v =>
    match decodePtr apiv3.SpamCheckSetting.unmarshalValue apiv3.SpamCheckSetting.zero x.SpamCheck v with
    | .error e => .error e
    | .ok y => .ok { x with SpamCheck := y }
  | _, x, _ => .ok x

/-- Go `json.Unmarshal` of a JSON value into a `SandboxModeSetting` holding `x`. -/
def SandboxModeSetting.unmarshalValue (x : SandboxModeSetting) (j : JSON) : Except JSONError SandboxModeSetting :=
  unmarshalStruct "SandboxModeSetting" apiv3.SandboxModeSetting.wireNames apiv3.SandboxModeSetting.decodeField x j

/-- Zero value of `GASetting`. -/
def GASetting.zero : GASetting :=
  { Enable := none, CampaignSource := "", CampaignTerm := "", CampaignContent := "",
    CampaignName := "", CampaignMedium := "" }

/-- Wire names of the fields of `GASetting`, in declaration order. -/
def GASetting.wireNames : List String :=
  ["enable", "utm_source", "utm_term", "utm_content", "utm_campaign", "utm_medium"]

/-- Decoding of a value into field `i` of a `GASetting` holding `x`. -/
def GASetting.decodeField : Nat → GASetting → JSON → Except JSONError GASetting
  | 0, x, v =>
    match decodePtr (decodeBool "GASetting.enable") false x.Enable v with
    | .error e => .error e
    | .ok y => .ok { x with Enable := y }
  | 1, x, v =>
    match decodeString "GASetting.utm_source" x.CampaignSource v with
    | .error e => .error e
    | .ok y => .ok { x with CampaignSource := y }
  | 2, x, v =>
    match decodeString "GASetting.utm_term" x.CampaignTerm v with
    | .error e => .error e
    | .ok y => .ok { x with CampaignTerm := y }
  | 3, x, v =>
    match decodeString "GASetting.utm_content" x.CampaignContent v with
    | .error e => .error e
    | .ok y => .ok { x with CampaignContent := y }
  | 4, x, v =>
    match decodeString "GASetting.utm_campaign" x.CampaignName v with
    | .error e => .error e
    | .ok y => .ok { x with CampaignName := y }
  | 5, x, v =>
    match decodeString "GASetting.utm_medium" x.CampaignMedium v with
    | .error e => .error e
    | .ok y => .ok { x with CampaignMedium := y }
  | _, x, _ => .ok x

/-- Go `json.Unmarshal` of a JSON value into a `GASetting` holding `x`. -/
def GASetting.unmarshalValue (x : GASetting) (j : JSON) : Except JSONError GASetting :=
  unmarshalStruct "GASetting" apiv3.GASetting.wireNames apiv3.GASetting.decodeField x j

/-- Zero value of `MailSettings`. -/
def MailSettings.zero : MailSettings :=
  { BCC := none, BypassListManagement := none, Footer := none, SandboxMode := none,
    SpamCheckSetting := none }

/-- Wire names of the fields of `MailSettings`, in declaration order. -/
def MailSettings.wireNames : List String :=
  ["bcc", "bypass_list_management", "footer", "sandbox_mode", "spam_check"]

/-- Decoding of a value into field `i` of a `MailSettings` holding `x`. -/
def MailSettings.decodeField : Nat → MailSettings → JSON → Except JSONError MailSettings
  | 0, x, v =>
    match decodePtr apiv3.BCCSetting.unmarshalValue apiv3.BCCSetting.zero x.BCC v with
    | .error e => .error e
    | .ok y => .ok { x with BCC := y }
  | 1, x, v =>
    match decodePtr apiv3.Setting.unmarshalValue apiv3.Setting.zero x.BypassListManagement v with
    | .error e => .error e
    | .ok y => .ok { x with BypassListManagement := y }
  | 2, x, v =>
    match decodePtr apiv3.FooterSetting.unmarshalValue apiv3.FooterSetting.zero x.Footer v with
    | .error e => .error e
    | .ok y => .ok { x with Footer := y }
  | 3, x, v =>
    match decodePtr apiv3.Setting.unmarshalValue apiv3.Setting.zero x.SandboxMode v with
    | .error e => .error e
    | .ok y => .ok { x with SandboxMode := y }
  | 4, x, v =>
    match decodePtr apiv3.SpamCheckSetting.unmarshalValue apiv3.SpamCheckSetting.zero x.SpamCheckSetting v with
    | .error e => .error e
    | .ok y => .ok { x with SpamCheckSetting := y }
  | _, x, _ => .ok x

/-- Go `json.Unmarshal` of a JSON value into a `MailSettings` holding `x`. -/
def MailSettings.unmarshalValue (x : MailSettings) (j : JSON) : Except JSONError MailSettings :=
  unmarshalStruct "MailSettings" apiv3.MailSettings.wireNames apiv3.MailSettings.decodeField x j

/-- Zero value of `TrackingSettings`. -/
def TrackingSettings.zero : TrackingSettings :=
  { ClickTracking := none, OpenTracking := none, SubscriptionTracking := none,
    GoogleAnalytics := none, BCC := none, BypassListManagement := none, Footer := none,
    SandboxMode := none }

/-- Wire names of the fields of `TrackingSettings`, in declaration order. -/
def TrackingSettings.wireNames : List String :=
  ["click_tracking", "open_tracking", "subscription_tracking", "ganalytics", "bcc",
    "bypass_list_management", "footer", "sandbox_mode"]

/-- Decoding of a value into field `i` of a `TrackingSettings` holding `x`. -/
def TrackingSettings.decodeField : Nat → TrackingSettings → JSON → Except JSONError TrackingSettings
  | 0, x, v =>
    match decodePtr apiv3.ClickTrackingSetting.unmarshalValue apiv3.ClickTrackingSetting.zero x.ClickTracking v with
    | .error e => .error e
    | .ok y => .ok { x with ClickTracking := y }
  | 1, x, v =>
    match decodePtr apiv3.OpenTrackingSetting.unmarshalValue apiv3.OpenTrackingSetting.zero x.OpenTracking v with
    | .error e => .error e
    | .ok y => .ok { x with OpenTracking := y }
  | 2, x, v =>
    match decodePtr apiv3.SubscriptionTrackingSetting.unmarshalValue apiv3.SubscriptionTrackingSetting.zero x.SubscriptionTracking v with
    | .error e => .error e
    | .ok y => .ok { x with SubscriptionTracking := y }
  | 3, x, v =>
    match decodePtr apiv3.GASetting.unmarshalValue apiv3.GASetting.zero x.GoogleAnalytics v with
    | .error e => .error e
    | .ok y => .ok { x with GoogleAnalytics := y }
  | 4, x, v =>
    match decodePtr apiv3.BCCSetting.unmarshalValue apiv3.BCCSetting.zero x.BCC v with
    | .error e => .error e
    | .ok y => .ok { x with BCC := y }
  | 5, x, v =>
    match decodePtr apiv3.Setting.unmarshalValue apiv3.Setting.zero x.BypassListManagement v with
    | .error e => .error e
    | .ok y => .ok { x with BypassListManagement := y }
  | 6, x, v =>
    match decodePtr apiv3.FooterSetting.unmarshalValue apiv3.FooterSetting.zero x.Footer v with
    | .error e => .error e
    | .ok y => .ok { x with Footer := y }
  | 7, x, v =>
    match decodePtr apiv3.SandboxModeSetting.unmarshalValue apiv3.SandboxModeSetting.zero x.SandboxMode v with
    | .error e => .error e
    | .ok y => .ok { x with SandboxMode := y }
  | _, x, _ => .ok x

/-- Go `json.Unmarshal` of a JSON value into a `TrackingSettings` holding `x`. -/
def TrackingSettings.unmarshalValue (x : TrackingSettings) (j : JSON) : Except JSONError TrackingSettings :=
  unmarshalStruct "TrackingSettings" apiv3.TrackingSettings.wireNames apiv3.TrackingSettings.decodeField x j

/-- Zero value of `Personalization`. -/
def Personalization.zero : Personalization :=
  { To := none, CC := none, BCC := none, Subject := "", Headers := none, Substitutions := none,
    CustomArgs := none, SendAt := 0, DynamicTemplateData := none, Categories := none }

/-- Wire names of the fields of `Personalization`, in declaration order. -/
def Personalization.wireNames : List String :=
  ["to", "cc", "bcc", "subject", "headers", "substitutions", "custom_args", "send_at",
    "dynamic_template_data", "categories"]

/-- Decoding of a value into field `i` of a `Personalization` holding `x`. -/
def Personalization.decodeField : Nat → Personalization → JSON → Except JSONError Personalization
  | 0, x, v =>
    match decodeSlice "Personalization.to" (decodePtr apiv3.Email.unmarshalValue apiv3.Email.zero) none x.To v with
    | .error e => .error e
    | .ok y => .ok { x with To := y }
  | 1, x, v =>
    match decodeSlice "Personalization.cc" (decodePtr apiv3.Email.unmarshalValue apiv3.Email.zero) none x.CC v with
    | .error e => .error e
    | .ok y => .ok { x with CC := y }
  | 2, x, v =>
    match decodeSlice "Personalization.bcc" (decodePtr apiv3.Email.unmarshalValue apiv3.Email.zero) none x.BCC v with
    | .error e => .error e
    | .ok y => .ok { x with BCC := y }
  | 3, x, v =>
    match decodeString "Personalization.subject" x.Subject v with
    | .error e => .error e
    | .ok y => .ok { x with Subject := y }
  | 4, x, v =>
    match decodeMap "Personalization.headers" (decodeString "Personalization.headers" "") x.Headers v with
    | .error e => .error e
    | .ok y => .ok { x with Headers := y }
  | 5, x, v =>
    match decodeMap "Personalization.substitutions" (decodeString "Personalization.substitutions" "") x.Substitutions v with
    | .error e => .error e
    | .ok y => .ok { x with Substitutions := y }
  | 6, x, v =>
    match decodeMap "Personalization.custom_args" (decodeString "Personalization.custom_args" "") x.CustomArgs v with
    | .error e => .error e
    | .ok y => .ok { x with CustomArgs := y }
  | 7, x, v =>
    match decodeInt "Personalization.send_at" x.SendAt v with
    | .error e => .error e
    | .ok y => .ok { x with SendAt := y }
  | 8, x, v =>
    match decodeMap "Personalization.dynamic_template_data" decodeAny x.DynamicTemplateData v with
    | .error e => .error e
    | .ok y => .ok { x with DynamicTemplateData := y }
  | 9, x, v =>
    match decodeSlice "Personalization.categories" (decodeString "Personalization.categories") "" x.Categories v with
    | .error e => .error e
    | .ok y => .ok { x with Categories := y }
  | _, x, _ => .ok x

/-- Go `json.Unmarshal` of a JSON value into a `Personalization` holding `x`. -/
def Personalization.unmarshalValue (x : Personalization) (j : JSON) : Except JSONError Personalization :=
  unmarshalStruct "Personalization" apiv3.Personalization.wireNames apiv3.Personalization.decodeField x j

/-- Zero value of `MailV3`. -/
def MailV3.zero : MailV3 :=
  { Personalizations := none, From := none, Subject := "", Content := none, ReplyTo := none,
    Attachments := none, TemplateID := "", Sections := none, Headers := none,
    Categories := none, CustomArgs := none, SendAt := 0, BatchID := "", ASM := none,
    IPPoolName := "", MailSettings := none, TrackingSettings := none }

/-- Wire names of the fields of `MailV3`, in declaration order. -/
def MailV3.wireNames : List String :=
  ["personalizations", "from", "subject", "content", "reply_to", "attachments", "template_id",
    "sections", "headers", "categories", "custom_args", "send_at", "batch_id", "asm",
    "ip_pool_name", "mail_settings", "tracking_settings"]

/-- Decoding of a value into field `i` of a `MailV3` holding `x`. -/
def MailV3.decodeField : Nat → MailV3 → JSON → Except JSONError MailV3
  | 0, x, v =>
    match decodeSlice "MailV3.personalizations" (decodePtr apiv3.Personalization.unmarshalValue apiv3.Personalization.zero) none x.Personalizations v with
    | .error e => .error e
    | .ok y => .ok { x with Personalizations := y }
  | 1, x, v =>
    match decodePtr apiv3.Email.unmarshalValue apiv3.Email.zero x.From v with
    | .error e => .error e
    | .ok y => .ok { x with From := y }
  | 2, x, v =>
    match decodeString "MailV3.subject" x.Subject v with
    | .error e => .error e
    | .ok y => .ok { x with Subject := y }
  | 3, x, v =>
    match decodeSlice "MailV3.content" (decodePtr apiv3.Content.unmarshalValue apiv3.Content.zero) none x.Content v with
    | .error e => .error e
    | .ok y => .ok { x with Content := y }
  | 4, x, v =>
    match decodePtr apiv3.Email.unmarshalValue apiv3.Email.zero x.ReplyTo v with
    | .error e => .error e
    | .ok y => .ok { x with ReplyTo := y }
  | 5, x, v =>
    match decodeSlice "MailV3.attachments" (decodePtr apiv3.Attachment.unmarshalValue apiv3.Attachment.zero) none x.Attachments v with
    | .error e => .error e
    | .ok y => .ok { x with Attachments := y }
  | 6, x, v =>
    match decodeString "MailV3.template_id" x.TemplateID v with
    | .error e => .error e
    | .ok y => .ok { x with TemplateID := y }
  | 7, x, v =>
    match decodeMap "MailV3.sections" (decodeString "MailV3.sections" "") x.Sections v with
    | .error e => .error e
    | .ok y => .ok { x with Sections := y }
  | 8, x, v =>
    match decodeMap "MailV3.headers" (decodeString "MailV3.headers" "") x.Headers v with
    | .error e => .error e
    | .ok y => .ok { x with Headers := y }
  | 9, x, v =>
    match decodeSlice "MailV3.categories" (decodeString "MailV3.categories") "" x.Categories v with
    | .error e => .error e
    | .ok y => .ok { x with Categories := y }
  | 10, x, v =>
    match decodeMap "MailV3.custom_args" (decodeString "MailV3.custom_args" "") x.CustomArgs v with
    | .error e => .error e
    | .ok y => .ok { x with CustomArgs := y }
  | 11, x, v =>
    match decodeInt "MailV3.send_at" x.SendAt v with
    | .error e => .error e
    | .ok y => .ok { x with SendAt := y }
  | 12, x, v =>
    match decodeString "MailV3.batch_id" x.BatchID v with
    | .error e => .error e
    | .ok y => .ok { x with BatchID := y }
  | 13, x, v =>
    match decodePtr apiv3.ASM.unmarshalValue apiv3.ASM.zero x.ASM v with
    | .error e => .error e
    | .ok y => .ok { x with ASM := y }
  | 14, x, v =>
    match decodeString "MailV3.ip_pool_name" x.IPPoolName v with
    | .error e => .error e
    | .ok y => .ok { x with IPPoolName := y }
  | 15, x, v =>
    match decodePtr apiv3.MailSettings.unmarshalValue apiv3.MailSettings.zero x.MailSettings v with
    | .error e => .error e
    | .ok y => .ok { x with MailSettings := y }
  | 16, x, v =>
    match decodePtr apiv3.TrackingSettings.unmarshalValue apiv3.TrackingSettings.zero x.TrackingSettings v with
    | .error e => .error e
    | .ok y => .ok { x with TrackingSettings := y }
  | _, x, _ => .ok x

/-- Go `json.Unmarshal` of a JSON value into a `MailV3` holding `x`. -/
def MailV3.unmarshalValue (x : MailV3) (j : JSON) : Except JSONError MailV3 :=
  unmarshalStruct "MailV3" apiv3.MailV3.wireNames apiv3.MailV3.decodeField x j
/-! ## Which documents a Go program can hold, and which survive decoding -/

/-- The value fits a Go `int` (64 bits). -/
def inInt64 (n : Int) : Prop := -9223372036854775808 ≤ n ∧ n ≤ 9223372036854775807

/-- Every integer of the `ASM` fits a Go `int`. -/
def ASM.intsFit (a : ASM) : Prop :=
  inInt64 a.GroupID ∧ ∀ n ∈ sliceElems a.GroupsToDisplay, inInt64 n

/-- The threshold fits a Go `int`. -/
def SpamCheckSetting.intsFit (s : SpamCheckSetting) : Prop := inInt64 s.SpamThreshold

/-- Every integer of the setting fits a Go `int`. -/
def SandboxModeSetting.intsFit (s : SandboxModeSetting) : Prop :=
  ∀ sc, s.SpamCheck = some sc → sc.intsFit

/-- Every integer of the settings fits a Go `int`. -/
def MailSettings.intsFit (m : MailSettings) : Prop :=
  ∀ sc, m.SpamCheckSetting = some sc → sc.intsFit

/-- Every integer of the settings fits a Go `int`. -/
def TrackingSettings.intsFit (t : TrackingSettings) : Prop :=
  ∀ sb, t.SandboxMode = some sb → sb.intsFit

/-- The send time fits a Go `int`. -/
def Personalization.intsFit (p : Personalization) : Prop := inInt64 p.SendAt

/-- Every value of the dynamic template data comes back, up to key ordering, when it is
decoded into `interface{}` and encoded again. -/
def Personalization.dynamicDataStable (p : Personalization) : Prop :=
  ∀ d, p.DynamicTemplateData = some d → ∀ e ∈ d.entries,
    ∃ v, decodeAny e.2 = .ok v ∧ JSON.canon v = JSON.canon e.2

/-- Every integer of the document fits a Go `int`. -/
def MailV3.intsFit (m : MailV3) : Prop :=
  inInt64 m.SendAt ∧ (∀ a, m.ASM = some a → a.intsFit) ∧
    (∀ s, m.MailSettings = some s → s.intsFit) ∧
    (∀ t, m.TrackingSettings = some t → t.intsFit) ∧
    (∀ p, some p ∈ sliceElems m.Personalizations → p.intsFit)

/-- The dynamic template data of every personalization of the document survives decoding. -/
def MailV3.dynamicDataStable (m : MailV3) : Prop :=
  ∀ p, some p ∈ sliceElems m.Personalizations → p.dynamicDataStable

/-- A dynamic value made of `null`, booleans, strings, integers of magnitude below 2^53,
arrays of such values and objects of such values under pairwise distinct keys. -/
inductive PlainValue : JSON → Prop where
  | null : PlainValue JSON.null
  | bool (b : Bool) : PlainValue (JSON.bool b)
  | str (s : String) : PlainValue (JSON.str s)
  | num (n : Int) (h : n.natAbs < 9007199254740992) : PlainValue (JSON.num n)
  | arr (xs : List JSON) (h : ∀ x ∈ xs, PlainValue x) : PlainValue (JSON.arr xs)
  | obj (ms : List (String × JSON)) (hk : (ms.map Prod.fst).Nodup)
      (h : ∀ e ∈ ms, PlainValue e.2) : PlainValue (JSON.obj ms)

/-- Every value of the dynamic template data of every personalization is a `PlainValue`. -/
def MailV3.dynamicDataPlain (m : MailV3) : Prop :=
  ∀ p, some p ∈ sliceElems m.Personalizations → ∀ d, p.DynamicTemplateData = some d →
    ∀ e ∈ d.entries, PlainValue e.2

/-- The order in which the encoder emits the entries of a map. -/
abbrev keyOrder {β : Type} (a b : String × β) : Prop := keyLE a.1 b.1 = true

/-- Whether the call is `SetSendAt`. -/
def MailV3.Op.isSetSendAt : MailV3.Op → Bool
  | .SetSendAt _ => true
  | _ => false

/-! ## Objects behind pointers -/

/-- The objects of struct type `α` that a program holds, by address. -/
abbrev Store (α : Type) := Nat → Option α

/-- Go pointer to a struct: nil, or the address of an object. -/
abbrev Ptr := Option Nat

/-- The store with the object at address `a` replaced by `v`. -/
def Store.write {α : Type} (h : Store α) (a : Nat) (v : α) : Store α :=
  fun b => if b = a then some v else h b

/-- A method body: it runs on the store, may panic, and returns a value. -/
abbrev Method (α β : Type) := StateT (Store α) (Except Panic) β

/-- Go `p.F = x` for a pointer `p`: the object `p` points at is replaced by `assign` of it;
the assignment panics when `p` is nil. -/
def assignThrough {α : Type} (p : Ptr) (assign : α → α) : Method α Unit := fun h =>
  match p with
  | none => .error .nilPointer
  | some a =>
    match h a with
    | none => .error .nilPointer
    | some v => .ok ((), h.write a (assign v))

/-- SetFrom with its pointer receiver: `m.From = e; return m`. -/
def heap.MailV3.SetFrom (m : Ptr) (e : Option Email) : Method MailV3 Ptr := do
  assignThrough m (fun v => { v with From := e })
  return m

/-- SetReplyTo with its pointer receiver: `m.ReplyTo = e; return m`. -/
def heap.MailV3.SetReplyTo (m : Ptr) (e : Option Email) : Method MailV3 Ptr := do
  assignThrough m (fun v => { v with ReplyTo := e })
  return m

/-- SetTemplateID with its pointer receiver: `m.TemplateID = templateID; return m`. -/
def heap.MailV3.SetTemplateID (m : Ptr) (templateID : String) : Method MailV3 Ptr := do
  assignThrough m (fun v => { v with TemplateID := templateID })
  return m

/-- SetSendAt with its pointer receiver: `m.SendAt = sendAt; return m`. -/
def heap.MailV3.SetSendAt (m : Ptr) (sendAt : Int) : Method MailV3 Ptr := do
  assignThrough m (fun v => { v with SendAt := sendAt })
  return m

/-- SetBatchID with its pointer receiver: `m.BatchID = batchID; return m`. -/
def heap.MailV3.SetBatchID (m : Ptr) (batchID : String) : Method MailV3 Ptr := do
  assignThrough m (fun v => { v with BatchID := batchID })
  return m

/-- SetASM with its pointer receiver: `m.ASM = asm; return m`. -/
def heap.MailV3.SetASM (m : Ptr) (asm : Option apiv3.ASM) : Method MailV3 Ptr := do
  assignThrough m (fun v => { v with ASM := asm })
  return m

/-- SetIPPoolName with its pointer receiver: `m.IPPoolName = IPPoolName; return m`. -/
def heap.MailV3.SetIPPoolName (m : Ptr) (IPPoolName : String) : Method MailV3 Ptr := do
  assignThrough m (fun v => { v with IPPoolName := IPPoolName })
  return m

/-- SetMailSettings with its pointer receiver: `m.MailSettings = mailSettings; return m`. -/
def heap.MailV3.SetMailSettings (m : Ptr) (mailSettings : Option apiv3.MailSettings) :
    Method MailV3 Ptr := do
  assignThrough m (fun v => { v with MailSettings := mailSettings })
  return m

/-- SetTrackingSettings with its pointer receiver:
`m.TrackingSettings = trackingSettings; return m`. -/
def heap.MailV3.SetTrackingSettings (m : Ptr)
    (trackingSettings : Option apiv3.TrackingSettings) : Method MailV3 Ptr := do
  assignThrough m (fun v => { v with TrackingSettings := trackingSettings })
  return m

/-- SetContent with its pointer receiver: `a.Content = content; return a`. -/
def heap.Attachment.SetContent (a : Ptr) (content : String) : Method Attachment Ptr := do
  assignThrough a (fun v => { v with Content := content })
  return a

/-- SetType with its pointer receiver: `a.Type = contentType; return a`. -/
def heap.Attachment.SetType (a : Ptr) (contentType : String) : Method Attachment Ptr := do
  assignThrough a (fun v => { v with Type_ := contentType })
  return a

/-- SetFilename with its pointer receiver: `a.Filename = filename; return a`. -/
def heap.Attachment.SetFilename (a : Ptr) (filename : String) : Method Attachment Ptr := do
  assignThrough a (fun v => { v with Filename := filename })
  return a

/-- SetDisposition with its pointer receiver: `a.Disposition = disposition; return a`. -/
def heap.Attachment.SetDisposition (a : Ptr) (disposition : String) :
    Method Attachment Ptr := do
  assignThrough a (fun v => { v with Disposition := disposition })
  return a

/-- SetContentID with its pointer receiver: `a.ContentID = contentID; return a`. -/
def heap.Attachment.SetContentID (a : Ptr) (contentID : String) : Method Attachment Ptr := do
  assignThrough a (fun v => { v with ContentID := contentID })
  return a

/-- SetGroupID with its pointer receiver: `a.GroupID = groupID; return a`. -/
def heap.ASM.SetGroupID (a : Ptr) (groupID : Int) : Method ASM Ptr := do
  assignThrough a (fun v => { v with GroupID := groupID })
  return a

/-- SetCampaignSource with its pointer receiver: `g.CampaignSource = campaignSource;
return g`. -/
def heap.GASetting.SetCampaignSource (g : Ptr) (campaignSource : String) :
    Method GASetting Ptr := do
  assignThrough g (fun v => { v with CampaignSource := campaignSource })
  return g

/-- SetCampaignContent with its pointer receiver: `g.CampaignContent = campaignContent;
return g`. -/
def heap.GASetting.SetCampaignContent (g : Ptr) (campaignContent : String) :
    Method GASetting Ptr := do
  assignThrough g (fun v => { v with CampaignContent := campaignContent })
  return g

/-- SetCampaignTerm with its pointer receiver: `g.CampaignTerm = campaignTerm; return g`. -/
def heap.GASetting.SetCampaignTerm (g : Ptr) (campaignTerm : String) :
    Method GASetting Ptr := do
  assignThrough g (fun v => { v with CampaignTerm := campaignTerm })
  return g

/-- SetCampaignName with its pointer receiver: `g.CampaignName = campaignName; return g`. -/
def heap.GASetting.SetCampaignName (g : Ptr) (campaignName : String) :
    Method GASetting Ptr := do
  assignThrough g (fun v => { v with CampaignName := campaignName })
  return g

/-- SetCampaignMedium with its pointer receiver: `g.CampaignMedium = campaignMedium;
return g`. -/
def heap.GASetting.SetCampaignMedium (g : Ptr) (campaignMedium : String) :
    Method GASetting Ptr := do
  assignThrough g (fun v => { v with CampaignMedium := campaignMedium })
  return g

/-- What the specification asks of a fluent setter `call`, for the field assignment `assign`:
called on a pointer to an object `v`, it completes; the pointer it returns is the receiver;
the object at that address is `assign v`; and no other object of the store has changed. -/
def ReturnsMutatedReceiver {α : Type} (call : Ptr → Method α Ptr) (assign : α → α) : Prop :=
  ∀ (h : Store α) (a : Nat) (v : α), h a = some v →
    ∃ h1, call (some a) h = .ok (some a, h1) ∧ h1 a = some (assign v) ∧
      ∀ b, b ≠ a → h1 b = h b

/-! ## The RFC 822 address parser behind ParseEmail -/

/-- Modelled from the spec: `net/mail.ParseAddress` is not under src/. White space inside an
address: space and tab. -/
def mail.isWSP (r : Char) : Bool := r = ' ' || r = '\t'

/-- Modelled from the spec: a visible character, printable ASCII or any character beyond
ASCII. -/
def mail.isVchar (r : Char) : Bool := (33 ≤ r.toNat && r.toNat ≤ 126) || 128 ≤ r.toNat

/-- Modelled from the spec: the characters of an atom of the RFC 822 grammar. The dot counts
when `dot` is set; the specials `( ) [ ] ; @ \ ,` count only in a display name
(`permissive`); `<`, `>`, `"` and `:` never count. -/
def mail.isAtext (r : Char) (dot permissive : Bool) : Bool :=
  if r = '.' then dot
  else if r ∈ ['(', ')', '[', ']', ';', '@', Char.ofNat 92, ','] then permissive
  else if r ∈ ['<', '>', Char.ofNat 34, ':'] then false
  else mail.isVchar r

/-- Modelled from the spec: the characters allowed unescaped inside a quoted string. -/
def mail.isQtext (r : Char) : Bool :=
  if r = Char.ofNat 92 || r = Char.ofNat 34 then false else mail.isVchar r

/-- Modelled from the spec: skip leading white space. -/
def mail.skipSpace (s : List Char) : List Char := s.dropWhile mail.isWSP

/-- Modelled from the spec: whether two dots follow each other. -/
def mail.hasDoubleDot : List Char → Bool
  | '.' :: '.' :: _ => true
  | _ :: rest => mail.hasDoubleDot rest
  | [] => false

/-- Modelled from the spec: read an atom, the longest run of atom characters; it must not be
empty and, outside a display name, must not start or end with a dot or hold two dots in a
row. Returns the atom and the rest of the input. -/
def mail.consumeAtom (dot permissive : Bool) (s : List Char) :
    Except String (String × List Char) :=
  let atom := s.takeWhile (fun r => mail.isAtext r dot permissive)
  let rest := s.dropWhile (fun r => mail.isAtext r dot permissive)
  if atom.isEmpty then .error "mail: invalid string"
  else if !permissive && atom.head? = some '.' then .error "mail: leading dot in atom"
  else if !permissive && mail.hasDoubleDot atom then .error "mail: double dot in atom"
  else if !permissive && atom.getLast? = some '.' then .error "mail: trailing dot in atom"
  else .ok (String.mk atom, rest)

/-- Modelled from the spec: the inside of a quoted string, read up to the closing quote;
`escaped` says that the previous character was a backslash, `acc` holds the characters read
so far, last first. -/
def mail.quotedText : Bool → List Char → List Char → Except String (String × List Char)
  | _, _, [] => .error "mail: unclosed quoted-string"
  | true, acc, r :: rest =>
    if mail.isVchar r || mail.isWSP r then mail.quotedText false (r :: acc) rest
    else .error "mail: bad character in quoted-string"
  | false, acc, r :: rest =>
    if mail.isQtext r || mail.isWSP r then mail.quotedText false (r :: acc) rest
    else if r = Char.ofNat 34 then .ok (String.mk acc.reverse, rest)
    else if r = Char.ofNat 92 then mail.quotedText true acc rest
    else .error "mail: bad character in quoted-string"

/-- Modelled from the spec: read a quoted string; the input starts at its opening quote. -/
def mail.consumeQuotedString (s : List Char) : Except String (String × List Char) :=
  mail.quotedText false [] s.tail

/-- Modelled from the spec: read `local-part "@" domain`. The local part is a dot-atom or a
non-empty quoted string, the domain a dot-atom. -/
def mail.consumeAddrSpec (s0 : List Char) : Except String (String × List Char) :=
  let s := mail.skipSpace s0
  if s.isEmpty then .error "mail: no addr-spec"
  else
    let localPart : Except String (String × List Char) :=
      if s.head? = some (Char.ofNat 34) then
        match mail.consumeQuotedString s with
        | .error e => .error e
        | .ok (q, r) =>
          if q = "" then .error "mail: empty quoted string in addr-spec" else .ok (q, r)
      else mail.consumeAtom true false s
    match localPart with
    | .error e => .error e
    | .ok (l, s1) =>
      match s1 with
      | '@' :: s2 =>
        if (mail.skipSpace s2).isEmpty then .error "mail: no domain in addr-spec"
        else
          match mail.consumeAtom true false (mail.skipSpace s2) with
          | .error e => .error e
          | .ok (domain, s3) => .ok (l ++ "@" ++ domain, s3)
      | _ => .error "mail: missing @ in addr-spec"

/-- Modelled from the spec: read the words of a display name, atoms or quoted strings
separated by white space, until the input ends or something else follows. Returns the words,
the rest of the input and the error that stopped the reading, if any. -/
def mail.consumeWords : Nat → List Char → List String × List Char × Option String
  | 0, s => ([], s, none)
  | fuel + 1, s0 =>
    let s := mail.skipSpace s0
    if s.isEmpty then ([], s, none)
    else
      match (if s.head? = some (Char.ofNat 34) then mail.consumeQuotedString s
             else mail.consumeAtom true true s) with
      | .error e => ([], s, some e)
      | .ok (w, rest) =>
        match mail.consumeWords fuel rest with
        | (ws, r, e) => (w :: ws, r, e)

/-- Modelled from the spec: read a display name, one word or more, joined by single
spaces. -/
def mail.consumePhrase (s : List Char) : Except String (String × List Char) :=
  match mail.consumeWords (s.length + 1) s with
  | ([], _, some e) => .error ("mail: missing word in phrase: " ++ e)
  | (ws, rest, _) => .ok (" ".intercalate ws, rest)

/-- Modelled from the spec: read one mailbox, either a bare `addr-spec` or a display name
followed by `<addr-spec>`. Returns the mailbox and the rest of the input. -/
def mail.parseAddress (s0 : List Char) : Except String (MailAddress × List Char) :=
  let s := mail.skipSpace s0
  if s.isEmpty then .error "mail: no address"
  else
    match mail.consumeAddrSpec s with
    | .ok (spec, rest) => .ok ({ Name := "", Address := spec }, rest)
    | .error _ =>
      match (if s.head? = some '<' then .ok ("", s) else mail.consumePhrase s) with
      | .error e => .error e
      | .ok (displayName, s1) =>
        match mail.skipSpace s1 with
        | '<' :: s2 =>
          match mail.consumeAddrSpec s2 with
          | .error e => .error e
          | .ok (spec, s3) =>
            match s3 with
            | '>' :: s4 => .ok ({ Name := displayName, Address := spec }, s4)
            | _ => .error "mail: unclosed angle-addr"
        | _ =>
          if displayName.data.all (fun r => mail.isAtext r true false) then
            .error "mail: missing \x27@\x27 or angle-addr"
          else .error "mail: no angle-addr"

/-- Modelled from the spec: the address parser `net/mail.ParseAddress` that `ParseEmail`
calls; it is standard-library code, not under src/. The specification asks for the RFC 822
mailbox grammar with both forms, `Display Name <addr@example.com>` with a plain or a quoted
display name and the bare `addr@example.com`, and a `FormatError` for anything else. The
input must hold exactly one mailbox. Parenthesised comments, groups, encoded words and domain
literals, of which the specification says nothing, are not modelled: an input using them is
rejected here. -/
def mail.ParseAddress (address : String) : Except String MailAddress :=
  match mail.parseAddress address.data with
  | .error e => .error e
  | .ok (a, rest) =>
    if (mail.skipSpace rest).isEmpty then .ok a else .error "mail: expected single address"

/-! ## Go strings as bytes -/

/-- Go `string`: an arbitrary sequence of bytes, not necessarily UTF-8. -/
abbrev GoString := List Byte

/-- UTF-8 encoding of one character. -/
def utf8EncodeChar (c : Char) : List Byte :=
  if c.toNat < 128 then [Fin.ofNat c.toNat]
  else if c.toNat < 2048 then
    [Fin.ofNat (192 + c.toNat / 64), Fin.ofNat (128 + c.toNat % 64)]
  else if c.toNat < 65536 then
    [Fin.ofNat (224 + c.toNat / 4096), Fin.ofNat (128 + c.toNat / 64 % 64),
     Fin.ofNat (128 + c.toNat % 64)]
  else
    [Fin.ofNat (240 + c.toNat / 262144), Fin.ofNat (128 + c.toNat / 4096 % 64),
     Fin.ofNat (128 + c.toNat / 64 % 64), Fin.ofNat (128 + c.toNat % 64)]

/-- UTF-8 encoding of a list of characters. -/
def utf8Encode : List Char → List Byte
  | [] => []
  | c :: cs => utf8EncodeChar c ++ utf8Encode cs

/-- The Go string that holds the text `s`: its UTF-8 encoding. The Go strings of this form
are the valid UTF-8 strings. -/
def GoString.ofText (s : String) : GoString := utf8Encode s.data

/-- Go's `first` and `acceptRanges` tables of package `unicode/utf8`: for a first byte, the
length of the sequence it starts (1 for ASCII, 0 for a byte that starts none) and the range
in which the second byte must lie. -/
def utf8First (p0 : Nat) : Nat × Nat × Nat :=
  if p0 < 128 then (1, 0, 0)
  else if p0 < 194 then (0, 0, 0)
  else if p0 < 224 then (2, 128, 191)
  else if p0 = 224 then (3, 160, 191)
  else if p0 = 237 then (3, 128, 159)
  else if p0 < 240 then (3, 128, 191)
  else if p0 = 240 then (4, 144, 191)
  else if p0 < 244 then (4, 128, 191)
  else if p0 = 244 then (4, 128, 143)
  else (0, 0, 0)

/-- Go `utf8.DecodeRune`: the code point at the head of `p` and the number of bytes it takes;
`(0xFFFD, 1)` when the head does not start a well-formed sequence. -/
def decodeRune : List Byte → Nat × Nat
  | [] => (65533, 0)
  | p0 :: rest =>
    if (utf8First p0.val).1 = 1 then (p0.val, 1)
    else if (utf8First p0.val).1 = 0 then (65533, 1)
    else if rest.length + 1 < (utf8First p0.val).1 then (65533, 1)
    else if (rest.getD 0 0).val < (utf8First p0.val).2.1 ∨
        (utf8First p0.val).2.2 < (rest.getD 0 0).val then (65533, 1)
    else if (utf8First p0.val).1 = 2 then (p0.val % 32 * 64 + (rest.getD 0 0).val % 64, 2)
    else if (rest.getD 1 0).val < 128 ∨ 191 < (rest.getD 1 0).val then (65533, 1)
    else if (utf8First p0.val).1 = 3 then
      (p0.val % 16 * 4096 + (rest.getD 0 0).val % 64 * 64 + (rest.getD 1 0).val % 64, 3)
    else if (rest.getD 2 0).val < 128 ∨ 191 < (rest.getD 2 0).val then (65533, 1)
    else
      (p0.val % 8 * 262144 + (rest.getD 0 0).val % 64 * 4096 + (rest.getD 1 0).val % 64 * 64
        + (rest.getD 2 0).val % 64, 4)

/-- The characters `encoding/json` writes for the bytes of a Go string: each well-formed UTF-8
sequence is its character, each byte that is not part of one is U+FFFD. `fuel` bounds the
number of characters; the length of the input is enough. -/
def jsonRunes : Nat → List Byte → List Char
  | 0, _ => []
  | _ + 1, [] => []
  | fuel + 1, b :: rest =>
    Char.ofNat (decodeRune (b :: rest)).1 ::
      jsonRunes fuel ((b :: rest).drop (decodeRune (b :: rest)).2)

/-- The text `encoding/json` writes for a Go string: the string coerced to valid UTF-8. -/
def GoString.jsonText (b : GoString) : String := String.mk (jsonRunes b.length b)

/-! ## The document with its strings as bytes

The definitions of this part repeat the data model with every Go string held as the bytes it
is made of, so that strings that are not valid UTF-8 have a value too. The text model
above is this model restricted to valid UTF-8: there a Go string is the text it encodes. -/

namespace raw

/-- Replace the binding of `k` in place, or add it at the end when `k` is unbound. -/
def upsertEntries {β : Type} (k : GoString) (v : β) :
    List (GoString × β) → List (GoString × β)
  | [] => [(k, v)]
  | (k', v') :: rest =>
    if k' = k then (k, v) :: rest else (k', v') :: upsertEntries k v rest

theorem upsertEntries_keys_raw {β : Type} (k : GoString) (v : β) (l : List (GoString × β)) :
    (upsertEntries k v l).map Prod.fst =
      if k ∈ l.map Prod.fst then l.map Prod.fst else l.map Prod.fst ++ [k] := by
  induction l with
  | nil => simp [upsertEntries]
  | cons hd tl ih =>
    obtain ⟨k', v'⟩ := hd
    by_cases h : k' = k
    · subst h; simp [upsertEntries]
    · have h' : ¬ k = k' := fun e => h e.symm
      simp only [upsertEntries, if_neg h, List.map_cons, ih, List.mem_cons, h', false_or]
      split <;> simp

theorem upsertEntries_nodup_raw {β : Type} (k : GoString) (v : β) (l : List (GoString × β))
    (h : (l.map Prod.fst).Nodup) : ((upsertEntries k v l).map Prod.fst).Nodup := by
  rw [upsertEntries_keys_raw]
  split
  · exact h
  · rename_i hk
    refine List.Nodup.append h (List.nodup_singleton k) ?_
    intro a ha hb
    rw [List.mem_singleton] at hb
    exact hk (hb ▸ ha)

/-- Allocated Go map with string keys: bindings with pairwise distinct keys, the keys
compared as byte strings. -/
structure GoMapData (β : Type) where
  entries : List (GoString × β)
  nodup : (entries.map Prod.fst).Nodup

/-- Go `make(map[string]T)`: an allocated map with no binding. -/
def GoMapData.empty {β : Type} : apiv3.raw.GoMapData β := ⟨[], List.nodup_nil⟩

/-- Go `m[k] = v` on an allocated map. -/
def GoMapData.set {β : Type} (m : apiv3.raw.GoMapData β) (k : GoString) (v : β) :
    apiv3.raw.GoMapData β :=
  ⟨upsertEntries k v m.entries, upsertEntries_nodup_raw k v m.entries m.nodup⟩

/-- Go map: `none` is the nil map, `some d` an allocated one. -/
abbrev GoMap (β : Type) := Option (apiv3.raw.GoMapData β)

/-- Go `len(m)` for a map; the nil map has length 0. -/
def mapLen {β : Type} (m : apiv3.raw.GoMap β) : Nat :=
  match m with
  | none => 0
  | some d => d.entries.length

/-- Go `m[k] = v`: panics with "assignment to entry in nil map" on the nil map. -/
def mapAssign {β : Type} (m : apiv3.raw.GoMap β) (k : GoString) (v : β) :
    Except Panic (apiv3.raw.GoMap β) :=
  match m with
  | none => .error .nilMapWrite
  | some d => .ok (some (d.set k v))

/-- Encoding of a Go string: the JSON string that holds the string coerced to valid
UTF-8. -/
def encString (s : GoString) : JSON := .str s.jsonText

/-- String field tagged `omitempty`: left out when the string has length 0. -/
def omitemptyString (key : String) (s : GoString) : List (String × JSON) :=
  if s = [] then [] else [(key, encString s)]

/-- Order in which the keys of a map are emitted: the keys sorted as byte strings. -/
def keyLE (a b : GoString) : Bool := decide (¬ b < a)

/-- Encoding of an allocated map: an object with the members in the order of the sorted
keys, each key written coerced to valid UTF-8. Two keys may be written alike. -/
def encMapData {β : Type} (enc : β → JSON) (d : apiv3.raw.GoMapData β) : JSON :=
  .obj ((d.entries.insertionSort (fun a b => keyLE a.1 b.1)).map
    (fun e => (e.1.jsonText, enc e.2)))

/-- Encoding of a map: the nil map is `null`, otherwise an object. -/
def encMap {β : Type} (enc : β → JSON) : apiv3.raw.GoMap β → JSON
  | none => .null
  | some d => encMapData enc d

/-- Map field tagged `omitempty`: left out when its length is 0. -/
def omitemptyMap {β : Type} (key : String) (enc : β → JSON) (m : apiv3.raw.GoMap β) :
    List (String × JSON) :=
  if mapLen m = 0 then [] else [(key, encMap enc m)]

/-- Email holds email name and address info; every string is held as its bytes. -/
structure Email where
  Name : GoString
  Address : GoString

/-- Wire form of `Email`, by its field tags. -/
def Email.toJSON (x : apiv3.raw.Email) : JSON :=
  .obj (omitemptyString "name" x.Name ++
    omitemptyString "email" x.Address)

/-- Content defines content of the mail body; every string is held as its bytes. -/
structure Content where
  Type_ : GoString
  Value : GoString

/-- Wire form of `Content`, by its field tags. -/
def Content.toJSON (x : apiv3.raw.Content) : JSON :=
  .obj (omitemptyString "type" x.Type_ ++
    omitemptyString "value" x.Value)

/-- Attachment holds attachment information; every string is held as its bytes. -/
structure Attachment where
  Content : GoString
  Type_ : GoString
  Name : GoString
  Filename : GoString
  Disposition : GoString
  ContentID : GoString

/-- Wire form of `Attachment`, by its field tags. -/
def Attachment.toJSON (x : apiv3.raw.Attachment) : JSON :=
  .obj (omitemptyString "content" x.Content ++
    omitemptyString "type" x.Type_ ++
    omitemptyString "name" x.Name ++
    omitemptyString "filename" x.Filename ++
    omitemptyString "disposition" x.Disposition ++
    omitemptyString "content_id" x.ContentID)

/-- ASM contains the group id and the ids of the groups to display; every string is held as its bytes. -/
structure ASM where
  GroupID : Int
  GroupsToDisplay : GoSlice Int

/-- Wire form of `ASM`, by its field tags. -/
def ASM.toJSON (x : apiv3.raw.ASM) : JSON :=
  .obj (omitemptyInt "group_id" x.GroupID ++
    omitemptySlice "groups_to_display" JSON.num x.GroupsToDisplay)

/-- Setting enables the mail settings; every string is held as its bytes. -/
structure Setting where
  Enable : Option Bool

/-- Wire form of `Setting`, by its field tags. -/
def Setting.toJSON (x : apiv3.raw.Setting) : JSON :=
  .obj (omitemptyPtr "enable" JSON.bool x.Enable)

/-- BCCSetting holds email bcc settings; its `Email` field carries no json tag; every string is held as its bytes. -/
structure BCCSetting where
  Enable : Option Bool
  Email : GoString

/-- Wire form of `BCCSetting`, by its field tags. -/
def BCCSetting.toJSON (x : apiv3.raw.BCCSetting) : JSON :=
  .obj (omitemptyPtr "enable" JSON.bool x.Enable ++
    fieldAlways "Email" (encString x.Email))

/-- FooterSetting holds the footer settings; every string is held as its bytes. -/
structure FooterSetting where
  Enable : Option Bool
  Text : GoString
  HTML : GoString

/-- Wire form of `FooterSetting`, by its field tags. -/
def FooterSetting.toJSON (x : apiv3.raw.FooterSetting) : JSON :=
  .obj (omitemptyPtr "enable" JSON.bool x.Enable ++
    omitemptyString "text" x.Text ++
    omitemptyString "html" x.HTML)

/-- ClickTrackingSetting; every string is held as its bytes. -/
structure ClickTrackingSetting where
  Enable : Option Bool
  EnableText : Option Bool

/-- Wire form of `ClickTrackingSetting`, by its field tags. -/
def ClickTrackingSetting.toJSON (x : apiv3.raw.ClickTrackingSetting) : JSON :=
  .obj (omitemptyPtr "enable" JSON.bool x.Enable ++
    omitemptyPtr "enable_text" JSON.bool x.EnableText)

/-- OpenTrackingSetting; every string is held as its bytes. -/
structure OpenTrackingSetting where
  Enable : Option Bool
  SubstitutionTag : GoString

/-- Wire form of `OpenTrackingSetting`, by its field tags. -/
def OpenTrackingSetting.toJSON (x : apiv3.raw.OpenTrackingSetting) : JSON :=
  .obj (omitemptyPtr "enable" JSON.bool x.Enable ++
    omitemptyString "substitution_tag" x.SubstitutionTag)

/-- SubscriptionTrackingSetting; every string is held as its bytes. -/
structure SubscriptionTrackingSetting where
  Enable : Option Bool
  Text : GoString
  HTML : GoString
  SubstitutionTag : GoString

/-- Wire form of `SubscriptionTrackingSetting`, by its field tags. -/
def SubscriptionTrackingSetting.toJSON (x : apiv3.raw.SubscriptionTrackingSetting) : JSON :=
  .obj (omitemptyPtr "enable" JSON.bool x.Enable ++
    omitemptyString "text" x.Text ++
    omitemptyString "html" x.HTML ++
    omitemptyString "substitution_tag" x.SubstitutionTag)

/-- SpamCheckSetting holds the spam settings; every string is held as its bytes. -/
structure SpamCheckSetting where
  Enable : Option Bool
  SpamThreshold : Int
  PostToURL : GoString

/-- Wire form of `SpamCheckSetting`, by its field tags. -/
def SpamCheckSetting.toJSON (x : apiv3.raw.SpamCheckSetting) : JSON :=
  .obj (omitemptyPtr "enable" JSON.bool x.Enable ++
    omitemptyInt "threshold" x.SpamThreshold ++
    omitemptyString "post_to_url" x.PostToURL)

/-- SandboxModeSetting; every string is held as its bytes. -/
structure SandboxModeSetting where
  Enable : Option Bool
  ForwardSpam : Option Bool
  SpamCheck : Option apiv3.raw.SpamCheckSetting

/-- Wire form of `SandboxModeSetting`, by its field tags. -/
def SandboxModeSetting.toJSON (x : apiv3.raw.SandboxModeSetting) : JSON :=
  .obj (omitemptyPtr "enable" JSON.bool x.Enable ++
    omitemptyPtr "forward_spam" JSON.bool x.ForwardSpam ++
    omitemptyPtr "spam_check" apiv3.raw.SpamCheckSetting.toJSON x.SpamCheck)

/-- GASetting (Google Analytics); every string is held as its bytes. -/
structure GASetting where
  Enable : Option Bool
  CampaignSource : GoString
  CampaignTerm : GoString
  CampaignContent : GoString
  CampaignName : GoString
  CampaignMedium : GoString

/-- Wire form of `GASetting`, by its field tags. -/
def GASetting.toJSON (x : apiv3.raw.GASetting) : JSON :=
  .obj (omitemptyPtr "enable" JSON.bool x.Enable ++
    omitemptyString "utm_source" x.CampaignSource ++
    omitemptyString "utm_term" x.CampaignTerm ++
    omitemptyString "utm_content" x.CampaignContent ++
    omitemptyString "utm_campaign" x.CampaignName ++
    omitemptyString "utm_medium" x.CampaignMedium)

/-- MailSettings defines mail settings; every string is held as its bytes. -/
structure MailSettings where
  BCC : Option apiv3.raw.BCCSetting
  BypassListManagement : Option apiv3.raw.Setting
  Footer : Option apiv3.raw.FooterSetting
  SandboxMode : Option apiv3.raw.Setting
  SpamCheckSetting : Option apiv3.raw.SpamCheckSetting

/-- Wire form of `MailSettings`, by its field tags. -/
def MailSettings.toJSON (x : apiv3.raw.MailSettings) : JSON :=
  .obj (omitemptyPtr "bcc" apiv3.raw.BCCSetting.toJSON x.BCC ++
    omitemptyPtr "bypass_list_management" apiv3.raw.Setting.toJSON x.BypassListManagement ++
    omitemptyPtr "footer" apiv3.raw.FooterSetting.toJSON x.Footer ++
    omitemptyPtr "sandbox_mode" apiv3.raw.Setting.toJSON x.SandboxMode ++
    omitemptyPtr "spam_check" apiv3.raw.SpamCheckSetting.toJSON x.SpamCheckSetting)

/-- TrackingSettings holds the tracking settings; every string is held as its bytes. -/
structure TrackingSettings where
  ClickTracking : Option apiv3.raw.ClickTrackingSetting
  OpenTracking : Option apiv3.raw.OpenTrackingSetting
  SubscriptionTracking : Option apiv3.raw.SubscriptionTrackingSetting
  GoogleAnalytics : Option apiv3.raw.GASetting
  BCC : Option apiv3.raw.BCCSetting
  BypassListManagement : Option apiv3.raw.Setting
  Footer : Option apiv3.raw.FooterSetting
  SandboxMode : Option apiv3.raw.SandboxModeSetting

/-- Wire form of `TrackingSettings`, by its field tags. -/
def TrackingSettings.toJSON (x : apiv3.raw.TrackingSettings) : JSON :=
  .obj (omitemptyPtr "click_tracking" apiv3.raw.ClickTrackingSetting.toJSON x.ClickTracking ++
    omitemptyPtr "open_tracking" apiv3.raw.OpenTrackingSetting.toJSON x.OpenTracking ++
    omitemptyPtr "subscription_tracking" apiv3.raw.SubscriptionTrackingSetting.toJSON x.SubscriptionTracking ++
    omitemptyPtr "ganalytics" apiv3.raw.GASetting.toJSON x.GoogleAnalytics ++
    omitemptyPtr "bcc" apiv3.raw.BCCSetting.toJSON x.BCC ++
    omitemptyPtr "bypass_list_management" apiv3.raw.Setting.toJSON x.BypassListManagement ++
    omitemptyPtr "footer" apiv3.raw.FooterSetting.toJSON x.Footer ++
    omitemptyPtr "sandbox_mode" apiv3.raw.SandboxModeSetting.toJSON x.SandboxMode)

/-- Personalization holds mail body struct; every string is held as its bytes. -/
structure Personalization where
  To : GoSlice (Option apiv3.raw.Email)
  CC : GoSlice (Option apiv3.raw.Email)
  BCC : GoSlice (Option apiv3.raw.Email)
  Subject : GoString
  Headers : apiv3.raw.GoMap GoString
  Substitutions : apiv3.raw.GoMap GoString
  CustomArgs : apiv3.raw.GoMap GoString
  SendAt : Int
  DynamicTemplateData : apiv3.raw.GoMap JSON
  Categories : GoSlice GoString

/-- Wire form of `Personalization`, by its field tags. -/
def Personalization.toJSON (x : apiv3.raw.Personalization) : JSON :=
  .obj (omitemptySlice "to" (encPtr apiv3.raw.Email.toJSON) x.To ++
    omitemptySlice "cc" (encPtr apiv3.raw.Email.toJSON) x.CC ++
    omitemptySlice "bcc" (encPtr apiv3.raw.Email.toJSON) x.BCC ++
    omitemptyString "subject" x.Subject ++
    omitemptyMap "headers" encString x.Headers ++
    omitemptyMap "substitutions" encString x.Substitutions ++
    omitemptyMap "custom_args" encString x.CustomArgs ++
    omitemptyInt "send_at" x.SendAt ++
    omitemptyMap "dynamic_template_data" id x.DynamicTemplateData ++
    omitemptySlice "categories" encString x.Categories)

/-- MailV3 represents the mail structure for v3 API; every string is held as its bytes. -/
structure MailV3 where
  Personalizations : GoSlice (Option apiv3.raw.Personalization)
  From : Option apiv3.raw.Email
  Subject : GoString
  Content : GoSlice (Option apiv3.raw.Content)
  ReplyTo : Option apiv3.raw.Email
  Attachments : GoSlice (Option apiv3.raw.Attachment)
  TemplateID : GoString
  Sections : apiv3.raw.GoMap GoString
  Headers : apiv3.raw.GoMap GoString
  Categories : GoSlice GoString
  CustomArgs : apiv3.raw.GoMap GoString
  SendAt : Int
  BatchID : GoString
  ASM : Option apiv3.raw.ASM
  IPPoolName : GoString
  MailSettings : Option apiv3.raw.MailSettings
  TrackingSettings : Option apiv3.raw.TrackingSettings

/-- Wire form of `MailV3`, by its field tags. -/
def MailV3.toJSON (x : apiv3.raw.MailV3) : JSON :=
  .obj (omitemptySlice "personalizations" (encPtr apiv3.raw.Personalization.toJSON) x.Personalizations ++
    omitemptyPtr "from" apiv3.raw.Email.toJSON x.From ++
    omitemptyString "subject" x.Subject ++
    omitemptySlice "content" (encPtr apiv3.raw.Content.toJSON) x.Content ++
    omitemptyPtr "reply_to" apiv3.raw.Email.toJSON x.ReplyTo ++
    omitemptySlice "attachments" (encPtr apiv3.raw.Attachment.toJSON) x.Attachments ++
    omitemptyString "template_id" x.TemplateID ++
    omitemptyMap "sections" encString x.Sections ++
    omitemptyMap "headers" encString x.Headers ++
    omitemptySlice "categories" encString x.Categories ++
    omitemptyMap "custom_args" encString x.CustomArgs ++
    omitemptyInt "send_at" x.SendAt ++
    omitemptyString "batch_id" x.BatchID ++
    omitemptyPtr "asm" apiv3.raw.ASM.toJSON x.ASM ++
    omitemptyString "ip_pool_name" x.IPPoolName ++
    omitemptyPtr "mail_settings" apiv3.raw.MailSettings.toJSON x.MailSettings ++
    omitemptyPtr "tracking_settings" apiv3.raw.TrackingSettings.toJSON x.TrackingSettings)

/-- NewEmail. -/
def NewEmail (name address : GoString) : apiv3.raw.Email :=
  { Name := name, Address := address }

/-- NewContent. -/
def NewContent (contentType value : GoString) : apiv3.raw.Content :=
  { Type_ := contentType, Value := value }

/-- NewPersonalization creates a new personalization: every slice and map is allocated and
empty. -/
def NewPersonalization : apiv3.raw.Personalization :=
  { To := some [], CC := some [], BCC := some [], Subject := [],
    Headers := some GoMapData.empty, Substitutions := some GoMapData.empty,
    CustomArgs := some GoMapData.empty, SendAt := 0,
    DynamicTemplateData := some GoMapData.empty, Categories := some [] }

/-- AddTos adds 'to' addresses to the personalization. -/
def Personalization.AddTos (p : apiv3.raw.Personalization)
    (tos : List (Option apiv3.raw.Email)) : apiv3.raw.Personalization :=
  { p with To := goAppend p.To tos }

/-- NewMailV3: the four required fields are taken from the arguments, the rest is zero. -/
def NewMailV3 (from_ : Option apiv3.raw.Email) (subject : GoString)
    (content : GoSlice (Option apiv3.raw.Content))
    (personalizations : GoSlice (Option apiv3.raw.Personalization)) : apiv3.raw.MailV3 :=
  { Personalizations := personalizations, From := from_, Subject := subject, Content := content,
    ReplyTo := none, Attachments := none, TemplateID := [], Sections := none, Headers := none,
    Categories := none, CustomArgs := none, SendAt := 0, BatchID := [], ASM := none,
    IPPoolName := [], MailSettings := none, TrackingSettings := none }

/-- AddPersonalizations adds personalizations to the document. -/
def MailV3.AddPersonalizations (m : apiv3.raw.MailV3)
    (p : List (Option apiv3.raw.Personalization)) : apiv3.raw.MailV3 :=
  { m with Personalizations := goAppend m.Personalizations p }

/-- AddContent. -/
def MailV3.AddContent (m : apiv3.raw.MailV3) (c : List (Option apiv3.raw.Content)) :
    apiv3.raw.MailV3 :=
  { m with Content := goAppend m.Content c }

/-- SetTextContent sets text content of the message: one `AddContent` call with the type
"text/plain". -/
def MailV3.SetTextContent (m : apiv3.raw.MailV3) (text : GoString) : apiv3.raw.MailV3 :=
  m.AddContent [some { Type_ := GoString.ofText "text/plain", Value := text }]

/-- SetHeader: allocate `Headers` when it is nil, then `m.Headers[key] = value`. -/
def MailV3.SetHeader (m : apiv3.raw.MailV3) (key value : GoString) :
    Except Panic apiv3.raw.MailV3 :=
  let m1 : apiv3.raw.MailV3 :=
    if m.Headers.isNone then { m with Headers := some GoMapData.empty } else m
  match mapAssign m1.Headers key value with
  | .error e => .error e
  | .ok h => .ok { m1 with Headers := h }

end raw

/-! ## Wire keys of single fields -/

theorem keys_omitemptyString (key s : String) :
    (omitemptyString key s).map Prod.fst = if s = "" then [] else [key] := by
  unfold omitemptyString; split <;> rfl

theorem keys_omitemptyInt (key : String) (n : Int) :
    (omitemptyInt key n).map Prod.fst = if n = 0 then [] else [key] := by
  unfold omitemptyInt; split <;> rfl

theorem keys_omitemptyPtr {α : Type} (key : String) (enc : α → JSON) (p : Option α) :
    (omitemptyPtr key enc p).map Prod.fst = if p.isSome then [key] else [] := by
  cases p <;> rfl

theorem keys_omitemptySlice {α : Type} (key : String) (enc : α → JSON) (s : GoSlice α) :
    (omitemptySlice key enc s).map Prod.fst = if sliceLen s = 0 then [] else [key] := by
  unfold omitemptySlice; split <;> rfl

theorem keys_omitemptyMap {β : Type} (key : String) (enc : β → JSON) (m : GoMap β) :
    (omitemptyMap key enc m).map Prod.fst = if mapLen m = 0 then [] else [key] := by
  unfold omitemptyMap; split <;> rfl


/-! ## The `enable` member of a settings object -/

theorem enable_wire_Setting (x : Setting) :
    x.toJSON.get? "enable" = x.Enable.map JSON.bool ∧
      x.toJSON.keys.count "enable" = if x.Enable.isSome then 1 else 0 := by
  rcases x with ⟨_ | en⟩ <;>
    simp only [Setting.toJSON, JSON.get?, JSON.keys, omitemptyPtr, omitemptyString, omitemptyInt,
      fieldAlways] <;>
    split_ifs <;> simp_all [List.lookup]

theorem enable_wire_BCCSetting (x : BCCSetting) :
    x.toJSON.get? "enable" = x.Enable.map JSON.bool ∧
      x.toJSON.keys.count "enable" = if x.Enable.isSome then 1 else 0 := by
  rcases x with ⟨_ | en, em⟩ <;>
    simp only [BCCSetting.toJSON, JSON.get?, JSON.keys, omitemptyPtr, omitemptyString, omitemptyInt,
      fieldAlways] <;>
    split_ifs <;> simp_all [List.lookup]

theorem enable_wire_FooterSetting (x : FooterSetting) :
    x.toJSON.get? "enable" = x.Enable.map JSON.bool ∧
      x.toJSON.keys.count "enable" = if x.Enable.isSome then 1 else 0 := by
  rcases x with ⟨_ | en, t, h⟩ <;>
    simp only [FooterSetting.toJSON, JSON.get?, JSON.keys, omitemptyPtr, omitemptyString, omitemptyInt,
      fieldAlways] <;>
    split_ifs <;> simp_all [List.lookup]

theorem enable_wire_ClickTrackingSetting (x : ClickTrackingSetting) :
    x.toJSON.get? "enable" = x.Enable.map JSON.bool ∧
      x.toJSON.keys.count "enable" = if x.Enable.isSome then 1 else 0 := by
  rcases x with ⟨_ | en, _ | et⟩ <;>
    simp only [ClickTrackingSetting.toJSON, JSON.get?, JSON.keys, omitemptyPtr, omitemptyString, omitemptyInt,
      fieldAlways] <;>
    split_ifs <;> simp_all [List.lookup]

theorem enable_wire_OpenTrackingSetting (x : OpenTrackingSetting) :
    x.toJSON.get? "enable" = x.Enable.map JSON.bool ∧
      x.toJSON.keys.count "enable" = if x.Enable.isSome then 1 else 0 := by
  rcases x with ⟨_ | en, st⟩ <;>
    simp only [OpenTrackingSetting.toJSON, JSON.get?, JSON.keys, omitemptyPtr, omitemptyString, omitemptyInt,
      fieldAlways] <;>
    split_ifs <;> simp_all [List.lookup]

theorem enable_wire_SubscriptionTrackingSetting (x : SubscriptionTrackingSetting) :
    x.toJSON.get? "enable" = x.Enable.map JSON.bool ∧
      x.toJSON.keys.count "enable" = if x.Enable.isSome then 1 else 0 := by
  rcases x with ⟨_ | en, t, h, st⟩ <;>
    simp only [SubscriptionTrackingSetting.toJSON, JSON.get?, JSON.keys, omitemptyPtr, omitemptyString, omitemptyInt,
      fieldAlways] <;>
    split_ifs <;> simp_all [List.lookup]

theorem enable_wire_SandboxModeSetting (x : SandboxModeSetting) :
    x.toJSON.get? "enable" = x.Enable.map JSON.bool ∧
      x.toJSON.keys.count "enable" = if x.Enable.isSome then 1 else 0 := by
  rcases x with ⟨_ | en, _ | fs, _ | sc⟩ <;>
    simp only [SandboxModeSetting.toJSON, JSON.get?, JSON.keys, omitemptyPtr, omitemptyString, omitemptyInt,
      fieldAlways] <;>
    split_ifs <;> simp_all [List.lookup]

theorem enable_wire_SpamCheckSetting (x : SpamCheckSetting) :
    x.toJSON.get? "enable" = x.Enable.map JSON.bool ∧
      x.toJSON.keys.count "enable" = if x.Enable.isSome then 1 else 0 := by
  rcases x with ⟨_ | en, th, u⟩ <;>
    simp only [SpamCheckSetting.toJSON, JSON.get?, JSON.keys, omitemptyPtr, omitemptyString, omitemptyInt,
      fieldAlways] <;>
    split_ifs <;> simp_all [List.lookup]

theorem enable_wire_GASetting (x : GASetting) :
    x.toJSON.get? "enable" = x.Enable.map JSON.bool ∧
      x.toJSON.keys.count "enable" = if x.Enable.isSome then 1 else 0 := by
  rcases x with ⟨_ | en, a, b, c, d, e⟩ <;>
    simp only [GASetting.toJSON, JSON.get?, JSON.keys, omitemptyPtr, omitemptyString, omitemptyInt,
      fieldAlways] <;>
    split_ifs <;> simp_all [List.lookup]

theorem triState_of_enable_wire {α : Type} (enable : α → Option Bool) (enc : α → JSON)
    (h : ∀ x, (enc x).get? "enable" = (enable x).map JSON.bool ∧
      (enc x).keys.count "enable" = if (enable x).isSome then 1 else 0) :
    (∀ x, enable x = none → "enable" ∉ (enc x).keys ∧ (enc x).get? "enable" = none) ∧
    (∀ x, enable x = some false →
      (enc x).get? "enable" = some (JSON.bool false) ∧ (enc x).keys.count "enable" = 1) ∧
    (∀ x, enable x = some true →
      (enc x).get? "enable" = some (JSON.bool true) ∧ (enc x).keys.count "enable" = 1) ∧
    (∀ x y, enable x = none → enable y = some false → enc x ≠ enc y) := by
  refine ⟨?_, ?_, ?_, ?_⟩
  · intro x hx
    have := h x
    rw [hx] at this
    exact ⟨List.count_eq_zero.mp (by simpa using this.2), by simpa using this.1⟩
  · intro x hx
    have := h x
    rw [hx] at this
    exact ⟨by simpa using this.1, by simpa using this.2⟩
  · intro x hx
    have := h x
    rw [hx] at this
    exact ⟨by simpa using this.1, by simpa using this.2⟩
  · intro x y hx hy hxy
    have h1 := (h x).1
    have h2 := (h y).1
    rw [hx] at h1
    rw [hy, ← hxy, h1] at h2
    cases h2

theorem mem_keys_of_enable_some {α : Type} (enable : α → Option Bool) (enc : α → JSON)
    (h : ∀ x, (enc x).get? "enable" = (enable x).map JSON.bool ∧
      (enc x).keys.count "enable" = if (enable x).isSome then 1 else 0)
    (x : α) (b : Bool) (hx : enable x = some b) :
    (enc x).get? "enable" = some (JSON.bool b) ∧ "enable" ∈ (enc x).keys := by
  have := h x
  rw [hx] at this
  refine ⟨by simpa using this.1, ?_⟩
  have h2 : 0 < (enc x).keys.count "enable" := by rw [this.2]; simp
  exact List.count_pos_iff.mp h2

/-! ## C1 — the tri-state `enable` flag on the wire -/

/-- C1: for each of the nine settings types carrying an `Enable` flag, the JSON form follows
the tri-state rule. When `Enable` is nil the object has no `enable` member; when it points at
`false` the object has the member `"enable": false` (exactly once); when it points at `true`
it has `"enable": true` (exactly once); and a value with `Enable` unset never encodes to the
same JSON as a value with `Enable` set to `false`. -/
theorem enable_flag_is_tristate_on_the_wire :
    ((∀ x : Setting, x.Enable = none →
        "enable" ∉ x.toJSON.keys ∧ x.toJSON.get? "enable" = none) ∧
      (∀ x : Setting, x.Enable = some false →
        x.toJSON.get? "enable" = some (JSON.bool false) ∧ x.toJSON.keys.count "enable" = 1) ∧
      (∀ x : Setting, x.Enable = some true →
        x.toJSON.get? "enable" = some (JSON.bool true) ∧ x.toJSON.keys.count "enable" = 1) ∧
      (∀ x y : Setting, x.Enable = none → y.Enable = some false → x.toJSON ≠ y.toJSON)) ∧
    ((∀ x : BCCSetting, x.Enable = none →
        "enable" ∉ x.toJSON.keys ∧ x.toJSON.get? "enable" = none) ∧
      (∀ x : BCCSetting, x.Enable = some false →
        x.toJSON.get? "enable" = some (JSON.bool false) ∧ x.toJSON.keys.count "enable" = 1) ∧
      (∀ x : BCCSetting, x.Enable = some true →
        x.toJSON.get? "enable" = some (JSON.bool true) ∧ x.toJSON.keys.count "enable" = 1) ∧
      (∀ x y : BCCSetting, x.Enable = none → y.Enable = some false → x.toJSON ≠ y.toJSON)) ∧
    ((∀ x : FooterSetting, x.Enable = none →
        "enable" ∉ x.toJSON.keys ∧ x.toJSON.get? "enable" = none) ∧
      (∀ x : FooterSetting, x.Enable = some false →
        x.toJSON.get? "enable" = some (JSON.bool false) ∧ x.toJSON.keys.count "enable" = 1) ∧
      (∀ x : FooterSetting, x.Enable = some true →
        x.toJSON.get? "enable" = some (JSON.bool true) ∧ x.toJSON.keys.count "enable" = 1) ∧
      (∀ x y : FooterSetting, x.Enable = none → y.Enable = some false → x.toJSON ≠ y.toJSON)) ∧
    ((∀ x : ClickTrackingSetting, x.Enable = none →
        "enable" ∉ x.toJSON.keys ∧ x.toJSON.get? "enable" = none) ∧
      (∀ x : ClickTrackingSetting, x.Enable = some false →
        x.toJSON.get? "enable" = some (JSON.bool false) ∧ x.toJSON.keys.count "enable" = 1) ∧
      (∀ x : ClickTrackingSetting, x.Enable = some true →
        x.toJSON.get? "enable" = some (JSON.bool true) ∧ x.toJSON.keys.count "enable" = 1) ∧
      (∀ x y : ClickTrackingSetting, x.Enable = none → y.Enable = some false → x.toJSON ≠ y.toJSON)) ∧
    ((∀ x : OpenTrackingSetting, x.Enable = none →
        "enable" ∉ x.toJSON.keys ∧ x.toJSON.get? "enable" = none) ∧
      (∀ x : OpenTrackingSetting, x.Enable = some false →
        x.toJSON.get? "enable" = some (JSON.bool false) ∧ x.toJSON.keys.count "enable" = 1) ∧
      (∀ x : OpenTrackingSetting, x.Enable = some true →
        x.toJSON.get? "enable" = some (JSON.bool true) ∧ x.toJSON.keys.count "enable" = 1) ∧
      (∀ x y : OpenTrackingSetting, x.Enable = none → y.Enable = some false → x.toJSON ≠ y.toJSON)) ∧
    ((∀ x : SubscriptionTrackingSetting, x.Enable = none →
        "enable" ∉ x.toJSON.keys ∧ x.toJSON.get? "enable" = none) ∧
      (∀ x : SubscriptionTrackingSetting, x.Enable = some false →
        x.toJSON.get? "enable" = some (JSON.bool false) ∧ x.toJSON.keys.count "enable" = 1) ∧
      (∀ x : SubscriptionTrackingSetting, x.Enable = some true →
        x.toJSON.get? "enable" = some (JSON.bool true) ∧ x.toJSON.keys.count "enable" = 1) ∧
      (∀ x y : SubscriptionTrackingSetting, x.Enable = none → y.Enable = some false → x.toJSON ≠ y.toJSON)) ∧
    ((∀ x : SandboxModeSetting, x.Enable = none →
        "enable" ∉ x.toJSON.keys ∧ x.toJSON.get? "enable" = none) ∧
      (∀ x : SandboxModeSetting, x.Enable = some false →
        x.toJSON.get? "enable" = some (JSON.bool false) ∧ x.toJSON.keys.count "enable" = 1) ∧
      (∀ x : SandboxModeSetting, x.Enable = some true →
        x.toJSON.get? "enable" = some (JSON.bool true) ∧ x.toJSON.keys.count "enable" = 1) ∧
      (∀ x y : SandboxModeSetting, x.Enable = none → y.Enable = some false → x.toJSON ≠ y.toJSON)) ∧
    ((∀ x : SpamCheckSetting, x.Enable = none →
        "enable" ∉ x.toJSON.keys ∧ x.toJSON.get? "enable" = none) ∧
      (∀ x : SpamCheckSetting, x.Enable = some false →
        x.toJSON.get? "enable" = some (JSON.bool false) ∧ x.toJSON.keys.count "enable" = 1) ∧
      (∀ x : SpamCheckSetting, x.Enable = some true →
        x.toJSON.get? "enable" = some (JSON.bool true) ∧ x.toJSON.keys.count "enable" = 1) ∧
      (∀ x y : SpamCheckSetting, x.Enable = none → y.Enable = some false → x.toJSON ≠ y.toJSON)) ∧
    ((∀ x : GASetting, x.Enable = none →
        "enable" ∉ x.toJSON.keys ∧ x.toJSON.get? "enable" = none) ∧
      (∀ x : GASetting, x.Enable = some false →
        x.toJSON.get? "enable" = some (JSON.bool false) ∧ x.toJSON.keys.count "enable" = 1) ∧
      (∀ x : GASetting, x.Enable = some true →
        x.toJSON.get? "enable" = some (JSON.bool true) ∧ x.toJSON.keys.count "enable" = 1) ∧
      (∀ x y : GASetting, x.Enable = none → y.Enable = some false → x.toJSON ≠ y.toJSON)) :=
  ⟨triState_of_enable_wire Setting.Enable Setting.toJSON enable_wire_Setting,
    triState_of_enable_wire BCCSetting.Enable BCCSetting.toJSON enable_wire_BCCSetting,
    triState_of_enable_wire FooterSetting.Enable FooterSetting.toJSON enable_wire_FooterSetting,
    triState_of_enable_wire ClickTrackingSetting.Enable ClickTrackingSetting.toJSON enable_wire_ClickTrackingSetting,
    triState_of_enable_wire OpenTrackingSetting.Enable OpenTrackingSetting.toJSON enable_wire_OpenTrackingSetting,
    triState_of_enable_wire SubscriptionTrackingSetting.Enable SubscriptionTrackingSetting.toJSON enable_wire_SubscriptionTrackingSetting,
    triState_of_enable_wire SandboxModeSetting.Enable SandboxModeSetting.toJSON enable_wire_SandboxModeSetting,
    triState_of_enable_wire SpamCheckSetting.Enable SpamCheckSetting.toJSON enable_wire_SpamCheckSetting,
    triState_of_enable_wire GASetting.Enable GASetting.toJSON enable_wire_GASetting⟩

/-- C1 at concrete settings: a `Setting` with `Enable` unset has no `enable` member, the one
built with `false` has `"enable": false`, and the two encodings differ. -/
theorem enable_flag_is_tristate_on_the_wire_witness :
    ("enable" ∉ (Setting.toJSON { Enable := none }).keys ∧
      (Setting.toJSON { Enable := none }).get? "enable" = none) ∧
    ((NewSetting false).toJSON.get? "enable" = some (JSON.bool false) ∧
      (NewSetting false).toJSON.keys.count "enable" = 1) ∧
    ((NewGASetting true).toJSON.get? "enable" = some (JSON.bool true) ∧
      (NewGASetting true).toJSON.keys.count "enable" = 1) ∧
    Setting.toJSON { Enable := none } ≠ (NewSetting false).toJSON :=
  ⟨enable_flag_is_tristate_on_the_wire.1.1 { Enable := none } rfl,
    enable_flag_is_tristate_on_the_wire.1.2.1 (NewSetting false) rfl,
    enable_flag_is_tristate_on_the_wire.2.2.2.2.2.2.2.2.2.2.1 (NewGASetting true) rfl,
    enable_flag_is_tristate_on_the_wire.1.2.2.2 { Enable := none } (NewSetting false) rfl rfl⟩

/-! ## C2 — what a constructor-built setting encodes to -/

/-- C2 as stated fails: `NewSetting(false)`, with nothing touched afterwards, does encode an
`enable` member; its JSON form is the object with the single member `"enable": false`. -/
theorem fresh_setting_has_enable_key :
    ¬ ("enable" ∉ (NewSetting false).toJSON.keys) ∧
      (NewSetting false).toJSON = JSON.obj [("enable", JSON.bool false)] :=
  ⟨by simp [NewSetting, Setting.toJSON, omitemptyPtr, JSON.keys], rfl⟩

/-- C2 amended: every constructor of a tri-state settings type takes the enable flag as an
argument and stores it, so the freshly constructed setting always encodes the member
`"enable": b` for the argument `b` it was built with, for `b = false` as for `b = true`. -/
theorem constructed_setting_emits_enable_argument :
    (∀ (b : Bool), (NewSetting b).toJSON.get? "enable" = some (JSON.bool b) ∧
      "enable" ∈ (NewSetting b).toJSON.keys) ∧
    (∀ (b : Bool) (email : String), (NewBCCSetting b email).toJSON.get? "enable" = some (JSON.bool b) ∧
      "enable" ∈ (NewBCCSetting b email).toJSON.keys) ∧
    (∀ (b : Bool) (text html : String), (NewFooterSetting b text html).toJSON.get? "enable" = some (JSON.bool b) ∧
      "enable" ∈ (NewFooterSetting b text html).toJSON.keys) ∧
    (∀ (b enableText : Bool), (NewClickTrackingSetting b enableText).toJSON.get? "enable" = some (JSON.bool b) ∧
      "enable" ∈ (NewClickTrackingSetting b enableText).toJSON.keys) ∧
    (∀ (b : Bool) (subTag : String), (NewOpenTrackingSetting b subTag).toJSON.get? "enable" = some (JSON.bool b) ∧
      "enable" ∈ (NewOpenTrackingSetting b subTag).toJSON.keys) ∧
    (∀ (b : Bool) (text html subTag : String), (NewSubscriptionTrackingSetting b text html subTag).toJSON.get? "enable" = some (JSON.bool b) ∧
      "enable" ∈ (NewSubscriptionTrackingSetting b text html subTag).toJSON.keys) ∧
    (∀ (b forwardSpam : Bool) (spamCheck : Option SpamCheckSetting), (NewSandboxModeSetting b forwardSpam spamCheck).toJSON.get? "enable" = some (JSON.bool b) ∧
      "enable" ∈ (NewSandboxModeSetting b forwardSpam spamCheck).toJSON.keys) ∧
    (∀ (b : Bool) (spamThreshold : Int) (postToURL : String), (NewSpamCheckSetting b spamThreshold postToURL).toJSON.get? "enable" = some (JSON.bool b) ∧
      "enable" ∈ (NewSpamCheckSetting b spamThreshold postToURL).toJSON.keys) ∧
    (∀ (b : Bool), (NewGASetting b).toJSON.get? "enable" = some (JSON.bool b) ∧
      "enable" ∈ (NewGASetting b).toJSON.keys) :=
  ⟨fun b =>
      mem_keys_of_enable_some Setting.Enable Setting.toJSON enable_wire_Setting (NewSetting b) b rfl,
    fun b email =>
      mem_keys_of_enable_some BCCSetting.Enable BCCSetting.toJSON enable_wire_BCCSetting (NewBCCSetting b email) b rfl,
    fun b text html =>
      mem_keys_of_enable_some FooterSetting.Enable FooterSetting.toJSON enable_wire_FooterSetting (NewFooterSetting b text html) b rfl,
    fun b enableText =>
      mem_keys_of_enable_some ClickTrackingSetting.Enable ClickTrackingSetting.toJSON enable_wire_ClickTrackingSetting (NewClickTrackingSetting b enableText) b rfl,
    fun b subTag =>
      mem_keys_of_enable_some OpenTrackingSetting.Enable OpenTrackingSetting.toJSON enable_wire_OpenTrackingSetting (NewOpenTrackingSetting b subTag) b rfl,
    fun b text html subTag =>
      mem_keys_of_enable_some SubscriptionTrackingSetting.Enable SubscriptionTrackingSetting.toJSON enable_wire_SubscriptionTrackingSetting (NewSubscriptionTrackingSetting b text html subTag) b rfl,
    fun b forwardSpam spamCheck =>
      mem_keys_of_enable_some SandboxModeSetting.Enable SandboxModeSetting.toJSON enable_wire_SandboxModeSetting (NewSandboxModeSetting b forwardSpam spamCheck) b rfl,
    fun b spamThreshold postToURL =>
      mem_keys_of_enable_some SpamCheckSetting.Enable SpamCheckSetting.toJSON enable_wire_SpamCheckSetting (NewSpamCheckSetting b spamThreshold postToURL) b rfl,
    fun b =>
      mem_keys_of_enable_some GASetting.Enable GASetting.toJSON enable_wire_GASetting (NewGASetting b) b rfl⟩

/-! ## Top-level keys of a document -/

theorem table_cons_keys (k : String) (c : Bool) (rest : List (String × Bool)) :
    (((k, c) :: rest).filter Prod.snd).map Prod.fst =
      (if c = true then [k] else []) ++ (rest.filter Prod.snd).map Prod.fst := by
  cases c <;> simp

theorem table_mem_keys (k : String) (t : List (String × Bool)) :
    k ∈ (t.filter Prod.snd).map Prod.fst ↔ (k, true) ∈ t := by
  simp only [List.mem_map, List.mem_filter]
  constructor
  · rintro ⟨⟨k', c⟩, ⟨hmem, hc⟩, rfl⟩
    simp only at hc
    subst hc
    exact hmem
  · intro h
    exact ⟨(k, true), ⟨h, rfl⟩, rfl⟩

theorem lookup_eq_none_of_not_mem_keys (k : String) (fs : List (String × JSON))
    (h : k ∉ fs.map Prod.fst) : fs.lookup k = none := by
  induction fs with
  | nil => rfl
  | cons hd tl ih =>
    obtain ⟨k', v⟩ := hd
    simp only [List.map_cons, List.mem_cons, not_or] at h
    have hne : (k == k') = false := by simpa using h.1
    simp only [List.lookup, hne]
    exact ih h.2

theorem get?_eq_none_of_not_mem_keys (j : JSON) (k : String) (h : k ∉ j.keys) :
    j.get? k = none := by
  cases j <;> try rfl
  exact lookup_eq_none_of_not_mem_keys k _ h

theorem keys_eq_specKeyTable (m : MailV3) :
    m.toJSON.keys = ((MailV3.specKeyTable m).filter Prod.snd).map Prod.fst := by
  simp only [MailV3.specKeyTable, table_cons_keys, List.filter_nil, List.map_nil,
    List.append_nil, MailV3.toJSON, JSON.keys, List.map_append, keys_omitemptyString,
    keys_omitemptyInt, keys_omitemptyPtr, keys_omitemptySlice, keys_omitemptyMap,
    List.append_assoc, decide_eq_true_eq, Nat.pos_iff_ne_zero, ite_not]

theorem specKeyTable_names (m : MailV3) :
    (MailV3.specKeyTable m).map Prod.fst =
      ["personalizations", "from", "subject", "content", "reply_to", "attachments",
        "template_id", "sections", "headers", "categories", "custom_args", "send_at",
        "batch_id", "asm", "ip_pool_name", "mail_settings", "tracking_settings"] := rfl

theorem keys_nodup (m : MailV3) : m.toJSON.keys.Nodup := by
  rw [keys_eq_specKeyTable]
  have hsub : List.Sublist (((MailV3.specKeyTable m).filter Prod.snd).map Prod.fst)
      ((MailV3.specKeyTable m).map Prod.fst) :=
    List.Sublist.map _ (List.filter_sublist _)
  refine List.Nodup.sublist hsub ?_
  rw [specKeyTable_names]
  decide

/-! ## Builder calls: explicit results and frames -/

theorem goAppend_nil {α : Type} (s : GoSlice α) : goAppend s [] = s := by
  cases s <;> simp [goAppend]

theorem sliceElems_goAppend {α : Type} (s : GoSlice α) (xs : List α) :
    sliceElems (goAppend s xs) = sliceElems s ++ xs := by
  cases s <;> cases xs <;> simp [goAppend, sliceElems]

theorem AddSection_eq (m : MailV3) (key value : String) :
    m.AddSection key value =
      .ok { m with Sections := some ((m.Sections.getD GoMapData.empty).set key value) } := by
  cases h : m.Sections <;> simp [MailV3.AddSection, mapAssign, h]

theorem SetHeader_eq (m : MailV3) (key value : String) :
    m.SetHeader key value =
      .ok { m with Headers := some ((m.Headers.getD GoMapData.empty).set key value) } := by
  cases h : m.Headers <;> simp [MailV3.SetHeader, mapAssign, h]

theorem SetCustomArg_eq (m : MailV3) (key value : String) :
    m.SetCustomArg key value =
      .ok { m with CustomArgs := some ((m.CustomArgs.getD GoMapData.empty).set key value) } := by
  cases h : m.CustomArgs <;> simp [MailV3.SetCustomArg, mapAssign, h]

theorem applyAll_preserves (P : MailV3 → Prop) (allowed : MailV3.Op → Bool)
    (hstep : ∀ m op, allowed op = true → P m → ∃ m1, MailV3.Op.apply m op = .ok m1 ∧ P m1) :
    ∀ (ops : List MailV3.Op) (m : MailV3), (∀ op ∈ ops, allowed op = true) → P m →
      ∃ m1, MailV3.applyAll m ops = .ok m1 ∧ P m1 := by
  intro ops
  induction ops with
  | nil => intro m _ hm; exact ⟨m, rfl, hm⟩
  | cons op rest ih =>
    intro m hall hm
    obtain ⟨m1, h1, hP1⟩ := hstep m op (hall op (List.mem_cons_self _ _)) hm
    obtain ⟨m2, h2, hP2⟩ := ih m1 (fun o ho => hall o (List.mem_cons_of_mem _ ho)) hP1
    exact ⟨m2, by simp only [MailV3.applyAll, h1, h2], hP2⟩

theorem apply_frame_Attachments (m : MailV3) (op : MailV3.Op)
    (h : (!op.addsAttachment) = true) :
    ∃ m1, MailV3.Op.apply m op = .ok m1 ∧ m1.Attachments = m.Attachments := by
  cases op with
  | AddAttachment a =>
    cases a with
    | nil => exact ⟨_, rfl, goAppend_nil _⟩
    | cons x t => simp [MailV3.Op.addsAttachment] at h
  | AddSection k v => exact ⟨_, AddSection_eq m k v, rfl⟩
  | SetHeader k v => exact ⟨_, SetHeader_eq m k v, rfl⟩
  | SetCustomArg k v => exact ⟨_, SetCustomArg_eq m k v, rfl⟩
  | _ => exact ⟨_, rfl, rfl⟩

theorem apply_frame_MailSettings (m : MailV3) (op : MailV3.Op)
    (h : (!op.isSetMailSettings) = true) :
    ∃ m1, MailV3.Op.apply m op = .ok m1 ∧ m1.MailSettings = m.MailSettings := by
  cases op with
  | SetMailSettings s => simp [MailV3.Op.isSetMailSettings] at h
  | AddSection k v => exact ⟨_, AddSection_eq m k v, rfl⟩
  | SetHeader k v => exact ⟨_, SetHeader_eq m k v, rfl⟩
  | SetCustomArg k v => exact ⟨_, SetCustomArg_eq m k v, rfl⟩
  | _ => exact ⟨_, rfl, rfl⟩

theorem apply_frame_TrackingSettings (m : MailV3) (op : MailV3.Op)
    (h : (!op.isSetTrackingSettings) = true) :
    ∃ m1, MailV3.Op.apply m op = .ok m1 ∧ m1.TrackingSettings = m.TrackingSettings := by
  cases op with
  | SetTrackingSettings s => simp [MailV3.Op.isSetTrackingSettings] at h
  | AddSection k v => exact ⟨_, AddSection_eq m k v, rfl⟩
  | SetHeader k v => exact ⟨_, SetHeader_eq m k v, rfl⟩
  | SetCustomArg k v => exact ⟨_, SetCustomArg_eq m k v, rfl⟩
  | _ => exact ⟨_, rfl, rfl⟩

/-! ## C3 — which top-level keys a document has -/

/-- C3: for every `MailV3` document the top-level keys of its JSON form are exactly the names
of the table (personalizations, from, subject, content, reply_to, attachments, template_id,
sections, headers, categories, custom_args, send_at, batch_id, asm, ip_pool_name,
mail_settings, tracking_settings) whose field is non-empty, each once and in table order. In
particular a document whose attachment list is empty, and so any document built by `NewMailV3`
and builder calls none of which adds an attachment, has no `attachments` member at all. -/
theorem mailV3_keys_are_the_nonempty_fields :
    (∀ m : MailV3,
      m.toJSON.keys = ((MailV3.specKeyTable m).filter Prod.snd).map Prod.fst) ∧
    (∀ (m : MailV3) (k : String), k ∈ m.toJSON.keys ↔ (k, true) ∈ MailV3.specKeyTable m) ∧
    (∀ m : MailV3, m.toJSON.keys.Nodup) ∧
    (∀ m : MailV3, sliceLen m.Attachments = 0 →
      "attachments" ∉ m.toJSON.keys ∧ m.toJSON.get? "attachments" = none) ∧
    (∀ (from_ : Option Email) (subject : String) (content : GoSlice (Option Content))
      (personalizations : GoSlice (Option Personalization)) (ops : List MailV3.Op),
      (∀ op ∈ ops, op.addsAttachment = false) →
      ∃ m1, MailV3.applyAll (NewMailV3 from_ subject content personalizations) ops = .ok m1 ∧
        "attachments" ∉ m1.toJSON.keys ∧ m1.toJSON.get? "attachments" = none) := by
  have hatt : ∀ m : MailV3, sliceLen m.Attachments = 0 → "attachments" ∉ m.toJSON.keys := by
    intro m hm hmem
    rw [keys_eq_specKeyTable, table_mem_keys] at hmem
    simp [MailV3.specKeyTable, hm] at hmem
  refine ⟨keys_eq_specKeyTable, ?_, keys_nodup, ?_, ?_⟩
  · intro m k
    rw [keys_eq_specKeyTable, table_mem_keys]
  · intro m hm
    exact ⟨hatt m hm, get?_eq_none_of_not_mem_keys _ _ (hatt m hm)⟩
  · intro from_ subject content personalizations ops hops
    obtain ⟨m1, h1, hP⟩ := applyAll_preserves (fun m => m.Attachments = none)
      (fun op => !op.addsAttachment)
      (fun m op hop hm => by
        obtain ⟨m1, h1, h2⟩ := apply_frame_Attachments m op hop
        exact ⟨m1, h1, h2.trans hm⟩)
      ops (NewMailV3 from_ subject content personalizations)
      (fun op hop => by simp [hops op hop]) rfl
    have hlen : sliceLen m1.Attachments = 0 := by rw [hP]; rfl
    exact ⟨m1, h1, hatt m1 hlen, get?_eq_none_of_not_mem_keys _ _ (hatt m1 hlen)⟩

/-- C3 at concrete documents: the bare document built by `NewMailV3` with a sender and a
subject has exactly the keys `from` and `subject`, and after `SetSendAt` and `SetTextContent`
(no attachment added) it still has no `attachments` member. -/
theorem mailV3_keys_are_the_nonempty_fields_witness :
    (NewMailV3 (some (NewEmail "" "a@x.com")) "Hi" none none).toJSON.keys
      = ["from", "subject"] ∧
    (sliceLen (NewMailV3 (some (NewEmail "" "a@x.com")) "Hi" none none).Attachments = 0 ∧
      "attachments" ∉ (NewMailV3 (some (NewEmail "" "a@x.com")) "Hi" none none).toJSON.keys ∧
      (NewMailV3 (some (NewEmail "" "a@x.com")) "Hi" none none).toJSON.get? "attachments"
        = none) ∧
    (∃ m1, MailV3.applyAll (NewMailV3 (some (NewEmail "" "a@x.com")) "Hi" none none)
        [MailV3.Op.SetSendAt 5, MailV3.Op.SetTextContent "hello"] = .ok m1 ∧
      "attachments" ∉ m1.toJSON.keys ∧ m1.toJSON.get? "attachments" = none) :=
  ⟨(mailV3_keys_are_the_nonempty_fields.1 _).trans (by decide),
    ⟨rfl, mailV3_keys_are_the_nonempty_fields.2.2.2.1
      (NewMailV3 (some (NewEmail "" "a@x.com")) "Hi" none none) rfl⟩,
    mailV3_keys_are_the_nonempty_fields.2.2.2.2 (some (NewEmail "" "a@x.com")) "Hi" none none
      [MailV3.Op.SetSendAt 5, MailV3.Op.SetTextContent "hello"]
      (by intro op hop; simp at hop; rcases hop with rfl | rfl <;> rfl)⟩


/-! ## C4 — the address field of the BCC-copy setting -/

/-- C4 fails on the code: the `Email` field of `BCCSetting` carries no json tag, so it is
emitted under the Go field name `Email` and is never left out. For every flag `b` and address
`e`, `NewBCCSetting(b, e)` encodes to the two members `enable` and `Email`; there is never an
`email` member, and with `e = ""` the object still holds `"Email": ""`. -/
theorem bccSetting_address_is_emitted_as_Email :
    (∀ (b : Bool) (e : String),
      (NewBCCSetting b e).toJSON = JSON.obj [("enable", JSON.bool b), ("Email", JSON.str e)] ∧
      (NewBCCSetting b e).toJSON.keys = ["enable", "Email"] ∧
      (NewBCCSetting b e).toJSON.get? "email" = none) ∧
    (NewBCCSetting true "").toJSON.keys ≠ ["enable"] ∧
    (NewBCCSetting true "a@x.com").toJSON.get? "email" ≠ some (JSON.str "a@x.com") := by
  refine ⟨fun b e => ⟨rfl, rfl, ?_⟩, by decide, ?_⟩
  · simp [NewBCCSetting, BCCSetting.toJSON, omitemptyPtr, fieldAlways, JSON.get?, List.lookup]
  · simp [NewBCCSetting, BCCSetting.toJSON, omitemptyPtr, fieldAlways, JSON.get?, List.lookup]

/-! ## C5 — an absent settings object is an absent key -/

theorem mem_ite_singleton (k key : String) (c : Prop) [Decidable c] :
    (k ∈ if c then [key] else []) ↔ k = key ∧ c := by
  split <;> simp [*]

theorem mailSettings_mem_keys (s : MailSettings) (k : String) :
    k ∈ s.toJSON.keys ↔
      (k = "bcc" ∧ s.BCC.isSome) ∨ (k = "bypass_list_management" ∧ s.BypassListManagement.isSome) ∨
      (k = "footer" ∧ s.Footer.isSome) ∨ (k = "sandbox_mode" ∧ s.SandboxMode.isSome) ∨
      (k = "spam_check" ∧ s.SpamCheckSetting.isSome) := by
  simp only [MailSettings.toJSON, JSON.keys, List.map_append, keys_omitemptyPtr, List.mem_append,
    mem_ite_singleton, or_assoc]

theorem trackingSettings_mem_keys (t : TrackingSettings) (k : String) :
    k ∈ t.toJSON.keys ↔
      (k = "click_tracking" ∧ t.ClickTracking.isSome) ∨
      (k = "open_tracking" ∧ t.OpenTracking.isSome) ∨
      (k = "subscription_tracking" ∧ t.SubscriptionTracking.isSome) ∨
      (k = "ganalytics" ∧ t.GoogleAnalytics.isSome) ∨ (k = "bcc" ∧ t.BCC.isSome) ∨
      (k = "bypass_list_management" ∧ t.BypassListManagement.isSome) ∨
      (k = "footer" ∧ t.Footer.isSome) ∨ (k = "sandbox_mode" ∧ t.SandboxMode.isSome) := by
  simp only [TrackingSettings.toJSON, JSON.keys, List.map_append, keys_omitemptyPtr,
    List.mem_append, mem_ite_singleton, or_assoc]

theorem absent_of_not_mem_keys (j : JSON) (k : String) (h : k ∉ j.keys) :
    k ∉ j.keys ∧ j.get? k = none :=
  ⟨h, get?_eq_none_of_not_mem_keys j k h⟩

theorem mailSettings_step (k : String) (s : MailSettings) (op : MailSettings.Op)
    (hop : op.key ≠ k) (hs : k ∉ s.toJSON.keys) : k ∉ (MailSettings.Op.apply s op).toJSON.keys := by
  rw [mailSettings_mem_keys] at hs ⊢
  cases op <;>
    simp only [MailSettings.Op.apply, MailSettings.SetBCC, MailSettings.SetBypassListManagement,
      MailSettings.SetFooter, MailSettings.SetSandboxMode, MailSettings.SetSpamCheckSettings,
      MailSettings.Op.key] at hop hs ⊢ <;>
    intro h <;> rcases h with h | h | h | h | h <;>
    first
      | exact hop h.1.symm
      | exact hs (by simp [h])

theorem trackingSettings_step (k : String) (t : TrackingSettings) (op : TrackingSettings.Op)
    (hop : op.key ≠ k) (ht : k ∉ t.toJSON.keys) :
    k ∉ (TrackingSettings.Op.apply t op).toJSON.keys := by
  rw [trackingSettings_mem_keys] at ht ⊢
  cases op <;>
    simp only [TrackingSettings.Op.apply, TrackingSettings.SetClickTracking,
      TrackingSettings.SetOpenTracking, TrackingSettings.SetSubscriptionTracking,
      TrackingSettings.SetGoogleAnalytics, TrackingSettings.Op.key] at hop ht ⊢ <;>
    intro h <;> rcases h with h | h | h | h | h | h | h | h <;>
    first
      | exact hop h.1.symm
      | exact ht (by simp [h])

theorem mailSettings_foldl (k : String) (ops : List MailSettings.Op) :
    ∀ s : MailSettings, (∀ op ∈ ops, op.key ≠ k) → k ∉ s.toJSON.keys →
      k ∉ (ops.foldl MailSettings.Op.apply s).toJSON.keys := by
  induction ops with
  | nil => intro s _ hs; exact hs
  | cons op rest ih =>
    intro s hall hs
    exact ih _ (fun o ho => hall o (List.mem_cons_of_mem _ ho))
      (mailSettings_step k s op (hall op (List.mem_cons_self _ _)) hs)

theorem trackingSettings_foldl (k : String) (ops : List TrackingSettings.Op) :
    ∀ t : TrackingSettings, (∀ op ∈ ops, op.key ≠ k) → k ∉ t.toJSON.keys →
      k ∉ (ops.foldl TrackingSettings.Op.apply t).toJSON.keys := by
  induction ops with
  | nil => intro t _ ht; exact ht
  | cons op rest ih =>
    intro t hall ht
    exact ih _ (fun o ho => hall o (List.mem_cons_of_mem _ ho))
      (trackingSettings_step k t op (hall op (List.mem_cons_self _ _)) ht)

theorem mailSettings_key_absent (m : MailV3) (h : m.MailSettings = none) :
    "mail_settings" ∉ m.toJSON.keys := by
  intro hmem
  rw [keys_eq_specKeyTable, table_mem_keys] at hmem
  simp [MailV3.specKeyTable, h] at hmem

theorem trackingSettings_key_absent (m : MailV3) (h : m.TrackingSettings = none) :
    "tracking_settings" ∉ m.toJSON.keys := by
  intro hmem
  rw [keys_eq_specKeyTable, table_mem_keys] at hmem
  simp [MailV3.specKeyTable, h] at hmem

/-- C5: absence of a settings object serializes as omission of its key. A `MailV3` whose
`MailSettings` (resp. `TrackingSettings`) is nil, and so any document built by `NewMailV3` and
builder calls on which `SetMailSettings` (resp. `SetTrackingSettings`) was never called, has no
`mail_settings` (resp. `tracking_settings`) member, neither `null` nor an empty object. Within
a `MailSettings` or `TrackingSettings`, every sub-setting that is nil, and so every sub-setting
no setter call has written since `NewMailSettings` / `NewTrackingSettings`, has no member in
the encoded parent. -/
theorem absent_settings_are_omitted :
    (∀ m : MailV3, m.MailSettings = none →
      "mail_settings" ∉ m.toJSON.keys ∧ m.toJSON.get? "mail_settings" = none) ∧
    (∀ m : MailV3, m.TrackingSettings = none →
      "tracking_settings" ∉ m.toJSON.keys ∧ m.toJSON.get? "tracking_settings" = none) ∧
    (∀ (from_ : Option Email) (subject : String) (content : GoSlice (Option Content))
      (personalizations : GoSlice (Option Personalization)) (ops : List MailV3.Op),
      (∀ op ∈ ops, op.isSetMailSettings = false) →
      ∃ m1, MailV3.applyAll (NewMailV3 from_ subject content personalizations) ops = .ok m1 ∧
        "mail_settings" ∉ m1.toJSON.keys ∧ m1.toJSON.get? "mail_settings" = none) ∧
    (∀ (from_ : Option Email) (subject : String) (content : GoSlice (Option Content))
      (personalizations : GoSlice (Option Personalization)) (ops : List MailV3.Op),
      (∀ op ∈ ops, op.isSetTrackingSettings = false) →
      ∃ m1, MailV3.applyAll (NewMailV3 from_ subject content personalizations) ops = .ok m1 ∧
        "tracking_settings" ∉ m1.toJSON.keys ∧ m1.toJSON.get? "tracking_settings" = none) ∧
    (∀ s : MailSettings,
      (s.BCC = none → "bcc" ∉ s.toJSON.keys ∧ s.toJSON.get? "bcc" = none) ∧
      (s.BypassListManagement = none → "bypass_list_management" ∉ s.toJSON.keys ∧
        s.toJSON.get? "bypass_list_management" = none) ∧
      (s.Footer = none → "footer" ∉ s.toJSON.keys ∧ s.toJSON.get? "footer" = none) ∧
      (s.SandboxMode = none →
        "sandbox_mode" ∉ s.toJSON.keys ∧ s.toJSON.get? "sandbox_mode" = none) ∧
      (s.SpamCheckSetting = none →
        "spam_check" ∉ s.toJSON.keys ∧ s.toJSON.get? "spam_check" = none)) ∧
    (∀ t : TrackingSettings,
      (t.ClickTracking = none →
        "click_tracking" ∉ t.toJSON.keys ∧ t.toJSON.get? "click_tracking" = none) ∧
      (t.OpenTracking = none →
        "open_tracking" ∉ t.toJSON.keys ∧ t.toJSON.get? "open_tracking" = none) ∧
      (t.SubscriptionTracking = none → "subscription_tracking" ∉ t.toJSON.keys ∧
        t.toJSON.get? "subscription_tracking" = none) ∧
      (t.GoogleAnalytics = none →
        "ganalytics" ∉ t.toJSON.keys ∧ t.toJSON.get? "ganalytics" = none) ∧
      (t.BCC = none → "bcc" ∉ t.toJSON.keys ∧ t.toJSON.get? "bcc" = none) ∧
      (t.BypassListManagement = none → "bypass_list_management" ∉ t.toJSON.keys ∧
        t.toJSON.get? "bypass_list_management" = none) ∧
      (t.Footer = none → "footer" ∉ t.toJSON.keys ∧ t.toJSON.get? "footer" = none) ∧
      (t.SandboxMode = none →
        "sandbox_mode" ∉ t.toJSON.keys ∧ t.toJSON.get? "sandbox_mode" = none)) ∧
    (∀ (ops : List MailSettings.Op) (k : String), (∀ op ∈ ops, op.key ≠ k) →
      k ∉ (ops.foldl MailSettings.Op.apply NewMailSettings).toJSON.keys ∧
      (ops.foldl MailSettings.Op.apply NewMailSettings).toJSON.get? k = none) ∧
    (∀ (ops : List TrackingSettings.Op) (k : String), (∀ op ∈ ops, op.key ≠ k) →
      k ∉ (ops.foldl TrackingSettings.Op.apply NewTrackingSettings).toJSON.keys ∧
      (ops.foldl TrackingSettings.Op.apply NewTrackingSettings).toJSON.get? k = none) := by
  refine ⟨fun m h => absent_of_not_mem_keys _ _ (mailSettings_key_absent m h),
    fun m h => absent_of_not_mem_keys _ _ (trackingSettings_key_absent m h), ?_, ?_, ?_, ?_, ?_, ?_⟩
  · intro from_ subject content personalizations ops hops
    obtain ⟨m1, h1, hP⟩ := applyAll_preserves (fun m => m.MailSettings = none)
      (fun op => !op.isSetMailSettings)
      (fun m op hop hm => by
        obtain ⟨m1, h1, h2⟩ := apply_frame_MailSettings m op hop
        exact ⟨m1, h1, h2.trans hm⟩)
      ops (NewMailV3 from_ subject content personalizations)
      (fun op hop => by simp [hops op hop]) rfl
    exact ⟨m1, h1, absent_of_not_mem_keys _ _ (mailSettings_key_absent m1 hP)⟩
  · intro from_ subject content personalizations ops hops
    obtain ⟨m1, h1, hP⟩ := applyAll_preserves (fun m => m.TrackingSettings = none)
      (fun op => !op.isSetTrackingSettings)
      (fun m op hop hm => by
        obtain ⟨m1, h1, h2⟩ := apply_frame_TrackingSettings m op hop
        exact ⟨m1, h1, h2.trans hm⟩)
      ops (NewMailV3 from_ subject content personalizations)
      (fun op hop => by simp [hops op hop]) rfl
    exact ⟨m1, h1, absent_of_not_mem_keys _ _ (trackingSettings_key_absent m1 hP)⟩
  · intro s
    refine ⟨?_, ?_, ?_, ?_, ?_⟩ <;> intro h <;> apply absent_of_not_mem_keys <;>
      rw [mailSettings_mem_keys] <;> simp [h]
  · intro t
    refine ⟨?_, ?_, ?_, ?_, ?_, ?_, ?_, ?_⟩ <;> intro h <;> apply absent_of_not_mem_keys <;>
      rw [trackingSettings_mem_keys] <;> simp [h]
  · intro ops k hops
    apply absent_of_not_mem_keys
    refine mailSettings_foldl k ops NewMailSettings hops ?_
    rw [mailSettings_mem_keys]
    simp [NewMailSettings]
  · intro ops k hops
    apply absent_of_not_mem_keys
    refine trackingSettings_foldl k ops NewTrackingSettings hops ?_
    rw [trackingSettings_mem_keys]
    simp [NewTrackingSettings]

/-- C5 at concrete values: the document `NewMailV3(from, "Hi", nil, nil)` followed by
`SetSendAt(5)` has no `mail_settings` member; a `MailSettings` on which only `SetFooter` was
called has no `bcc` member; a fresh `TrackingSettings` on which only `SetClickTracking` was
called has no `ganalytics` member. -/
theorem absent_settings_are_omitted_witness :
    ("mail_settings" ∉ (NewMailV3 (some (NewEmail "" "a@x.com")) "Hi" none none).toJSON.keys ∧
      (NewMailV3 (some (NewEmail "" "a@x.com")) "Hi" none none).toJSON.get? "mail_settings"
        = none) ∧
    (∃ m1, MailV3.applyAll (NewMailV3 (some (NewEmail "" "a@x.com")) "Hi" none none)
        [MailV3.Op.SetSendAt 5] = .ok m1 ∧
      "mail_settings" ∉ m1.toJSON.keys ∧ m1.toJSON.get? "mail_settings" = none) ∧
    ("bcc" ∉ (NewMailSettings.SetFooter (some (NewFooterSetting true "t" "h"))).toJSON.keys ∧
      (NewMailSettings.SetFooter (some (NewFooterSetting true "t" "h"))).toJSON.get? "bcc"
        = none) ∧
    ("ganalytics" ∉ ([TrackingSettings.Op.SetClickTracking
          (some (NewClickTrackingSetting true false))].foldl
        TrackingSettings.Op.apply NewTrackingSettings).toJSON.keys ∧
      ([TrackingSettings.Op.SetClickTracking (some (NewClickTrackingSetting true false))].foldl
        TrackingSettings.Op.apply NewTrackingSettings).toJSON.get? "ganalytics" = none) :=
  ⟨absent_settings_are_omitted.1 _ rfl,
    absent_settings_are_omitted.2.2.1 (some (NewEmail "" "a@x.com")) "Hi" none none
      [MailV3.Op.SetSendAt 5] (by intro op hop; simp at hop; subst hop; rfl),
    (absent_settings_are_omitted.2.2.2.2.1
      (NewMailSettings.SetFooter (some (NewFooterSetting true "t" "h")))).1 rfl,
    absent_settings_are_omitted.2.2.2.2.2.2.2
      [TrackingSettings.Op.SetClickTracking (some (NewClickTrackingSetting true false))]
      "ganalytics" (by intro op hop; simp at hop; subst hop; decide)⟩


/-! ## The minimal document scenario in the text model -/

/-- The scenario in the text model: for all non-empty texts `a`, `b`, `s`, `t`, the document
`m` built by
`NewMailV3(NewEmail("", a), s, nil, nil)`, `AddPersonalizations(p)` with `p` obtained from
`NewPersonalization()` by `AddTos(NewEmail("", b))`, and `SetTextContent(t)` encodes to a JSON
object whose top-level keys are exactly personalizations, from, subject, content; in it
`personalizations[0].to[0].email` is `b`, `personalizations[0]` has no key other than `to`,
and `content[0]` is the object with `type` "text/plain" and `value` `t`. Passing the
personalization to `NewMailV3` directly gives the same JSON. -/
theorem minimal_document_scenario (a b s t : String)
    (ha : a ≠ "") (hb : b ≠ "") (hs : s ≠ "") (ht : t ≠ "") (m : MailV3)
    (hm : m = ((NewMailV3 (some (NewEmail "" a)) s none none).AddPersonalizations
      [some (NewPersonalization.AddTos [some (NewEmail "" b)])]).SetTextContent t) :
    m.toJSON = JSON.obj
      [("personalizations",
          JSON.arr [JSON.obj [("to", JSON.arr [JSON.obj [("email", JSON.str b)]])]]),
       ("from", JSON.obj [("email", JSON.str a)]),
       ("subject", JSON.str s),
       ("content",
          JSON.arr [JSON.obj [("type", JSON.str "text/plain"), ("value", JSON.str t)]])] ∧
    m.toJSON.keys = ["personalizations", "from", "subject", "content"] ∧
    ((((m.toJSON.get? "personalizations").bind (fun j => j.index? 0)).bind
        (fun j => j.get? "to")).bind (fun j => j.index? 0)).bind (fun j => j.get? "email")
      = some (JSON.str b) ∧
    ((m.toJSON.get? "personalizations").bind (fun j => j.index? 0)).map JSON.keys
      = some ["to"] ∧
    (m.toJSON.get? "content").bind (fun j => j.index? 0)
      = some (JSON.obj [("type", JSON.str "text/plain"), ("value", JSON.str t)]) ∧
    ((NewMailV3 (some (NewEmail "" a)) s none
      (some [some (NewPersonalization.AddTos [some (NewEmail "" b)])])).SetTextContent t).toJSON
      = m.toJSON := by
  have hj : m.toJSON = JSON.obj
      [("personalizations",
          JSON.arr [JSON.obj [("to", JSON.arr [JSON.obj [("email", JSON.str b)]])]]),
       ("from", JSON.obj [("email", JSON.str a)]),
       ("subject", JSON.str s),
       ("content",
          JSON.arr [JSON.obj [("type", JSON.str "text/plain"), ("value", JSON.str t)]])] := by
    subst hm
    simp [MailV3.toJSON, MailV3.SetTextContent, MailV3.AddContent, MailV3.AddPersonalizations,
      NewMailV3, NewPersonalization, Personalization.AddTos, NewEmail, Personalization.toJSON,
      Email.toJSON, Content.toJSON, goAppend, omitemptySlice, omitemptyPtr, omitemptyString,
      omitemptyMap, omitemptyInt, encSlice, encPtr, sliceLen, sliceElems, mapLen,
      GoMapData.empty, ha, hb, hs, ht]
  refine ⟨hj, ?_, ?_, ?_, ?_, ?_⟩
  · rw [hj]; rfl
  · rw [hj]; rfl
  · rw [hj]; rfl
  · rw [hj]; rfl
  · rw [hj]
    simp [MailV3.toJSON, MailV3.SetTextContent, MailV3.AddContent,
      NewMailV3, NewPersonalization, Personalization.AddTos, NewEmail, Personalization.toJSON,
      Email.toJSON, Content.toJSON, goAppend, omitemptySlice, omitemptyPtr, omitemptyString,
      omitemptyMap, omitemptyInt, encSlice, encPtr, sliceLen, sliceElems, mapLen,
      GoMapData.empty, ha, hb, hs, ht]

/-! ## C7 — map upserts -/

theorem lookup_cons_eq {β : Type} (k : String) (v : β) (l : List (String × β)) :
    ((k, v) :: l).lookup k = some v := by
  simp [List.lookup]

theorem lookup_cons_ne {β : Type} (k k0 : String) (v : β) (l : List (String × β))
    (h : ¬ k = k0) : ((k0, v) :: l).lookup k = l.lookup k := by
  have hb : (k == k0) = false := by simpa using h
  simp [List.lookup, hb]

theorem lookup_upsertEntries {β : Type} (k : String) (v : β) (l : List (String × β))
    (k' : String) :
    (upsertEntries k v l).lookup k' = if k' = k then some v else l.lookup k' := by
  induction l with
  | nil =>
    by_cases h : k' = k
    · subst h; simp [upsertEntries, lookup_cons_eq]
    · simp [upsertEntries, lookup_cons_ne _ _ _ _ h, h]
  | cons hd tl ih =>
    obtain ⟨k0, v0⟩ := hd
    by_cases h0 : k0 = k
    · subst h0
      by_cases h : k' = k0
      · subst h; simp [upsertEntries, lookup_cons_eq]
      · simp [upsertEntries, lookup_cons_ne _ _ _ _ h, h]
    · by_cases h : k' = k0
      · subst h
        have hne : ¬ k' = k := h0
        simp [upsertEntries, h0, hne, lookup_cons_eq]
      · simp [upsertEntries, h0, lookup_cons_ne _ _ _ _ h, ih]

theorem upsertEntries_twice {β : Type} (k : String) (v1 v2 : β) (l : List (String × β)) :
    upsertEntries k v2 (upsertEntries k v1 l) = upsertEntries k v2 l := by
  induction l with
  | nil => simp [upsertEntries]
  | cons hd tl ih =>
    obtain ⟨k0, v0⟩ := hd
    by_cases h0 : k0 = k
    · simp [upsertEntries, h0]
    · simp [upsertEntries, h0, ih]

theorem lookup_set {β : Type} (d : GoMapData β) (k : String) (v : β) (k' : String) :
    (d.set k v).lookup k' = if k' = k then some v else d.lookup k' :=
  lookup_upsertEntries k v d.entries k'

theorem set_twice {β : Type} (d : GoMapData β) (k : String) (v1 v2 : β) :
    (d.set k v1).set k v2 = d.set k v2 :=
  GoMapData.ext_entries (upsertEntries_twice k v1 v2 d.entries)

theorem mapLookup_getD_empty {β : Type} (m : GoMap β) (k : String) :
    (m.getD GoMapData.empty).lookup k = mapLookup m k := by
  cases m <;> rfl

theorem mapAssign_some {β : Type} (d : GoMapData β) (k : String) (v : β) :
    mapAssign (some d) k v = .ok (some (d.set k v)) := rfl

theorem Personalization_SetHeader_eq (p : Personalization) (d : GoMapData String)
    (h : p.Headers = some d) (k v : String) :
    p.SetHeader k v = .ok { p with Headers := some (d.set k v) } := by
  simp [Personalization.SetHeader, h, mapAssign]

theorem Personalization_SetSubstitution_eq (p : Personalization) (d : GoMapData String)
    (h : p.Substitutions = some d) (k v : String) :
    p.SetSubstitution k v = .ok { p with Substitutions := some (d.set k v) } := by
  simp [Personalization.SetSubstitution, h, mapAssign]

theorem Personalization_SetCustomArg_eq (p : Personalization) (d : GoMapData String)
    (h : p.CustomArgs = some d) (k v : String) :
    p.SetCustomArg k v = .ok { p with CustomArgs := some (d.set k v) } := by
  simp [Personalization.SetCustomArg, h, mapAssign]

/-- C7: the map-upsert operations are last-write-wins and touch only the written key.
`MailV3.SetHeader`, `SetCustomArg` and `AddSection` succeed on every document, also one whose
map is nil, and `Personalization.SetHeader`, `SetSubstitution`, `SetCustomArg` succeed on every
personalization whose map is allocated, as `NewPersonalization` leaves it. After `op(k, v)` only
the map field has changed, and looking up any key in it gives `v` for `k` and the previous
binding for every other key. Hence `op(k, v1)` followed by `op(k, v2)` gives the same result as
`op(k, v2)` alone, and `SetHeader("X","1")` then `SetHeader("X","2")` on an empty document
leaves exactly the one binding "X" to "2". -/
theorem map_upsert_is_last_write_wins :
    (∀ (m : MailV3) (k v : String), ∃ m1, m.SetHeader k v = .ok m1 ∧
      m1 = { m with Headers := m1.Headers } ∧ m1.Headers.isSome ∧
      ∀ k', mapLookup m1.Headers k' = if k' = k then some v else mapLookup m.Headers k') ∧
    (∀ (m : MailV3) (k v : String), ∃ m1, m.SetCustomArg k v = .ok m1 ∧
      m1 = { m with CustomArgs := m1.CustomArgs } ∧ m1.CustomArgs.isSome ∧
      ∀ k', mapLookup m1.CustomArgs k' = if k' = k then some v else mapLookup m.CustomArgs k') ∧
    (∀ (m : MailV3) (k v : String), ∃ m1, m.AddSection k v = .ok m1 ∧
      m1 = { m with Sections := m1.Sections } ∧ m1.Sections.isSome ∧
      ∀ k', mapLookup m1.Sections k' = if k' = k then some v else mapLookup m.Sections k') ∧
    (NewPersonalization.Headers.isSome ∧ NewPersonalization.Substitutions.isSome ∧
      NewPersonalization.CustomArgs.isSome) ∧
    (∀ (p : Personalization) (k v : String), p.Headers.isSome →
      ∃ p1, p.SetHeader k v = .ok p1 ∧
      p1 = { p with Headers := p1.Headers } ∧ p1.Headers.isSome ∧
      ∀ k', mapLookup p1.Headers k' = if k' = k then some v else mapLookup p.Headers k') ∧
    (∀ (p : Personalization) (k v : String), p.Substitutions.isSome →
      ∃ p1, p.SetSubstitution k v = .ok p1 ∧
      p1 = { p with Substitutions := p1.Substitutions } ∧ p1.Substitutions.isSome ∧
      ∀ k', mapLookup p1.Substitutions k' =
        if k' = k then some v else mapLookup p.Substitutions k') ∧
    (∀ (p : Personalization) (k v : String), p.CustomArgs.isSome →
      ∃ p1, p.SetCustomArg k v = .ok p1 ∧
      p1 = { p with CustomArgs := p1.CustomArgs } ∧ p1.CustomArgs.isSome ∧
      ∀ k', mapLookup p1.CustomArgs k' = if k' = k then some v else mapLookup p.CustomArgs k') ∧
    (∀ (m : MailV3) (k v1 v2 : String),
      (m.SetHeader k v1).bind (fun m1 => m1.SetHeader k v2) = m.SetHeader k v2 ∧
      (m.SetCustomArg k v1).bind (fun m1 => m1.SetCustomArg k v2) = m.SetCustomArg k v2 ∧
      (m.AddSection k v1).bind (fun m1 => m1.AddSection k v2) = m.AddSection k v2) ∧
    (∀ (p : Personalization) (k v1 v2 : String), p.Headers.isSome →
      ∃ p2, p.SetHeader k v2 = .ok p2 ∧
        (p.SetHeader k v1).bind (fun p1 => p1.SetHeader k v2) = .ok p2) ∧
    (∀ (p : Personalization) (k v1 v2 : String), p.Substitutions.isSome →
      ∃ p2, p.SetSubstitution k v2 = .ok p2 ∧
        (p.SetSubstitution k v1).bind (fun p1 => p1.SetSubstitution k v2) = .ok p2) ∧
    (∀ (p : Personalization) (k v1 v2 : String), p.CustomArgs.isSome →
      ∃ p2, p.SetCustomArg k v2 = .ok p2 ∧
        (p.SetCustomArg k v1).bind (fun p1 => p1.SetCustomArg k v2) = .ok p2) ∧
    (∃ m2, MailV3.applyAll (NewMailV3 none "" none none)
        [MailV3.Op.SetHeader "X" "1", MailV3.Op.SetHeader "X" "2"] = .ok m2 ∧
      m2.Headers.map GoMapData.entries = some [("X", "2")] ∧
      m2.toJSON = JSON.obj [("headers", JSON.obj [("X", JSON.str "2")])]) := by
  refine ⟨?_, ?_, ?_, ⟨rfl, rfl, rfl⟩, ?_, ?_, ?_, ?_, ?_, ?_, ?_, ?_⟩
  · intro m k v
    refine ⟨_, SetHeader_eq m k v, rfl, rfl, fun k' => ?_⟩
    show ((m.Headers.getD GoMapData.empty).set k v).lookup k' = _
    rw [lookup_set, mapLookup_getD_empty]
  · intro m k v
    refine ⟨_, SetCustomArg_eq m k v, rfl, rfl, fun k' => ?_⟩
    show ((m.CustomArgs.getD GoMapData.empty).set k v).lookup k' = _
    rw [lookup_set, mapLookup_getD_empty]
  · intro m k v
    refine ⟨_, AddSection_eq m k v, rfl, rfl, fun k' => ?_⟩
    show ((m.Sections.getD GoMapData.empty).set k v).lookup k' = _
    rw [lookup_set, mapLookup_getD_empty]
  · intro p k v hp
    obtain ⟨d, hd⟩ := Option.isSome_iff_exists.mp hp
    refine ⟨_, Personalization_SetHeader_eq p d hd k v, rfl, rfl, fun k' => ?_⟩
    show (d.set k v).lookup k' = _
    rw [lookup_set, hd]; rfl
  · intro p k v hp
    obtain ⟨d, hd⟩ := Option.isSome_iff_exists.mp hp
    refine ⟨_, Personalization_SetSubstitution_eq p d hd k v, rfl, rfl, fun k' => ?_⟩
    show (d.set k v).lookup k' = _
    rw [lookup_set, hd]; rfl
  · intro p k v hp
    obtain ⟨d, hd⟩ := Option.isSome_iff_exists.mp hp
    refine ⟨_, Personalization_SetCustomArg_eq p d hd k v, rfl, rfl, fun k' => ?_⟩
    show (d.set k v).lookup k' = _
    rw [lookup_set, hd]; rfl
  · intro m k v1 v2
    refine ⟨?_, ?_, ?_⟩
    · rw [SetHeader_eq m k v1, SetHeader_eq m k v2]
      simp only [Except.bind]
      rw [SetHeader_eq]
      simp [set_twice]
    · rw [SetCustomArg_eq m k v1, SetCustomArg_eq m k v2]
      simp only [Except.bind]
      rw [SetCustomArg_eq]
      simp [set_twice]
    · rw [AddSection_eq m k v1, AddSection_eq m k v2]
      simp only [Except.bind]
      rw [AddSection_eq]
      simp [set_twice]
  · intro p k v1 v2 hp
    obtain ⟨d, hd⟩ := Option.isSome_iff_exists.mp hp
    refine ⟨_, Personalization_SetHeader_eq p d hd k v2, ?_⟩
    rw [Personalization_SetHeader_eq p d hd k v1]
    simp only [Except.bind]
    rw [Personalization_SetHeader_eq _ (d.set k v1) rfl]
    simp [set_twice]
  · intro p k v1 v2 hp
    obtain ⟨d, hd⟩ := Option.isSome_iff_exists.mp hp
    refine ⟨_, Personalization_SetSubstitution_eq p d hd k v2, ?_⟩
    rw [Personalization_SetSubstitution_eq p d hd k v1]
    simp only [Except.bind]
    rw [Personalization_SetSubstitution_eq _ (d.set k v1) rfl]
    simp [set_twice]
  · intro p k v1 v2 hp
    obtain ⟨d, hd⟩ := Option.isSome_iff_exists.mp hp
    refine ⟨_, Personalization_SetCustomArg_eq p d hd k v2, ?_⟩
    rw [Personalization_SetCustomArg_eq p d hd k v1]
    simp only [Except.bind]
    rw [Personalization_SetCustomArg_eq _ (d.set k v1) rfl]
    simp [set_twice]
  · exact ⟨_, rfl, by decide, rfl⟩

/-- C7 at concrete values: on `NewPersonalization()`, whose `Headers` map is allocated,
`SetHeader("X","1")` binds "X" to "1" and leaves every other key as it was, and
`SetHeader("X","1")` followed by `SetHeader("X","2")` gives what `SetHeader("X","2")` alone
gives. -/
theorem map_upsert_is_last_write_wins_witness :
    (NewPersonalization.Headers.isSome ∧
      ∃ p1, NewPersonalization.SetHeader "X" "1" = .ok p1 ∧
        p1 = { NewPersonalization with Headers := p1.Headers } ∧ p1.Headers.isSome ∧
        ∀ k', mapLookup p1.Headers k' =
          if k' = "X" then some "1" else mapLookup NewPersonalization.Headers k') ∧
    (∃ p2, NewPersonalization.SetHeader "X" "2" = .ok p2 ∧
      (NewPersonalization.SetHeader "X" "1").bind (fun p1 => p1.SetHeader "X" "2") = .ok p2) :=
  ⟨⟨rfl, map_upsert_is_last_write_wins.2.2.2.2.1 NewPersonalization "X" "1" rfl⟩,
    map_upsert_is_last_write_wins.2.2.2.2.2.2.2.2.1 NewPersonalization "X" "1" "2" rfl⟩

/-! ## C8 — AddCategories appends -/

/-- C8: `MailV3.AddCategories` appends in call order, without reordering or deduplication.
For every document and all argument lists `xs`, `ys`, one call leaves the categories followed
by `xs` and touches no other field, and `AddCategories(xs...)` then `AddCategories(ys...)`
leaves the old categories followed by `xs` and then `ys`. On a new document
`AddCategories("a")` then `AddCategories("b","c")` yields `["a","b","c"]`, on the wire too. -/
theorem addCategories_appends_in_call_order :
    (∀ (m : MailV3) (xs : List String),
      sliceElems (m.AddCategories xs).Categories = sliceElems m.Categories ++ xs ∧
      m.AddCategories xs = { m with Categories := (m.AddCategories xs).Categories }) ∧
    (∀ (m : MailV3) (xs ys : List String),
      sliceElems ((m.AddCategories xs).AddCategories ys).Categories
        = sliceElems m.Categories ++ xs ++ ys) ∧
    ((NewMailV3 none "" none none).AddCategories ["a"]).AddCategories ["b", "c"]
      = { NewMailV3 none "" none none with Categories := some ["a", "b", "c"] } ∧
    (((NewMailV3 none "" none none).AddCategories ["a"]).AddCategories ["b", "c"]).toJSON
      = JSON.obj [("categories", JSON.arr [JSON.str "a", JSON.str "b", JSON.str "c"])] := by
  refine ⟨fun m xs => ⟨sliceElems_goAppend _ _, rfl⟩, fun m xs ys => ?_, rfl, rfl⟩
  show sliceElems (goAppend (goAppend m.Categories xs) ys) = _
  rw [sliceElems_goAppend, sliceElems_goAppend]

/-! ## C9 — recipient lists of a personalization -/

/-- C9: `Personalization.AddTos`, `AddCCs` and `AddBCCs` append their arguments to the `To`,
`CC` and `BCC` list respectively, preserving order and keeping duplicates. After
`AddTos(xs...)` the `To` list is the old one followed by `xs`, its length has grown by exactly
the length of `xs`, and no other field has changed, so the other two recipient lists are
unchanged; symmetrically for `AddCCs` and `AddBCCs`. -/
theorem recipient_adders_append :
    (∀ (p : Personalization) (xs : List (Option Email)),
      sliceElems (p.AddTos xs).To = sliceElems p.To ++ xs ∧
      sliceLen (p.AddTos xs).To = sliceLen p.To + xs.length ∧
      (p.AddTos xs).CC = p.CC ∧ (p.AddTos xs).BCC = p.BCC ∧
      p.AddTos xs = { p with To := (p.AddTos xs).To }) ∧
    (∀ (p : Personalization) (xs : List (Option Email)),
      sliceElems (p.AddCCs xs).CC = sliceElems p.CC ++ xs ∧
      sliceLen (p.AddCCs xs).CC = sliceLen p.CC + xs.length ∧
      (p.AddCCs xs).To = p.To ∧ (p.AddCCs xs).BCC = p.BCC ∧
      p.AddCCs xs = { p with CC := (p.AddCCs xs).CC }) ∧
    (∀ (p : Personalization) (xs : List (Option Email)),
      sliceElems (p.AddBCCs xs).BCC = sliceElems p.BCC ++ xs ∧
      sliceLen (p.AddBCCs xs).BCC = sliceLen p.BCC + xs.length ∧
      (p.AddBCCs xs).To = p.To ∧ (p.AddBCCs xs).CC = p.CC ∧
      p.AddBCCs xs = { p with BCC := (p.AddBCCs xs).BCC }) ∧
    sliceElems ((NewPersonalization.AddTos [some (NewEmail "" "b@x.com")]).AddTos
        [some (NewEmail "" "b@x.com"), none]).To
      = [some (NewEmail "" "b@x.com"), some (NewEmail "" "b@x.com"), none] := by
  refine ⟨fun p xs => ⟨sliceElems_goAppend _ _, ?_, rfl, rfl, rfl⟩,
    fun p xs => ⟨sliceElems_goAppend _ _, ?_, rfl, rfl, rfl⟩,
    fun p xs => ⟨sliceElems_goAppend _ _, ?_, rfl, rfl, rfl⟩, rfl⟩
  · show sliceLen (goAppend p.To xs) = _
    simp only [sliceLen, sliceElems_goAppend, List.length_append]
  · show sliceLen (goAppend p.CC xs) = _
    simp only [sliceLen, sliceElems_goAppend, List.length_append]
  · show sliceLen (goAppend p.BCC xs) = _
    simp only [sliceLen, sliceElems_goAppend, List.length_append]

/-! ## C10 — content parts -/

/-- C10: `SetTextContent` and `SetHTMLContent` append rather than replace. For every document
and string `t`, `SetTextContent(t)` leaves the content list followed by one part of type
"text/plain" with value `t`, and `SetHTMLContent(t)` leaves it followed by one part of type
"text/html" with value `t`; no other field changes. Consequently two `SetTextContent` calls
yield two text/plain parts, and `AddContent` keeps all parts in call order. -/
theorem content_setters_append :
    (∀ (m : MailV3) (t : String),
      sliceElems (m.SetTextContent t).Content
        = sliceElems m.Content ++ [some { Type_ := "text/plain", Value := t }] ∧
      m.SetTextContent t = { m with Content := (m.SetTextContent t).Content }) ∧
    (∀ (m : MailV3) (t : String),
      sliceElems (m.SetHTMLContent t).Content
        = sliceElems m.Content ++ [some { Type_ := "text/html", Value := t }] ∧
      m.SetHTMLContent t = { m with Content := (m.SetHTMLContent t).Content }) ∧
    (∀ (m : MailV3) (t1 t2 : String),
      sliceElems ((m.SetTextContent t1).SetTextContent t2).Content
        = sliceElems m.Content ++ [some { Type_ := "text/plain", Value := t1 },
            some { Type_ := "text/plain", Value := t2 }]) ∧
    (∀ (m : MailV3) (t h : String),
      sliceElems ((m.SetTextContent t).SetHTMLContent h).Content
        = sliceElems m.Content ++ [some { Type_ := "text/plain", Value := t },
            some { Type_ := "text/html", Value := h }]) ∧
    (∀ (m : MailV3) (cs : List (Option Content)),
      sliceElems (m.AddContent cs).Content = sliceElems m.Content ++ cs) ∧
    (∀ (m : MailV3) (cs ds : List (Option Content)),
      sliceElems ((m.AddContent cs).AddContent ds).Content
        = sliceElems m.Content ++ cs ++ ds) ∧
    (((NewMailV3 none "" none none).SetTextContent "hello").SetTextContent "hello").toJSON
      = JSON.obj [("content", JSON.arr
          [JSON.obj [("type", JSON.str "text/plain"), ("value", JSON.str "hello")],
           JSON.obj [("type", JSON.str "text/plain"), ("value", JSON.str "hello")]])] := by
  refine ⟨fun m t => ⟨sliceElems_goAppend _ _, rfl⟩, fun m t => ⟨sliceElems_goAppend _ _, rfl⟩,
    fun m t1 t2 => ?_, fun m t h => ?_, fun m cs => sliceElems_goAppend _ _,
    fun m cs ds => ?_, rfl⟩
  · show sliceElems (goAppend (goAppend m.Content _) _) = _
    rw [sliceElems_goAppend, sliceElems_goAppend, List.append_assoc]; rfl
  · show sliceElems (goAppend (goAppend m.Content _) _) = _
    rw [sliceElems_goAppend, sliceElems_goAppend, List.append_assoc]; rfl
  · show sliceElems (goAppend (goAppend m.Content cs) ds) = _
    rw [sliceElems_goAppend, sliceElems_goAppend]

/-! ## C11 — what NewPersonalization returns -/

/-- C11: `NewPersonalization()` returns a personalization whose list fields `To`, `CC`, `BCC`,
`Categories` and map fields `Headers`, `Substitutions`, `CustomArgs`, `DynamicTemplateData` are
all allocated and empty (none is nil), whose `Subject` is "" and `SendAt` is 0, and whose JSON
form is the empty object. -/
theorem newPersonalization_is_allocated_and_empty :
    (NewPersonalization.To = some [] ∧ NewPersonalization.CC = some [] ∧
      NewPersonalization.BCC = some [] ∧ NewPersonalization.Categories = some []) ∧
    (NewPersonalization.Headers.isSome ∧ mapLen NewPersonalization.Headers = 0 ∧
      NewPersonalization.Substitutions.isSome ∧ mapLen NewPersonalization.Substitutions = 0 ∧
      NewPersonalization.CustomArgs.isSome ∧ mapLen NewPersonalization.CustomArgs = 0 ∧
      NewPersonalization.DynamicTemplateData.isSome ∧
      mapLen NewPersonalization.DynamicTemplateData = 0) ∧
    (∀ k, mapLookup NewPersonalization.Headers k = none ∧
      mapLookup NewPersonalization.Substitutions k = none ∧
      mapLookup NewPersonalization.CustomArgs k = none ∧
      mapLookup NewPersonalization.DynamicTemplateData k = none) ∧
    NewPersonalization.Subject = "" ∧ NewPersonalization.SendAt = 0 ∧
    NewPersonalization.toJSON = JSON.obj [] :=
  ⟨⟨rfl, rfl, rfl, rfl⟩, ⟨rfl, rfl, rfl, rfl, rfl, rfl, rfl, rfl⟩,
    fun _ => ⟨rfl, rfl, rfl, rfl⟩, rfl, rfl, rfl⟩

/-! ## C12 — which builder operations can fail -/

theorem mailV3_apply_total (m : MailV3) (op : MailV3.Op) :
    ∃ m1, MailV3.Op.apply m op = .ok m1 := by
  cases op with
  | AddSection k v => exact ⟨_, AddSection_eq m k v⟩
  | SetHeader k v => exact ⟨_, SetHeader_eq m k v⟩
  | SetCustomArg k v => exact ⟨_, SetCustomArg_eq m k v⟩
  | _ => exact ⟨_, rfl⟩

theorem mapAssign_ok_iff {β : Type} (m : GoMap β) (k : String) (v : β) :
    (∃ r, mapAssign m k v = .ok r) ↔ m.isSome = true := by
  cases m <;> simp [mapAssign]

theorem mapAssign_none {β : Type} (k : String) (v : β) :
    mapAssign (none : GoMap β) k v = .error Panic.nilMapWrite := rfl

theorem personalization_apply_ok_iff (p : Personalization) (op : Personalization.Op) :
    (∃ p1, Personalization.Op.apply p op = .ok p1) ↔
      Personalization.Op.mapAllocated p op = true := by
  cases op with
  | SetHeader k v =>
    cases h : p.Headers <;>
      simp [Personalization.Op.apply, Personalization.SetHeader,
        Personalization.Op.mapAllocated, mapAssign, h]
  | SetSubstitution k v =>
    cases h : p.Substitutions <;>
      simp [Personalization.Op.apply, Personalization.SetSubstitution,
        Personalization.Op.mapAllocated, mapAssign, h]
  | SetCustomArg k v =>
    cases h : p.CustomArgs <;>
      simp [Personalization.Op.apply, Personalization.SetCustomArg,
        Personalization.Op.mapAllocated, mapAssign, h]
  | SetDynamicTemplateData k v =>
    cases h : p.DynamicTemplateData <;>
      simp [Personalization.Op.apply, Personalization.SetDynamicTemplateData,
        Personalization.Op.mapAllocated, mapAssign, h]
  | _ => simp [Personalization.Op.apply, Personalization.Op.mapAllocated]

theorem personalization_apply_panics (p : Personalization) (op : Personalization.Op)
    (h : Personalization.Op.mapAllocated p op = false) :
    Personalization.Op.apply p op = .error Panic.nilMapWrite := by
  cases op with
  | SetHeader k v =>
    cases h1 : p.Headers <;>
      simp_all [Personalization.Op.apply, Personalization.SetHeader,
        Personalization.Op.mapAllocated, mapAssign]
  | SetSubstitution k v =>
    cases h1 : p.Substitutions <;>
      simp_all [Personalization.Op.apply, Personalization.SetSubstitution,
        Personalization.Op.mapAllocated, mapAssign]
  | SetCustomArg k v =>
    cases h1 : p.CustomArgs <;>
      simp_all [Personalization.Op.apply, Personalization.SetCustomArg,
        Personalization.Op.mapAllocated, mapAssign]
  | SetDynamicTemplateData k v =>
    cases h1 : p.DynamicTemplateData <;>
      simp_all [Personalization.Op.apply, Personalization.SetDynamicTemplateData,
        Personalization.Op.mapAllocated, mapAssign]
  | _ => simp [Personalization.Op.mapAllocated] at h

/-- C12 as stated fails: on a personalization that was not produced by `NewPersonalization`,
here the zero value with every map nil, `SetHeader("X", "1")` does not complete normally; it
panics on the write to the nil map, and so do the other three map setters. -/
theorem setter_on_unset_map_panics :
    ¬ (∃ p1, Personalization.SetHeader
        { To := none, CC := none, BCC := none, Subject := "", Headers := none,
          Substitutions := none, CustomArgs := none, SendAt := 0, DynamicTemplateData := none,
          Categories := none } "X" "1" = .ok p1) ∧
    Personalization.SetHeader
        { To := none, CC := none, BCC := none, Subject := "", Headers := none,
          Substitutions := none, CustomArgs := none, SendAt := 0, DynamicTemplateData := none,
          Categories := none } "X" "1" = .error Panic.nilMapWrite ∧
    Personalization.SetSubstitution
        { To := none, CC := none, BCC := none, Subject := "", Headers := none,
          Substitutions := none, CustomArgs := none, SendAt := 0, DynamicTemplateData := none,
          Categories := none } "X" "1" = .error Panic.nilMapWrite ∧
    Personalization.SetCustomArg
        { To := none, CC := none, BCC := none, Subject := "", Headers := none,
          Substitutions := none, CustomArgs := none, SendAt := 0, DynamicTemplateData := none,
          Categories := none } "X" "1" = .error Panic.nilMapWrite ∧
    Personalization.SetDynamicTemplateData
        { To := none, CC := none, BCC := none, Subject := "", Headers := none,
          Substitutions := none, CustomArgs := none, SendAt := 0, DynamicTemplateData := none,
          Categories := none } "X" (JSON.num 1) = .error Panic.nilMapWrite := by
  refine ⟨?_, rfl, rfl, rfl, rfl⟩
  rintro ⟨p1, h⟩
  simp [Personalization.SetHeader, mapAssign] at h

/-- C12 amended: every `MailV3` builder call completes normally on every document and
argument (the map setters allocate a nil map first), and the `Personalization` calls `AddTos`,
`AddCCs`, `AddBCCs`, `SetSendAt` complete normally on every personalization. The four
`Personalization` map setters `SetHeader`, `SetSubstitution`, `SetCustomArg`,
`SetDynamicTemplateData` complete normally exactly when the map they write is allocated, as
`NewPersonalization` leaves it. The setters of `Attachment`, `ASM`, `MailSettings`,
`TrackingSettings` and `GASetting` only assign or append: for every receiver and argument each
returns the receiver with that one field written. -/
theorem builder_calls_complete_when_maps_allocated :
    (∀ (m : MailV3) (op : MailV3.Op), ∃ m1, MailV3.Op.apply m op = .ok m1) ∧
    (∀ (p : Personalization) (op : Personalization.Op),
      (∃ p1, Personalization.Op.apply p op = .ok p1) ↔
        Personalization.Op.mapAllocated p op = true) ∧
    (∀ (p : Personalization) (tos : List (Option Email)) (sendAt : Int),
      Personalization.Op.mapAllocated p (.AddTos tos) = true ∧
      Personalization.Op.mapAllocated p (.AddCCs tos) = true ∧
      Personalization.Op.mapAllocated p (.AddBCCs tos) = true ∧
      Personalization.Op.mapAllocated p (.SetSendAt sendAt) = true) ∧
    (∀ op : Personalization.Op, Personalization.Op.mapAllocated NewPersonalization op = true) ∧
    (∀ (a : Attachment) (s : String),
      a.SetContent s = { a with Content := s } ∧ a.SetType s = { a with Type_ := s } ∧
      a.SetFilename s = { a with Filename := s } ∧
      a.SetDisposition s = { a with Disposition := s } ∧
      a.SetContentID s = { a with ContentID := s }) ∧
    (∀ (a : ASM) (n : Int) (gs : List Int),
      a.SetGroupID n = { a with GroupID := n } ∧
      a.AddGroupsToDisplay gs = { a with GroupsToDisplay := goAppend a.GroupsToDisplay gs }) ∧
    (∀ (s : MailSettings) (bcc : Option BCCSetting) (b sb : Option Setting)
      (f : Option FooterSetting) (sc : Option SpamCheckSetting),
      s.SetBCC bcc = { s with BCC := bcc } ∧
      s.SetBypassListManagement b = { s with BypassListManagement := b } ∧
      s.SetFooter f = { s with Footer := f } ∧
      s.SetSandboxMode sb = { s with SandboxMode := sb } ∧
      s.SetSpamCheckSettings sc = { s with SpamCheckSetting := sc }) ∧
    (∀ (t : TrackingSettings) (c : Option ClickTrackingSetting) (o : Option OpenTrackingSetting)
      (sb : Option SubscriptionTrackingSetting) (g : Option GASetting),
      t.SetClickTracking c = { t with ClickTracking := c } ∧
      t.SetOpenTracking o = { t with OpenTracking := o } ∧
      t.SetSubscriptionTracking sb = { t with SubscriptionTracking := sb } ∧
      t.SetGoogleAnalytics g = { t with GoogleAnalytics := g }) ∧
    (∀ (g : GASetting) (s : String),
      g.SetCampaignSource s = { g with CampaignSource := s } ∧
      g.SetCampaignContent s = { g with CampaignContent := s } ∧
      g.SetCampaignTerm s = { g with CampaignTerm := s } ∧
      g.SetCampaignName s = { g with CampaignName := s } ∧
      g.SetCampaignMedium s = { g with CampaignMedium := s }) := by
  refine ⟨mailV3_apply_total, personalization_apply_ok_iff, fun _ _ _ => ⟨rfl, rfl, rfl, rfl⟩,
    ?_, fun _ _ => ⟨rfl, rfl, rfl, rfl, rfl⟩, fun _ _ _ => ⟨rfl, rfl⟩,
    fun _ _ _ _ _ _ => ⟨rfl, rfl, rfl, rfl, rfl⟩, fun _ _ _ _ _ => ⟨rfl, rfl, rfl, rfl⟩,
    fun _ _ => ⟨rfl, rfl, rfl, rfl, rfl⟩⟩
  intro op
  cases op <;> rfl

/-! ## C20 — the maps of a personalization stay allocated -/

theorem personalization_step_keeps_maps (p : Personalization) (op : Personalization.Op)
    (h : p.Headers.isSome ∧ p.Substitutions.isSome ∧ p.CustomArgs.isSome ∧
      p.DynamicTemplateData.isSome) :
    ∃ p1, Personalization.Op.apply p op = .ok p1 ∧
      (p1.Headers.isSome ∧ p1.Substitutions.isSome ∧ p1.CustomArgs.isSome ∧
        p1.DynamicTemplateData.isSome) := by
  obtain ⟨h1, h2, h3, h4⟩ := h
  obtain ⟨d1, e1⟩ := Option.isSome_iff_exists.mp h1
  obtain ⟨d2, e2⟩ := Option.isSome_iff_exists.mp h2
  obtain ⟨d3, e3⟩ := Option.isSome_iff_exists.mp h3
  obtain ⟨d4, e4⟩ := Option.isSome_iff_exists.mp h4
  cases op with
  | AddTos x => exact ⟨_, rfl, h1, h2, h3, h4⟩
  | AddCCs x => exact ⟨_, rfl, h1, h2, h3, h4⟩
  | AddBCCs x => exact ⟨_, rfl, h1, h2, h3, h4⟩
  | SetSendAt x => exact ⟨_, rfl, h1, h2, h3, h4⟩
  | SetHeader k v =>
    exact ⟨_, Personalization_SetHeader_eq p d1 e1 k v, rfl, h2, h3, h4⟩
  | SetSubstitution k v =>
    exact ⟨_, Personalization_SetSubstitution_eq p d2 e2 k v, h1, rfl, h3, h4⟩
  | SetCustomArg k v =>
    exact ⟨_, Personalization_SetCustomArg_eq p d3 e3 k v, h1, h2, rfl, h4⟩
  | SetDynamicTemplateData k v =>
    refine ⟨{ p with DynamicTemplateData := some (d4.set k v) }, ?_, h1, h2, h3, rfl⟩
    simp [Personalization.Op.apply, Personalization.SetDynamicTemplateData, e4, mapAssign]

theorem personalization_applyAll_keeps_maps (ops : List Personalization.Op) :
    ∀ p : Personalization,
      (p.Headers.isSome ∧ p.Substitutions.isSome ∧ p.CustomArgs.isSome ∧
        p.DynamicTemplateData.isSome) →
      ∃ p1, Personalization.applyAll p ops = .ok p1 ∧
        (p1.Headers.isSome ∧ p1.Substitutions.isSome ∧ p1.CustomArgs.isSome ∧
          p1.DynamicTemplateData.isSome) := by
  induction ops with
  | nil => intro p h; exact ⟨p, rfl, h⟩
  | cons op rest ih =>
    intro p h
    obtain ⟨p1, h1, hp1⟩ := personalization_step_keeps_maps p op h
    obtain ⟨p2, h2, hp2⟩ := ih p1 hp1
    exact ⟨p2, by simp only [Personalization.applyAll, h1, h2], hp2⟩

/-- C20: starting from `NewPersonalization()`, every finite sequence of `AddTos`, `AddCCs`,
`AddBCCs`, `SetHeader`, `SetSubstitution`, `SetCustomArg`, `SetDynamicTemplateData` and
`SetSendAt` calls runs to the end without a panic, and afterwards the four map fields
`Headers`, `Substitutions`, `CustomArgs`, `DynamicTemplateData` are still allocated; so no map
setter in the sequence writes to an unset map. -/
theorem personalization_builder_keeps_maps_allocated :
    ∀ ops : List Personalization.Op,
      ∃ p, Personalization.applyAll NewPersonalization ops = .ok p ∧
        p.Headers.isSome ∧ p.Substitutions.isSome ∧ p.CustomArgs.isSome ∧
        p.DynamicTemplateData.isSome ∧
        ∀ op : Personalization.Op, Personalization.Op.mapAllocated p op = true := by
  intro ops
  obtain ⟨p, hp, h1, h2, h3, h4⟩ :=
    personalization_applyAll_keeps_maps ops NewPersonalization ⟨rfl, rfl, rfl, rfl⟩
  refine ⟨p, hp, h1, h2, h3, h4, fun op => ?_⟩
  cases op <;> simp [Personalization.Op.mapAllocated, h1, h2, h3, h4]

/-! ## C19 — fluent setters return the receiver they mutated -/

theorem assignThrough_returns {α : Type} (assign : α → α) (call : Ptr → Method α Ptr)
    (hcall : ∀ p, call p = (do assignThrough p assign; return p)) :
    ReturnsMutatedReceiver call assign := by
  intro h a v hv
  refine ⟨h.write a (assign v), ?_, ?_, ?_⟩
  · rw [hcall]
    simp [assignThrough, bind, StateT.bind, hv, pure, StateT.pure, Except.bind, Except.pure]
  · simp [Store.write]
  · intro b hb
    simp [Store.write, hb]

/-- C19: every fluent field setter performs exactly one field assignment and returns the
receiver itself. Objects live in a store under their addresses and a setter is called on a
pointer. For `MailV3.SetFrom`, `SetReplyTo`, `SetTemplateID`, `SetSendAt`, `SetBatchID`,
`SetASM`, `SetIPPoolName`, `SetMailSettings`, `SetTrackingSettings`, for
`Attachment.SetContent`, `SetType`, `SetFilename`, `SetDisposition`, `SetContentID`, for
`ASM.SetGroupID` and for the five `GASetting.SetCampaign*` setters: called with `x` on a
pointer to an object `v`, the call completes, the pointer returned is the receiver's address
(no new object is made), the object at that address is `v` with the named field equal to `x`
and every other field as before, and every other object of the store is as before. A second
setter called on the returned pointer therefore changes the same object. -/
theorem fluent_setters_return_mutated_receiver :
    ((∀ e : Option Email, ReturnsMutatedReceiver (fun m => heap.MailV3.SetFrom m e)
        (fun v => { v with From := e })) ∧
      (∀ e : Option Email, ReturnsMutatedReceiver (fun m => heap.MailV3.SetReplyTo m e)
        (fun v => { v with ReplyTo := e })) ∧
      (∀ s : String, ReturnsMutatedReceiver (fun m => heap.MailV3.SetTemplateID m s)
        (fun v => { v with TemplateID := s })) ∧
      (∀ n : Int, ReturnsMutatedReceiver (fun m => heap.MailV3.SetSendAt m n)
        (fun v => { v with SendAt := n })) ∧
      (∀ s : String, ReturnsMutatedReceiver (fun m => heap.MailV3.SetBatchID m s)
        (fun v => { v with BatchID := s })) ∧
      (∀ a : Option ASM, ReturnsMutatedReceiver (fun m => heap.MailV3.SetASM m a)
        (fun v => { v with ASM := a })) ∧
      (∀ s : String, ReturnsMutatedReceiver (fun m => heap.MailV3.SetIPPoolName m s)
        (fun v => { v with IPPoolName := s })) ∧
      (∀ s : Option MailSettings,
        ReturnsMutatedReceiver (fun m => heap.MailV3.SetMailSettings m s)
          (fun v => { v with MailSettings := s })) ∧
      (∀ t : Option TrackingSettings,
        ReturnsMutatedReceiver (fun m => heap.MailV3.SetTrackingSettings m t)
          (fun v => { v with TrackingSettings := t }))) ∧
    ((∀ s : String, ReturnsMutatedReceiver (fun a => heap.Attachment.SetContent a s)
        (fun v => { v with Content := s })) ∧
      (∀ s : String, ReturnsMutatedReceiver (fun a => heap.Attachment.SetType a s)
        (fun v => { v with Type_ := s })) ∧
      (∀ s : String, ReturnsMutatedReceiver (fun a => heap.Attachment.SetFilename a s)
        (fun v => { v with Filename := s })) ∧
      (∀ s : String, ReturnsMutatedReceiver (fun a => heap.Attachment.SetDisposition a s)
        (fun v => { v with Disposition := s })) ∧
      (∀ s : String, ReturnsMutatedReceiver (fun a => heap.Attachment.SetContentID a s)
        (fun v => { v with ContentID := s }))) ∧
    (∀ n : Int, ReturnsMutatedReceiver (fun a => heap.ASM.SetGroupID a n)
      (fun v => { v with GroupID := n })) ∧
    ((∀ s : String, ReturnsMutatedReceiver (fun g => heap.GASetting.SetCampaignSource g s)
        (fun v => { v with CampaignSource := s })) ∧
      (∀ s : String, ReturnsMutatedReceiver (fun g => heap.GASetting.SetCampaignContent g s)
        (fun v => { v with CampaignContent := s })) ∧
      (∀ s : String, ReturnsMutatedReceiver (fun g => heap.GASetting.SetCampaignTerm g s)
        (fun v => { v with CampaignTerm := s })) ∧
      (∀ s : String, ReturnsMutatedReceiver (fun g => heap.GASetting.SetCampaignName g s)
        (fun v => { v with CampaignName := s })) ∧
      (∀ s : String, ReturnsMutatedReceiver (fun g => heap.GASetting.SetCampaignMedium g s)
        (fun v => { v with CampaignMedium := s }))) ∧
    (∀ (h : Store MailV3) (a : Nat) (v : MailV3) (e : Option Email) (s : String),
      h a = some v →
      ∃ h1, (heap.MailV3.SetFrom (some a) e >>= fun r => heap.MailV3.SetBatchID r s) h
          = .ok (some a, h1) ∧
        h1 a = some { v with From := e, BatchID := s } ∧ ∀ b, b ≠ a → h1 b = h b) := by
  refine ⟨⟨?_, ?_, ?_, ?_, ?_, ?_, ?_, ?_, ?_⟩, ⟨?_, ?_, ?_, ?_, ?_⟩, ?_, ⟨?_, ?_, ?_, ?_, ?_⟩,
    ?_⟩
  all_goals first
    | exact fun _ => assignThrough_returns _ _ (fun _ => rfl)
    | skip
  intro h a v e s hv
  refine ⟨(h.write a { v with From := e }).write a { v with From := e, BatchID := s },
    ?_, ?_, ?_⟩
  · simp [heap.MailV3.SetFrom, heap.MailV3.SetBatchID, assignThrough, bind, StateT.bind, hv,
      pure, StateT.pure, Except.bind, Except.pure, Store.write]
  · simp [Store.write]
  · intro b hb
    simp [Store.write, hb]

/-- C19 at a concrete store: the document `NewMailV3(nil, "Hi", nil, nil)` lives at address
1 and an attachment at address 2 of their stores. `SetBatchID("b")` on the pointer 1 returns
the pointer 1, and the document at address 1 now has `BatchID` "b" and its other fields as
before; `SetFilename("f.txt")` on the pointer 2 returns the pointer 2. -/
theorem fluent_setters_return_mutated_receiver_witness :
    (∃ h1, heap.MailV3.SetBatchID (some 1) "b"
        (fun a => if a = 1 then some (NewMailV3 none "Hi" none none) else none)
          = .ok (some 1, h1) ∧
      h1 1 = some { NewMailV3 none "Hi" none none with BatchID := "b" } ∧
      ∀ b, b ≠ 1 → h1 b = if b = 1 then some (NewMailV3 none "Hi" none none) else none) ∧
    (∃ h1, heap.Attachment.SetFilename (some 2) "f.txt"
        (fun a => if a = 2 then some NewAttachment else none) = .ok (some 2, h1) ∧
      h1 2 = some { NewAttachment with Filename := "f.txt" } ∧
      ∀ b, b ≠ 2 → h1 b = if b = 2 then some NewAttachment else none) :=
  ⟨fluent_setters_return_mutated_receiver.1.2.2.2.2.1 "b" _ 1 _ rfl,
    fluent_setters_return_mutated_receiver.2.1.2.2.1 "f.txt" _ 2 _ rfl⟩

/-! ## C13 — constructing the client -/

/-- C13 fails on the code: `NewV3Client` builds the client with a nil `Header` map and then
calls `Header.Add` on it, so for every key the first `Add` panics with a write to a nil map and
no client is returned. -/
theorem newV3Client_panics_on_nil_header :
    (∀ key : String, sendgrid.NewV3Client key = .error Panic.nilMapWrite) ∧
    ¬ (∃ c, sendgrid.NewV3Client "SG.abc" = .ok c) := by
  refine ⟨fun key => rfl, ?_⟩
  rintro ⟨c, h⟩
  cases h

/-- The three `Header.Add` calls of `NewV3Client`, run on an allocated empty header, yield
the header set the client is meant to carry. -/
theorem header_adds_on_allocated_header (key : String) :
    ∃ h1 h2 h3, Header.Add (some GoMapData.empty) "Authorization" ("Bearer " ++ key) = .ok h1 ∧
      Header.Add h1 "User-Agent" ("sendgrid-go/v" ++ sendgrid.Version) = .ok h2 ∧
      Header.Add h2 "Accept" "application/json" = .ok h3 ∧
      h3.map GoMapData.entries = some [("Authorization", some ["Bearer " ++ key]),
        ("User-Agent", some ["sendgrid-go/v4.0.0"]), ("Accept", some ["application/json"])] := by
  exact ⟨_, _, _, rfl, rfl, rfl, rfl⟩

/-! ## C14 — ParseEmail -/

/-- C14: `ParseEmail` agrees with `NewEmail` on well-formed mailboxes and rejects malformed
ones. With the RFC 822 address parser, `ParseEmail("Name <a@b.com>")` succeeds with
`NewEmail("Name", "a@b.com")`, the bare `ParseEmail("a@b.com")` succeeds with
`NewEmail("", "a@b.com")`, and `ParseEmail("not-an-email")` returns an error and no `Email`.
Whatever the address parser, `ParseEmail` returns an `Email` exactly when the parser accepts
the input; the `Email` is `NewEmail` of the parsed name and address, copied unchanged, and
when the parser rejects, `ParseEmail` returns the parser's error. -/
theorem parseEmail_agrees_with_newEmail :
    ParseEmail mail.ParseAddress "Name <a@b.com>" = .ok (NewEmail "Name" "a@b.com") ∧
    ParseEmail mail.ParseAddress "a@b.com" = .ok (NewEmail "" "a@b.com") ∧
    ParseEmail mail.ParseAddress "not-an-email"
      = .error "mail: missing \x27@\x27 or angle-addr" ∧
    (¬ ∃ e, ParseEmail mail.ParseAddress "not-an-email" = .ok e) ∧
    (∀ (parseAddress : String → Except String MailAddress) (s : String),
      (∃ e, ParseEmail parseAddress s = .ok e) ↔ (∃ a, parseAddress s = .ok a)) ∧
    (∀ (parseAddress : String → Except String MailAddress) (s : String) (a : MailAddress),
      parseAddress s = .ok a →
        ParseEmail parseAddress s = .ok (NewEmail a.Name a.Address)) ∧
    (∀ (parseAddress : String → Except String MailAddress) (s err : String),
      parseAddress s = .error err → ParseEmail parseAddress s = .error err) := by
  have hok : ∀ (parseAddress : String → Except String MailAddress) (s : String)
      (a : MailAddress), parseAddress s = .ok a →
        ParseEmail parseAddress s = .ok (NewEmail a.Name a.Address) := by
    intro parseAddress s a h
    simp [ParseEmail, h, NewEmail]
  have herr : ∀ (parseAddress : String → Except String MailAddress) (s err : String),
      parseAddress s = .error err → ParseEmail parseAddress s = .error err := by
    intro parseAddress s err h
    simp [ParseEmail, h]
  have hbad : ParseEmail mail.ParseAddress "not-an-email"
      = .error "mail: missing \x27@\x27 or angle-addr" := rfl
  refine ⟨rfl, rfl, hbad, ?_, ?_, hok, herr⟩
  · rintro ⟨e, he⟩
    rw [hbad] at he
    cases he
  · intro parseAddress s
    constructor
    · rintro ⟨e, he⟩
      cases h : parseAddress s with
      | error err => rw [herr parseAddress s err h] at he; cases he
      | ok a => exact ⟨a, rfl⟩
    · rintro ⟨a, ha⟩
      exact ⟨_, hok parseAddress s a ha⟩

/-- C14 at a mailbox with a quoted display name: the address parser reads
`"Ann Lee" <ann.lee@x.io>` as the name `Ann Lee` and the address `ann.lee@x.io`, and
`ParseEmail` returns `NewEmail("Ann Lee", "ann.lee@x.io")`. -/
theorem parseEmail_agrees_with_newEmail_witness :
    mail.ParseAddress "\"Ann Lee\" <ann.lee@x.io>"
      = .ok { Name := "Ann Lee", Address := "ann.lee@x.io" } ∧
    ParseEmail mail.ParseAddress "\"Ann Lee\" <ann.lee@x.io>"
      = .ok (NewEmail "Ann Lee" "ann.lee@x.io") :=
  ⟨rfl, parseEmail_agrees_with_newEmail.2.2.2.2.2.1 mail.ParseAddress
    "\"Ann Lee\" <ann.lee@x.io>" { Name := "Ann Lee", Address := "ann.lee@x.io" } rfl⟩

/-! ## Get and Post once the exchange has completed -/

theorem get_of_completed (env : Env) (c : Client) (endpoint : String) (params : Header)
    (r : HTTPResponse) (b : List Byte)
    (hx : Client.exchangeCompleted env c "GET"
      (APIv3BaseURL ++ "/" ++ endpoint ++ "?" ++ env.encodeValues params) none r b) :
    c.Get env endpoint params =
      match Response.unmarshal env b
        { RawBody := some b, StatusCode := r.StatusCode, Header := r.Header, Errors := none } with
      | .error err => .error (.err (.unmarshaling err))
      | .ok resp => .ok resp := by
  obtain ⟨h, req, hc, hreq, hsend, hbody⟩ := hx
  simp only [Client.Get, hreq, hc, hsend, hbody]

theorem post_of_completed (env : Env) (c : Client) (endpoint : String) (body : List Byte)
    (r : HTTPResponse) (b : List Byte)
    (hx : Client.exchangeCompleted env c "POST" (APIv3BaseURL ++ "/" ++ endpoint)
      (some body) r b) :
    c.Post env endpoint body =
      .ok { RawBody := some b, StatusCode := r.StatusCode, Header := r.Header,
            Errors := none } := by
  obtain ⟨h, req, hc, hreq, hsend, hbody⟩ := hx
  simp only [Client.Post, hreq, hc, hsend, hbody]

theorem decodeErrorArray_envelope (items : List (String × String)) :
    decodeErrorArray []
        (items.map (fun i => JSON.obj [("field", JSON.str i.1), ("message", JSON.str i.2)]))
      = .ok (items.map (fun i => { Field := i.1, Message := i.2 })) := by
  induction items with
  | nil => rfl
  | cons i rest ih =>
    have h0 : findField ["field", "message"] "field" = some 0 := by decide
    have h1 : findField ["field", "message"] "message" = some 1 := by decide
    simp only [List.map_cons, decodeErrorArray, List.headD_nil, List.tail_nil,
      ErrorDetails.unmarshalValue, ErrorDetails.unmarshalMembers, h0, h1, decodeString, ih]

theorem post_errors_nil (env : Env) (c : Client) (endpoint : String) (body : List Byte)
    (resp : Response) (h : c.Post env endpoint body = .ok resp) : resp.Errors = none := by
  simp only [Client.Post] at h
  split at h
  · cases h
  · split at h
    · cases h
    · split at h
      · cases h
      · split at h
        · cases h
        · cases h
          rfl

/-! ## C16 — what Get puts into the response -/

/-- C16 fails on the code: `Get` decodes the body into the same `Response` that already holds
the transport data, and `RawBody`, `StatusCode` and `Header` are exported fields without a
json tag, so members of those names in the body overwrite them. When the exchange completed
with response `r` and body `b`, and `b` is the JSON object with the single member
`StatusCode` = 200, `Get` succeeds with `StatusCode` 200 whatever the HTTP status was; and
when `b` is the object with the single member `RawBody` = "aGk=", `Get` succeeds with
`RawBody` the base64 decoding of "aGk=" instead of `b`. -/
theorem get_overwrites_transport_fields_from_body (env : Env) (c : Client) (endpoint : String)
    (params : Header) (r : HTTPResponse) (b : List Byte)
    (hx : Client.exchangeCompleted env c "GET"
      (APIv3BaseURL ++ "/" ++ endpoint ++ "?" ++ env.encodeValues params) none r b) :
    (env.parseJSON b = .ok (JSON.obj [("StatusCode", JSON.num 200)]) →
      c.Get env endpoint params =
        .ok { RawBody := some b, StatusCode := 200, Header := r.Header, Errors := none }) ∧
    (∀ raw : List Byte, env.parseJSON b = .ok (JSON.obj [("RawBody", JSON.str "aGk=")]) →
      env.base64Decode "aGk=" = .ok raw →
      c.Get env endpoint params =
        .ok { RawBody := some raw, StatusCode := r.StatusCode, Header := r.Header,
              Errors := none }) := by
  have h0 : findField ["RawBody", "StatusCode", "Header", "errors"] "RawBody" = some 0 := by
    decide
  have h1 : findField ["RawBody", "StatusCode", "Header", "errors"] "StatusCode" = some 1 := by
    decide
  refine ⟨fun hp => ?_, fun raw hp hb => ?_⟩
  · rw [get_of_completed env c endpoint params r b hx]
    simp [Response.unmarshal, hp, Response.unmarshalValue, Response.unmarshalMembers, h1,
      decodeInt]
  · rw [get_of_completed env c endpoint params r b hx]
    simp [Response.unmarshal, hp, Response.unmarshalValue, Response.unmarshalMembers, h0,
      decodeBytes, hb]

/-- C16 at a concrete exchange: the server answers status 500 with the body
`{"StatusCode":200}`; `Get` returns a response whose `StatusCode` is 200, not 500. With the
body `{"RawBody":"aGk="}` it returns `RawBody` = "hi", not the body received. -/
theorem get_overwrites_transport_fields_from_body_witness :
    (Client.Get (Env.fixed 500 none (asciiBytes "\x7b\"StatusCode\":200\x7d")
          (JSON.obj [("StatusCode", JSON.num 200)]))
        { HTTPClient := some { Timeout := 30000000000 }, Header := some GoMapData.empty }
        "user/profile" none
      = .ok { RawBody := some (asciiBytes "\x7b\"StatusCode\":200\x7d"), StatusCode := 200,
              Header := none, Errors := none }) ∧
    (Client.Get (Env.fixed 500 none (asciiBytes "\x7b\"RawBody\":\"aGk=\"\x7d")
          (JSON.obj [("RawBody", JSON.str "aGk=")]))
        { HTTPClient := some { Timeout := 30000000000 }, Header := some GoMapData.empty }
        "user/profile" none
      = .ok { RawBody := some [104, 105], StatusCode := 500, Header := none,
              Errors := none }) :=
  ⟨(get_overwrites_transport_fields_from_body
      (Env.fixed 500 none (asciiBytes "\x7b\"StatusCode\":200\x7d")
        (JSON.obj [("StatusCode", JSON.num 200)]))
      { HTTPClient := some { Timeout := 30000000000 }, Header := some GoMapData.empty }
      "user/profile" none
      { StatusCode := 500, Header := none,
        Body := .ok (asciiBytes "\x7b\"StatusCode\":200\x7d") }
      (asciiBytes "\x7b\"StatusCode\":200\x7d") ⟨_, _, rfl, rfl, rfl, rfl⟩).1 rfl,
    (get_overwrites_transport_fields_from_body
      (Env.fixed 500 none (asciiBytes "\x7b\"RawBody\":\"aGk=\"\x7d")
        (JSON.obj [("RawBody", JSON.str "aGk=")]))
      { HTTPClient := some { Timeout := 30000000000 }, Header := some GoMapData.empty }
      "user/profile" none
      { StatusCode := 500, Header := none,
        Body := .ok (asciiBytes "\x7b\"RawBody\":\"aGk=\"\x7d") }
      (asciiBytes "\x7b\"RawBody\":\"aGk=\"\x7d") ⟨_, _, rfl, rfl, rfl, rfl⟩).2
        [104, 105] rfl rfl⟩

/-! ## C17 — what Post puts into the response -/

/-- C17 fails on the code: `Post` stores the status code, the header and the body bytes and
never decodes the body, so the `Errors` of every response it returns is nil, also when the
body is an error envelope listing items. When the exchange completed with response `r` and
body `b`, `Post` returns `RawBody` = `b`, `StatusCode` and `Header` of `r`, and no errors. -/
theorem post_never_fills_errors :
    (∀ (env : Env) (c : Client) (endpoint : String) (body : List Byte) (resp : Response),
      c.Post env endpoint body = .ok resp → resp.Errors = none) ∧
    (∀ (env : Env) (c : Client) (endpoint : String) (body : List Byte) (r : HTTPResponse)
      (b : List Byte),
      Client.exchangeCompleted env c "POST" (APIv3BaseURL ++ "/" ++ endpoint) (some body) r b →
      c.Post env endpoint body =
        .ok { RawBody := some b, StatusCode := r.StatusCode, Header := r.Header,
              Errors := none }) :=
  ⟨post_errors_nil, post_of_completed⟩

/-- C17 at a concrete exchange: the server answers status 400 with the envelope
`{"errors":[{"field":"from","message":"required"}]}`; `Post` returns a response with that
body and status and with `Errors` nil, not the listed item. -/
theorem post_never_fills_errors_witness :
    Client.Post (Env.fixed 400 none
          (asciiBytes "\x7b\"errors\":[\x7b\"field\":\"from\",\"message\":\"required\"\x7d]\x7d")
          (JSON.obj [("errors", JSON.arr
            [JSON.obj [("field", JSON.str "from"), ("message", JSON.str "required")]])]))
        { HTTPClient := some { Timeout := 30000000000 }, Header := some GoMapData.empty }
        "mail/send" []
      = .ok { RawBody := some (asciiBytes
                "\x7b\"errors\":[\x7b\"field\":\"from\",\"message\":\"required\"\x7d]\x7d"),
              StatusCode := 400, Header := none, Errors := none } :=
  post_never_fills_errors.2 _ _ _ _
    { StatusCode := 400, Header := none,
      Body := .ok (asciiBytes
        "\x7b\"errors\":[\x7b\"field\":\"from\",\"message\":\"required\"\x7d]\x7d") }
    _ ⟨_, _, rfl, rfl, rfl, rfl⟩

/-! ## C18 — when Get and Post fail on the body -/

/-- C18: once the network call and the body read have succeeded, `Get` fails exactly when the
body cannot be decoded into the response, and then with the decoder's error; otherwise it
returns what the decoder returns. Malformed JSON text, and so the empty body, makes `Get`
fail; a body that is the error envelope with items `(field, message)` makes it succeed with
those items, in order, as `Errors`; the empty object makes it succeed with no errors. `Post`
returns a response and no error for every body. -/
theorem get_fails_exactly_on_decode_failure :
    (∀ (env : Env) (c : Client) (endpoint : String) (params : Header) (r : HTTPResponse)
      (b : List Byte),
      Client.exchangeCompleted env c "GET"
        (APIv3BaseURL ++ "/" ++ endpoint ++ "?" ++ env.encodeValues params) none r b →
      ((∃ e, c.Get env endpoint params = .error e) ↔
        ∃ cause, Response.unmarshal env b
          { RawBody := some b, StatusCode := r.StatusCode, Header := r.Header,
            Errors := none } = .error cause) ∧
      (∀ cause, Response.unmarshal env b
          { RawBody := some b, StatusCode := r.StatusCode, Header := r.Header,
            Errors := none } = .error cause →
        c.Get env endpoint params = .error (.err (.unmarshaling cause))) ∧
      (∀ resp, Response.unmarshal env b
          { RawBody := some b, StatusCode := r.StatusCode, Header := r.Header,
            Errors := none } = .ok resp →
        c.Get env endpoint params = .ok resp) ∧
      (∀ text, env.parseJSON b = .error text →
        c.Get env endpoint params = .error (.err (.unmarshaling (.invalidText text)))) ∧
      (b = [] → ∃ text,
        c.Get env endpoint params = .error (.err (.unmarshaling (.invalidText text)))) ∧
      (∀ items : List (String × String),
        env.parseJSON b = .ok (JSON.obj [("errors", JSON.arr (items.map (fun i =>
          JSON.obj [("field", JSON.str i.1), ("message", JSON.str i.2)])))]) →
        c.Get env endpoint params =
          .ok { RawBody := some b, StatusCode := r.StatusCode, Header := r.Header,
                Errors := some (items.map (fun i => { Field := i.1, Message := i.2 })) }) ∧
      (env.parseJSON b = .ok (JSON.obj []) →
        c.Get env endpoint params =
          .ok { RawBody := some b, StatusCode := r.StatusCode, Header := r.Header,
                Errors := none })) ∧
    (∀ (env : Env) (c : Client) (endpoint : String) (body : List Byte) (r : HTTPResponse)
      (b : List Byte),
      Client.exchangeCompleted env c "POST" (APIv3BaseURL ++ "/" ++ endpoint) (some body) r b →
      ∃ resp, c.Post env endpoint body = .ok resp ∧ resp.RawBody = some b) := by
  refine ⟨?_, fun env c endpoint body r b hx =>
    ⟨_, post_of_completed env c endpoint body r b hx, rfl⟩⟩
  intro env c endpoint params r b hx
  have hget := get_of_completed env c endpoint params r b hx
  have herr : ∀ cause, Response.unmarshal env b
      { RawBody := some b, StatusCode := r.StatusCode, Header := r.Header,
        Errors := none } = .error cause →
      c.Get env endpoint params = .error (.err (.unmarshaling cause)) := by
    intro cause hc
    rw [hget, hc]
  have hok : ∀ resp, Response.unmarshal env b
      { RawBody := some b, StatusCode := r.StatusCode, Header := r.Header,
        Errors := none } = .ok resp →
      c.Get env endpoint params = .ok resp := by
    intro resp hc
    rw [hget, hc]
  have hbad : ∀ text, env.parseJSON b = .error text →
      c.Get env endpoint params = .error (.err (.unmarshaling (.invalidText text))) := by
    intro text ht
    exact herr _ (by simp [Response.unmarshal, ht])
  refine ⟨?_, herr, hok, hbad, ?_, ?_, ?_⟩
  · constructor
    · rintro ⟨e, he⟩
      cases hu : Response.unmarshal env b
          { RawBody := some b, StatusCode := r.StatusCode, Header := r.Header,
            Errors := none } with
      | error cause => exact ⟨cause, rfl⟩
      | ok resp => rw [hok resp hu] at he; cases he
    · rintro ⟨cause, hc⟩
      exact ⟨_, herr cause hc⟩
  · intro hb
    subst hb
    obtain ⟨text, ht⟩ := env.parseJSON_empty
    exact ⟨text, hbad text ht⟩
  · intro items hp
    have h3 : findField ["RawBody", "StatusCode", "Header", "errors"] "errors" = some 3 := by
      decide
    apply hok
    simp [Response.unmarshal, hp, Response.unmarshalValue, Response.unmarshalMembers, h3,
      decodeErrors, sliceElems, decodeErrorArray_envelope]
  · intro hp
    apply hok
    simp [Response.unmarshal, hp, Response.unmarshalValue, Response.unmarshalMembers]

/-- C18 at concrete exchanges: with the empty body `Get` fails with a decoding error; with
the envelope `{"errors":[{"field":"from","message":"required"}]}` it succeeds and lists the
item; `Post` succeeds on the empty body. -/
theorem get_fails_exactly_on_decode_failure_witness :
    (∃ text, Client.Get (Env.fixed 200 none [] JSON.null)
        { HTTPClient := some { Timeout := 30000000000 }, Header := some GoMapData.empty }
        "user/profile" none = .error (.err (.unmarshaling (.invalidText text)))) ∧
    (Client.Get (Env.fixed 400 none
          (asciiBytes "\x7b\"errors\":[\x7b\"field\":\"from\",\"message\":\"required\"\x7d]\x7d")
          (JSON.obj [("errors", JSON.arr
            [JSON.obj [("field", JSON.str "from"), ("message", JSON.str "required")]])]))
        { HTTPClient := some { Timeout := 30000000000 }, Header := some GoMapData.empty }
        "user/profile" none
      = .ok { RawBody := some (asciiBytes
                "\x7b\"errors\":[\x7b\"field\":\"from\",\"message\":\"required\"\x7d]\x7d"),
              StatusCode := 400, Header := none,
              Errors := some [{ Field := "from", Message := "required" }] }) ∧
    (∃ resp, Client.Post (Env.fixed 200 none [] JSON.null)
        { HTTPClient := some { Timeout := 30000000000 }, Header := some GoMapData.empty }
        "mail/send" [] = .ok resp ∧ resp.RawBody = some []) :=
  ⟨(get_fails_exactly_on_decode_failure.1 (Env.fixed 200 none [] JSON.null)
      { HTTPClient := some { Timeout := 30000000000 }, Header := some GoMapData.empty }
      "user/profile" none { StatusCode := 200, Header := none, Body := .ok [] } []
      ⟨_, _, rfl, rfl, rfl, rfl⟩).2.2.2.2.1 rfl,
    (get_fails_exactly_on_decode_failure.1 _
      { HTTPClient := some { Timeout := 30000000000 }, Header := some GoMapData.empty }
      "user/profile" none
      { StatusCode := 400, Header := none,
        Body := .ok (asciiBytes
          "\x7b\"errors\":[\x7b\"field\":\"from\",\"message\":\"required\"\x7d]\x7d") }
      _ ⟨_, _, rfl, rfl, rfl, rfl⟩).2.2.2.2.2.1 [("from", "required")] rfl,
    get_fails_exactly_on_decode_failure.2 (Env.fixed 200 none [] JSON.null)
      { HTTPClient := some { Timeout := 30000000000 }, Header := some GoMapData.empty }
      "mail/send" [] { StatusCode := 200, Header := none, Body := .ok [] } []
      ⟨_, _, rfl, rfl, rfl, rfl⟩⟩

/-! ## Round trip: generic lemmas on the decoder -/

theorem unmarshalFields_append {α : Type} (names : List String)
    (step : Nat → α → JSON → Except JSONError α) (a b : List (String × JSON)) :
    ∀ x : α, unmarshalFields names step x (a ++ b) =
      match unmarshalFields names step x a with
      | .error e => .error e
      | .ok y => unmarshalFields names step y b := by
  induction a with
  | nil => intro x; rfl
  | cons hd tl ih =>
    intro x
    obtain ⟨k, v⟩ := hd
    rw [List.cons_append]
    cases hf : findField names k with
    | none =>
      simp only [unmarshalFields, hf]
      exact ih x
    | some i =>
      cases hs : step i x v with
      | error e => simp only [unmarshalFields, hf, hs]
      | ok y =>
        simp only [unmarshalFields, hf, hs]
        exact ih y

theorem unmarshalFields_single {α : Type} (names : List String)
    (step : Nat → α → JSON → Except JSONError α) (x : α) (k : String) (v : JSON) (i : Nat)
    (h : findField names k = some i) :
    unmarshalFields names step x [(k, v)] = step i x v := by
  simp only [unmarshalFields, h]
  cases step i x v <;> rfl

theorem decodePtr_of_ne_null {α : Type} (dec : α → JSON → Except JSONError α) (zero : α)
    (cur : Option α) (j : JSON) (h : j ≠ JSON.null) :
    decodePtr dec zero cur j =
      match dec (cur.getD zero) j with
      | .error e => .error e
      | .ok x => .ok (some x) := by
  cases j <;> first | exact absurd rfl h | rfl

theorem decodeArray_map {α : Type} (dec : α → JSON → Except JSONError α) (zero : α)
    (enc : α → JSON) (R : JSON → JSON → Prop) (l : List α)
    (h : ∀ a ∈ l, ∃ b, dec zero (enc a) = .ok b ∧ R (enc b) (enc a)) :
    ∃ l1, decodeArray dec zero [] (l.map enc) = .ok l1 ∧
      List.Forall₂ R (l1.map enc) (l.map enc) := by
  induction l with
  | nil => exact ⟨[], rfl, List.Forall₂.nil⟩
  | cons a rest ih =>
    obtain ⟨b, hb, hR⟩ := h a (List.mem_cons_self _ _)
    obtain ⟨l1, hl1, hF⟩ := ih (fun x hx => h x (List.mem_cons_of_mem _ hx))
    refine ⟨b :: l1, ?_, List.Forall₂.cons hR hF⟩
    simp only [List.map_cons, decodeArray, List.headD_nil, List.tail_nil, hb, hl1]

theorem forall₂_eq_iff_eq {l1 l2 : List JSON} (h : List.Forall₂ (fun a b => a = b) l1 l2) :
    l1 = l2 := by
  induction h with
  | nil => rfl
  | cons hab _ ih => rw [hab, ih]

theorem canonList_eq_of_forall₂ {l1 l2 : List JSON}
    (h : List.Forall₂ (fun a b => JSON.canon a = JSON.canon b) l1 l2) :
    JSON.canonList l1 = JSON.canonList l2 := by
  induction h with
  | nil => rfl
  | cons hab _ ih => simp only [JSON.canonList, hab, ih]

theorem canonMembers_append (a b : List (String × JSON)) :
    JSON.canonMembers (a ++ b) = JSON.canonMembers a ++ JSON.canonMembers b := by
  induction a with
  | nil => rfl
  | cons hd tl ih =>
    obtain ⟨k, v⟩ := hd
    show (k, v.canon) :: JSON.canonMembers (tl ++ b) = _
    rw [ih]
    rfl

theorem sliceLen_eq_zero_or {α : Type} (s : GoSlice α) :
    sliceLen s = 0 ∨ ∃ a l, s = some (a :: l) := by
  cases s with
  | none => exact Or.inl rfl
  | some l =>
    cases l with
    | nil => exact Or.inl rfl
    | cons a t => exact Or.inr ⟨a, t, rfl⟩

/-! ## Round trip: one field at a time -/

theorem seg_string (key tgt s : String) :
    ∃ v, omitemptyString key v = omitemptyString key s ∧
      ((omitemptyString key s = [] ∧ v = "") ∨
        ∃ j, omitemptyString key s = [(key, j)] ∧ decodeString tgt "" j = .ok v) := by
  refine ⟨s, rfl, ?_⟩
  by_cases h : s = ""
  · exact Or.inl ⟨by simp [omitemptyString, h], h⟩
  · exact Or.inr ⟨JSON.str s, by simp [omitemptyString, h], rfl⟩

theorem seg_string_always (key tgt s : String) :
    ∃ v, fieldAlways key (JSON.str v) = fieldAlways key (JSON.str s) ∧
      ((fieldAlways key (JSON.str s) = [] ∧ v = "") ∨
        ∃ j, fieldAlways key (JSON.str s) = [(key, j)] ∧ decodeString tgt "" j = .ok v) :=
  ⟨s, rfl, Or.inr ⟨JSON.str s, rfl, rfl⟩⟩

theorem decodeInt_num (tgt : String) (cur n : Int) (h : inInt64 n) :
    decodeInt tgt cur (JSON.num n) = .ok n := by
  exact if_pos h

theorem seg_int (key tgt : String) (n : Int) (hn : inInt64 n) :
    ∃ v, omitemptyInt key v = omitemptyInt key n ∧
      ((omitemptyInt key n = [] ∧ v = 0) ∨
        ∃ j, omitemptyInt key n = [(key, j)] ∧ decodeInt tgt 0 j = .ok v) := by
  refine ⟨n, rfl, ?_⟩
  by_cases h : n = 0
  · exact Or.inl ⟨by simp [omitemptyInt, h], h⟩
  · exact Or.inr ⟨JSON.num n, by simp [omitemptyInt, h], decodeInt_num tgt 0 n hn⟩

theorem seg_ptr {α : Type} (key : String) (enc : α → JSON)
    (dec : α → JSON → Except JSONError α) (zero : α) (p : Option α)
    (hne : ∀ t, enc t ≠ JSON.null)
    (hrt : ∀ t, p = some t → ∃ t1, dec zero (enc t) = .ok t1 ∧ enc t1 = enc t) :
    ∃ v, omitemptyPtr key enc v = omitemptyPtr key enc p ∧
      ((omitemptyPtr key enc p = [] ∧ v = none) ∨
        ∃ j, omitemptyPtr key enc p = [(key, j)] ∧ decodePtr dec zero none j = .ok v) := by
  cases p with
  | none => exact ⟨none, rfl, Or.inl ⟨rfl, rfl⟩⟩
  | some t =>
    obtain ⟨t1, h1, h2⟩ := hrt t rfl
    refine ⟨some t1, by simp [omitemptyPtr, h2], Or.inr ⟨enc t, rfl, ?_⟩⟩
    rw [decodePtr_of_ne_null _ _ _ _ (hne t)]
    simp only [Option.getD_none, h1]

theorem seg_boolptr (key tgt : String) (p : Option Bool) :
    ∃ v, omitemptyPtr key JSON.bool v = omitemptyPtr key JSON.bool p ∧
      ((omitemptyPtr key JSON.bool p = [] ∧ v = none) ∨
        ∃ j, omitemptyPtr key JSON.bool p = [(key, j)] ∧
          decodePtr (decodeBool tgt) false none j = .ok v) :=
  seg_ptr key JSON.bool (decodeBool tgt) false p (fun t => by simp)
    (fun t _ => ⟨t, rfl, rfl⟩)

theorem seg_slice {α : Type} (key tgt : String) (enc : α → JSON)
    (dec : α → JSON → Except JSONError α) (zero : α) (s : GoSlice α)
    (h : ∀ a ∈ sliceElems s, ∃ b, dec zero (enc a) = .ok b ∧ enc b = enc a) :
    ∃ v, omitemptySlice key enc v = omitemptySlice key enc s ∧
      ((omitemptySlice key enc s = [] ∧ v = none) ∨
        ∃ j, omitemptySlice key enc s = [(key, j)] ∧
          decodeSlice tgt dec zero none j = .ok v) := by
  rcases sliceLen_eq_zero_or s with h0 | ⟨a, l, rfl⟩
  · exact ⟨none, by rw [omitemptySlice, omitemptySlice, if_pos h0]; rfl,
      Or.inl ⟨by rw [omitemptySlice, if_pos h0], rfl⟩⟩
  · obtain ⟨l1, hl1, hF⟩ := decodeArray_map dec zero enc (fun x y => x = y) (a :: l) h
    have hmap : l1.map enc = (a :: l).map enc := forall₂_eq_iff_eq hF
    have hlen : l1.length = (a :: l).length := by
      have := congrArg List.length hmap
      simpa using this
    have hne : sliceLen (some l1 : GoSlice α) ≠ 0 := by
      simp only [sliceLen, sliceElems, Option.getD_some, hlen]
      simp
    refine ⟨some l1, ?_, Or.inr ⟨JSON.arr ((a :: l).map enc), ?_, ?_⟩⟩
    · simp only [omitemptySlice, if_neg hne, encSlice, hmap]
      simp [sliceLen, sliceElems]
    · simp [omitemptySlice, sliceLen, sliceElems, encSlice]
    · simp only [decodeSlice, sliceElems, Option.getD_none, hl1]

/-! ## Round trip: maps -/

theorem keyLE_total (a b : String) : keyLE a b = true ∨ keyLE b a = true := by
  simp only [keyLE, decide_eq_true_eq]
  by_cases h : b.data < a.data
  · exact Or.inr (lt_asymm h)
  · exact Or.inl h

theorem keyLE_trans (a b c : String) (h1 : keyLE a b = true) (h2 : keyLE b c = true) :
    keyLE a c = true := by
  simp only [keyLE, decide_eq_true_eq, not_lt] at *
  exact le_trans h1 h2

instance keyOrder_total {β : Type} : IsTotal (String × β) keyOrder :=
  ⟨fun a b => keyLE_total a.1 b.1⟩

instance keyOrder_trans {β : Type} : IsTrans (String × β) keyOrder :=
  ⟨fun a b c => keyLE_trans a.1 b.1 c.1⟩

theorem upsertEntries_of_not_mem {β : Type} (k : String) (v : β) (l : List (String × β))
    (h : k ∉ l.map Prod.fst) : upsertEntries k v l = l ++ [(k, v)] := by
  induction l with
  | nil => rfl
  | cons hd tl ih =>
    obtain ⟨k0, v0⟩ := hd
    simp only [List.map_cons, List.mem_cons, not_or] at h
    have hne : ¬ k0 = k := fun e => h.1 e.symm
    simp only [upsertEntries, if_neg hne, ih h.2, List.cons_append]

theorem decodeMapMembers_fresh {β : Type} (dec : JSON → Except JSONError β) (enc : β → JSON)
    (R : JSON → JSON → Prop) :
    ∀ (L : List (String × β)) (d : GoMapData β), (L.map Prod.fst).Nodup →
      (∀ k ∈ L.map Prod.fst, k ∉ d.entries.map Prod.fst) →
      (∀ e ∈ L, ∃ b, dec (enc e.2) = .ok b ∧ R (enc b) (enc e.2)) →
      ∃ d1 L1, decodeMapMembers dec d (L.map (fun e => (e.1, enc e.2))) = .ok d1 ∧
        d1.entries = d.entries ++ L1 ∧
        List.Forall₂ (fun e1 e => e1.1 = e.1 ∧ R (enc e1.2) (enc e.2)) L1 L := by
  intro L
  induction L with
  | nil => intro d _ _ _; exact ⟨d, [], rfl, by simp, List.Forall₂.nil⟩
  | cons hd tl ih =>
    intro d hnd hdis hval
    obtain ⟨k, v⟩ := hd
    obtain ⟨b, hb, hR⟩ := hval (k, v) (List.mem_cons_self _ _)
    have hk : k ∉ d.entries.map Prod.fst := hdis k (by simp)
    have hset : (d.set k b).entries = d.entries ++ [(k, b)] :=
      upsertEntries_of_not_mem k b d.entries hk
    have hnd' : (tl.map Prod.fst).Nodup := (List.nodup_cons.mp hnd).2
    have hknot : k ∉ tl.map Prod.fst := (List.nodup_cons.mp hnd).1
    obtain ⟨d1, L1, h1, h2, h3⟩ := ih (d.set k b) hnd'
      (by
        intro k' hk' hmem
        rw [hset, List.map_append, List.mem_append] at hmem
        rcases hmem with hmem | hmem
        · exact hdis k' (List.mem_cons_of_mem _ hk') hmem
        · simp only [List.map_cons, List.map_nil, List.mem_singleton] at hmem
          exact hknot (hmem ▸ hk'))
      (fun e he => hval e (List.mem_cons_of_mem _ he))
    refine ⟨d1, (k, b) :: L1, ?_, ?_, List.Forall₂.cons ⟨rfl, hR⟩ h3⟩
    · simp only [List.map_cons, decodeMapMembers, hb, h1]
    · rw [h2, hset, List.append_assoc]; rfl

theorem forall₂_keys_eq {β : Type} {P : β → β → Prop} {L1 L : List (String × β)}
    (h : List.Forall₂ (fun e1 e => e1.1 = e.1 ∧ P e1.2 e.2) L1 L) :
    L1.map Prod.fst = L.map Prod.fst := by
  induction h with
  | nil => rfl
  | cons hab _ ih => simp only [List.map_cons, hab.1, ih]

theorem sorted_of_keys_eq {β : Type} {L1 L : List (String × β)}
    (hk : L1.map Prod.fst = L.map Prod.fst) (hs : List.Sorted keyOrder L) :
    List.Sorted keyOrder L1 := by
  have h1 : List.Pairwise (fun a b : String => keyLE a b = true) (L.map Prod.fst) :=
    (@List.pairwise_map _ _ Prod.fst (fun a b : String => keyLE a b = true) L).mpr hs
  rw [← hk] at h1
  exact (@List.pairwise_map _ _ Prod.fst (fun a b : String => keyLE a b = true) L1).mp h1

theorem encMapData_eq {β : Type} (enc : β → JSON) (d : GoMapData β) :
    encMapData enc d =
      JSON.obj ((d.entries.insertionSort keyOrder).map (fun e => (e.1, enc e.2))) := rfl

/-- Decoding the encoding of an allocated map whose values decode: the result map encodes to
members with the same keys, in the same order, and values related by `R`. -/
theorem decode_encMapData {β : Type} (dec : JSON → Except JSONError β) (enc : β → JSON)
    (R : JSON → JSON → Prop) (d : GoMapData β)
    (h : ∀ e ∈ d.entries, ∃ b, dec (enc e.2) = .ok b ∧ R (enc b) (enc e.2)) :
    ∃ d1 ms1 ms, encMapData enc d = JSON.obj ms ∧ encMapData enc d1 = JSON.obj ms1 ∧
      decodeMapMembers dec GoMapData.empty ms = .ok d1 ∧
      d1.entries.length = d.entries.length ∧
      List.Forall₂ (fun e1 e => e1.1 = e.1 ∧ R e1.2 e.2) ms1 ms := by
  have hperm : (d.entries.insertionSort keyOrder).Perm d.entries :=
    List.perm_insertionSort keyOrder d.entries
  have hnd : ((d.entries.insertionSort keyOrder).map Prod.fst).Nodup :=
    (List.Perm.nodup_iff (List.Perm.map Prod.fst hperm)).mpr d.nodup
  obtain ⟨d1, L1, h1, h2, h3⟩ := decodeMapMembers_fresh dec enc R
    (d.entries.insertionSort keyOrder) GoMapData.empty hnd (by intro k _ hk; cases hk)
    (fun e he => h e (hperm.subset he))
  have he1 : d1.entries = L1 := by rw [h2]; rfl
  have hkeys : L1.map Prod.fst = (d.entries.insertionSort keyOrder).map Prod.fst :=
    @forall₂_keys_eq β (fun a b => R (enc a) (enc b)) _ _ h3
  have hsorted : List.Sorted keyOrder L1 :=
    sorted_of_keys_eq hkeys (List.sorted_insertionSort keyOrder d.entries)
  refine ⟨d1, L1.map (fun e => (e.1, enc e.2)),
    (d.entries.insertionSort keyOrder).map (fun e => (e.1, enc e.2)), encMapData_eq enc d,
    ?_, h1, ?_, ?_⟩
  · rw [encMapData_eq, he1, List.Sorted.insertionSort_eq hsorted]
  · rw [he1]
    have := congrArg List.length hkeys
    simp only [List.length_map] at this
    rw [this, hperm.length_eq]
  · exact List.forall₂_map_left_iff.mpr (List.forall₂_map_right_iff.mpr h3)

theorem mapLen_eq_zero_or {β : Type} (m : GoMap β) :
    mapLen m = 0 ∨ ∃ d, m = some d ∧ d.entries.length ≠ 0 := by
  cases m with
  | none => exact Or.inl rfl
  | some d =>
    by_cases h : d.entries.length = 0
    · exact Or.inl h
    · exact Or.inr ⟨d, rfl, h⟩

theorem seg_map {β : Type} (key tgt : String) (enc : β → JSON)
    (dec : JSON → Except JSONError β) (m : GoMap β)
    (h : ∀ d, m = some d → ∀ e ∈ d.entries, ∃ b, dec (enc e.2) = .ok b ∧ enc b = enc e.2) :
    ∃ v, omitemptyMap key enc v = omitemptyMap key enc m ∧
      ((omitemptyMap key enc m = [] ∧ v = none) ∨
        ∃ j, omitemptyMap key enc m = [(key, j)] ∧ decodeMap tgt dec none j = .ok v) := by
  rcases mapLen_eq_zero_or m with h0 | ⟨d, rfl, hd⟩
  · exact ⟨none, by rw [omitemptyMap, omitemptyMap, if_pos h0]; rfl,
      Or.inl ⟨by rw [omitemptyMap, if_pos h0], rfl⟩⟩
  · obtain ⟨d1, ms1, ms, hms, hms1, hdec, hlen, hF⟩ :=
      decode_encMapData dec enc (fun a b => a = b) d (h d rfl)
    have heq : ms1 = ms := by
      clear hms hms1 hdec
      induction hF with
      | nil => rfl
      | cons hab _ ih =>
        rw [ih]
        exact congrArg (· :: _) (Prod.ext hab.1 hab.2)
    have hne1 : mapLen (some d1 : GoMap β) ≠ 0 := by
      show d1.entries.length ≠ 0
      rw [hlen]; exact hd
    have hne : mapLen (some d : GoMap β) ≠ 0 := hd
    refine ⟨some d1, ?_, Or.inr ⟨JSON.obj ms, ?_, ?_⟩⟩
    · rw [omitemptyMap, omitemptyMap, if_neg hne1, if_neg hne]
      show [(key, encMapData enc d1)] = [(key, encMapData enc d)]
      rw [hms, hms1, heq]
    · rw [omitemptyMap, if_neg hne]
      show [(key, encMapData enc d)] = _
      rw [hms]
    · simp only [decodeMap, Option.getD_none, hdec]

theorem canonMembers_eq_of_forall₂ {ms1 ms : List (String × JSON)}
    (h : List.Forall₂ (fun e1 e => e1.1 = e.1 ∧ JSON.canon e1.2 = JSON.canon e.2) ms1 ms) :
    JSON.canonMembers ms1 = JSON.canonMembers ms := by
  induction h with
  | @cons a b l1 l2 hab _ ih =>
    obtain ⟨k1, v1⟩ := a
    obtain ⟨k2, v2⟩ := b
    simp only at hab
    simp only [JSON.canonMembers, hab.1, hab.2, ih]
  | nil => rfl

theorem seg_map_canon {β : Type} (key tgt : String) (enc : β → JSON)
    (dec : JSON → Except JSONError β) (m : GoMap β)
    (h : ∀ d, m = some d → ∀ e ∈ d.entries,
      ∃ b, dec (enc e.2) = .ok b ∧ JSON.canon (enc b) = JSON.canon (enc e.2)) :
    ∃ v, JSON.canonMembers (omitemptyMap key enc v) = JSON.canonMembers (omitemptyMap key enc m) ∧
      ((omitemptyMap key enc m = [] ∧ v = none) ∨
        ∃ j, omitemptyMap key enc m = [(key, j)] ∧ decodeMap tgt dec none j = .ok v) := by
  rcases mapLen_eq_zero_or m with h0 | ⟨d, rfl, hd⟩
  · exact ⟨none, by rw [omitemptyMap, omitemptyMap, if_pos h0]; rfl,
      Or.inl ⟨by rw [omitemptyMap, if_pos h0], rfl⟩⟩
  · obtain ⟨d1, ms1, ms, hms, hms1, hdec, hlen, hF⟩ :=
      decode_encMapData dec enc (fun a b => JSON.canon a = JSON.canon b) d (h d rfl)
    have hne1 : mapLen (some d1 : GoMap β) ≠ 0 := by
      show d1.entries.length ≠ 0
      rw [hlen]; exact hd
    have hne : mapLen (some d : GoMap β) ≠ 0 := hd
    refine ⟨some d1, ?_, Or.inr ⟨JSON.obj ms, ?_, ?_⟩⟩
    · rw [omitemptyMap, omitemptyMap, if_neg hne1, if_neg hne]
      show JSON.canonMembers [(key, encMapData enc d1)]
        = JSON.canonMembers [(key, encMapData enc d)]
      rw [hms, hms1]
      simp only [JSON.canonMembers, JSON.canon, canonMembers_eq_of_forall₂ hF]
    · rw [omitemptyMap, if_neg hne]
      show [(key, encMapData enc d)] = _
      rw [hms]
    · simp only [decodeMap, Option.getD_none, hdec]

theorem seg_slice_canon {α : Type} (key tgt : String) (enc : α → JSON)
    (dec : α → JSON → Except JSONError α) (zero : α) (s : GoSlice α)
    (h : ∀ a ∈ sliceElems s,
      ∃ b, dec zero (enc a) = .ok b ∧ JSON.canon (enc b) = JSON.canon (enc a)) :
    ∃ v, JSON.canonMembers (omitemptySlice key enc v)
        = JSON.canonMembers (omitemptySlice key enc s) ∧
      ((omitemptySlice key enc s = [] ∧ v = none) ∨
        ∃ j, omitemptySlice key enc s = [(key, j)] ∧
          decodeSlice tgt dec zero none j = .ok v) := by
  rcases sliceLen_eq_zero_or s with h0 | ⟨a, l, rfl⟩
  · exact ⟨none, by rw [omitemptySlice, omitemptySlice, if_pos h0]; rfl,
      Or.inl ⟨by rw [omitemptySlice, if_pos h0], rfl⟩⟩
  · obtain ⟨l1, hl1, hF⟩ := decodeArray_map dec zero enc
      (fun x y => JSON.canon x = JSON.canon y) (a :: l) h
    have hlen : l1.length = (a :: l).length := by
      have := hF.length_eq
      simpa using this
    have hne : sliceLen (some l1 : GoSlice α) ≠ 0 := by
      simp only [sliceLen, sliceElems, Option.getD_some, hlen]
      simp
    have hne0 : sliceLen (some (a :: l) : GoSlice α) ≠ 0 := by
      simp [sliceLen, sliceElems]
    refine ⟨some l1, ?_, Or.inr ⟨JSON.arr ((a :: l).map enc), ?_, ?_⟩⟩
    · rw [omitemptySlice, omitemptySlice, if_neg hne, if_neg hne0]
      simp only [encSlice, JSON.canonMembers, JSON.canon, canonList_eq_of_forall₂ hF]
    · rw [omitemptySlice, if_neg hne0]; rfl
    · simp only [decodeSlice, sliceElems, Option.getD_none, hl1]

/-! ## Round trip: struct by struct -/

theorem ptr_elem_eq {α : Type} (enc : α → JSON) (dec : α → JSON → Except JSONError α)
    (zero : α) (hne : ∀ t, enc t ≠ JSON.null) (a : Option α)
    (h : ∀ t, a = some t → ∃ t1, dec zero (enc t) = .ok t1 ∧ enc t1 = enc t) :
    ∃ b, decodePtr dec zero none (encPtr enc a) = .ok b ∧ encPtr enc b = encPtr enc a := by
  cases a with
  | none => exact ⟨none, rfl, rfl⟩
  | some t =>
    obtain ⟨t1, h1, h2⟩ := h t rfl
    refine ⟨some t1, ?_, h2⟩
    show decodePtr dec zero none (enc t) = _
    rw [decodePtr_of_ne_null _ _ _ _ (hne t)]
    simp only [Option.getD_none, h1]

theorem ptr_elem_canon {α : Type} (enc : α → JSON) (dec : α → JSON → Except JSONError α)
    (zero : α) (hne : ∀ t, enc t ≠ JSON.null) (a : Option α)
    (h : ∀ t, a = some t →
      ∃ t1, dec zero (enc t) = .ok t1 ∧ JSON.canon (enc t1) = JSON.canon (enc t)) :
    ∃ b, decodePtr dec zero none (encPtr enc a) = .ok b ∧
      JSON.canon (encPtr enc b) = JSON.canon (encPtr enc a) := by
  cases a with
  | none => exact ⟨none, rfl, rfl⟩
  | some t =>
    obtain ⟨t1, h1, h2⟩ := h t rfl
    refine ⟨some t1, ?_, h2⟩
    show decodePtr dec zero none (enc t) = _
    rw [decodePtr_of_ne_null _ _ _ _ (hne t)]
    simp only [Option.getD_none, h1]

theorem roundtrip_Email (x : Email) :
    ∃ y, Email.unmarshalValue Email.zero x.toJSON = .ok y ∧
      y.toJSON = x.toJSON := by
  obtain ⟨v0, e0, c0⟩ := seg_string "name" "Email.name" x.Name
  obtain ⟨v1, e1, c1⟩ := seg_string "email" "Email.email" x.Address
  have h0 : unmarshalFields Email.wireNames Email.decodeField Email.zero (omitemptyString "name"
      x.Name) = .ok { Email.zero with Name := v0 } := by
    rcases c0 with ⟨hn, hz⟩ | ⟨j, hj, hd1⟩
    · rw [hn, hz]; rfl
    · rw [hj, unmarshalFields_single _ _ _ _ _ 0 (by decide)]
      simp only [Email.decodeField, Email.zero, hd1]
  have h1 : unmarshalFields Email.wireNames Email.decodeField { Email.zero with Name := v0 }
      (omitemptyString "email" x.Address) = .ok { Email.zero with Name := v0, Address := v1 } :=
      by
    rcases c1 with ⟨hn, hz⟩ | ⟨j, hj, hd1⟩
    · rw [hn, hz]; rfl
    · rw [hj, unmarshalFields_single _ _ _ _ _ 1 (by decide)]
      simp only [Email.decodeField, Email.zero, hd1]
  refine ⟨{ Email.zero with Name := v0, Address := v1 }, ?_, ?_⟩
  · simp only [Email.unmarshalValue, Email.toJSON, unmarshalStruct, unmarshalFields_append, h0,
      h1]
  · simp only [Email.toJSON, Email.zero, e0, e1]

theorem roundtrip_Content (x : Content) :
    ∃ y, Content.unmarshalValue Content.zero x.toJSON = .ok y ∧
      y.toJSON = x.toJSON := by
  obtain ⟨v0, e0, c0⟩ := seg_string "type" "Content.type" x.Type_
  obtain ⟨v1, e1, c1⟩ := seg_string "value" "Content.value" x.Value
  have h0 : unmarshalFields Content.wireNames Content.decodeField Content.zero (omitemptyString
      "type" x.Type_) = .ok { Content.zero with Type_ := v0 } := by
    rcases c0 with ⟨hn, hz⟩ | ⟨j, hj, hd1⟩
    · rw [hn, hz]; rfl
    · rw [hj, unmarshalFields_single _ _ _ _ _ 0 (by decide)]
      simp only [Content.decodeField, Content.zero, hd1]
  have h1 : unmarshalFields Content.wireNames Content.decodeField
      { Content.zero with Type_ := v0 } (omitemptyString "value" x.Value) = .ok
      { Content.zero with Type_ := v0, Value := v1 } := by
    rcases c1 with ⟨hn, hz⟩ | ⟨j, hj, hd1⟩
    · rw [hn, hz]; rfl
    · rw [hj, unmarshalFields_single _ _ _ _ _ 1 (by decide)]
      simp only [Content.decodeField, Content.zero, hd1]
  refine ⟨{ Content.zero with Type_ := v0, Value := v1 }, ?_, ?_⟩
  · simp only [Content.unmarshalValue, Content.toJSON, unmarshalStruct, unmarshalFields_append,
      h0, h1]
  · simp only [Content.toJSON, Content.zero, e0, e1]

theorem roundtrip_Attachment (x : Attachment) :
    ∃ y, Attachment.unmarshalValue Attachment.zero x.toJSON = .ok y ∧
      y.toJSON = x.toJSON := by
  obtain ⟨v0, e0, c0⟩ := seg_string "content" "Attachment.content" x.Content
  obtain ⟨v1, e1, c1⟩ := seg_string "type" "Attachment.type" x.Type_
  obtain ⟨v2, e2, c2⟩ := seg_string "name" "Attachment.name" x.Name
  obtain ⟨v3, e3, c3⟩ := seg_string "filename" "Attachment.filename" x.Filename
  obtain ⟨v4, e4, c4⟩ := seg_string "disposition" "Attachment.disposition" x.Disposition
  obtain ⟨v5, e5, c5⟩ := seg_string "content_id" "Attachment.content_id" x.ContentID
  have h0 : unmarshalFields Attachment.wireNames Attachment.decodeField Attachment.zero
      (omitemptyString "content" x.Content) = .ok { Attachment.zero with Content := v0 } := by
    rcases c0 with ⟨hn, hz⟩ | ⟨j, hj, hd1⟩
    · rw [hn, hz]; rfl
    · rw [hj, unmarshalFields_single _ _ _ _ _ 0 (by decide)]
      simp only [Attachment.decodeField, Attachment.zero, hd1]
  have h1 : unmarshalFields Attachment.wireNames Attachment.decodeField
      { Attachment.zero with Content := v0 } (omitemptyString "type" x.Type_) = .ok
      { Attachment.zero with Content := v0, Type_ := v1 } := by
    rcases c1 with ⟨hn, hz⟩ | ⟨j, hj, hd1⟩
    · rw [hn, hz]; rfl
    · rw [hj, unmarshalFields_single _ _ _ _ _ 1 (by decide)]
      simp only [Attachment.decodeField, Attachment.zero, hd1]
  have h2 : unmarshalFields Attachment.wireNames Attachment.decodeField
      { Attachment.zero with Content := v0, Type_ := v1 } (omitemptyString "name" x.Name) = .ok
      { Attachment.zero with Content := v0, Type_ := v1, Name := v2 } := by
    rcases c2 with ⟨hn, hz⟩ | ⟨j, hj, hd1⟩
    · rw [hn, hz]; rfl
    · rw [hj, unmarshalFields_single _ _ _ _ _ 2 (by decide)]
      simp only [Attachment.decodeField, Attachment.zero, hd1]
  have h3 : unmarshalFields Attachment.wireNames Attachment.decodeField
      { Attachment.zero with Content := v0, Type_ := v1, Name := v2 } (omitemptyString "filename"
      x.Filename) = .ok
      { Attachment.zero with Content := v0, Type_ := v1, Name := v2, Filename := v3 } := by
    rcases c3 with ⟨hn, hz⟩ | ⟨j, hj, hd1⟩
    · rw [hn, hz]; rfl
    · rw [hj, unmarshalFields_single _ _ _ _ _ 3 (by decide)]
      simp only [Attachment.decodeField, Attachment.zero, hd1]
  have h4 : unmarshalFields Attachment.wireNames Attachment.decodeField
      { Attachment.zero with Content := v0, Type_ := v1, Name := v2, Filename := v3 }
      (omitemptyString "disposition" x.Disposition) = .ok
      { Attachment.zero with Content := v0, Type_ := v1, Name := v2, Filename := v3, Disposition := v4 }
      := by
    rcases c4 with ⟨hn, hz⟩ | ⟨j, hj, hd1⟩
    · rw [hn, hz]; rfl
    · rw [hj, unmarshalFields_single _ _ _ _ _ 4 (by decide)]
      simp only [Attachment.decodeField, Attachment.zero, hd1]
  have h5 : unmarshalFields Attachment.wireNames Attachment.decodeField
      { Attachment.zero with Content := v0, Type_ := v1, Name := v2, Filename := v3, Disposition := v4 }
      (omitemptyString "content_id" x.ContentID) = .ok
      { Attachment.zero with Content := v0, Type_ := v1, Name := v2, Filename := v3, Disposition := v4, ContentID := v5 }
      := by
    rcases c5 with ⟨hn, hz⟩ | ⟨j, hj, hd1⟩
    · rw [hn, hz]; rfl
    · rw [hj, unmarshalFields_single _ _ _ _ _ 5 (by decide)]
      simp only [Attachment.decodeField, Attachment.zero, hd1]
  refine
    ⟨{ Attachment.zero with Content := v0, Type_ := v1, Name := v2, Filename := v3, Disposition := v4, ContentID := v5 },
    ?_, ?_⟩
  · simp only [Attachment.unmarshalValue, Attachment.toJSON, unmarshalStruct,
      unmarshalFields_append, h0, h1, h2, h3, h4, h5]
  · simp only [Attachment.toJSON, Attachment.zero, e0, e1, e2, e3, e4, e5]

theorem roundtrip_ASM (x : ASM) (hx : ASM.intsFit x) :
    ∃ y, ASM.unmarshalValue ASM.zero x.toJSON = .ok y ∧
      y.toJSON = x.toJSON := by
  obtain ⟨v0, e0, c0⟩ := seg_int "group_id" "ASM.group_id" x.GroupID hx.1
  obtain ⟨v1, e1, c1⟩ := seg_slice "groups_to_display" "ASM.groups_to_display" JSON.num (decodeInt "ASM.groups_to_display") 0 x.GroupsToDisplay
    (fun a ha => ⟨a, decodeInt_num "ASM.groups_to_display" 0 a (hx.2 a ha), rfl⟩)
  have h0 : unmarshalFields ASM.wireNames ASM.decodeField ASM.zero (omitemptyInt "group_id"
      x.GroupID) = .ok { ASM.zero with GroupID := v0 } := by
    rcases c0 with ⟨hn, hz⟩ | ⟨j, hj, hd1⟩
    · rw [hn, hz]; rfl
    · rw [hj, unmarshalFields_single _ _ _ _ _ 0 (by decide)]
      simp only [ASM.decodeField, ASM.zero, hd1]
  have h1 : unmarshalFields ASM.wireNames ASM.decodeField { ASM.zero with GroupID := v0 }
      (omitemptySlice "groups_to_display" JSON.num x.GroupsToDisplay) = .ok
      { ASM.zero with GroupID := v0, GroupsToDisplay := v1 } := by
    rcases c1 with ⟨hn, hz⟩ | ⟨j, hj, hd1⟩
    · rw [hn, hz]; rfl
    · rw [hj, unmarshalFields_single _ _ _ _ _ 1 (by decide)]
      simp only [ASM.decodeField, ASM.zero, hd1]
  refine ⟨{ ASM.zero with GroupID := v0, GroupsToDisplay := v1 }, ?_, ?_⟩
  · simp only [ASM.unmarshalValue, ASM.toJSON, unmarshalStruct, unmarshalFields_append, h0, h1]
  · simp only [ASM.toJSON, ASM.zero, e0, e1]

theorem roundtrip_Setting (x : Setting) :
    ∃ y, Setting.unmarshalValue Setting.zero x.toJSON = .ok y ∧
      y.toJSON = x.toJSON := by
  obtain ⟨v0, e0, c0⟩ := seg_boolptr "enable" "Setting.enable" x.Enable
  have h0 : unmarshalFields Setting.wireNames Setting.decodeField Setting.zero (omitemptyPtr
      "enable" JSON.bool x.Enable) = .ok { Setting.zero with Enable := v0 } := by
    rcases c0 with ⟨hn, hz⟩ | ⟨j, hj, hd1⟩
    · rw [hn, hz]; rfl
    · rw [hj, unmarshalFields_single _ _ _ _ _ 0 (by decide)]
      simp only [Setting.decodeField, Setting.zero, hd1]
  refine ⟨{ Setting.zero with Enable := v0 }, ?_, ?_⟩
  · simp only [Setting.unmarshalValue, Setting.toJSON, unmarshalStruct, unmarshalFields_append,
      h0]
  · simp only [Setting.toJSON, Setting.zero, e0]

theorem roundtrip_BCCSetting (x : BCCSetting) :
    ∃ y, BCCSetting.unmarshalValue BCCSetting.zero x.toJSON = .ok y ∧
      y.toJSON = x.toJSON := by
  obtain ⟨v0, e0, c0⟩ := seg_boolptr "enable" "BCCSetting.enable" x.Enable
  obtain ⟨v1, e1, c1⟩ := seg_string_always "Email" "BCCSetting.Email" x.Email
  have h0 : unmarshalFields BCCSetting.wireNames BCCSetting.decodeField BCCSetting.zero
      (omitemptyPtr "enable" JSON.bool x.Enable) = .ok { BCCSetting.zero with Enable := v0 } :=
      by
    rcases c0 with ⟨hn, hz⟩ | ⟨j, hj, hd1⟩
    · rw [hn, hz]; rfl
    · rw [hj, unmarshalFields_single _ _ _ _ _ 0 (by decide)]
      simp only [BCCSetting.decodeField, BCCSetting.zero, hd1]
  have h1 : unmarshalFields BCCSetting.wireNames BCCSetting.decodeField
      { BCCSetting.zero with Enable := v0 } (fieldAlways "Email" (JSON.str x.Email)) = .ok
      { BCCSetting.zero with Enable := v0, Email := v1 } := by
    rcases c1 with ⟨hn, hz⟩ | ⟨j, hj, hd1⟩
    · rw [hn, hz]; rfl
    · rw [hj, unmarshalFields_single _ _ _ _ _ 1 (by decide)]
      simp only [BCCSetting.decodeField, BCCSetting.zero, hd1]
  refine ⟨{ BCCSetting.zero with Enable := v0, Email := v1 }, ?_, ?_⟩
  · simp only [BCCSetting.unmarshalValue, BCCSetting.toJSON, unmarshalStruct,
      unmarshalFields_append, h0, h1]
  · simp only [BCCSetting.toJSON, BCCSetting.zero, e0, e1]

theorem roundtrip_FooterSetting (x : FooterSetting) :
    ∃ y, FooterSetting.unmarshalValue FooterSetting.zero x.toJSON = .ok y ∧
      y.toJSON = x.toJSON := by
  obtain ⟨v0, e0, c0⟩ := seg_boolptr "enable" "FooterSetting.enable" x.Enable
  obtain ⟨v1, e1, c1⟩ := seg_string "text" "FooterSetting.text" x.Text
  obtain ⟨v2, e2, c2⟩ := seg_string "html" "FooterSetting.html" x.HTML
  have h0 : unmarshalFields FooterSetting.wireNames FooterSetting.decodeField FooterSetting.zero
      (omitemptyPtr "enable" JSON.bool x.Enable) = .ok { FooterSetting.zero with Enable := v0 }
      := by
    rcases c0 with ⟨hn, hz⟩ | ⟨j, hj, hd1⟩
    · rw [hn, hz]; rfl
    · rw [hj, unmarshalFields_single _ _ _ _ _ 0 (by decide)]
      simp only [FooterSetting.decodeField, FooterSetting.zero, hd1]
  have h1 : unmarshalFields FooterSetting.wireNames FooterSetting.decodeField
      { FooterSetting.zero with Enable := v0 } (omitemptyString "text" x.Text) = .ok
      { FooterSetting.zero with Enable := v0, Text := v1 } := by
    rcases c1 with ⟨hn, hz⟩ | ⟨j, hj, hd1⟩
    · rw [hn, hz]; rfl
    · rw [hj, unmarshalFields_single _ _ _ _ _ 1 (by decide)]
      simp only [FooterSetting.decodeField, FooterSetting.zero, hd1]
  have h2 : unmarshalFields FooterSetting.wireNames FooterSetting.decodeField
      { FooterSetting.zero with Enable := v0, Text := v1 } (omitemptyString "html" x.HTML) = .ok
      { FooterSetting.zero with Enable := v0, Text := v1, HTML := v2 } := by
    rcases c2 with ⟨hn, hz⟩ | ⟨j, hj, hd1⟩
    · rw [hn, hz]; rfl
    · rw [hj, unmarshalFields_single _ _ _ _ _ 2 (by decide)]
      simp only [FooterSetting.decodeField, FooterSetting.zero, hd1]
  refine ⟨{ FooterSetting.zero with Enable := v0, Text := v1, HTML := v2 }, ?_, ?_⟩
  · simp only [FooterSetting.unmarshalValue, FooterSetting.toJSON, unmarshalStruct,
      unmarshalFields_append, h0, h1, h2]
  · simp only [FooterSetting.toJSON, FooterSetting.zero, e0, e1, e2]

theorem roundtrip_ClickTrackingSetting (x : ClickTrackingSetting) :
    ∃ y, ClickTrackingSetting.unmarshalValue ClickTrackingSetting.zero x.toJSON = .ok y ∧
      y.toJSON = x.toJSON := by
  obtain ⟨v0, e0, c0⟩ := seg_boolptr "enable" "ClickTrackingSetting.enable" x.Enable
  obtain ⟨v1, e1, c1⟩ := seg_boolptr "enable_text" "ClickTrackingSetting.enable_text" x.EnableText
  have h0 : unmarshalFields ClickTrackingSetting.wireNames ClickTrackingSetting.decodeField
      ClickTrackingSetting.zero (omitemptyPtr "enable" JSON.bool x.Enable) = .ok
      { ClickTrackingSetting.zero with Enable := v0 } := by
    rcases c0 with ⟨hn, hz⟩ | ⟨j, hj, hd1⟩
    · rw [hn, hz]; rfl
    · rw [hj, unmarshalFields_single _ _ _ _ _ 0 (by decide)]
      simp only [ClickTrackingSetting.decodeField, ClickTrackingSetting.zero, hd1]
  have h1 : unmarshalFields ClickTrackingSetting.wireNames ClickTrackingSetting.decodeField
      { ClickTrackingSetting.zero with Enable := v0 } (omitemptyPtr "enable_text" JSON.bool
      x.EnableText) = .ok { ClickTrackingSetting.zero with Enable := v0, EnableText := v1 } := by
    rcases c1 with ⟨hn, hz⟩ | ⟨j, hj, hd1⟩
    · rw [hn, hz]; rfl
    · rw [hj, unmarshalFields_single _ _ _ _ _ 1 (by decide)]
      simp only [ClickTrackingSetting.decodeField, ClickTrackingSetting.zero, hd1]
  refine ⟨{ ClickTrackingSetting.zero with Enable := v0, EnableText := v1 }, ?_, ?_⟩
  · simp only [ClickTrackingSetting.unmarshalValue, ClickTrackingSetting.toJSON, unmarshalStruct,
      unmarshalFields_append, h0, h1]
  · simp only [ClickTrackingSetting.toJSON, ClickTrackingSetting.zero, e0, e1]

theorem roundtrip_OpenTrackingSetting (x : OpenTrackingSetting) :
    ∃ y, OpenTrackingSetting.unmarshalValue OpenTrackingSetting.zero x.toJSON = .ok y ∧
      y.toJSON = x.toJSON := by
  obtain ⟨v0, e0, c0⟩ := seg_boolptr "enable" "OpenTrackingSetting.enable" x.Enable
  obtain ⟨v1, e1, c1⟩ := seg_string "substitution_tag" "OpenTrackingSetting.substitution_tag" x.SubstitutionTag
  have h0 : unmarshalFields OpenTrackingSetting.wireNames OpenTrackingSetting.decodeField
      OpenTrackingSetting.zero (omitemptyPtr "enable" JSON.bool x.Enable) = .ok
      { OpenTrackingSetting.zero with Enable := v0 } := by
    rcases c0 with ⟨hn, hz⟩ | ⟨j, hj, hd1⟩
    · rw [hn, hz]; rfl
    · rw [hj, unmarshalFields_single _ _ _ _ _ 0 (by decide)]
      simp only [OpenTrackingSetting.decodeField, OpenTrackingSetting.zero, hd1]
  have h1 : unmarshalFields OpenTrackingSetting.wireNames OpenTrackingSetting.decodeField
      { OpenTrackingSetting.zero with Enable := v0 } (omitemptyString "substitution_tag"
      x.SubstitutionTag) = .ok
      { OpenTrackingSetting.zero with Enable := v0, SubstitutionTag := v1 } := by
    rcases c1 with ⟨hn, hz⟩ | ⟨j, hj, hd1⟩
    · rw [hn, hz]; rfl
    · rw [hj, unmarshalFields_single _ _ _ _ _ 1 (by decide)]
      simp only [OpenTrackingSetting.decodeField, OpenTrackingSetting.zero, hd1]
  refine ⟨{ OpenTrackingSetting.zero with Enable := v0, SubstitutionTag := v1 }, ?_, ?_⟩
  · simp only [OpenTrackingSetting.unmarshalValue, OpenTrackingSetting.toJSON, unmarshalStruct,
      unmarshalFields_append, h0, h1]
  · simp only [OpenTrackingSetting.toJSON, OpenTrackingSetting.zero, e0, e1]

theorem roundtrip_SubscriptionTrackingSetting (x : SubscriptionTrackingSetting) :
    ∃ y, SubscriptionTrackingSetting.unmarshalValue SubscriptionTrackingSetting.zero x.toJSON = .ok y ∧
      y.toJSON = x.toJSON := by
  obtain ⟨v0, e0, c0⟩ := seg_boolptr "enable" "SubscriptionTrackingSetting.enable" x.Enable
  obtain ⟨v1, e1, c1⟩ := seg_string "text" "SubscriptionTrackingSetting.text" x.Text
  obtain ⟨v2, e2, c2⟩ := seg_string "html" "SubscriptionTrackingSetting.html" x.HTML
  obtain ⟨v3, e3, c3⟩ := seg_string "substitution_tag" "SubscriptionTrackingSetting.substitution_tag" x.SubstitutionTag
  have h0 : unmarshalFields SubscriptionTrackingSetting.wireNames
      SubscriptionTrackingSetting.decodeField SubscriptionTrackingSetting.zero (omitemptyPtr
      "enable" JSON.bool x.Enable) = .ok { SubscriptionTrackingSetting.zero with Enable := v0 }
      := by
    rcases c0 with ⟨hn, hz⟩ | ⟨j, hj, hd1⟩
    · rw [hn, hz]; rfl
    · rw [hj, unmarshalFields_single _ _ _ _ _ 0 (by decide)]
      simp only [SubscriptionTrackingSetting.decodeField, SubscriptionTrackingSetting.zero, hd1]
  have h1 : unmarshalFields SubscriptionTrackingSetting.wireNames
      SubscriptionTrackingSetting.decodeField
      { SubscriptionTrackingSetting.zero with Enable := v0 } (omitemptyString "text" x.Text) =
      .ok { SubscriptionTrackingSetting.zero with Enable := v0, Text := v1 } := by
    rcases c1 with ⟨hn, hz⟩ | ⟨j, hj, hd1⟩
    · rw [hn, hz]; rfl
    · rw [hj, unmarshalFields_single _ _ _ _ _ 1 (by decide)]
      simp only [SubscriptionTrackingSetting.decodeField, SubscriptionTrackingSetting.zero, hd1]
  have h2 : unmarshalFields SubscriptionTrackingSetting.wireNames
      SubscriptionTrackingSetting.decodeField
      { SubscriptionTrackingSetting.zero with Enable := v0, Text := v1 } (omitemptyString "html"
      x.HTML) = .ok
      { SubscriptionTrackingSetting.zero with Enable := v0, Text := v1, HTML := v2 } := by
    rcases c2 with ⟨hn, hz⟩ | ⟨j, hj, hd1⟩
    · rw [hn, hz]; rfl
    · rw [hj, unmarshalFields_single _ _ _ _ _ 2 (by decide)]
      simp only [SubscriptionTrackingSetting.decodeField, SubscriptionTrackingSetting.zero, hd1]
  have h3 : unmarshalFields SubscriptionTrackingSetting.wireNames
      SubscriptionTrackingSetting.decodeField
      { SubscriptionTrackingSetting.zero with Enable := v0, Text := v1, HTML := v2 }
      (omitemptyString "substitution_tag" x.SubstitutionTag) = .ok
      { SubscriptionTrackingSetting.zero with Enable := v0, Text := v1, HTML := v2, SubstitutionTag := v3 }
      := by
    rcases c3 with ⟨hn, hz⟩ | ⟨j, hj, hd1⟩
    · rw [hn, hz]; rfl
    · rw [hj, unmarshalFields_single _ _ _ _ _ 3 (by decide)]
      simp only [SubscriptionTrackingSetting.decodeField, SubscriptionTrackingSetting.zero, hd1]
  refine
    ⟨{ SubscriptionTrackingSetting.zero with Enable := v0, Text := v1, HTML := v2, SubstitutionTag := v3 },
    ?_, ?_⟩
  · simp only [SubscriptionTrackingSetting.unmarshalValue, SubscriptionTrackingSetting.toJSON,
      unmarshalStruct, unmarshalFields_append, h0, h1, h2, h3]
  · simp only [SubscriptionTrackingSetting.toJSON, SubscriptionTrackingSetting.zero, e0, e1, e2,
      e3]

theorem roundtrip_SpamCheckSetting (x : SpamCheckSetting) (hx : SpamCheckSetting.intsFit x) :
    ∃ y, SpamCheckSetting.unmarshalValue SpamCheckSetting.zero x.toJSON = .ok y ∧
      y.toJSON = x.toJSON := by
  obtain ⟨v0, e0, c0⟩ := seg_boolptr "enable" "SpamCheckSetting.enable" x.Enable
  obtain ⟨v1, e1, c1⟩ := seg_int "threshold" "SpamCheckSetting.threshold" x.SpamThreshold hx
  obtain ⟨v2, e2, c2⟩ := seg_string "post_to_url" "SpamCheckSetting.post_to_url" x.PostToURL
  have h0 : unmarshalFields SpamCheckSetting.wireNames SpamCheckSetting.decodeField
      SpamCheckSetting.zero (omitemptyPtr "enable" JSON.bool x.Enable) = .ok
      { SpamCheckSetting.zero with Enable := v0 } := by
    rcases c0 with ⟨hn, hz⟩ | ⟨j, hj, hd1⟩
    · rw [hn, hz]; rfl
    · rw [hj, unmarshalFields_single _ _ _ _ _ 0 (by decide)]
      simp only [SpamCheckSetting.decodeField, SpamCheckSetting.zero, hd1]
  have h1 : unmarshalFields SpamCheckSetting.wireNames SpamCheckSetting.decodeField
      { SpamCheckSetting.zero with Enable := v0 } (omitemptyInt "threshold" x.SpamThreshold) =
      .ok { SpamCheckSetting.zero with Enable := v0, SpamThreshold := v1 } := by
    rcases c1 with ⟨hn, hz⟩ | ⟨j, hj, hd1⟩
    · rw [hn, hz]; rfl
    · rw [hj, unmarshalFields_single _ _ _ _ _ 1 (by decide)]
      simp only [SpamCheckSetting.decodeField, SpamCheckSetting.zero, hd1]
  have h2 : unmarshalFields SpamCheckSetting.wireNames SpamCheckSetting.decodeField
      { SpamCheckSetting.zero with Enable := v0, SpamThreshold := v1 } (omitemptyString
      "post_to_url" x.PostToURL) = .ok
      { SpamCheckSetting.zero with Enable := v0, SpamThreshold := v1, PostToURL := v2 } := by
    rcases c2 with ⟨hn, hz⟩ | ⟨j, hj, hd1⟩
    · rw [hn, hz]; rfl
    · rw [hj, unmarshalFields_single _ _ _ _ _ 2 (by decide)]
      simp only [SpamCheckSetting.decodeField, SpamCheckSetting.zero, hd1]
  refine ⟨{ SpamCheckSetting.zero with Enable := v0, SpamThreshold := v1, PostToURL := v2 }, ?_,
    ?_⟩
  · simp only [SpamCheckSetting.unmarshalValue, SpamCheckSetting.toJSON, unmarshalStruct,
      unmarshalFields_append, h0, h1, h2]
  · simp only [SpamCheckSetting.toJSON, SpamCheckSetting.zero, e0, e1, e2]

theorem roundtrip_SandboxModeSetting (x : SandboxModeSetting) (hx : SandboxModeSetting.intsFit x) :
    ∃ y, SandboxModeSetting.unmarshalValue SandboxModeSetting.zero x.toJSON = .ok y ∧
      y.toJSON = x.toJSON := by
  obtain ⟨v0, e0, c0⟩ := seg_boolptr "enable" "SandboxModeSetting.enable" x.Enable
  obtain ⟨v1, e1, c1⟩ := seg_boolptr "forward_spam" "SandboxModeSetting.forward_spam" x.ForwardSpam
  obtain ⟨v2, e2, c2⟩ := seg_ptr "spam_check" SpamCheckSetting.toJSON SpamCheckSetting.unmarshalValue SpamCheckSetting.zero x.SpamCheck
    (fun t => by simp [SpamCheckSetting.toJSON]) (fun t ht => roundtrip_SpamCheckSetting t (hx t ht))
  have h0 : unmarshalFields SandboxModeSetting.wireNames SandboxModeSetting.decodeField
      SandboxModeSetting.zero (omitemptyPtr "enable" JSON.bool x.Enable) = .ok
      { SandboxModeSetting.zero with Enable := v0 } := by
    rcases c0 with ⟨hn, hz⟩ | ⟨j, hj, hd1⟩
    · rw [hn, hz]; rfl
    · rw [hj, unmarshalFields_single _ _ _ _ _ 0 (by decide)]
      simp only [SandboxModeSetting.decodeField, SandboxModeSetting.zero, hd1]
  have h1 : unmarshalFields SandboxModeSetting.wireNames SandboxModeSetting.decodeField
      { SandboxModeSetting.zero with Enable := v0 } (omitemptyPtr "forward_spam" JSON.bool
      x.ForwardSpam) = .ok { SandboxModeSetting.zero with Enable := v0, ForwardSpam := v1 } := by
    rcases c1 with ⟨hn, hz⟩ | ⟨j, hj, hd1⟩
    · rw [hn, hz]; rfl
    · rw [hj, unmarshalFields_single _ _ _ _ _ 1 (by decide)]
      simp only [SandboxModeSetting.decodeField, SandboxModeSetting.zero, hd1]
  have h2 : unmarshalFields SandboxModeSetting.wireNames SandboxModeSetting.decodeField
      { SandboxModeSetting.zero with Enable := v0, ForwardSpam := v1 } (omitemptyPtr "spam_check"
      SpamCheckSetting.toJSON x.SpamCheck) = .ok
      { SandboxModeSetting.zero with Enable := v0, ForwardSpam := v1, SpamCheck := v2 } := by
    rcases c2 with ⟨hn, hz⟩ | ⟨j, hj, hd1⟩
    · rw [hn, hz]; rfl
    · rw [hj, unmarshalFields_single _ _ _ _ _ 2 (by decide)]
      simp only [SandboxModeSetting.decodeField, SandboxModeSetting.zero, hd1]
  refine ⟨{ SandboxModeSetting.zero with Enable := v0, ForwardSpam := v1, SpamCheck := v2 }, ?_,
    ?_⟩
  · simp only [SandboxModeSetting.unmarshalValue, SandboxModeSetting.toJSON, unmarshalStruct,
      unmarshalFields_append, h0, h1, h2]
  · simp only [SandboxModeSetting.toJSON, SandboxModeSetting.zero, e0, e1, e2]

theorem roundtrip_GASetting (x : GASetting) :
    ∃ y, GASetting.unmarshalValue GASetting.zero x.toJSON = .ok y ∧
      y.toJSON = x.toJSON := by
  obtain ⟨v0, e0, c0⟩ := seg_boolptr "enable" "GASetting.enable" x.Enable
  obtain ⟨v1, e1, c1⟩ := seg_string "utm_source" "GASetting.utm_source" x.CampaignSource
  obtain ⟨v2, e2, c2⟩ := seg_string "utm_term" "GASetting.utm_term" x.CampaignTerm
  obtain ⟨v3, e3, c3⟩ := seg_string "utm_content" "GASetting.utm_content" x.CampaignContent
  obtain ⟨v4, e4, c4⟩ := seg_string "utm_campaign" "GASetting.utm_campaign" x.CampaignName
  obtain ⟨v5, e5, c5⟩ := seg_string "utm_medium" "GASetting.utm_medium" x.CampaignMedium
  have h0 : unmarshalFields GASetting.wireNames GASetting.decodeField GASetting.zero
      (omitemptyPtr "enable" JSON.bool x.Enable) = .ok { GASetting.zero with Enable := v0 } := by
    rcases c0 with ⟨hn, hz⟩ | ⟨j, hj, hd1⟩
    · rw [hn, hz]; rfl
    · rw [hj, unmarshalFields_single _ _ _ _ _ 0 (by decide)]
      simp only [GASetting.decodeField, GASetting.zero, hd1]
  have h1 : unmarshalFields GASetting.wireNames GASetting.decodeField
      { GASetting.zero with Enable := v0 } (omitemptyString "utm_source" x.CampaignSource) = .ok
      { GASetting.zero with Enable := v0, CampaignSource := v1 } := by
    rcases c1 with ⟨hn, hz⟩ | ⟨j, hj, hd1⟩
    · rw [hn, hz]; rfl
    · rw [hj, unmarshalFields_single _ _ _ _ _ 1 (by decide)]
      simp only [GASetting.decodeField, GASetting.zero, hd1]
  have h2 : unmarshalFields GASetting.wireNames GASetting.decodeField
      { GASetting.zero with Enable := v0, CampaignSource := v1 } (omitemptyString "utm_term"
      x.CampaignTerm) = .ok
      { GASetting.zero with Enable := v0, CampaignSource := v1, CampaignTerm := v2 } := by
    rcases c2 with ⟨hn, hz⟩ | ⟨j, hj, hd1⟩
    · rw [hn, hz]; rfl
    · rw [hj, unmarshalFields_single _ _ _ _ _ 2 (by decide)]
      simp only [GASetting.decodeField, GASetting.zero, hd1]
  have h3 : unmarshalFields GASetting.wireNames GASetting.decodeField
      { GASetting.zero with Enable := v0, CampaignSource := v1, CampaignTerm := v2 }
      (omitemptyString "utm_content" x.CampaignContent) = .ok
      { GASetting.zero with Enable := v0, CampaignSource := v1, CampaignTerm := v2, CampaignContent := v3 }
      := by
    rcases c3 with ⟨hn, hz⟩ | ⟨j, hj, hd1⟩
    · rw [hn, hz]; rfl
    · rw [hj, unmarshalFields_single _ _ _ _ _ 3 (by decide)]
      simp only [GASetting.decodeField, GASetting.zero, hd1]
  have h4 : unmarshalFields GASetting.wireNames GASetting.decodeField
      { GASetting.zero with Enable := v0, CampaignSource := v1, CampaignTerm := v2, CampaignContent := v3 }
      (omitemptyString "utm_campaign" x.CampaignName) = .ok
      { GASetting.zero with Enable := v0, CampaignSource := v1, CampaignTerm := v2, CampaignContent := v3, CampaignName := v4 }
      := by
    rcases c4 with ⟨hn, hz⟩ | ⟨j, hj, hd1⟩
    · rw [hn, hz]; rfl
    · rw [hj, unmarshalFields_single _ _ _ _ _ 4 (by decide)]
      simp only [GASetting.decodeField, GASetting.zero, hd1]
  have h5 : unmarshalFields GASetting.wireNames GASetting.decodeField
      { GASetting.zero with Enable := v0, CampaignSource := v1, CampaignTerm := v2, CampaignContent := v3, CampaignName := v4 }
      (omitemptyString "utm_medium" x.CampaignMedium) = .ok
      { GASetting.zero with Enable := v0, CampaignSource := v1, CampaignTerm := v2, CampaignContent := v3, CampaignName := v4, CampaignMedium := v5 }
      := by
    rcases c5 with ⟨hn, hz⟩ | ⟨j, hj, hd1⟩
    · rw [hn, hz]; rfl
    · rw [hj, unmarshalFields_single _ _ _ _ _ 5 (by decide)]
      simp only [GASetting.decodeField, GASetting.zero, hd1]
  refine
    ⟨{ GASetting.zero with Enable := v0, CampaignSource := v1, CampaignTerm := v2, CampaignContent := v3, CampaignName := v4, CampaignMedium := v5 },
    ?_, ?_⟩
  · simp only [GASetting.unmarshalValue, GASetting.toJSON, unmarshalStruct,
      unmarshalFields_append, h0, h1, h2, h3, h4, h5]
  · simp only [GASetting.toJSON, GASetting.zero, e0, e1, e2, e3, e4, e5]

theorem roundtrip_MailSettings (x : MailSettings) (hx : MailSettings.intsFit x) :
    ∃ y, MailSettings.unmarshalValue MailSettings.zero x.toJSON = .ok y ∧
      y.toJSON = x.toJSON := by
  obtain ⟨v0, e0, c0⟩ := seg_ptr "bcc" BCCSetting.toJSON BCCSetting.unmarshalValue BCCSetting.zero x.BCC
    (fun t => by simp [BCCSetting.toJSON]) (fun t ht => roundtrip_BCCSetting t )
  obtain ⟨v1, e1, c1⟩ := seg_ptr "bypass_list_management" Setting.toJSON Setting.unmarshalValue Setting.zero x.BypassListManagement
    (fun t => by simp [Setting.toJSON]) (fun t ht => roundtrip_Setting t )
  obtain ⟨v2, e2, c2⟩ := seg_ptr "footer" FooterSetting.toJSON FooterSetting.unmarshalValue FooterSetting.zero x.Footer
    (fun t => by simp [FooterSetting.toJSON]) (fun t ht => roundtrip_FooterSetting t )
  obtain ⟨v3, e3, c3⟩ := seg_ptr "sandbox_mode" Setting.toJSON Setting.unmarshalValue Setting.zero x.SandboxMode
    (fun t => by simp [Setting.toJSON]) (fun t ht => roundtrip_Setting t )
  obtain ⟨v4, e4, c4⟩ := seg_ptr "spam_check" SpamCheckSetting.toJSON SpamCheckSetting.unmarshalValue SpamCheckSetting.zero x.SpamCheckSetting
    (fun t => by simp [SpamCheckSetting.toJSON]) (fun t ht => roundtrip_SpamCheckSetting t (hx t ht))
  have h0 : unmarshalFields MailSettings.wireNames MailSettings.decodeField MailSettings.zero
      (omitemptyPtr "bcc" BCCSetting.toJSON x.BCC) = .ok { MailSettings.zero with BCC := v0 } :=
      by
    rcases c0 with ⟨hn, hz⟩ | ⟨j, hj, hd1⟩
    · rw [hn, hz]; rfl
    · rw [hj, unmarshalFields_single _ _ _ _ _ 0 (by decide)]
      simp only [MailSettings.decodeField, MailSettings.zero, hd1]
  have h1 : unmarshalFields MailSettings.wireNames MailSettings.decodeField
      { MailSettings.zero with BCC := v0 } (omitemptyPtr "bypass_list_management" Setting.toJSON
      x.BypassListManagement) = .ok
      { MailSettings.zero with BCC := v0, BypassListManagement := v1 } := by
    rcases c1 with ⟨hn, hz⟩ | ⟨j, hj, hd1⟩
    · rw [hn, hz]; rfl
    · rw [hj, unmarshalFields_single _ _ _ _ _ 1 (by decide)]
      simp only [MailSettings.decodeField, MailSettings.zero, hd1]
  have h2 : unmarshalFields MailSettings.wireNames MailSettings.decodeField
      { MailSettings.zero with BCC := v0, BypassListManagement := v1 } (omitemptyPtr "footer"
      FooterSetting.toJSON x.Footer) = .ok
      { MailSettings.zero with BCC := v0, BypassListManagement := v1, Footer := v2 } := by
    rcases c2 with ⟨hn, hz⟩ | ⟨j, hj, hd1⟩
    · rw [hn, hz]; rfl
    · rw [hj, unmarshalFields_single _ _ _ _ _ 2 (by decide)]
      simp only [MailSettings.decodeField, MailSettings.zero, hd1]
  have h3 : unmarshalFields MailSettings.wireNames MailSettings.decodeField
      { MailSettings.zero with BCC := v0, BypassListManagement := v1, Footer := v2 }
      (omitemptyPtr "sandbox_mode" Setting.toJSON x.SandboxMode) = .ok
      { MailSettings.zero with BCC := v0, BypassListManagement := v1, Footer := v2, SandboxMode := v3 }
      := by
    rcases c3 with ⟨hn, hz⟩ | ⟨j, hj, hd1⟩
    · rw [hn, hz]; rfl
    · rw [hj, unmarshalFields_single _ _ _ _ _ 3 (by decide)]
      simp only [MailSettings.decodeField, MailSettings.zero, hd1]
  have h4 : unmarshalFields MailSettings.wireNames MailSettings.decodeField
      { MailSettings.zero with BCC := v0, BypassListManagement := v1, Footer := v2, SandboxMode := v3 }
      (omitemptyPtr "spam_check" SpamCheckSetting.toJSON x.SpamCheckSetting) = .ok
      { MailSettings.zero with BCC := v0, BypassListManagement := v1, Footer := v2, SandboxMode := v3, SpamCheckSetting := v4 }
      := by
    rcases c4 with ⟨hn, hz⟩ | ⟨j, hj, hd1⟩
    · rw [hn, hz]; rfl
    · rw [hj, unmarshalFields_single _ _ _ _ _ 4 (by decide)]
      simp only [MailSettings.decodeField, MailSettings.zero, hd1]
  refine
    ⟨{ MailSettings.zero with BCC := v0, BypassListManagement := v1, Footer := v2, SandboxMode := v3, SpamCheckSetting := v4 },
    ?_, ?_⟩
  · simp only [MailSettings.unmarshalValue, MailSettings.toJSON, unmarshalStruct,
      unmarshalFields_append, h0, h1, h2, h3, h4]
  · simp only [MailSettings.toJSON, MailSettings.zero, e0, e1, e2, e3, e4]

theorem roundtrip_TrackingSettings (x : TrackingSettings) (hx : TrackingSettings.intsFit x) :
    ∃ y, TrackingSettings.unmarshalValue TrackingSettings.zero x.toJSON = .ok y ∧
      y.toJSON = x.toJSON := by
  obtain ⟨v0, e0, c0⟩ := seg_ptr "click_tracking" ClickTrackingSetting.toJSON ClickTrackingSetting.unmarshalValue ClickTrackingSetting.zero x.ClickTracking
    (fun t => by simp [ClickTrackingSetting.toJSON]) (fun t ht => roundtrip_ClickTrackingSetting t )
  obtain ⟨v1, e1, c1⟩ := seg_ptr "open_tracking" OpenTrackingSetting.toJSON OpenTrackingSetting.unmarshalValue OpenTrackingSetting.zero x.OpenTracking
    (fun t => by simp [OpenTrackingSetting.toJSON]) (fun t ht => roundtrip_OpenTrackingSetting t )
  obtain ⟨v2, e2, c2⟩ := seg_ptr "subscription_tracking" SubscriptionTrackingSetting.toJSON SubscriptionTrackingSetting.unmarshalValue SubscriptionTrackingSetting.zero x.SubscriptionTracking
    (fun t => by simp [SubscriptionTrackingSetting.toJSON]) (fun t ht => roundtrip_SubscriptionTrackingSetting t )
  obtain ⟨v3, e3, c3⟩ := seg_ptr "ganalytics" GASetting.toJSON GASetting.unmarshalValue GASetting.zero x.GoogleAnalytics
    (fun t => by simp [GASetting.toJSON]) (fun t ht => roundtrip_GASetting t )
  obtain ⟨v4, e4, c4⟩ := seg_ptr "bcc" BCCSetting.toJSON BCCSetting.unmarshalValue BCCSetting.zero x.BCC
    (fun t => by simp [BCCSetting.toJSON]) (fun t ht => roundtrip_BCCSetting t )
  obtain ⟨v5, e5, c5⟩ := seg_ptr "bypass_list_management" Setting.toJSON Setting.unmarshalValue Setting.zero x.BypassListManagement
    (fun t => by simp [Setting.toJSON]) (fun t ht => roundtrip_Setting t )
  obtain ⟨v6, e6, c6⟩ := seg_ptr "footer" FooterSetting.toJSON FooterSetting.unmarshalValue FooterSetting.zero x.Footer
    (fun t => by simp [FooterSetting.toJSON]) (fun t ht => roundtrip_FooterSetting t )
  obtain ⟨v7, e7, c7⟩ := seg_ptr "sandbox_mode" SandboxModeSetting.toJSON SandboxModeSetting.unmarshalValue SandboxModeSetting.zero x.SandboxMode
    (fun t => by simp [SandboxModeSetting.toJSON]) (fun t ht => roundtrip_SandboxModeSetting t (hx t ht))
  have h0 : unmarshalFields TrackingSettings.wireNames TrackingSettings.decodeField
      TrackingSettings.zero (omitemptyPtr "click_tracking" ClickTrackingSetting.toJSON
      x.ClickTracking) = .ok { TrackingSettings.zero with ClickTracking := v0 } := by
    rcases c0 with ⟨hn, hz⟩ | ⟨j, hj, hd1⟩
    · rw [hn, hz]; rfl
    · rw [hj, unmarshalFields_single _ _ _ _ _ 0 (by decide)]
      simp only [TrackingSettings.decodeField, TrackingSettings.zero, hd1]
  have h1 : unmarshalFields TrackingSettings.wireNames TrackingSettings.decodeField
      { TrackingSettings.zero with ClickTracking := v0 } (omitemptyPtr "open_tracking"
      OpenTrackingSetting.toJSON x.OpenTracking) = .ok
      { TrackingSettings.zero with ClickTracking := v0, OpenTracking := v1 } := by
    rcases c1 with ⟨hn, hz⟩ | ⟨j, hj, hd1⟩
    · rw [hn, hz]; rfl
    · rw [hj, unmarshalFields_single _ _ _ _ _ 1 (by decide)]
      simp only [TrackingSettings.decodeField, TrackingSettings.zero, hd1]
  have h2 : unmarshalFields TrackingSettings.wireNames TrackingSettings.decodeField
      { TrackingSettings.zero with ClickTracking := v0, OpenTracking := v1 } (omitemptyPtr
      "subscription_tracking" SubscriptionTrackingSetting.toJSON x.SubscriptionTracking) = .ok
      { TrackingSettings.zero with ClickTracking := v0, OpenTracking := v1, SubscriptionTracking := v2 }
      := by
    rcases c2 with ⟨hn, hz⟩ | ⟨j, hj, hd1⟩
    · rw [hn, hz]; rfl
    · rw [hj, unmarshalFields_single _ _ _ _ _ 2 (by decide)]
      simp only [TrackingSettings.decodeField, TrackingSettings.zero, hd1]
  have h3 : unmarshalFields TrackingSettings.wireNames TrackingSettings.decodeField
      { TrackingSettings.zero with ClickTracking := v0, OpenTracking := v1, SubscriptionTracking := v2 }
      (omitemptyPtr "ganalytics" GASetting.toJSON x.GoogleAnalytics) = .ok
      { TrackingSettings.zero with ClickTracking := v0, OpenTracking := v1, SubscriptionTracking := v2, GoogleAnalytics := v3 }
      := by
    rcases c3 with ⟨hn, hz⟩ | ⟨j, hj, hd1⟩
    · rw [hn, hz]; rfl
    · rw [hj, unmarshalFields_single _ _ _ _ _ 3 (by decide)]
      simp only [TrackingSettings.decodeField, TrackingSettings.zero, hd1]
  have h4 : unmarshalFields TrackingSettings.wireNames TrackingSettings.decodeField
      { TrackingSettings.zero with ClickTracking := v0, OpenTracking := v1, SubscriptionTracking := v2, GoogleAnalytics := v3 }
      (omitemptyPtr "bcc" BCCSetting.toJSON x.BCC) = .ok
      { TrackingSettings.zero with ClickTracking := v0, OpenTracking := v1, SubscriptionTracking := v2, GoogleAnalytics := v3, BCC := v4 }
      := by
    rcases c4 with ⟨hn, hz⟩ | ⟨j, hj, hd1⟩
    · rw [hn, hz]; rfl
    · rw [hj, unmarshalFields_single _ _ _ _ _ 4 (by decide)]
      simp only [TrackingSettings.decodeField, TrackingSettings.zero, hd1]
  have h5 : unmarshalFields TrackingSettings.wireNames TrackingSettings.decodeField
      { TrackingSettings.zero with ClickTracking := v0, OpenTracking := v1, SubscriptionTracking := v2, GoogleAnalytics := v3, BCC := v4 }
      (omitemptyPtr "bypass_list_management" Setting.toJSON x.BypassListManagement) = .ok
      { TrackingSettings.zero with ClickTracking := v0, OpenTracking := v1, SubscriptionTracking := v2, GoogleAnalytics := v3, BCC := v4, BypassListManagement := v5 }
      := by
    rcases c5 with ⟨hn, hz⟩ | ⟨j, hj, hd1⟩
    · rw [hn, hz]; rfl
    · rw [hj, unmarshalFields_single _ _ _ _ _ 5 (by decide)]
      simp only [TrackingSettings.decodeField, TrackingSettings.zero, hd1]
  have h6 : unmarshalFields TrackingSettings.wireNames TrackingSettings.decodeField
      { TrackingSettings.zero with ClickTracking := v0, OpenTracking := v1, SubscriptionTracking := v2, GoogleAnalytics := v3, BCC := v4, BypassListManagement := v5 }
      (omitemptyPtr "footer" FooterSetting.toJSON x.Footer) = .ok
      { TrackingSettings.zero with ClickTracking := v0, OpenTracking := v1, SubscriptionTracking := v2, GoogleAnalytics := v3, BCC := v4, BypassListManagement := v5, Footer := v6 }
      := by
    rcases c6 with ⟨hn, hz⟩ | ⟨j, hj, hd1⟩
    · rw [hn, hz]; rfl
    · rw [hj, unmarshalFields_single _ _ _ _ _ 6 (by decide)]
      simp only [TrackingSettings.decodeField, TrackingSettings.zero, hd1]
  have h7 : unmarshalFields TrackingSettings.wireNames TrackingSettings.decodeField
      { TrackingSettings.zero with ClickTracking := v0, OpenTracking := v1, SubscriptionTracking := v2, GoogleAnalytics := v3, BCC := v4, BypassListManagement := v5, Footer := v6 }
      (omitemptyPtr "sandbox_mode" SandboxModeSetting.toJSON x.SandboxMode) = .ok
      { TrackingSettings.zero with ClickTracking := v0, OpenTracking := v1, SubscriptionTracking := v2, GoogleAnalytics := v3, BCC := v4, BypassListManagement := v5, Footer := v6, SandboxMode := v7 }
      := by
    rcases c7 with ⟨hn, hz⟩ | ⟨j, hj, hd1⟩
    · rw [hn, hz]; rfl
    · rw [hj, unmarshalFields_single _ _ _ _ _ 7 (by decide)]
      simp only [TrackingSettings.decodeField, TrackingSettings.zero, hd1]
  refine
    ⟨{ TrackingSettings.zero with ClickTracking := v0, OpenTracking := v1, SubscriptionTracking := v2, GoogleAnalytics := v3, BCC := v4, BypassListManagement := v5, Footer := v6, SandboxMode := v7 },
    ?_, ?_⟩
  · simp only [TrackingSettings.unmarshalValue, TrackingSettings.toJSON, unmarshalStruct,
      unmarshalFields_append, h0, h1, h2, h3, h4, h5, h6, h7]
  · simp only [TrackingSettings.toJSON, TrackingSettings.zero, e0, e1, e2, e3, e4, e5, e6, e7]

theorem roundtrip_Personalization (x : Personalization) (hx : Personalization.intsFit x)
    (hd : Personalization.dynamicDataStable x) :
    ∃ y, Personalization.unmarshalValue Personalization.zero x.toJSON = .ok y ∧
      JSON.canon y.toJSON = JSON.canon x.toJSON := by
  obtain ⟨v0, e0, c0⟩ := seg_slice "to" "Personalization.to" (encPtr Email.toJSON)
    (decodePtr Email.unmarshalValue Email.zero) none x.To
    (fun a _ => ptr_elem_eq Email.toJSON Email.unmarshalValue Email.zero
      (fun t => by simp [Email.toJSON]) a (fun t _ => roundtrip_Email t))
  obtain ⟨v1, e1, c1⟩ := seg_slice "cc" "Personalization.cc" (encPtr Email.toJSON)
    (decodePtr Email.unmarshalValue Email.zero) none x.CC
    (fun a _ => ptr_elem_eq Email.toJSON Email.unmarshalValue Email.zero
      (fun t => by simp [Email.toJSON]) a (fun t _ => roundtrip_Email t))
  obtain ⟨v2, e2, c2⟩ := seg_slice "bcc" "Personalization.bcc" (encPtr Email.toJSON)
    (decodePtr Email.unmarshalValue Email.zero) none x.BCC
    (fun a _ => ptr_elem_eq Email.toJSON Email.unmarshalValue Email.zero
      (fun t => by simp [Email.toJSON]) a (fun t _ => roundtrip_Email t))
  obtain ⟨v3, e3, c3⟩ := seg_string "subject" "Personalization.subject" x.Subject
  obtain ⟨v4, e4, c4⟩ := seg_map "headers" "Personalization.headers" JSON.str (decodeString "Personalization.headers" "") x.Headers
    (fun _ _ e _ => ⟨e.2, rfl, rfl⟩)
  obtain ⟨v5, e5, c5⟩ := seg_map "substitutions" "Personalization.substitutions" JSON.str (decodeString "Personalization.substitutions" "") x.Substitutions
    (fun _ _ e _ => ⟨e.2, rfl, rfl⟩)
  obtain ⟨v6, e6, c6⟩ := seg_map "custom_args" "Personalization.custom_args" JSON.str (decodeString "Personalization.custom_args" "") x.CustomArgs
    (fun _ _ e _ => ⟨e.2, rfl, rfl⟩)
  obtain ⟨v7, e7, c7⟩ := seg_int "send_at" "Personalization.send_at" x.SendAt hx
  obtain ⟨v8, e8, c8⟩ := seg_map_canon "dynamic_template_data" "Personalization.dynamic_template_data" id decodeAny x.DynamicTemplateData hd
  obtain ⟨v9, e9, c9⟩ := seg_slice "categories" "Personalization.categories" JSON.str (decodeString "Personalization.categories") "" x.Categories
    (fun a _ => ⟨a, rfl, rfl⟩)
  have h0 : unmarshalFields Personalization.wireNames Personalization.decodeField
      Personalization.zero (omitemptySlice "to" (encPtr Email.toJSON) x.To) = .ok
      { Personalization.zero with To := v0 } := by
    rcases c0 with ⟨hn, hz⟩ | ⟨j, hj, hd1⟩
    · rw [hn, hz]; rfl
    · rw [hj, unmarshalFields_single _ _ _ _ _ 0 (by decide)]
      simp only [Personalization.decodeField, Personalization.zero, hd1]
  have h1 : unmarshalFields Personalization.wireNames Personalization.decodeField
      { Personalization.zero with To := v0 } (omitemptySlice "cc" (encPtr Email.toJSON) x.CC) =
      .ok { Personalization.zero with To := v0, CC := v1 } := by
    rcases c1 with ⟨hn, hz⟩ | ⟨j, hj, hd1⟩
    · rw [hn, hz]; rfl
    · rw [hj, unmarshalFields_single _ _ _ _ _ 1 (by decide)]
      simp only [Personalization.decodeField, Personalization.zero, hd1]
  have h2 : unmarshalFields Personalization.wireNames Personalization.decodeField
      { Personalization.zero with To := v0, CC := v1 } (omitemptySlice "bcc" (encPtr
      Email.toJSON) x.BCC) = .ok { Personalization.zero with To := v0, CC := v1, BCC := v2 } :=
      by
    rcases c2 with ⟨hn, hz⟩ | ⟨j, hj, hd1⟩
    · rw [hn, hz]; rfl
    · rw [hj, unmarshalFields_single _ _ _ _ _ 2 (by decide)]
      simp only [Personalization.decodeField, Personalization.zero, hd1]
  have h3 : unmarshalFields Personalization.wireNames Personalization.decodeField
      { Personalization.zero with To := v0, CC := v1, BCC := v2 } (omitemptyString "subject"
      x.Subject) = .ok { Personalization.zero with To := v0, CC := v1, BCC := v2, Subject := v3 }
      := by
    rcases c3 with ⟨hn, hz⟩ | ⟨j, hj, hd1⟩
    · rw [hn, hz]; rfl
    · rw [hj, unmarshalFields_single _ _ _ _ _ 3 (by decide)]
      simp only [Personalization.decodeField, Personalization.zero, hd1]
  have h4 : unmarshalFields Personalization.wireNames Personalization.decodeField
      { Personalization.zero with To := v0, CC := v1, BCC := v2, Subject := v3 } (omitemptyMap
      "headers" JSON.str x.Headers) = .ok
      { Personalization.zero with To := v0, CC := v1, BCC := v2, Subject := v3, Headers := v4 }
      := by
    rcases c4 with ⟨hn, hz⟩ | ⟨j, hj, hd1⟩
    · rw [hn, hz]; rfl
    · rw [hj, unmarshalFields_single _ _ _ _ _ 4 (by decide)]
      simp only [Personalization.decodeField, Personalization.zero, hd1]
  have h5 : unmarshalFields Personalization.wireNames Personalization.decodeField
      { Personalization.zero with To := v0, CC := v1, BCC := v2, Subject := v3, Headers := v4 }
      (omitemptyMap "substitutions" JSON.str x.Substitutions) = .ok
      { Personalization.zero with To := v0, CC := v1, BCC := v2, Subject := v3, Headers := v4, Substitutions := v5 }
      := by
    rcases c5 with ⟨hn, hz⟩ | ⟨j, hj, hd1⟩
    · rw [hn, hz]; rfl
    · rw [hj, unmarshalFields_single _ _ _ _ _ 5 (by decide)]
      simp only [Personalization.decodeField, Personalization.zero, hd1]
  have h6 : unmarshalFields Personalization.wireNames Personalization.decodeField
      { Personalization.zero with To := v0, CC := v1, BCC := v2, Subject := v3, Headers := v4, Substitutions := v5 }
      (omitemptyMap "custom_args" JSON.str x.CustomArgs) = .ok
      { Personalization.zero with To := v0, CC := v1, BCC := v2, Subject := v3, Headers := v4, Substitutions := v5, CustomArgs := v6 }
      := by
    rcases c6 with ⟨hn, hz⟩ | ⟨j, hj, hd1⟩
    · rw [hn, hz]; rfl
    · rw [hj, unmarshalFields_single _ _ _ _ _ 6 (by decide)]
      simp only [Personalization.decodeField, Personalization.zero, hd1]
  have h7 : unmarshalFields Personalization.wireNames Personalization.decodeField
      { Personalization.zero with To := v0, CC := v1, BCC := v2, Subject := v3, Headers := v4, Substitutions := v5, CustomArgs := v6 }
      (omitemptyInt "send_at" x.SendAt) = .ok
      { Personalization.zero with To := v0, CC := v1, BCC := v2, Subject := v3, Headers := v4, Substitutions := v5, CustomArgs := v6, SendAt := v7 }
      := by
    rcases c7 with ⟨hn, hz⟩ | ⟨j, hj, hd1⟩
    · rw [hn, hz]; rfl
    · rw [hj, unmarshalFields_single _ _ _ _ _ 7 (by decide)]
      simp only [Personalization.decodeField, Personalization.zero, hd1]
  have h8 : unmarshalFields Personalization.wireNames Personalization.decodeField
      { Personalization.zero with To := v0, CC := v1, BCC := v2, Subject := v3, Headers := v4, Substitutions := v5, CustomArgs := v6, SendAt := v7 }
      (omitemptyMap "dynamic_template_data" id x.DynamicTemplateData) = .ok
      { Personalization.zero with To := v0, CC := v1, BCC := v2, Subject := v3, Headers := v4, Substitutions := v5, CustomArgs := v6, SendAt := v7, DynamicTemplateData := v8 }
      := by
    rcases c8 with ⟨hn, hz⟩ | ⟨j, hj, hd1⟩
    · rw [hn, hz]; rfl
    · rw [hj, unmarshalFields_single _ _ _ _ _ 8 (by decide)]
      simp only [Personalization.decodeField, Personalization.zero, hd1]
  have h9 : unmarshalFields Personalization.wireNames Personalization.decodeField
      { Personalization.zero with To := v0, CC := v1, BCC := v2, Subject := v3, Headers := v4, Substitutions := v5, CustomArgs := v6, SendAt := v7, DynamicTemplateData := v8 }
      (omitemptySlice "categories" JSON.str x.Categories) = .ok
      { Personalization.zero with To := v0, CC := v1, BCC := v2, Subject := v3, Headers := v4, Substitutions := v5, CustomArgs := v6, SendAt := v7, DynamicTemplateData := v8, Categories := v9 }
      := by
    rcases c9 with ⟨hn, hz⟩ | ⟨j, hj, hd1⟩
    · rw [hn, hz]; rfl
    · rw [hj, unmarshalFields_single _ _ _ _ _ 9 (by decide)]
      simp only [Personalization.decodeField, Personalization.zero, hd1]
  refine
    ⟨{ Personalization.zero with To := v0, CC := v1, BCC := v2, Subject := v3, Headers := v4, Substitutions := v5, CustomArgs := v6, SendAt := v7, DynamicTemplateData := v8, Categories := v9 },
    ?_, ?_⟩
  · simp only [Personalization.unmarshalValue, Personalization.toJSON, unmarshalStruct,
      unmarshalFields_append, h0, h1, h2, h3, h4, h5, h6, h7, h8, h9]
  · simp only [Personalization.toJSON, Personalization.zero, JSON.canon, canonMembers_append, e0,
      e1, e2, e3, e4, e5, e6, e7, e8, e9]

theorem roundtrip_MailV3 (x : MailV3) (hx : MailV3.intsFit x)
    (hd : MailV3.dynamicDataStable x) :
    ∃ y, MailV3.unmarshalValue MailV3.zero x.toJSON = .ok y ∧
      JSON.canon y.toJSON = JSON.canon x.toJSON := by
  obtain ⟨v0, e0, c0⟩ := seg_slice_canon "personalizations" "MailV3.personalizations" (encPtr Personalization.toJSON)
    (decodePtr Personalization.unmarshalValue Personalization.zero) none x.Personalizations
    (fun a ha => ptr_elem_canon Personalization.toJSON Personalization.unmarshalValue Personalization.zero
      (fun t => by simp [Personalization.toJSON]) a (fun t ht => roundtrip_Personalization t (hx.2.2.2.2 t (ht ▸ ha)) (hd t (ht ▸ ha))))
  obtain ⟨v1, e1, c1⟩ := seg_ptr "from" Email.toJSON Email.unmarshalValue Email.zero x.From
    (fun t => by simp [Email.toJSON]) (fun t ht => roundtrip_Email t )
  obtain ⟨v2, e2, c2⟩ := seg_string "subject" "MailV3.subject" x.Subject
  obtain ⟨v3, e3, c3⟩ := seg_slice "content" "MailV3.content" (encPtr Content.toJSON)
    (decodePtr Content.unmarshalValue Content.zero) none x.Content
    (fun a _ => ptr_elem_eq Content.toJSON Content.unmarshalValue Content.zero
      (fun t => by simp [Content.toJSON]) a (fun t _ => roundtrip_Content t))
  obtain ⟨v4, e4, c4⟩ := seg_ptr "reply_to" Email.toJSON Email.unmarshalValue Email.zero x.ReplyTo
    (fun t => by simp [Email.toJSON]) (fun t ht => roundtrip_Email t )
  obtain ⟨v5, e5, c5⟩ := seg_slice "attachments" "MailV3.attachments" (encPtr Attachment.toJSON)
    (decodePtr Attachment.unmarshalValue Attachment.zero) none x.Attachments
    (fun a _ => ptr_elem_eq Attachment.toJSON Attachment.unmarshalValue Attachment.zero
      (fun t => by simp [Attachment.toJSON]) a (fun t _ => roundtrip_Attachment t))
  obtain ⟨v6, e6, c6⟩ := seg_string "template_id" "MailV3.template_id" x.TemplateID
  obtain ⟨v7, e7, c7⟩ := seg_map "sections" "MailV3.sections" JSON.str (decodeString "MailV3.sections" "") x.Sections
    (fun _ _ e _ => ⟨e.2, rfl, rfl⟩)
  obtain ⟨v8, e8, c8⟩ := seg_map "headers" "MailV3.headers" JSON.str (decodeString "MailV3.headers" "") x.Headers
    (fun _ _ e _ => ⟨e.2, rfl, rfl⟩)
  obtain ⟨v9, e9, c9⟩ := seg_slice "categories" "MailV3.categories" JSON.str (decodeString "MailV3.categories") "" x.Categories
    (fun a _ => ⟨a, rfl, rfl⟩)
  obtain ⟨v10, e10, c10⟩ := seg_map "custom_args" "MailV3.custom_args" JSON.str (decodeString "MailV3.custom_args" "") x.CustomArgs
    (fun _ _ e _ => ⟨e.2, rfl, rfl⟩)
  obtain ⟨v11, e11, c11⟩ := seg_int "send_at" "MailV3.send_at" x.SendAt hx.1
  obtain ⟨v12, e12, c12⟩ := seg_string "batch_id" "MailV3.batch_id" x.BatchID
  obtain ⟨v13, e13, c13⟩ := seg_ptr "asm" ASM.toJSON ASM.unmarshalValue ASM.zero x.ASM
    (fun t => by simp [ASM.toJSON]) (fun t ht => roundtrip_ASM t (hx.2.1 t ht))
  obtain ⟨v14, e14, c14⟩ := seg_string "ip_pool_name" "MailV3.ip_pool_name" x.IPPoolName
  obtain ⟨v15, e15, c15⟩ := seg_ptr "mail_settings" MailSettings.toJSON MailSettings.unmarshalValue MailSettings.zero x.MailSettings
    (fun t => by simp [MailSettings.toJSON]) (fun t ht => roundtrip_MailSettings t (hx.2.2.1 t ht))
  obtain ⟨v16, e16, c16⟩ := seg_ptr "tracking_settings" TrackingSettings.toJSON TrackingSettings.unmarshalValue TrackingSettings.zero x.TrackingSettings
    (fun t => by simp [TrackingSettings.toJSON]) (fun t ht => roundtrip_TrackingSettings t (hx.2.2.2.1 t ht))
  have h0 : unmarshalFields MailV3.wireNames MailV3.decodeField MailV3.zero (omitemptySlice
      "personalizations" (encPtr Personalization.toJSON) x.Personalizations) = .ok
      { MailV3.zero with Personalizations := v0 } := by
    rcases c0 with ⟨hn, hz⟩ | ⟨j, hj, hd1⟩
    · rw [hn, hz]; rfl
    · rw [hj, unmarshalFields_single _ _ _ _ _ 0 (by decide)]
      simp only [MailV3.decodeField, MailV3.zero, hd1]
  have h1 : unmarshalFields MailV3.wireNames MailV3.decodeField
      { MailV3.zero with Personalizations := v0 } (omitemptyPtr "from" Email.toJSON x.From) = .ok
      { MailV3.zero with Personalizations := v0, From := v1 } := by
    rcases c1 with ⟨hn, hz⟩ | ⟨j, hj, hd1⟩
    · rw [hn, hz]; rfl
    · rw [hj, unmarshalFields_single _ _ _ _ _ 1 (by decide)]
      simp only [MailV3.decodeField, MailV3.zero, hd1]
  have h2 : unmarshalFields MailV3.wireNames MailV3.decodeField
      { MailV3.zero with Personalizations := v0, From := v1 } (omitemptyString "subject"
      x.Subject) = .ok { MailV3.zero with Personalizations := v0, From := v1, Subject := v2 } :=
      by
    rcases c2 with ⟨hn, hz⟩ | ⟨j, hj, hd1⟩
    · rw [hn, hz]; rfl
    · rw [hj, unmarshalFields_single _ _ _ _ _ 2 (by decide)]
      simp only [MailV3.decodeField, MailV3.zero, hd1]
  have h3 : unmarshalFields MailV3.wireNames MailV3.decodeField
      { MailV3.zero with Personalizations := v0, From := v1, Subject := v2 } (omitemptySlice
      "content" (encPtr Content.toJSON) x.Content) = .ok
      { MailV3.zero with Personalizations := v0, From := v1, Subject := v2, Content := v3 } := by
    rcases c3 with ⟨hn, hz⟩ | ⟨j, hj, hd1⟩
    · rw [hn, hz]; rfl
    · rw [hj, unmarshalFields_single _ _ _ _ _ 3 (by decide)]
      simp only [MailV3.decodeField, MailV3.zero, hd1]
  have h4 : unmarshalFields MailV3.wireNames MailV3.decodeField
      { MailV3.zero with Personalizations := v0, From := v1, Subject := v2, Content := v3 }
      (omitemptyPtr "reply_to" Email.toJSON x.ReplyTo) = .ok
      { MailV3.zero with Personalizations := v0, From := v1, Subject := v2, Content := v3, ReplyTo := v4 }
      := by
    rcases c4 with ⟨hn, hz⟩ | ⟨j, hj, hd1⟩
    · rw [hn, hz]; rfl
    · rw [hj, unmarshalFields_single _ _ _ _ _ 4 (by decide)]
      simp only [MailV3.decodeField, MailV3.zero, hd1]
  have h5 : unmarshalFields MailV3.wireNames MailV3.decodeField
      { MailV3.zero with Personalizations := v0, From := v1, Subject := v2, Content := v3, ReplyTo := v4 }
      (omitemptySlice "attachments" (encPtr Attachment.toJSON) x.Attachments) = .ok
      { MailV3.zero with Personalizations := v0, From := v1, Subject := v2, Content := v3, ReplyTo := v4, Attachments := v5 }
      := by
    rcases c5 with ⟨hn, hz⟩ | ⟨j, hj, hd1⟩
    · rw [hn, hz]; rfl
    · rw [hj, unmarshalFields_single _ _ _ _ _ 5 (by decide)]
      simp only [MailV3.decodeField, MailV3.zero, hd1]
  have h6 : unmarshalFields MailV3.wireNames MailV3.decodeField
      { MailV3.zero with Personalizations := v0, From := v1, Subject := v2, Content := v3, ReplyTo := v4, Attachments := v5 }
      (omitemptyString "template_id" x.TemplateID) = .ok
      { MailV3.zero with Personalizations := v0, From := v1, Subject := v2, Content := v3, ReplyTo := v4, Attachments := v5, TemplateID := v6 }
      := by
    rcases c6 with ⟨hn, hz⟩ | ⟨j, hj, hd1⟩
    · rw [hn, hz]; rfl
    · rw [hj, unmarshalFields_single _ _ _ _ _ 6 (by decide)]
      simp only [MailV3.decodeField, MailV3.zero, hd1]
  have h7 : unmarshalFields MailV3.wireNames MailV3.decodeField
      { MailV3.zero with Personalizations := v0, From := v1, Subject := v2, Content := v3, ReplyTo := v4, Attachments := v5, TemplateID := v6 }
      (omitemptyMap "sections" JSON.str x.Sections) = .ok
      { MailV3.zero with Personalizations := v0, From := v1, Subject := v2, Content := v3, ReplyTo := v4, Attachments := v5, TemplateID := v6, Sections := v7 }
      := by
    rcases c7 with ⟨hn, hz⟩ | ⟨j, hj, hd1⟩
    · rw [hn, hz]; rfl
    · rw [hj, unmarshalFields_single _ _ _ _ _ 7 (by decide)]
      simp only [MailV3.decodeField, MailV3.zero, hd1]
  have h8 : unmarshalFields MailV3.wireNames MailV3.decodeField
      { MailV3.zero with Personalizations := v0, From := v1, Subject := v2, Content := v3, ReplyTo := v4, Attachments := v5, TemplateID := v6, Sections := v7 }
      (omitemptyMap "headers" JSON.str x.Headers) = .ok
      { MailV3.zero with Personalizations := v0, From := v1, Subject := v2, Content := v3, ReplyTo := v4, Attachments := v5, TemplateID := v6, Sections := v7, Headers := v8 }
      := by
    rcases c8 with ⟨hn, hz⟩ | ⟨j, hj, hd1⟩
    · rw [hn, hz]; rfl
    · rw [hj, unmarshalFields_single _ _ _ _ _ 8 (by decide)]
      simp only [MailV3.decodeField, MailV3.zero, hd1]
  have h9 : unmarshalFields MailV3.wireNames MailV3.decodeField
      { MailV3.zero with Personalizations := v0, From := v1, Subject := v2, Content := v3, ReplyTo := v4, Attachments := v5, TemplateID := v6, Sections := v7, Headers := v8 }
      (omitemptySlice "categories" JSON.str x.Categories) = .ok
      { MailV3.zero with Personalizations := v0, From := v1, Subject := v2, Content := v3, ReplyTo := v4, Attachments := v5, TemplateID := v6, Sections := v7, Headers := v8, Categories := v9 }
      := by
    rcases c9 with ⟨hn, hz⟩ | ⟨j, hj, hd1⟩
    · rw [hn, hz]; rfl
    · rw [hj, unmarshalFields_single _ _ _ _ _ 9 (by decide)]
      simp only [MailV3.decodeField, MailV3.zero, hd1]
  have h10 : unmarshalFields MailV3.wireNames MailV3.decodeField
      { MailV3.zero with Personalizations := v0, From := v1, Subject := v2, Content := v3, ReplyTo := v4, Attachments := v5, TemplateID := v6, Sections := v7, Headers := v8, Categories := v9 }
      (omitemptyMap "custom_args" JSON.str x.CustomArgs) = .ok
      { MailV3.zero with Personalizations := v0, From := v1, Subject := v2, Content := v3, ReplyTo := v4, Attachments := v5, TemplateID := v6, Sections := v7, Headers := v8, Categories := v9, CustomArgs := v10 }
      := by
    rcases c10 with ⟨hn, hz⟩ | ⟨j, hj, hd1⟩
    · rw [hn, hz]; rfl
    · rw [hj, unmarshalFields_single _ _ _ _ _ 10 (by decide)]
      simp only [MailV3.decodeField, MailV3.zero, hd1]
  have h11 : unmarshalFields MailV3.wireNames MailV3.decodeField
      { MailV3.zero with Personalizations := v0, From := v1, Subject := v2, Content := v3, ReplyTo := v4, Attachments := v5, TemplateID := v6, Sections := v7, Headers := v8, Categories := v9, CustomArgs := v10 }
      (omitemptyInt "send_at" x.SendAt) = .ok
      { MailV3.zero with Personalizations := v0, From := v1, Subject := v2, Content := v3, ReplyTo := v4, Attachments := v5, TemplateID := v6, Sections := v7, Headers := v8, Categories := v9, CustomArgs := v10, SendAt := v11 }
      := by
    rcases c11 with ⟨hn, hz⟩ | ⟨j, hj, hd1⟩
    · rw [hn, hz]; rfl
    · rw [hj, unmarshalFields_single _ _ _ _ _ 11 (by decide)]
      simp only [MailV3.decodeField, MailV3.zero, hd1]
  have h12 : unmarshalFields MailV3.wireNames MailV3.decodeField
      { MailV3.zero with Personalizations := v0, From := v1, Subject := v2, Content := v3, ReplyTo := v4, Attachments := v5, TemplateID := v6, Sections := v7, Headers := v8, Categories := v9, CustomArgs := v10, SendAt := v11 }
      (omitemptyString "batch_id" x.BatchID) = .ok
      { MailV3.zero with Personalizations := v0, From := v1, Subject := v2, Content := v3, ReplyTo := v4, Attachments := v5, TemplateID := v6, Sections := v7, Headers := v8, Categories := v9, CustomArgs := v10, SendAt := v11, BatchID := v12 }
      := by
    rcases c12 with ⟨hn, hz⟩ | ⟨j, hj, hd1⟩
    · rw [hn, hz]; rfl
    · rw [hj, unmarshalFields_single _ _ _ _ _ 12 (by decide)]
      simp only [MailV3.decodeField, MailV3.zero, hd1]
  have h13 : unmarshalFields MailV3.wireNames MailV3.decodeField
      { MailV3.zero with Personalizations := v0, From := v1, Subject := v2, Content := v3, ReplyTo := v4, Attachments := v5, TemplateID := v6, Sections := v7, Headers := v8, Categories := v9, CustomArgs := v10, SendAt := v11, BatchID := v12 }
      (omitemptyPtr "asm" ASM.toJSON x.ASM) = .ok
      { MailV3.zero with Personalizations := v0, From := v1, Subject := v2, Content := v3, ReplyTo := v4, Attachments := v5, TemplateID := v6, Sections := v7, Headers := v8, Categories := v9, CustomArgs := v10, SendAt := v11, BatchID := v12, ASM := v13 }
      := by
    rcases c13 with ⟨hn, hz⟩ | ⟨j, hj, hd1⟩
    · rw [hn, hz]; rfl
    · rw [hj, unmarshalFields_single _ _ _ _ _ 13 (by decide)]
      simp only [MailV3.decodeField, MailV3.zero, hd1]
  have h14 : unmarshalFields MailV3.wireNames MailV3.decodeField
      { MailV3.zero with Personalizations := v0, From := v1, Subject := v2, Content := v3, ReplyTo := v4, Attachments := v5, TemplateID := v6, Sections := v7, Headers := v8, Categories := v9, CustomArgs := v10, SendAt := v11, BatchID := v12, ASM := v13 }
      (omitemptyString "ip_pool_name" x.IPPoolName) = .ok
      { MailV3.zero with Personalizations := v0, From := v1, Subject := v2, Content := v3, ReplyTo := v4, Attachments := v5, TemplateID := v6, Sections := v7, Headers := v8, Categories := v9, CustomArgs := v10, SendAt := v11, BatchID := v12, ASM := v13, IPPoolName := v14 }
      := by
    rcases c14 with ⟨hn, hz⟩ | ⟨j, hj, hd1⟩
    · rw [hn, hz]; rfl
    · rw [hj, unmarshalFields_single _ _ _ _ _ 14 (by decide)]
      simp only [MailV3.decodeField, MailV3.zero, hd1]
  have h15 : unmarshalFields MailV3.wireNames MailV3.decodeField
      { MailV3.zero with Personalizations := v0, From := v1, Subject := v2, Content := v3, ReplyTo := v4, Attachments := v5, TemplateID := v6, Sections := v7, Headers := v8, Categories := v9, CustomArgs := v10, SendAt := v11, BatchID := v12, ASM := v13, IPPoolName := v14 }
      (omitemptyPtr "mail_settings" MailSettings.toJSON x.MailSettings) = .ok
      { MailV3.zero with Personalizations := v0, From := v1, Subject := v2, Content := v3, ReplyTo := v4, Attachments := v5, TemplateID := v6, Sections := v7, Headers := v8, Categories := v9, CustomArgs := v10, SendAt := v11, BatchID := v12, ASM := v13, IPPoolName := v14, MailSettings := v15 }
      := by
    rcases c15 with ⟨hn, hz⟩ | ⟨j, hj, hd1⟩
    · rw [hn, hz]; rfl
    · rw [hj, unmarshalFields_single _ _ _ _ _ 15 (by decide)]
      simp only [MailV3.decodeField, MailV3.zero, hd1]
  have h16 : unmarshalFields MailV3.wireNames MailV3.decodeField
      { MailV3.zero with Personalizations := v0, From := v1, Subject := v2, Content := v3, ReplyTo := v4, Attachments := v5, TemplateID := v6, Sections := v7, Headers := v8, Categories := v9, CustomArgs := v10, SendAt := v11, BatchID := v12, ASM := v13, IPPoolName := v14, MailSettings := v15 }
      (omitemptyPtr "tracking_settings" TrackingSettings.toJSON x.TrackingSettings) = .ok
      { MailV3.zero with Personalizations := v0, From := v1, Subject := v2, Content := v3, ReplyTo := v4, Attachments := v5, TemplateID := v6, Sections := v7, Headers := v8, Categories := v9, CustomArgs := v10, SendAt := v11, BatchID := v12, ASM := v13, IPPoolName := v14, MailSettings := v15, TrackingSettings := v16 }
      := by
    rcases c16 with ⟨hn, hz⟩ | ⟨j, hj, hd1⟩
    · rw [hn, hz]; rfl
    · rw [hj, unmarshalFields_single _ _ _ _ _ 16 (by decide)]
      simp only [MailV3.decodeField, MailV3.zero, hd1]
  refine
    ⟨{ MailV3.zero with Personalizations := v0, From := v1, Subject := v2, Content := v3, ReplyTo := v4, Attachments := v5, TemplateID := v6, Sections := v7, Headers := v8, Categories := v9, CustomArgs := v10, SendAt := v11, BatchID := v12, ASM := v13, IPPoolName := v14, MailSettings := v15, TrackingSettings := v16 },
    ?_, ?_⟩
  · simp only [MailV3.unmarshalValue, MailV3.toJSON, unmarshalStruct, unmarshalFields_append, h0,
      h1, h2, h3, h4, h5, h6, h7, h8, h9, h10, h11, h12, h13, h14, h15, h16]
  · simp only [MailV3.toJSON, MailV3.zero, JSON.canon, canonMembers_append, e0, e1, e2, e3, e4,
      e5, e6, e7, e8, e9, e10, e11, e12, e13, e14, e15, e16]

/-! ## Round trip: which dynamic values survive -/

theorem float64Round_small (a : Nat) (h : a < 9007199254740992) : float64Round a = a := by
  have hs : float64Shift 1100 a = 0 := by
    show (if a < 9007199254740992 then 0 else 1 + float64Shift 1099 (a / 2)) = 0
    rw [if_pos h]
  simp [float64Round, hs, Nat.mod_one]

theorem float64Shift_spec (fuel : Nat) :
    ∀ n, 1 ≤ float64Shift fuel n → 9007199254740992 ≤ n / 2 ^ (float64Shift fuel n - 1) := by
  induction fuel with
  | zero => intro n h; simp [float64Shift] at h
  | succ fuel ih =>
    intro n h
    by_cases hn : n < 9007199254740992
    · simp [float64Shift, hn] at h
    · have hstep : float64Shift (fuel + 1) n = 1 + float64Shift fuel (n / 2) := by
        simp [float64Shift, hn]
      rw [hstep]
      by_cases h0 : float64Shift fuel (n / 2) = 0
      · rw [h0]
        simpa using Nat.le_of_not_lt hn
      · have h1 : 1 ≤ float64Shift fuel (n / 2) := Nat.one_le_iff_ne_zero.mpr h0
        have := ih (n / 2) h1
        have he : 1 + float64Shift fuel (n / 2) - 1 = (float64Shift fuel (n / 2) - 1) + 1 := by
          omega
        rw [he, pow_succ, Nat.mul_comm, ← Nat.div_div_eq_div_mul]
        exact this

theorem float64Round_large (n : Nat) (h : 9007199254740992 ≤ n) :
    9007199254740992 ≤ float64Round n := by
  have hs1 : 1 ≤ float64Shift 1100 n := by
    show 1 ≤ (if n < 9007199254740992 then 0 else 1 + float64Shift 1099 (n / 2))
    rw [if_neg (Nat.not_lt.mpr h)]
    omega
  have hspec := float64Shift_spec 1100 n hs1
  unfold float64Round
  generalize float64Shift 1100 n = e at hs1 hspec
  obtain ⟨e', rfl⟩ : ∃ e', e = e' + 1 := ⟨e - 1, by omega⟩
  simp only [Nat.add_sub_cancel] at hspec
  have hq : 4503599627370496 ≤ n / 2 ^ (e' + 1) := by
    rw [pow_succ, ← Nat.div_div_eq_div_mul]
    omega
  have hp : 2 ≤ 2 ^ (e' + 1) := by
    have : 1 ≤ 2 ^ e' := Nat.one_le_two_pow
    rw [pow_succ]; omega
  have hmul : 9007199254740992 ≤ n / 2 ^ (e' + 1) * 2 ^ (e' + 1) := by
    calc 9007199254740992 = 4503599627370496 * 2 := by norm_num
      _ ≤ n / 2 ^ (e' + 1) * 2 ^ (e' + 1) := Nat.mul_le_mul hq hp
  simp only []
  split
  · calc 9007199254740992 ≤ n / 2 ^ (e' + 1) * 2 ^ (e' + 1) := hmul
      _ ≤ (n / 2 ^ (e' + 1) + 1) * 2 ^ (e' + 1) := Nat.mul_le_mul_right _ (Nat.le_succ _)
  · exact hmul

theorem float64Round_eq_small (c a : Nat) (ha : a < 9007199254740992)
    (h : float64Round c = a) : c = a := by
  by_cases hc : c < 9007199254740992
  · rw [float64Round_small c hc] at h; exact h
  · have := float64Round_large c (Nat.le_of_not_lt hc)
    omega

theorem shortestDecimalFrom_small (a : Nat) (ha : a < 9007199254740992) :
    ∀ k, shortestDecimalFrom a k = a := by
  intro k
  induction k with
  | zero => rfl
  | succ k ih =>
    simp only [shortestDecimalFrom]
    split
    · rename_i hboth
      split
      · exact float64Round_eq_small _ a ha hboth.1
      · exact float64Round_eq_small _ a ha hboth.2
    · split
      · rename_i hd
        exact float64Round_eq_small _ a ha hd
      · split
        · rename_i hu
          exact float64Round_eq_small _ a ha hu
        · exact ih

theorem float64Reencode_small (n : Int) (h : n.natAbs < 9007199254740992) :
    float64Reencode n = .ok n := by
  have hov : n.natAbs < float64Overflow := by
    have : (9007199254740992 : Nat) < float64Overflow := by decide
    omega
  have hval : shortestDecimal (float64Round n.natAbs) = n.natAbs := by
    rw [float64Round_small _ h]
    exact shortestDecimalFrom_small _ h _
  simp only [float64Reencode, if_pos hov, hval]
  by_cases hneg : n < 0
  · rw [if_pos hneg]
    congr 1
    omega
  · rw [if_neg hneg]
    congr 1
    omega

theorem decodeAnyList_canon (xs : List JSON)
    (h : ∀ x ∈ xs, ∃ v, decodeAny x = .ok v ∧ JSON.canon v = JSON.canon x) :
    ∃ ys, decodeAnyList xs = .ok ys ∧
      List.Forall₂ (fun a b => JSON.canon a = JSON.canon b) ys xs := by
  induction xs with
  | nil => exact ⟨[], rfl, List.Forall₂.nil⟩
  | cons x rest ih =>
    obtain ⟨v, hv, hc⟩ := h x (List.mem_cons_self _ _)
    obtain ⟨ys, hys, hf⟩ := ih (fun y hy => h y (List.mem_cons_of_mem _ hy))
    exact ⟨v :: ys, by simp only [decodeAnyList, hv, hys], List.Forall₂.cons hc hf⟩

theorem decodeAnyMembers_fresh :
    ∀ (L : List (String × JSON)) (d : GoMapData JSON), (L.map Prod.fst).Nodup →
      (∀ k ∈ L.map Prod.fst, k ∉ d.entries.map Prod.fst) →
      (∀ e ∈ L, ∃ v, decodeAny e.2 = .ok v ∧ JSON.canon v = JSON.canon e.2) →
      ∃ d1 L1, decodeAnyMembers d L = .ok d1 ∧ d1.entries = d.entries ++ L1 ∧
        List.Forall₂ (fun e1 e => e1.1 = e.1 ∧ JSON.canon e1.2 = JSON.canon e.2) L1 L := by
  intro L
  induction L with
  | nil => intro d _ _ _; exact ⟨d, [], rfl, by simp, List.Forall₂.nil⟩
  | cons hd tl ih =>
    intro d hnd hdis hval
    obtain ⟨k, v⟩ := hd
    obtain ⟨v1, hv1, hc⟩ := hval (k, v) (List.mem_cons_self _ _)
    simp only [List.map_cons, List.nodup_cons] at hnd
    have hk : k ∉ d.entries.map Prod.fst := hdis k (by simp)
    have hset : (d.set k v1).entries = d.entries ++ [(k, v1)] :=
      upsertEntries_of_not_mem k v1 d.entries hk
    obtain ⟨d1, L1, h1, h2, h3⟩ := ih (d.set k v1) hnd.2
      (by
        intro k' hk' hmem
        rw [hset] at hmem
        simp only [List.map_append, List.map_cons, List.map_nil, List.mem_append,
          List.mem_singleton] at hmem
        rcases hmem with hm | hm
        · exact hdis k' (by simp [hk']) hm
        · subst hm; exact hnd.1 hk')
      (fun e he => hval e (List.mem_cons_of_mem _ he))
    refine ⟨d1, (k, v1) :: L1, ?_, ?_, List.Forall₂.cons ⟨rfl, hc⟩ h3⟩
    · simp only [decodeAnyMembers, hv1, h1]
    · rw [h2, hset, List.append_assoc]; rfl

theorem canonMembers_orderedInsert (a : String × JSON) (l : List (String × JSON)) :
    JSON.canonMembers (List.orderedInsert keyOrder a l) =
      List.orderedInsert keyOrder (a.1, JSON.canon a.2) (JSON.canonMembers l) := by
  induction l with
  | nil => obtain ⟨k, v⟩ := a; rfl
  | cons b l ih =>
    obtain ⟨k, v⟩ := a
    obtain ⟨k0, v0⟩ := b
    by_cases h : keyOrder (k, v) (k0, v0)
    · have h' : keyOrder (k, JSON.canon v) (k0, JSON.canon v0) := h
      simp only [List.orderedInsert, if_pos h, JSON.canonMembers, if_pos h']
    · have h' : ¬ keyOrder (k, JSON.canon v) (k0, JSON.canon v0) := h
      simp only [List.orderedInsert, if_neg h, JSON.canonMembers, if_neg h']
      rw [ih]

theorem canonMembers_insertionSort (l : List (String × JSON)) :
    JSON.canonMembers (l.insertionSort keyOrder) =
      (JSON.canonMembers l).insertionSort keyOrder := by
  induction l with
  | nil => rfl
  | cons a l ih =>
    obtain ⟨k, v⟩ := a
    simp only [List.insertionSort, canonMembers_orderedInsert, ih, JSON.canonMembers]

theorem canon_encMapData_id (d : GoMapData JSON) :
    JSON.canon (encMapData id d) =
      JSON.obj ((JSON.canonMembers d.entries).insertionSort keyOrder) := by
  have hid : (d.entries.insertionSort keyOrder).map (fun e => (e.1, id e.2))
      = d.entries.insertionSort keyOrder := by
    simp
  rw [encMapData_eq, hid]
  show JSON.obj ((JSON.canonMembers (d.entries.insertionSort keyOrder)).insertionSort keyOrder)
    = _
  rw [canonMembers_insertionSort,
    List.Sorted.insertionSort_eq (List.sorted_insertionSort keyOrder _)]

theorem decodeAny_plain (v : JSON) (h : PlainValue v) :
    ∃ v1, decodeAny v = .ok v1 ∧ JSON.canon v1 = JSON.canon v := by
  induction h with
  | null => exact ⟨_, rfl, rfl⟩
  | bool b => exact ⟨_, rfl, rfl⟩
  | str s => exact ⟨_, rfl, rfl⟩
  | num n hn => exact ⟨JSON.num n, by simp only [decodeAny, float64Reencode_small n hn], rfl⟩
  | arr xs _ ih =>
    obtain ⟨ys, hys, hf⟩ := decodeAnyList_canon xs ih
    refine ⟨JSON.arr ys, by simp only [decodeAny, hys], ?_⟩
    simp only [JSON.canon, canonList_eq_of_forall₂ hf]
  | obj ms hk _ ih =>
    obtain ⟨d1, L1, h1, h2, h3⟩ := decodeAnyMembers_fresh ms GoMapData.empty hk
      (by intro k _ hm; cases hm) ih
    have he : d1.entries = L1 := by rw [h2]; rfl
    refine ⟨encMapData id d1, by simp only [decodeAny, h1], ?_⟩
    rw [canon_encMapData_id, he, canonMembers_eq_of_forall₂ h3]
    rfl

/-! ## C15 — encode, decode, encode again -/

theorem dynamicDataStable_of_plain (m : MailV3) (h : m.dynamicDataPlain) :
    m.dynamicDataStable :=
  fun p hp d hd e he => decodeAny_plain e.2 (h p hp d hd e he)

/-- C15 as stated fails, in two ways. A document whose one personalization carries the
dynamic template value `"n": 9223372036854775807` encodes with that number; decoding the
encoding into a `MailV3` succeeds, but the value arrives in a `map[string]interface{}`,
where the decoder stores every number as a float64, and the decoded document encodes with
`"n": 9223372036854776000`. And a document with the two headers `"\xfe": "a"` and
`"\xff": "b"`, keys that are not valid UTF-8, encodes with both keys written as U+FFFD;
decoding keeps one binding under that key, and the decoded document encodes with the single
header `"b"`. In both cases the two encodings differ by more than the order of their
keys. -/
theorem roundtrip_changes_large_integers_and_invalid_keys :
    (∃ p m1,
      NewPersonalization.SetDynamicTemplateData "n" (JSON.num 9223372036854775807) = .ok p ∧
      (NewMailV3 none "" none (some [some p])).toJSON = JSON.obj [("personalizations",
        .arr [.obj [("dynamic_template_data", .obj [("n", .num 9223372036854775807)])]])] ∧
      MailV3.unmarshalValue MailV3.zero (NewMailV3 none "" none (some [some p])).toJSON
        = .ok m1 ∧
      m1.toJSON = JSON.obj [("personalizations",
        .arr [.obj [("dynamic_template_data", .obj [("n", .num 9223372036854776000)])]])] ∧
      JSON.canon m1.toJSON ≠ JSON.canon (NewMailV3 none "" none (some [some p])).toJSON) ∧
    (∃ d1 d m1,
      (raw.NewMailV3 none [] none none).SetHeader [254] (GoString.ofText "a") = .ok d1 ∧
      d1.SetHeader [255] (GoString.ofText "b") = .ok d ∧
      d.toJSON = JSON.obj [("headers",
        .obj [("\uFFFD", .str "a"), ("\uFFFD", .str "b")])] ∧
      MailV3.unmarshalValue MailV3.zero d.toJSON = .ok m1 ∧
      m1.toJSON = JSON.obj [("headers", .obj [("\uFFFD", .str "b")])] ∧
      JSON.canon m1.toJSON ≠ JSON.canon d.toJSON) := by
  constructor
  · refine ⟨_, { MailV3.zero with Personalizations := some [some { Personalization.zero with
        DynamicTemplateData :=
          some (GoMapData.empty.set "n" (JSON.num 9223372036854776000)) }] },
      rfl, rfl, rfl, rfl, ?_⟩
    intro h
    have h1 : JSON.canon (JSON.obj [("personalizations",
        .arr [.obj [("dynamic_template_data", .obj [("n", .num 9223372036854776000)])]])]) =
        JSON.canon (JSON.obj [("personalizations",
        .arr [.obj [("dynamic_template_data", .obj [("n", .num 9223372036854775807)])]])]) := h
    simp [JSON.canon, JSON.canonList, JSON.canonMembers] at h1
  · refine ⟨_, _, { MailV3.zero with Headers := some (GoMapData.empty.set "\uFFFD" "b") },
      rfl, rfl, rfl, rfl, rfl, ?_⟩
    intro h
    have h1 : JSON.canon (JSON.obj [("headers", .obj [("\uFFFD", .str "b")])]) =
        JSON.canon (JSON.obj [("headers",
          .obj [("\uFFFD", .str "a"), ("\uFFFD", .str "b")])]) := h
    have h2 := congrArg (fun j => ((j.get? "headers").map JSON.keys).map List.length) h1
    revert h2
    decide

/-- C15 amended: for every `MailV3` document `m` whose strings are valid UTF-8, that is
texts, whose integer fields are Go `int`s, and whose dynamic template data values each come
back, up to key ordering, from being decoded into `interface{}` and encoded again, decoding
the encoding of `m` into a `MailV3` succeeds and the decoded document encodes to the encoding
of `m` up to key ordering. Values made of `null`, booleans, strings, integers of magnitude
below 2^53, arrays of such values and objects of such values under distinct keys do come
back. Nothing is asked of the other fields: a `BCCSetting` and settings with
`Enable = false` are covered. -/
theorem roundtrip_holds_when_dynamic_data_survives (m : MailV3) (hi : m.intsFit) :
    (m.dynamicDataPlain → m.dynamicDataStable) ∧
    (m.dynamicDataStable →
      ∃ m1, MailV3.unmarshalValue MailV3.zero m.toJSON = .ok m1 ∧
        JSON.canon m1.toJSON = JSON.canon m.toJSON) :=
  ⟨dynamicDataStable_of_plain m, fun hd => roundtrip_MailV3 m hi hd⟩

/-- C15 amended, at a concrete document: sender, subject, one personalization with the dynamic
value `"user": {"name": "Ann", "age": 30, "tags": ["x", null]}`, and mail settings holding a
`BCCSetting` and a sandbox `Setting`, both built with `enable = false`. Its encoding carries
`"enable": false` twice and the member `Email`; decoding it succeeds and the decoded document
encodes to the same JSON up to key ordering (the keys of `user` come back sorted). -/
theorem roundtrip_holds_when_dynamic_data_survives_witness :
    ∃ p m,
      NewPersonalization.SetDynamicTemplateData "user"
        (JSON.obj [("name", .str "Ann"), ("age", .num 30), ("tags", .arr [.str "x", .null])])
        = .ok p ∧
      m = (NewMailV3 (some (NewEmail "A" "a@x.io")) "Hi" none (some [some p])).SetMailSettings
        (some ((NewMailSettings.SetBCC (some (NewBCCSetting false "b@x.io"))).SetSandboxMode
          (some (NewSetting false)))) ∧
      m.toJSON = JSON.obj [
        ("personalizations", .arr [.obj [("dynamic_template_data", .obj [("user",
          .obj [("name", .str "Ann"), ("age", .num 30), ("tags", .arr [.str "x", .null])])])]]),
        ("from", .obj [("name", .str "A"), ("email", .str "a@x.io")]),
        ("subject", .str "Hi"),
        ("mail_settings", .obj [
          ("bcc", .obj [("enable", .bool false), ("Email", .str "b@x.io")]),
          ("sandbox_mode", .obj [("enable", .bool false)])])] ∧
      m.intsFit ∧ m.dynamicDataPlain ∧
      ∃ m1, MailV3.unmarshalValue MailV3.zero m.toJSON = .ok m1 ∧
        JSON.canon m1.toJSON = JSON.canon m.toJSON := by
  have hv : PlainValue
      (JSON.obj [("name", .str "Ann"), ("age", .num 30), ("tags", .arr [.str "x", .null])]) := by
    refine PlainValue.obj _ (by decide) ?_
    intro e he
    simp only [List.mem_cons, List.mem_singleton, List.not_mem_nil, or_false] at he
    rcases he with rfl | rfl | rfl
    · exact PlainValue.str _
    · exact PlainValue.num 30 (by decide)
    · refine PlainValue.arr _ ?_
      intro x hx
      simp only [List.mem_cons, List.mem_singleton, List.not_mem_nil, or_false] at hx
      rcases hx with rfl | rfl
      · exact PlainValue.str _
      · exact PlainValue.null
  have hi : MailV3.intsFit ((NewMailV3 (some (NewEmail "A" "a@x.io")) "Hi" none (some [some
      { NewPersonalization with
        DynamicTemplateData := some (GoMapData.empty.set "user" (JSON.obj [("name", .str "Ann"),
          ("age", .num 30), ("tags", .arr [.str "x", .null])])) }])).SetMailSettings
        (some ((NewMailSettings.SetBCC (some (NewBCCSetting false "b@x.io"))).SetSandboxMode
          (some (NewSetting false))))) := by
    simp [MailV3.intsFit, NewMailV3, MailV3.SetMailSettings, MailSettings.intsFit,
      NewMailSettings, MailSettings.SetBCC, MailSettings.SetSandboxMode, inInt64, sliceElems,
      Personalization.intsFit, NewPersonalization]
  have hp : MailV3.dynamicDataPlain ((NewMailV3 (some (NewEmail "A" "a@x.io")) "Hi" none
      (some [some { NewPersonalization with
        DynamicTemplateData := some (GoMapData.empty.set "user" (JSON.obj [("name", .str "Ann"),
          ("age", .num 30), ("tags", .arr [.str "x", .null])])) }])).SetMailSettings
        (some ((NewMailSettings.SetBCC (some (NewBCCSetting false "b@x.io"))).SetSandboxMode
          (some (NewSetting false))))) := by
    intro p hp d hd e he
    simp [NewMailV3, MailV3.SetMailSettings, sliceElems] at hp
    subst hp
    simp at hd
    subst hd
    simp [GoMapData.set, GoMapData.empty, upsertEntries] at he
    subst he
    exact hv
  exact ⟨_, _, rfl, rfl, rfl, hi, hp,
    (roundtrip_holds_when_dynamic_data_survives _ hi).2
      ((roundtrip_holds_when_dynamic_data_survives _ hi).1 hp)⟩

/-! ## Integer fields tagged `omitempty` -/

theorem lookup_append_of_not_mem_keys (k : String) (a b : List (String × JSON))
    (h : k ∉ a.map Prod.fst) : (a ++ b).lookup k = b.lookup k := by
  induction a with
  | nil => rfl
  | cons hd tl ih =>
    obtain ⟨k1, v⟩ := hd
    simp only [List.map_cons, List.mem_cons, not_or] at h
    have hne : (k == k1) = false := by simpa using h.1
    simp only [List.cons_append, List.lookup, hne]
    exact ih h.2

theorem not_mem_keys_omitemptyString (k key s : String) (h : k ≠ key) :
    k ∉ (omitemptyString key s).map Prod.fst := by
  rw [keys_omitemptyString]; split <;> simp [h]

theorem not_mem_keys_omitemptyInt (k key : String) (n : Int) (h : k ≠ key) :
    k ∉ (omitemptyInt key n).map Prod.fst := by
  rw [keys_omitemptyInt]; split <;> simp [h]

theorem not_mem_keys_omitemptyPtr {α : Type} (k key : String) (enc : α → JSON) (p : Option α)
    (h : k ≠ key) : k ∉ (omitemptyPtr key enc p).map Prod.fst := by
  rw [keys_omitemptyPtr]; split <;> simp [h]

theorem not_mem_keys_omitemptySlice {α : Type} (k key : String) (enc : α → JSON)
    (s : GoSlice α) (h : k ≠ key) : k ∉ (omitemptySlice key enc s).map Prod.fst := by
  rw [keys_omitemptySlice]; split <;> simp [h]

theorem not_mem_keys_omitemptyMap {β : Type} (k key : String) (enc : β → JSON)
    (m : GoMap β) (h : k ≠ key) : k ∉ (omitemptyMap key enc m).map Prod.fst := by
  rw [keys_omitemptyMap]; split <;> simp [h]

theorem lookup_omitemptyInt_head (key : String) (n : Int) (rest : List (String × JSON))
    (h : key ∉ rest.map Prod.fst) :
    (omitemptyInt key n ++ rest).lookup key = if n = 0 then none else some (JSON.num n) := by
  unfold omitemptyInt
  split
  · simpa using lookup_eq_none_of_not_mem_keys key rest h
  · simp [List.lookup]

theorem keys_send_at_MailV3 (m : MailV3) : "send_at" ∈ m.toJSON.keys ↔ m.SendAt ≠ 0 := by
  rw [keys_eq_specKeyTable, table_mem_keys]
  simp [MailV3.specKeyTable]

theorem get?_send_at_MailV3 (m : MailV3) :
    m.toJSON.get? "send_at" = if m.SendAt = 0 then none else some (JSON.num m.SendAt) := by
  simp only [MailV3.toJSON, JSON.get?, List.append_assoc]
  rw [lookup_append_of_not_mem_keys _ _ _ (not_mem_keys_omitemptySlice _ _ _ _ (by decide)),
    lookup_append_of_not_mem_keys _ _ _ (not_mem_keys_omitemptyPtr _ _ _ _ (by decide)),
    lookup_append_of_not_mem_keys _ _ _ (not_mem_keys_omitemptyString _ _ _ (by decide)),
    lookup_append_of_not_mem_keys _ _ _ (not_mem_keys_omitemptySlice _ _ _ _ (by decide)),
    lookup_append_of_not_mem_keys _ _ _ (not_mem_keys_omitemptyPtr _ _ _ _ (by decide)),
    lookup_append_of_not_mem_keys _ _ _ (not_mem_keys_omitemptySlice _ _ _ _ (by decide)),
    lookup_append_of_not_mem_keys _ _ _ (not_mem_keys_omitemptyString _ _ _ (by decide)),
    lookup_append_of_not_mem_keys _ _ _ (not_mem_keys_omitemptyMap _ _ _ _ (by decide)),
    lookup_append_of_not_mem_keys _ _ _ (not_mem_keys_omitemptyMap _ _ _ _ (by decide)),
    lookup_append_of_not_mem_keys _ _ _ (not_mem_keys_omitemptySlice _ _ _ _ (by decide)),
    lookup_append_of_not_mem_keys _ _ _ (not_mem_keys_omitemptyMap _ _ _ _ (by decide))]
  apply lookup_omitemptyInt_head
  simp only [List.map_append, List.mem_append, not_or]
  exact ⟨not_mem_keys_omitemptyString _ _ _ (by decide),
    not_mem_keys_omitemptyPtr _ _ _ _ (by decide),
    not_mem_keys_omitemptyString _ _ _ (by decide),
    not_mem_keys_omitemptyPtr _ _ _ _ (by decide),
    not_mem_keys_omitemptyPtr _ _ _ _ (by decide)⟩

theorem keys_send_at_Personalization (p : Personalization) :
    "send_at" ∈ p.toJSON.keys ↔ p.SendAt ≠ 0 := by
  simp only [Personalization.toJSON, JSON.keys, List.map_append, keys_omitemptyString,
    keys_omitemptyInt, keys_omitemptySlice, keys_omitemptyMap, List.mem_append,
    mem_ite_singleton]
  simp

theorem get?_send_at_Personalization (p : Personalization) :
    p.toJSON.get? "send_at" = if p.SendAt = 0 then none else some (JSON.num p.SendAt) := by
  simp only [Personalization.toJSON, JSON.get?, List.append_assoc]
  rw [lookup_append_of_not_mem_keys _ _ _ (not_mem_keys_omitemptySlice _ _ _ _ (by decide)),
    lookup_append_of_not_mem_keys _ _ _ (not_mem_keys_omitemptySlice _ _ _ _ (by decide)),
    lookup_append_of_not_mem_keys _ _ _ (not_mem_keys_omitemptySlice _ _ _ _ (by decide)),
    lookup_append_of_not_mem_keys _ _ _ (not_mem_keys_omitemptyString _ _ _ (by decide)),
    lookup_append_of_not_mem_keys _ _ _ (not_mem_keys_omitemptyMap _ _ _ _ (by decide)),
    lookup_append_of_not_mem_keys _ _ _ (not_mem_keys_omitemptyMap _ _ _ _ (by decide)),
    lookup_append_of_not_mem_keys _ _ _ (not_mem_keys_omitemptyMap _ _ _ _ (by decide))]
  apply lookup_omitemptyInt_head
  simp only [List.map_append, List.mem_append, not_or]
  exact ⟨not_mem_keys_omitemptyMap _ _ _ _ (by decide),
    not_mem_keys_omitemptySlice _ _ _ _ (by decide)⟩

theorem keys_group_id_ASM (a : ASM) : "group_id" ∈ a.toJSON.keys ↔ a.GroupID ≠ 0 := by
  simp only [ASM.toJSON, JSON.keys, List.map_append, keys_omitemptyInt, keys_omitemptySlice,
    List.mem_append, mem_ite_singleton]
  simp

theorem get?_group_id_ASM (a : ASM) :
    a.toJSON.get? "group_id" = if a.GroupID = 0 then none else some (JSON.num a.GroupID) := by
  simp only [ASM.toJSON, JSON.get?]
  apply lookup_omitemptyInt_head
  exact not_mem_keys_omitemptySlice _ _ _ _ (by decide)

theorem keys_threshold_SpamCheckSetting (s : SpamCheckSetting) :
    "threshold" ∈ s.toJSON.keys ↔ s.SpamThreshold ≠ 0 := by
  simp only [SpamCheckSetting.toJSON, JSON.keys, List.map_append, keys_omitemptyInt,
    keys_omitemptyString, keys_omitemptyPtr, List.mem_append, mem_ite_singleton]
  simp

theorem get?_threshold_SpamCheckSetting (s : SpamCheckSetting) :
    s.toJSON.get? "threshold" =
      if s.SpamThreshold = 0 then none else some (JSON.num s.SpamThreshold) := by
  simp only [SpamCheckSetting.toJSON, JSON.get?, List.append_assoc]
  rw [lookup_append_of_not_mem_keys _ _ _ (not_mem_keys_omitemptyPtr _ _ _ _ (by decide))]
  apply lookup_omitemptyInt_head
  exact not_mem_keys_omitemptyString _ _ _ (by decide)

theorem apply_commutes_SetSendAt (m : MailV3) (op : MailV3.Op)
    (h : (!op.isSetSendAt) = true) :
    ∃ m1, MailV3.Op.apply m op = .ok m1 ∧
      MailV3.Op.apply (m.SetSendAt 0) op = .ok (m1.SetSendAt 0) := by
  cases op with
  | SetSendAt s => simp [MailV3.Op.isSetSendAt] at h
  | AddSection k v =>
    exact ⟨_, AddSection_eq m k v, by rw [MailV3.Op.apply, AddSection_eq]; rfl⟩
  | SetHeader k v =>
    exact ⟨_, SetHeader_eq m k v, by rw [MailV3.Op.apply, SetHeader_eq]; rfl⟩
  | SetCustomArg k v =>
    exact ⟨_, SetCustomArg_eq m k v, by rw [MailV3.Op.apply, SetCustomArg_eq]; rfl⟩
  | _ => exact ⟨_, rfl, rfl⟩

theorem applyAll_drop_SetSendAt (ops : List MailV3.Op) :
    ∀ m : MailV3, ∃ r, MailV3.applyAll m ops = .ok r ∧
      MailV3.applyAll (m.SetSendAt 0) (ops.filter (fun o => !o.isSetSendAt))
        = .ok (r.SetSendAt 0) := by
  induction ops with
  | nil => intro m; exact ⟨m, rfl, rfl⟩
  | cons op rest ih =>
    intro m
    by_cases hop : (!op.isSetSendAt) = true
    · obtain ⟨m1, h1, h1'⟩ := apply_commutes_SetSendAt m op hop
      obtain ⟨r, hr, hr'⟩ := ih m1
      refine ⟨r, by simp only [MailV3.applyAll, h1, hr], ?_⟩
      have hf : List.filter (fun o : MailV3.Op => !o.isSetSendAt) (op :: rest) =
          op :: List.filter (fun o : MailV3.Op => !o.isSetSendAt) rest := by
        simp only [List.filter_cons, hop, if_true]
      rw [hf]
      simp only [MailV3.applyAll, h1', hr']
    · cases op with
      | SetSendAt s =>
        obtain ⟨r, hr, hr'⟩ := ih (m.SetSendAt s)
        refine ⟨r, by simp only [MailV3.applyAll, MailV3.Op.apply, hr], ?_⟩
        have hf : List.filter (fun o : MailV3.Op => !o.isSetSendAt)
            (MailV3.Op.SetSendAt s :: rest) =
            List.filter (fun o : MailV3.Op => !o.isSetSendAt) rest := by
          simp [List.filter_cons, MailV3.Op.isSetSendAt]
        rw [hf]
        exact hr'
      | _ => simp [MailV3.Op.isSetSendAt] at hop

/-! ## C21 — an integer set to zero is an integer never set -/

/-- C21: integer fields collapse "set to zero" with "never set" in the JSON form. For every
document built from `NewMailV3` by any sequence of builder calls, calling `SetSendAt(0)` on it
gives the same JSON as the document built by the same calls with every `SetSendAt` left out;
for every document `SetSendAt(0)` leaves no `send_at` key, and changes nothing in the JSON of
a document whose `SendAt` was 0. Likewise `Personalization.SetSendAt(0)` leaves no `send_at`
key, `ASM.SetGroupID(0)` no `group_id` key, and `NewSpamCheckSetting(b, 0, u)` has no
`threshold` key. For every non-zero `n` the key is present with the value `n`. -/
theorem zero_integer_field_is_left_out :
    (∀ (from_ : Option Email) (subject : String) (content : GoSlice (Option Content))
        (personalizations : GoSlice (Option Personalization)) (ops : List MailV3.Op),
      ∃ m m0, MailV3.applyAll (NewMailV3 from_ subject content personalizations) ops = .ok m ∧
        MailV3.applyAll (NewMailV3 from_ subject content personalizations)
          (ops.filter (fun o => !o.isSetSendAt)) = .ok m0 ∧
        (m.SetSendAt 0).toJSON = m0.toJSON) ∧
    (∀ m : MailV3, "send_at" ∉ (m.SetSendAt 0).toJSON.keys ∧
      (m.SetSendAt 0).toJSON.get? "send_at" = none ∧
      (m.SendAt = 0 → (m.SetSendAt 0).toJSON = m.toJSON)) ∧
    (∀ p : Personalization, "send_at" ∉ (p.SetSendAt 0).toJSON.keys ∧
      (p.SetSendAt 0).toJSON.get? "send_at" = none ∧
      (p.SendAt = 0 → (p.SetSendAt 0).toJSON = p.toJSON)) ∧
    (∀ a : ASM, "group_id" ∉ (a.SetGroupID 0).toJSON.keys ∧
      (a.SetGroupID 0).toJSON.get? "group_id" = none ∧
      (a.GroupID = 0 → (a.SetGroupID 0).toJSON = a.toJSON)) ∧
    (∀ (b : Bool) (u : String), "threshold" ∉ (NewSpamCheckSetting b 0 u).toJSON.keys ∧
      (NewSpamCheckSetting b 0 u).toJSON.get? "threshold" = none) ∧
    (∀ n : Int, n ≠ 0 →
      (∀ m : MailV3, "send_at" ∈ (m.SetSendAt n).toJSON.keys ∧
        (m.SetSendAt n).toJSON.get? "send_at" = some (JSON.num n)) ∧
      (∀ p : Personalization, "send_at" ∈ (p.SetSendAt n).toJSON.keys ∧
        (p.SetSendAt n).toJSON.get? "send_at" = some (JSON.num n)) ∧
      (∀ a : ASM, "group_id" ∈ (a.SetGroupID n).toJSON.keys ∧
        (a.SetGroupID n).toJSON.get? "group_id" = some (JSON.num n)) ∧
      (∀ (b : Bool) (u : String), "threshold" ∈ (NewSpamCheckSetting b n u).toJSON.keys ∧
        (NewSpamCheckSetting b n u).toJSON.get? "threshold" = some (JSON.num n))) := by
  refine ⟨?_, ?_, ?_, ?_, ?_, ?_⟩
  · intro from_ subject content personalizations ops
    obtain ⟨r, hr, hr0⟩ :=
      applyAll_drop_SetSendAt ops (NewMailV3 from_ subject content personalizations)
    exact ⟨r, r.SetSendAt 0, hr, hr0, rfl⟩
  · intro m
    refine ⟨?_, ?_, ?_⟩
    · rw [keys_send_at_MailV3]; exact fun h => h rfl
    · rw [get?_send_at_MailV3]; exact if_pos rfl
    · intro h
      have hm : m.SetSendAt 0 = m := by
        cases m
        simp only [MailV3.SetSendAt] at h ⊢
        rw [h]
      rw [hm]
  · intro p
    refine ⟨?_, ?_, ?_⟩
    · rw [keys_send_at_Personalization]; exact fun h => h rfl
    · rw [get?_send_at_Personalization]; exact if_pos rfl
    · intro h
      have hp : p.SetSendAt 0 = p := by
        cases p
        simp only [Personalization.SetSendAt] at h ⊢
        rw [h]
      rw [hp]
  · intro a
    refine ⟨?_, ?_, ?_⟩
    · rw [keys_group_id_ASM]; exact fun h => h rfl
    · rw [get?_group_id_ASM]; exact if_pos rfl
    · intro h
      have ha : a.SetGroupID 0 = a := by
        cases a
        simp only [ASM.SetGroupID] at h ⊢
        rw [h]
      rw [ha]
  · intro b u
    refine ⟨?_, ?_⟩
    · rw [keys_threshold_SpamCheckSetting]; exact fun h => h rfl
    · rw [get?_threshold_SpamCheckSetting]; exact if_pos rfl
  · intro n hn
    refine ⟨fun m => ⟨?_, ?_⟩, fun p => ⟨?_, ?_⟩, fun a => ⟨?_, ?_⟩, fun b u => ⟨?_, ?_⟩⟩
    · rw [keys_send_at_MailV3]; exact hn
    · rw [get?_send_at_MailV3]; exact if_neg hn
    · rw [keys_send_at_Personalization]; exact hn
    · rw [get?_send_at_Personalization]; exact if_neg hn
    · rw [keys_group_id_ASM]; exact hn
    · rw [get?_group_id_ASM]; exact if_neg hn
    · rw [keys_threshold_SpamCheckSetting]; exact hn
    · rw [get?_threshold_SpamCheckSetting]; exact if_neg hn

/-- C21 at concrete values: with the send time 1700000000 the document, the personalization,
the unsubscribe group 7 and the spam threshold 5 each carry their key with that value; with 0
the document `NewMailV3(nil, "Hi", nil, nil)` encodes to the object with the single member
`subject`, exactly as without the call, also after an earlier `SetSendAt(1700000000)`. -/
theorem zero_integer_field_is_left_out_witness :
    (1700000000 : Int) ≠ 0 ∧
    ((NewMailV3 none "Hi" none none).SetSendAt 1700000000).toJSON.get? "send_at"
      = some (JSON.num 1700000000) ∧
    (NewPersonalization.SetSendAt 1700000000).toJSON.get? "send_at"
      = some (JSON.num 1700000000) ∧
    (NewASM.SetGroupID 7).toJSON.get? "group_id" = some (JSON.num 7) ∧
    (NewSpamCheckSetting true 5 "").toJSON.get? "threshold" = some (JSON.num 5) ∧
    ((NewMailV3 none "Hi" none none).SetSendAt 0).toJSON = (NewMailV3 none "Hi" none none).toJSON ∧
    ((NewMailV3 none "Hi" none none).SetSendAt 0).toJSON = JSON.obj [("subject", JSON.str "Hi")] ∧
    (((NewMailV3 none "Hi" none none).SetSendAt 1700000000).SetSendAt 0).toJSON
      = JSON.obj [("subject", JSON.str "Hi")] ∧
    ((NewMailV3 none "Hi" none none).SetSendAt 1700000000).toJSON
      = JSON.obj [("subject", JSON.str "Hi"), ("send_at", JSON.num 1700000000)] ∧
    (NewASM.SetGroupID 0).toJSON = JSON.obj [] ∧
    (NewSpamCheckSetting true 0 "").toJSON = JSON.obj [("enable", JSON.bool true)] :=
  ⟨by decide,
    ((zero_integer_field_is_left_out.2.2.2.2.2 1700000000 (by decide)).1 _).2,
    ((zero_integer_field_is_left_out.2.2.2.2.2 1700000000 (by decide)).2.1 _).2,
    ((zero_integer_field_is_left_out.2.2.2.2.2 7 (by decide)).2.2.1 _).2,
    ((zero_integer_field_is_left_out.2.2.2.2.2 5 (by decide)).2.2.2 _ _).2,
    (zero_integer_field_is_left_out.2.1 _).2.2 rfl,
    rfl, rfl, rfl, rfl, rfl⟩

/-! ## UTF-8: encoding a text and reading it back -/

theorem byte_val_ofNat (x : Nat) (h : x < 256) : (Fin.ofNat x : Byte).val = x :=
  Nat.mod_eq_of_lt h

theorem utf8First_ascii (p : Nat) (h : p < 128) : utf8First p = (1, 0, 0) := by
  unfold utf8First; rw [if_pos h]

theorem utf8First_two (p : Nat) (h1 : 194 ≤ p) (h2 : p < 224) : utf8First p = (2, 128, 191) := by
  unfold utf8First
  rw [if_neg (by omega), if_neg (by omega), if_pos h2]

theorem utf8First_three (p : Nat) (h1 : 224 ≤ p) (h2 : p < 240) :
    utf8First p = (3, if p = 224 then 160 else 128, if p = 237 then 159 else 191) := by
  unfold utf8First
  rw [if_neg (by omega), if_neg (by omega), if_neg (by omega)]
  by_cases ha : p = 224
  · subst ha; rfl
  · by_cases hb : p = 237
    · subst hb; rfl
    · rw [if_neg ha, if_neg hb, if_pos h2, if_neg ha, if_neg hb]

theorem utf8First_four (p : Nat) (h1 : 240 ≤ p) (h2 : p ≤ 244) :
    utf8First p = (4, if p = 240 then 144 else 128, if p = 244 then 143 else 191) := by
  unfold utf8First
  rw [if_neg (by omega), if_neg (by omega), if_neg (by omega), if_neg (by omega),
    if_neg (by omega), if_neg (by omega)]
  by_cases ha : p = 240
  · subst ha; rfl
  · by_cases hb : p = 244
    · subst hb; rfl
    · rw [if_neg ha, if_pos (by omega), if_neg ha, if_neg hb]

theorem char_toNat_valid (c : Char) :
    c.toNat < 55296 ∨ (57343 < c.toNat ∧ c.toNat < 1114112) := c.valid

set_option maxHeartbeats 2000000 in
theorem decodeRune_utf8EncodeChar (c : Char) (rest : List Byte) :
    decodeRune (utf8EncodeChar c ++ rest) = (c.toNat, (utf8EncodeChar c).length) := by
  have hv := char_toNat_valid c
  unfold utf8EncodeChar
  generalize c.toNat = n at hv ⊢
  by_cases h1 : n < 128
  · rw [if_pos h1]
    simp only [List.singleton_append, decodeRune, byte_val_ofNat n (by omega),
      utf8First_ascii n h1, List.length_singleton, if_true]
  · rw [if_neg h1]
    by_cases h2 : n < 2048
    · rw [if_pos h2]
      have e0 : (Fin.ofNat (192 + n / 64) : Byte).val = 192 + n / 64 :=
        byte_val_ofNat _ (by omega)
      have e1 : (Fin.ofNat (128 + n % 64) : Byte).val = 128 + n % 64 :=
        byte_val_ofNat _ (by omega)
      simp only [List.cons_append, List.nil_append, decodeRune, e0, e1,
        utf8First_two (192 + n / 64) (by omega) (by omega), List.getD_cons_zero,
        List.length_cons, List.length_nil]
      split_ifs <;> first | contradiction | (simp only [Prod.mk.injEq, and_true]; omega)
    · rw [if_neg h2]
      by_cases h3 : n < 65536
      · rw [if_pos h3]
        have e0 : (Fin.ofNat (224 + n / 4096) : Byte).val = 224 + n / 4096 :=
          byte_val_ofNat _ (by omega)
        have e1 : (Fin.ofNat (128 + n / 64 % 64) : Byte).val = 128 + n / 64 % 64 :=
          byte_val_ofNat _ (by omega)
        have e2 : (Fin.ofNat (128 + n % 64) : Byte).val = 128 + n % 64 :=
          byte_val_ofNat _ (by omega)
        simp only [List.cons_append, List.nil_append, decodeRune, e0, e1, e2,
          utf8First_three (224 + n / 4096) (by omega) (by omega), List.getD_cons_zero,
          List.getD_cons_succ, List.length_cons, List.length_nil]
        split_ifs <;> first | contradiction | (simp only [Prod.mk.injEq, and_true]; omega)
      · rw [if_neg h3]
        have e0 : (Fin.ofNat (240 + n / 262144) : Byte).val = 240 + n / 262144 :=
          byte_val_ofNat _ (by omega)
        have e1 : (Fin.ofNat (128 + n / 4096 % 64) : Byte).val = 128 + n / 4096 % 64 :=
          byte_val_ofNat _ (by omega)
        have e2 : (Fin.ofNat (128 + n / 64 % 64) : Byte).val = 128 + n / 64 % 64 :=
          byte_val_ofNat _ (by omega)
        have e3 : (Fin.ofNat (128 + n % 64) : Byte).val = 128 + n % 64 :=
          byte_val_ofNat _ (by omega)
        simp only [List.cons_append, List.nil_append, decodeRune, e0, e1, e2, e3,
          utf8First_four (240 + n / 262144) (by omega) (by omega), List.getD_cons_zero,
          List.getD_cons_succ, List.length_cons, List.length_nil]
        split_ifs <;> first | contradiction | (simp only [Prod.mk.injEq, and_true]; omega)

theorem utf8EncodeChar_pos (c : Char) : 0 < (utf8EncodeChar c).length := by
  unfold utf8EncodeChar
  split_ifs <;> simp

theorem jsonRunes_utf8Encode (cs : List Char) :
    ∀ fuel, (utf8Encode cs).length ≤ fuel → jsonRunes fuel (utf8Encode cs) = cs := by
  induction cs with
  | nil => intro fuel _; cases fuel <;> rfl
  | cons c cs ih =>
    intro fuel hfuel
    have hpos := utf8EncodeChar_pos c
    have hdec := decodeRune_utf8EncodeChar c (utf8Encode cs)
    simp only [utf8Encode, List.length_append] at hfuel
    obtain ⟨f, rfl⟩ : ∃ f, fuel = f + 1 := ⟨fuel - 1, by omega⟩
    obtain ⟨b, tl, hb⟩ : ∃ b tl, utf8EncodeChar c = b :: tl := by
      cases h : utf8EncodeChar c with
      | nil => rw [h] at hpos; simp at hpos
      | cons b tl => exact ⟨b, tl, rfl⟩
    have hstep : jsonRunes (f + 1) (utf8EncodeChar c ++ utf8Encode cs) =
        Char.ofNat (decodeRune (utf8EncodeChar c ++ utf8Encode cs)).1 ::
          jsonRunes f ((utf8EncodeChar c ++ utf8Encode cs).drop
            (decodeRune (utf8EncodeChar c ++ utf8Encode cs)).2) := by
      rw [hb]; rfl
    show jsonRunes (f + 1) (utf8EncodeChar c ++ utf8Encode cs) = c :: cs
    rw [hstep, hdec]
    simp only [List.drop_left, Char.ofNat_toNat]
    rw [ih f (by omega)]

theorem jsonText_ofText (s : String) : GoString.jsonText (GoString.ofText s) = s := by
  unfold GoString.jsonText GoString.ofText
  rw [jsonRunes_utf8Encode s.data _ (Nat.le_refl _)]

theorem ofText_ne_nil (s : String) (h : s ≠ "") : GoString.ofText s ≠ [] := by
  intro he
  apply h
  have hj := jsonText_ofText s
  rw [he] at hj
  exact hj.symm

/-! ## C6 — the minimal document scenario, for every Go string -/

/-- C6 as stated fails: a Go string need not be valid UTF-8, and `encoding/json` writes
U+FFFD for every byte that is not part of a well-formed sequence. With `a = "a@x.com"`,
`b = "b@x.com"`, `s = "Hi"` and `t` the four bytes 43 61 66 E9 (`"Caf\xe9"`), the document of
the scenario encodes with `content[0]` = `{"type":"text/plain","value":"Caf\ufffd"}`. The
bytes of that value are 43 61 66 EF BF BD, not those of `t`, and no text has the bytes of
`t`. -/
theorem scenario_text_is_coerced_to_utf8 :
    ((((raw.NewMailV3 (some (raw.NewEmail [] (GoString.ofText "a@x.com")))
          (GoString.ofText "Hi") none none).AddPersonalizations
        [some (raw.NewPersonalization.AddTos
          [some (raw.NewEmail [] (GoString.ofText "b@x.com"))])]).SetTextContent
        [67, 97, 102, 233]).toJSON.get? "content").bind (fun j => j.index? 0)
      = some (JSON.obj [("type", JSON.str "text/plain"), ("value", JSON.str "Caf\uFFFD")]) ∧
    GoString.ofText "Caf\uFFFD" = [67, 97, 102, 239, 191, 189] ∧
    GoString.ofText "Caf\uFFFD" ≠ [67, 97, 102, 233] ∧
    ¬ ∃ x : String, GoString.ofText x = [67, 97, 102, 233] := by
  refine ⟨rfl, by decide, by decide, ?_⟩
  rintro ⟨x, hx⟩
  have h1 : (GoString.ofText x).jsonText = x := jsonText_ofText x
  rw [hx] at h1
  have h2 : GoString.jsonText [67, 97, 102, 233] = "Caf\uFFFD" := by decide
  rw [h2] at h1
  rw [← h1] at hx
  revert hx
  decide

/-- C6 amended: for all non-empty Go strings `a`, `b`, `s`, `t`, the document `m` built by
`NewMailV3(NewEmail("", a), s, nil, nil)`, `AddPersonalizations(p)` with `p` obtained from
`NewPersonalization()` by `AddTos(NewEmail("", b))`, and `SetTextContent(t)` encodes to a JSON
object whose top-level keys are exactly personalizations, from, subject, content; in it
`personalizations[0].to[0].email` is `b`, `personalizations[0]` has no key other than `to`,
and `content[0]` is the object with `type` "text/plain" and `value` `t`, where `a`, `b`, `s`
and `t` are written coerced to valid UTF-8: each byte that is not part of a well-formed
sequence becomes U+FFFD. A string that is valid UTF-8, the bytes of a text, is written as that
text, and for such strings the document encodes as the document of the text model does.
Passing the personalization to `NewMailV3` directly gives the same JSON. -/
theorem minimal_document_scenario_bytes (a b s t : GoString)
    (ha : a ≠ []) (hb : b ≠ []) (hs : s ≠ []) (ht : t ≠ []) (m : raw.MailV3)
    (hm : m = ((raw.NewMailV3 (some (raw.NewEmail [] a)) s none none).AddPersonalizations
      [some (raw.NewPersonalization.AddTos [some (raw.NewEmail [] b)])]).SetTextContent t) :
    m.toJSON = JSON.obj
      [("personalizations",
          JSON.arr [JSON.obj [("to", JSON.arr [JSON.obj [("email", JSON.str b.jsonText)]])]]),
       ("from", JSON.obj [("email", JSON.str a.jsonText)]),
       ("subject", JSON.str s.jsonText),
       ("content",
          JSON.arr [JSON.obj [("type", JSON.str "text/plain"),
            ("value", JSON.str t.jsonText)]])] ∧
    m.toJSON.keys = ["personalizations", "from", "subject", "content"] ∧
    ((((m.toJSON.get? "personalizations").bind (fun j => j.index? 0)).bind
        (fun j => j.get? "to")).bind (fun j => j.index? 0)).bind (fun j => j.get? "email")
      = some (JSON.str b.jsonText) ∧
    ((m.toJSON.get? "personalizations").bind (fun j => j.index? 0)).map JSON.keys
      = some ["to"] ∧
    (m.toJSON.get? "content").bind (fun j => j.index? 0)
      = some (JSON.obj [("type", JSON.str "text/plain"), ("value", JSON.str t.jsonText)]) ∧
    ((raw.NewMailV3 (some (raw.NewEmail [] a)) s none
      (some [some (raw.NewPersonalization.AddTos [some (raw.NewEmail [] b)])])).SetTextContent
        t).toJSON = m.toJSON ∧
    (∀ x : String, (GoString.ofText x).jsonText = x) ∧
    (∀ a1 b1 s1 t1 : String, a = GoString.ofText a1 → b = GoString.ofText b1 →
      s = GoString.ofText s1 → t = GoString.ofText t1 →
      m.toJSON = (((NewMailV3 (some (NewEmail "" a1)) s1 none none).AddPersonalizations
        [some (NewPersonalization.AddTos [some (NewEmail "" b1)])]).SetTextContent
          t1).toJSON) := by
  have htp : (GoString.ofText "text/plain").jsonText = "text/plain" := jsonText_ofText _
  have hne : GoString.ofText "text/plain" ≠ [] := by decide
  have hj : m.toJSON = JSON.obj
      [("personalizations",
          JSON.arr [JSON.obj [("to", JSON.arr [JSON.obj [("email", JSON.str b.jsonText)]])]]),
       ("from", JSON.obj [("email", JSON.str a.jsonText)]),
       ("subject", JSON.str s.jsonText),
       ("content",
          JSON.arr [JSON.obj [("type", JSON.str "text/plain"),
            ("value", JSON.str t.jsonText)]])] := by
    subst hm
    simp [raw.MailV3.toJSON, raw.MailV3.SetTextContent, raw.MailV3.AddContent,
      raw.MailV3.AddPersonalizations, raw.NewMailV3, raw.NewPersonalization,
      raw.Personalization.AddTos, raw.NewEmail, raw.Personalization.toJSON, raw.Email.toJSON,
      raw.Content.toJSON, goAppend, omitemptySlice, omitemptyPtr, raw.omitemptyString,
      raw.omitemptyMap, omitemptyInt, encSlice, encPtr, sliceLen, sliceElems, raw.mapLen,
      raw.GoMapData.empty, raw.encString, ha, hb, hs, ht, htp, hne]
  refine ⟨hj, ?_, ?_, ?_, ?_, ?_, jsonText_ofText, ?_⟩
  · rw [hj]; rfl
  · rw [hj]; rfl
  · rw [hj]; rfl
  · rw [hj]; rfl
  · rw [hj]
    simp [raw.MailV3.toJSON, raw.MailV3.SetTextContent, raw.MailV3.AddContent,
      raw.NewMailV3, raw.NewPersonalization,
      raw.Personalization.AddTos, raw.NewEmail, raw.Personalization.toJSON, raw.Email.toJSON,
      raw.Content.toJSON, goAppend, omitemptySlice, omitemptyPtr, raw.omitemptyString,
      raw.omitemptyMap, omitemptyInt, encSlice, encPtr, sliceLen, sliceElems, raw.mapLen,
      raw.GoMapData.empty, raw.encString, ha, hb, hs, ht, htp, hne]
  · intro a1 b1 s1 t1 ea eb es et
    have hn : ∀ (x : GoString) (x1 : String), x ≠ [] → x = GoString.ofText x1 → x1 ≠ "" := by
      intro x x1 hx e h
      subst h
      exact hx e
    rw [hj, ea, eb, es, et, jsonText_ofText, jsonText_ofText, jsonText_ofText,
      jsonText_ofText]
    exact ((minimal_document_scenario a1 b1 s1 t1 (hn a a1 ha ea) (hn b b1 hb eb)
      (hn s s1 hs es) (hn t t1 ht et) _ rfl).1).symm

/-- C6 amended, at the specification's inputs `a = "a@x.com"`, `b = "b@x.com"`, `s = "Hi"`,
`t = "hello"`, each held as its bytes. -/
theorem minimal_document_scenario_bytes_witness :
    (GoString.ofText "a@x.com" ≠ [] ∧ GoString.ofText "b@x.com" ≠ [] ∧
      GoString.ofText "Hi" ≠ [] ∧ GoString.ofText "hello" ≠ []) ∧
    (((raw.NewMailV3 (some (raw.NewEmail [] (GoString.ofText "a@x.com")))
          (GoString.ofText "Hi") none none).AddPersonalizations
        [some (raw.NewPersonalization.AddTos
          [some (raw.NewEmail [] (GoString.ofText "b@x.com"))])]).SetTextContent
        (GoString.ofText "hello")).toJSON.keys
      = ["personalizations", "from", "subject", "content"] ∧
    ((((raw.NewMailV3 (some (raw.NewEmail [] (GoString.ofText "a@x.com")))
          (GoString.ofText "Hi") none none).AddPersonalizations
        [some (raw.NewPersonalization.AddTos
          [some (raw.NewEmail [] (GoString.ofText "b@x.com"))])]).SetTextContent
        (GoString.ofText "hello")).toJSON.get? "content").bind (fun j => j.index? 0)
      = some (JSON.obj [("type", JSON.str "text/plain"),
          ("value", JSON.str (GoString.ofText "hello").jsonText)]) ∧
    (GoString.ofText "hello").jsonText = "hello" :=
  ⟨by decide,
    (minimal_document_scenario_bytes (GoString.ofText "a@x.com") (GoString.ofText "b@x.com")
      (GoString.ofText "Hi") (GoString.ofText "hello") (by decide) (by decide) (by decide)
      (by decide) _ rfl).2.1,
    (minimal_document_scenario_bytes (GoString.ofText "a@x.com") (GoString.ofText "b@x.com")
      (GoString.ofText "Hi") (GoString.ofText "hello") (by decide) (by decide) (by decide)
      (by decide) _ rfl).2.2.2.2.1,
    (minimal_document_scenario_bytes (GoString.ofText "a@x.com") (GoString.ofText "b@x.com")
      (GoString.ofText "Hi") (GoString.ofText "hello") (by decide) (by decide) (by decide)
      (by decide) _ rfl).2.2.2.2.2.2.1 "hello"⟩

end apiv3
